import Mathlib

/-
A shallow embedding of the domain prompt dispatcher of graphiti_core/prompts:
the prompt template modules (versions dictionaries of pure template
functions), the PromptSelector registries (prompt_factory.py), and the
wrapping/dispatch layer (lib.py).  Python dictionaries are embedded as
ordered association lists, Python exceptions as an explicit error type
carried in Except, and the template functions as total Lean functions from
a context to Except PyErr (List Message).
-/

namespace Graphiti

/-- A chat message. Embeds `Message` of `graphiti_core/prompts/models.py`
(the file itself is outside the given fragment; the shape is fixed by its
uses `Message(role=..., content=...)` throughout the prompt modules and by
the spec: an ordered pair of role and rendered content). -/
structure Message where
  role : String
  content : String
deriving DecidableEq

/-- Python-like values stored in an extraction context: strings, integers,
lists and None. -/
inductive Val where
  | str : String → Val
  | int : Int → Val
  | list : List Val → Val
  | none : Val

/-- The Python exceptions the embedded fragment can raise: KeyError from a
missing context key, AttributeError from an unknown operation version, and
TypeError from iterating a non-iterable. -/
inductive PyErr where
  | keyError : String → PyErr
  | attributeError : String → PyErr
  | typeError : String → PyErr
deriving DecidableEq

/-- An extraction context: a Python dict from string keys to values,
embedded as an ordered association list. -/
abbrev Ctx := List (String × Val)

/-- Embeds the subscript access `context[k]`: the stored value, or a raised
KeyError when the key is absent. -/
def Ctx.getItem (context : Ctx) (k : String) : Except PyErr Val :=
  match context.lookup k with
  | some v => Except.ok v
  | Option.none => Except.error (PyErr.keyError k)

/-- Embeds the membership test `k in context`. -/
def Ctx.contains (context : Ctx) (k : String) : Bool :=
  (context.lookup k).isSome

/-- Embeds `context.get(k, d)`. -/
def Ctx.getD (context : Ctx) (k : String) (d : Val) : Val :=
  (context.lookup k).getD d

/-- JSON string escaping as performed by json.dumps for the common cases:
backslash, double quote, newline and tab. -/
def jsonEscape (s : String) : String :=
  String.join (s.toList.map (fun c =>
    if c = '\\' then "\\\\"
    else if c = '"' then "\\\""
    else if c = '\n' then "\\n"
    else if c = '\t' then "\\t"
    else String.singleton c))

mutual

/-- Models Python `json.dumps`: a deterministic, total JSON serialization of
a value.  The indent=2 pretty-printing of the stdlib is abstracted to
compact separators; no theorem below depends on the exact whitespace of the
serialized form, only on its determinism and totality. -/
def jsonDumps : Val → String
  | Val.str s => "\"" ++ jsonEscape s ++ "\""
  | Val.int n => toString n
  | Val.none => "null"
  | Val.list xs => "[" ++ jsonDumpsList xs ++ "]"

/-- Comma-separated serialization of a list of values. -/
def jsonDumpsList : List Val → String
  | [] => ""
  | [x] => jsonDumps x
  | x :: xs => jsonDumps x ++ ", " ++ jsonDumpsList xs

end

mutual

/-- Models Python `repr` on the embedded values (strings quoted with single
quotes, as Python prefers). -/
def pyRepr : Val → String
  | Val.str s => "\x27" ++ s ++ "\x27"
  | Val.int n => toString n
  | Val.none => "None"
  | Val.list xs => "[" ++ pyReprList xs ++ "]"

/-- Comma-separated repr of a list of values. -/
def pyReprList : List Val → String
  | [] => ""
  | [x] => pyRepr x
  | x :: xs => pyRepr x ++ ", " ++ pyReprList xs

end

/-- Models Python `str` as applied by an f-string interpolation hole. -/
def pyStr : Val → String
  | Val.str s => s
  | Val.int n => toString n
  | Val.none => "None"
  | Val.list xs => pyRepr (Val.list xs)

/-- Models the list comprehension `[ep for ep in v]`: materializes an
iterable into a list, raising TypeError on a non-iterable. -/
def pyIterList : Val → Except PyErr (List Val)
  | Val.list xs => Except.ok xs
  | Val.str s => Except.ok (s.toList.map (fun c => Val.str (String.singleton c)))
  | _ => Except.error (PyErr.typeError "object is not iterable")

/-- A prompt template function, `PromptFunction` of models.py as used by the
fragment: a context in, an ordered list of messages out, or a raised error. -/
abbrev PromptFunction := Ctx → Except PyErr (List Message)

/-- A `versions` dictionary of one prompt module: operation name to template
function, in source order. -/
abbrev TemplateSet := List (String × PromptFunction)

/-- Embeds the Python dict assignment `d[k] = v` on an association list:
replace the binding in place when the key is present, append otherwise. -/
def dictInsert (k : String) (v : α) : List (String × α) → List (String × α)
  | [] => [(k, v)]
  | (k2, v2) :: rest =>
    if k2 = k then (k, v) :: rest else (k2, v2) :: dictInsert k v rest

end Graphiti
namespace Graphiti

namespace ExtractNodes

/-- Embeds the template function `extract_message` of `graphiti_core/prompts/extract_nodes.py`. -/
def extract_message (context : Ctx) : Except PyErr (List Message) := do
  let previous_episodes ← Ctx.getItem context "previous_episodes"
  let previous_episodes_items ← pyIterList previous_episodes
  let episode_content ← Ctx.getItem context "episode_content"
  let entity_types ← Ctx.getItem context "entity_types"
  let custom_prompt ← Ctx.getItem context "custom_prompt"
  pure [Message.mk "system" "You are an AI assistant specialized in extracting application entities and infrastructure dependencies from GitHub repository metadata and application code. \n    Your primary task is to identify applications and their infrastructure components (databases, caches, message queues, etc.).",
    Message.mk "user" ("\n<PREVIOUS MESSAGES>\n" ++ jsonDumps (Val.list previous_episodes_items) ++ "\n</PREVIOUS MESSAGES>\n\n<CURRENT MESSAGE>\n" ++ pyStr episode_content ++ "\n</CURRENT MESSAGE>\n\n<ENTITY TYPES>\n" ++ pyStr entity_types ++ "\n</ENTITY TYPES>\n\nInstructions:\n\nYou are analyzing GitHub repository metadata and application code. Your task is to extract **ONLY** application entities and infrastructure dependency entities from the CURRENT MESSAGE.\n\n## EXTRACTION FOCUS:\n\n### 1. **Application Entities** - Extract these types:\n   - Application names (services, microservices, web apps, APIs)\n   - Software projects or modules\n   - GitHub repositories (when they represent applications)\n   - Software components or systems\n\n### 2. **Infrastructure Dependencies** - Extract these types:\n   - **Databases**: PostgreSQL, MySQL, MongoDB, Redis, etc.\n   - **Caches**: Redis, Memcached, etc.\n   - **Message Queues**: RabbitMQ, Kafka, SQS, etc.\n   - **Storage Systems**: S3, MinIO, etc.\n   - **External Services**: Third-party APIs, cloud services\n   - **Infrastructure Components**: Load balancers, proxies, etc.\n\n## EXTRACTION RULES:\n\n### **DO EXTRACT**:\n- Application names from repository names, package.json, requirements.txt, etc.\n- Database names, connection strings, or database references\n- Cache names or Redis instance references\n- Service names from docker-compose.yml, kubernetes manifests\n- Infrastructure component names from configuration files\n- Dependency names from package managers (npm, pip, maven, etc.)\n\n### **DO NOT EXTRACT**:\n- People, users, developers, or team names\n- Companies or organizations (unless they are infrastructure services)\n- Dates, times, versions, or temporal information\n- File names, directory paths, or code snippets\n- Programming languages, frameworks (unless they are the main application)\n- Generic terms like \"API\", \"service\", \"database\" without specific names\n- Configuration parameters, environment variables, or settings\n- Documentation, comments, or descriptive text\n\n## NAMING CONVENTIONS:\n\n### **Applications**:\n- Use the actual application/service name (e.g., \"user-service\", \"e-commerce-platform\")\n- For GitHub repos, use the repository name if it represents an application\n- Use descriptive names that identify the specific application\n\n### **Infrastructure**:\n- Use specific instance names when available (e.g., \"users_db\", \"session_cache\")\n- For generic references, use the service type + context (e.g., \"postgres_main\", \"redis_cache\")\n- Maintain consistency with naming patterns in the codebase\n\n## ENTITY CLASSIFICATION:\n- Use the descriptions in ENTITY TYPES to classify each extracted entity\n- Assign the appropriate \u0060entity_type_id\u0060 for each application or infrastructure component\n- Ensure infrastructure dependencies are properly classified by their type\n\n## QUALITY REQUIREMENTS:\n- Extract only entities that are **explicitly mentioned** in the CURRENT MESSAGE\n- Use **exact names** from the source material - do not modify or interpret\n- Ensure entity names are **specific and meaningful**\n- Avoid generic or placeholder names\n- Focus on **concrete, identifiable** applications and infrastructure components\n\n" ++ pyStr custom_prompt ++ "\n")]

/-- Embeds the template function `extract_json` of `graphiti_core/prompts/extract_nodes.py`. -/
def extract_json (context : Ctx) : Except PyErr (List Message) := do
  let source_description ← Ctx.getItem context "source_description"
  let episode_content ← Ctx.getItem context "episode_content"
  let entity_types ← Ctx.getItem context "entity_types"
  let custom_prompt ← Ctx.getItem context "custom_prompt"
  pure [Message.mk "system" "You are an AI assistant specialized in extracting application entities and infrastructure dependencies from JSON data. \n    Your primary task is to identify applications and their infrastructure components from JSON configuration files, package manifests, and metadata.",
    Message.mk "user" ("\n<SOURCE DESCRIPTION>:\n" ++ pyStr source_description ++ "\n</SOURCE DESCRIPTION>\n<JSON>\n" ++ pyStr episode_content ++ "\n</JSON>\n<ENTITY TYPES>\n" ++ pyStr entity_types ++ "\n</ENTITY TYPES>\n\nInstructions:\n\nYou are analyzing JSON data that may contain application metadata, configuration files, package manifests, or infrastructure definitions. Your task is to extract **ONLY** application entities and infrastructure dependency entities from the JSON.\n\n## EXTRACTION FOCUS:\n\n### 1. **Application Entities** - Extract from JSON fields like:\n   - Application names from \"name\", \"application_name\", \"service_name\" fields\n   - Repository names from \"repository\", \"repo\", \"github_repo\" fields\n   - Project names from package.json, composer.json, pom.xml equivalents\n   - Service definitions from docker-compose.yml, kubernetes manifests\n   - Module or component names from configuration files\n\n### 2. **Infrastructure Dependencies** - Extract from JSON fields like:\n   - **Database references**: \"database\", \"db_name\", \"postgres\", \"mongodb\", etc.\n   - **Cache references**: \"redis\", \"cache\", \"memcached\", etc.\n   - **Message Queue references**: \"rabbitmq\", \"kafka\", \"sqs\", etc.\n   - **Storage references**: \"s3\", \"storage\", \"bucket\", etc.\n   - **External Service references**: API endpoints, cloud services\n   - **Dependencies**: from \"dependencies\", \"requires\", \"imports\" sections\n\n## JSON EXTRACTION RULES:\n\n### **DO EXTRACT**:\n- Values from fields that represent application or service names\n- Database connection strings or database names\n- Cache service names or Redis instance references\n- Infrastructure service names from configuration\n- Dependency names from package manager files\n- Service names from orchestration files (docker-compose, k8s)\n- External service references or API names\n\n### **DO NOT EXTRACT**:\n- Version numbers, timestamps, or dates\n- Configuration parameters, environment variables\n- File paths, URLs, or connection strings (extract only the service name)\n- Generic field names or JSON keys\n- Metadata like \"created_at\", \"updated_at\", \"version\"\n- User information, team names, or personal data\n- Documentation fields, descriptions, or comments\n\n## NAMING CONVENTIONS:\n\n### **Applications**:\n- Use the exact value from name fields (e.g., \"user-service\", \"payment-api\")\n- For repository references, use the repo name if it represents an application\n- Maintain original casing and formatting when meaningful\n\n### **Infrastructure**:\n- Use specific instance names when available (e.g., \"users_db\", \"session_cache\")\n- Extract service type from connection strings (e.g., \"postgresql\" from postgres://...)\n- Use canonical service names for well-known infrastructure (e.g., \"redis\", \"mongodb\")\n\n## ENTITY CLASSIFICATION:\n- Use the descriptions in ENTITY TYPES to classify each extracted entity\n- Assign the appropriate \u0060entity_type_id\u0060 for each application or infrastructure component\n- Ensure infrastructure dependencies are properly classified by their type\n\n## QUALITY REQUIREMENTS:\n- Extract only entities that are **explicitly present** in the JSON values\n- Use **exact values** from JSON fields - do not modify or interpret\n- Focus on **concrete, identifiable** applications and infrastructure components\n- Avoid extracting JSON keys unless they represent entity names\n- Ensure extracted names are **specific and meaningful**\n\n" ++ pyStr custom_prompt ++ "\n")]

/-- Embeds the template function `extract_text` of `graphiti_core/prompts/extract_nodes.py`. -/
def extract_text (context : Ctx) : Except PyErr (List Message) := do
  let episode_content ← Ctx.getItem context "episode_content"
  let entity_types ← Ctx.getItem context "entity_types"
  let custom_prompt ← Ctx.getItem context "custom_prompt"
  pure [Message.mk "system" "You are an AI assistant specialized in extracting application entities and infrastructure dependencies from text data. \n    Your primary task is to identify applications and their infrastructure components from documentation, code comments, README files, and technical descriptions.",
    Message.mk "user" ("\n<TEXT>\n" ++ pyStr episode_content ++ "\n</TEXT>\n<ENTITY TYPES>\n" ++ pyStr entity_types ++ "\n</ENTITY TYPES>\n\nInstructions:\n\nYou are analyzing text that may contain technical documentation, code comments, README files, or descriptions of software systems. Your task is to extract **ONLY** application entities and infrastructure dependency entities from the TEXT.\n\n## EXTRACTION FOCUS:\n\n### 1. **Application Entities** - Extract these types:\n   - Application names, service names, microservices\n   - Software projects, modules, or components\n   - System names or platform names\n   - API names or web service names\n   - Repository names (when they represent applications)\n\n### 2. **Infrastructure Dependencies** - Extract these types:\n   - **Databases**: PostgreSQL, MySQL, MongoDB, Redis, etc.\n   - **Caches**: Redis, Memcached, etc.\n   - **Message Queues**: RabbitMQ, Kafka, SQS, etc.\n   - **Storage Systems**: S3, MinIO, file systems, etc.\n   - **External Services**: Third-party APIs, cloud services\n   - **Infrastructure Components**: Load balancers, proxies, etc.\n\n## TEXT EXTRACTION RULES:\n\n### **DO EXTRACT**:\n- Specific application or service names mentioned in the text\n- Database names or database system references\n- Cache service names or caching system references\n- Message queue or event streaming system names\n- Storage service names or storage system references\n- External API names or third-party service references\n- Infrastructure component names from technical descriptions\n\n### **DO NOT EXTRACT**:\n- People, users, developers, or team names\n- Companies or organizations (unless they are infrastructure services)\n- Dates, times, versions, or temporal information\n- File names, directory paths, or code snippets\n- Programming languages or frameworks (unless they are the main application)\n- Generic terms like \"API\", \"service\", \"database\" without specific names\n- Configuration parameters, environment variables\n- Documentation sections, headers, or descriptive text\n\n## NAMING CONVENTIONS:\n\n### **Applications**:\n- **Custom Applications**: Use the complete, precise name as written in the text\n  - Example: \"UserManagementService\" \u2192 \"UserManagementService\"\n  - Example: \"payment-processing-api\" \u2192 \"payment-processing-api\"\n  - Example: \"E-Commerce Platform\" \u2192 \"E-Commerce Platform\"\n\n### **Infrastructure**:\n- **Third-Party Services**: Use canonical service names (lowercase, standardized)\n  - Example: \"PostgreSQL Database\" \u2192 \"postgresql\"\n  - Example: \"Redis Cache\" \u2192 \"redis\"\n  - Example: \"AWS S3 Storage\" \u2192 \"s3\"\n  - Example: \"MongoDB Database\" \u2192 \"mongodb\"\n  - Example: \"RabbitMQ Message Broker\" \u2192 \"rabbitmq\"\n  - Example: \"Elasticsearch Service\" \u2192 \"elasticsearch\"\n\n- **Cloud Services**: Use standard service identifiers\n  - Example: \"AWS Lambda Function\" \u2192 \"lambda\"\n  - Example: \"Azure Blob Storage\" \u2192 \"blob-storage\"\n  - Example: \"Google Cloud Pub/Sub\" \u2192 \"pubsub\"\n  - Example: \"AWS EC2 Instance\" \u2192 \"ec2\"\n\n- **Specific Instances**: Use instance names when available\n  - Example: \"users_db database\" \u2192 \"users_db\"\n  - Example: \"session_cache Redis\" \u2192 \"session_cache\"\n\n## ENTITY CLASSIFICATION:\n- Use the descriptions in ENTITY TYPES to classify each extracted entity\n- Assign the appropriate \u0060entity_type_id\u0060 for each application or infrastructure component\n- Ensure infrastructure dependencies are properly classified by their type\n\n## QUALITY REQUIREMENTS:\n- Extract only entities that are **explicitly mentioned** in the TEXT\n- Use **exact names** from the text - do not modify or interpret unnecessarily\n- Focus on **concrete, identifiable** applications and infrastructure components\n- Avoid generic or placeholder names\n- Ensure entity names are **specific and meaningful**\n- Maintain consistency with established naming conventions\n- Verify that extracted names are complete and accurate\n\n" ++ pyStr custom_prompt ++ "\n")]

/-- Embeds the template function `reflexion` of `graphiti_core/prompts/extract_nodes.py`. -/
def reflexion (context : Ctx) : Except PyErr (List Message) := do
  let previous_episodes ← Ctx.getItem context "previous_episodes"
  let previous_episodes_items ← pyIterList previous_episodes
  let episode_content ← Ctx.getItem context "episode_content"
  let extracted_entities ← Ctx.getItem context "extracted_entities"
  pure [Message.mk "system" "You are an AI assistant that determines which entities have not been extracted from the given context",
    Message.mk "user" ("\n<PREVIOUS MESSAGES>\n" ++ jsonDumps (Val.list previous_episodes_items) ++ "\n</PREVIOUS MESSAGES>\n<CURRENT MESSAGE>\n" ++ pyStr episode_content ++ "\n</CURRENT MESSAGE>\n\n<EXTRACTED ENTITIES>\n" ++ pyStr extracted_entities ++ "\n</EXTRACTED ENTITIES>\n\nGiven the above previous messages, current message, and list of extracted entities; determine if any entities haven\x27t been\nextracted.\n")]

/-- Embeds the template function `classify_nodes` of `graphiti_core/prompts/extract_nodes.py`. -/
def classify_nodes (context : Ctx) : Except PyErr (List Message) := do
  let previous_episodes ← Ctx.getItem context "previous_episodes"
  let previous_episodes_items ← pyIterList previous_episodes
  let episode_content ← Ctx.getItem context "episode_content"
  let extracted_entities ← Ctx.getItem context "extracted_entities"
  let entity_types ← Ctx.getItem context "entity_types"
  pure [Message.mk "system" "You are an AI assistant that classifies entity nodes given the context from which they were extracted",
    Message.mk "user" ("\n    <PREVIOUS MESSAGES>\n    " ++ jsonDumps (Val.list previous_episodes_items) ++ "\n    </PREVIOUS MESSAGES>\n    <CURRENT MESSAGE>\n    " ++ pyStr episode_content ++ "\n    </CURRENT MESSAGE>\n    \n    <EXTRACTED ENTITIES>\n    " ++ pyStr extracted_entities ++ "\n    </EXTRACTED ENTITIES>\n    \n    <ENTITY TYPES>\n    " ++ pyStr entity_types ++ "\n    </ENTITY TYPES>\n    \n    Given the above conversation, extracted entities, and provided entity types and their descriptions, classify the extracted entities.\n    \n    Guidelines:\n    1. Each entity must have exactly one type\n    2. Only use the provided ENTITY TYPES as types, do not use additional types to classify entities.\n    3. If none of the provided entity types accurately classify an extracted node, the type should be set to None\n")]

/-- Embeds the template function `extract_attributes` of `graphiti_core/prompts/extract_nodes.py`. -/
def extract_attributes (context : Ctx) : Except PyErr (List Message) := do
  let previous_episodes ← Ctx.getItem context "previous_episodes"
  let episode_content ← Ctx.getItem context "episode_content"
  let node ← Ctx.getItem context "node"
  pure [Message.mk "system" "You are a helpful assistant that extracts entity properties from the provided text.",
    Message.mk "user" ("\n\n        <MESSAGES>\n        " ++ jsonDumps previous_episodes ++ "\n        " ++ jsonDumps episode_content ++ "\n        </MESSAGES>\n\n        Given the above MESSAGES and the following ENTITY, update any of its attributes based on the information provided\n        in MESSAGES. Use the provided attribute descriptions to better understand how each attribute should be determined.\n\n        Guidelines:\n        1. Do not hallucinate entity property values if they cannot be found in the current context.\n        2. Only use the provided MESSAGES and ENTITY to set attribute values.\n        3. The summary attribute represents a summary of the ENTITY, and should be updated with new information about the Entity from the MESSAGES. \n            Summaries must be no longer than 250 words.\n        \n        <ENTITY>\n        " ++ pyStr node ++ "\n        </ENTITY>\n        ")]

/-- Embeds the `versions` dictionary of `graphiti_core/prompts/extract_nodes.py`. -/
def versions : TemplateSet :=
  [("extract_message", extract_message),
   ("extract_json", extract_json),
   ("extract_text", extract_text),
   ("reflexion", reflexion),
   ("classify_nodes", classify_nodes),
   ("extract_attributes", extract_attributes)]

end ExtractNodes

namespace AwsExtractNodes

/-- Embeds the template function `extract_message` of `graphiti_core/prompts/cloud/aws/extract_nodes.py`. -/
def extract_message (context : Ctx) : Except PyErr (List Message) := do
  let previous_episodes ← Ctx.getItem context "previous_episodes"
  let previous_episodes_items ← pyIterList previous_episodes
  let episode_content ← Ctx.getItem context "episode_content"
  let entity_types ← Ctx.getItem context "entity_types"
  let custom_prompt ← Ctx.getItem context "custom_prompt"
  pure [Message.mk "system" "You are an AI assistant specialized in extracting AWS infrastructure entities.\n    Your primary focus is identifying AWS resources, their configurations, and relationships from AWS configurations and IaC files.",
    Message.mk "user" ("\n<PREVIOUS MESSAGES>\n" ++ jsonDumps (Val.list previous_episodes_items) ++ "\n</PREVIOUS MESSAGES>\n\n<CURRENT MESSAGE>\n" ++ pyStr episode_content ++ "\n</CURRENT MESSAGE>\n\n<ENTITY TYPES>\n" ++ pyStr entity_types ++ "\n</ENTITY TYPES>\n\nYou are analyzing AWS infrastructure resources. Extract entities focusing on:\n\n## PRIMARY EXTRACTION TARGETS:\n\n1. **EC2 & Compute Resources**:\n   - EC2 instances (with instance IDs like \"i-1234567890abcdef0\")\n   - Auto Scaling Groups (ASG names)\n   - ECS clusters and services\n   - EKS clusters and node groups\n   - Lambda functions\n   - Batch compute environments\n\n2. **VPC & Networking Resources**:\n   - VPCs (with VPC IDs like \"vpc-12345678\")\n   - Subnets (with subnet IDs like \"subnet-12345678\")\n   - Security Groups (with SG IDs like \"sg-12345678\")\n   - Network ACLs\n   - Route Tables\n   - Internet Gateways and NAT Gateways\n   - VPC Endpoints\n\n3. **Load Balancing & Traffic Management**:\n   - Application Load Balancers (ALB)\n   - Network Load Balancers (NLB)\n   - Target Groups\n   - API Gateway APIs\n   - CloudFront distributions\n\n4. **Storage & Database Resources**:\n   - S3 buckets\n   - EBS volumes (with volume IDs like \"vol-12345678\")\n   - RDS instances and clusters\n   - DynamoDB tables\n   - ElastiCache clusters\n   - EFS file systems\n   - Glacier vaults\n\n5. **Security & Identity**:\n   - IAM roles and policies\n   - IAM users and groups\n   - KMS keys and aliases\n   - Cognito User Pools\n   - Secrets Manager secrets\n   - Certificate Manager certificates\n\n6. **Messaging & Integration**:\n   - SQS queues\n   - SNS topics and subscriptions\n   - EventBridge rules\n   - Step Functions state machines\n   - SQS dead letter queues\n\n7. **Monitoring & Logging**:\n   - CloudWatch log groups\n   - CloudWatch dashboards\n   - CloudWatch alarms\n   - X-Ray traces\n   - Config rules\n\n## AWS-SPECIFIC RULES:\n- Always include resource IDs when available (e.g., \"i-1234567890abcdef0\", \"vpc-12345678\")\n- Use resource names as primary identifiers when IDs aren\x27t available\n- Include region information in entity names when relevant (e.g., \"prod-web-alb-us-east-1\")\n- Extract IAM roles and policies as entities\n- Capture resource tags that indicate ownership or purpose\n- Include environment prefixes (prod-, staging-, dev-)\n\n## AWS NAMING CONVENTIONS:\n- EC2 instances: use instance names or IDs (e.g., \"prod-web-server\", \"i-0a1b2c3d\")\n- VPC resources: use VPC names or IDs (e.g., \"prod-vpc\", \"vpc-12345678\")\n- S3 buckets: use bucket names (e.g., \"my-app-storage\", \"prod-logs-bucket\")\n- RDS instances: use instance names (e.g., \"prod-database\", \"staging-postgres\")\n\n## DO NOT EXTRACT:\n- IP addresses or CIDR blocks as separate entities\n- Temporary resources or build artifacts\n- Configuration values or parameters\n- Cost information or billing details\n- Generic AWS service names without specific instances\n\n" ++ pyStr custom_prompt ++ "\n")]

/-- Embeds the template function `extract_json` of `graphiti_core/prompts/cloud/aws/extract_nodes.py`. -/
def extract_json (context : Ctx) : Except PyErr (List Message) := do
  let source_description ← Ctx.getItem context "source_description"
  let episode_content ← Ctx.getItem context "episode_content"
  let entity_types ← Ctx.getItem context "entity_types"
  let custom_prompt ← Ctx.getItem context "custom_prompt"
  pure [Message.mk "system" "You are an AI assistant specialized in extracting AWS infrastructure entities from JSON configurations.\n    Focus on CloudFormation templates, Terraform state files, AWS CLI output, and AWS API responses.",
    Message.mk "user" ("\n<SOURCE DESCRIPTION>:\n" ++ pyStr source_description ++ "\n</SOURCE DESCRIPTION>\n<JSON>\n" ++ pyStr episode_content ++ "\n</JSON>\n<ENTITY TYPES>\n" ++ pyStr entity_types ++ "\n</ENTITY TYPES>\n\nYou are analyzing JSON from AWS infrastructure. This could be:\n- CloudFormation templates\n- Terraform state files (.tfstate)\n- AWS CLI output (aws ec2 describe-instances, etc.)\n- AWS API responses\n- CDK output\n- AWS Config snapshots\n\n## EXTRACTION FOCUS FOR AWS JSON:\n\n1. **From CloudFormation Templates**:\n   - Logical resource names from \"Resources\" section\n   - Resource types (AWS::EC2::Instance, AWS::S3::Bucket, etc.)\n   - Stack names and nested stacks\n   - Output values representing important resources\n\n2. **From Terraform State**:\n   - Resource names from \"resources\" array\n   - Instance IDs from \"instances\" objects\n   - Resource types and their identifiers\n   - Module names representing infrastructure components\n\n3. **From AWS CLI Output**:\n   - Instance IDs from describe-instances\n   - VPC IDs from describe-vpcs\n   - Security Group IDs from describe-security-groups\n   - S3 bucket names from list-buckets\n   - RDS instance names from describe-db-instances\n\n4. **From AWS API Responses**:\n   - Resource identifiers and names\n   - Service-specific resource types\n   - Tagged resources with meaningful names\n\n## AWS JSON SPECIFIC RULES:\n- Extract resource names from appropriate fields (name, id, identifier, arn)\n- Include resource type in extraction when it helps identify the entity\n- For nested resources, maintain the hierarchy in naming\n- Skip parameter definitions and variable declarations\n- Focus on actual provisioned resources, not templates\n- Extract from both \"Resources\" and \"Outputs\" sections in CloudFormation\n\n" ++ pyStr custom_prompt ++ "\n")]

/-- Embeds the template function `extract_text` of `graphiti_core/prompts/cloud/aws/extract_nodes.py`. -/
def extract_text (context : Ctx) : Except PyErr (List Message) := do
  let episode_content ← Ctx.getItem context "episode_content"
  let entity_types ← Ctx.getItem context "entity_types"
  let custom_prompt ← Ctx.getItem context "custom_prompt"
  pure [Message.mk "system" "You are an AI assistant specialized in extracting AWS infrastructure entities from documentation and configuration files.\n    Focus on AWS infrastructure documentation, runbooks, and deployment guides.",
    Message.mk "user" ("\n<TEXT>\n" ++ pyStr episode_content ++ "\n</TEXT>\n<ENTITY TYPES>\n" ++ pyStr entity_types ++ "\n</ENTITY TYPES>\n\nYou are analyzing text about AWS infrastructure. This could be:\n- AWS infrastructure documentation\n- Deployment guides and runbooks\n- Architecture diagrams descriptions\n- AWS Well-Architected reviews\n- Cloud migration plans\n- AWS service documentation\n\n## EXTRACTION FOCUS FOR AWS TEXT:\n\n1. **Infrastructure Components**:\n   - VPC names and network segments\n   - EC2 instance groups or Auto Scaling Groups\n   - RDS cluster names and instances\n   - S3 bucket names\n   - Load balancer names (ALB, NLB)\n\n2. **AWS Managed Services**:\n   - EKS cluster names\n   - ECS cluster and service names\n   - Lambda function names\n   - API Gateway names\n   - CloudFront distribution names\n   - SQS queue names\n\n3. **Architecture Entities**:\n   - Environment names (prod, staging, dev)\n   - Application tier names (web, app, data)\n   - Availability zones or regions\n   - Disaster recovery sites\n   - AWS account names or IDs\n\n## AWS TEXT SPECIFIC RULES:\n- Extract specific resource names, not generic descriptions\n- Include environment prefixes/suffixes (prod-, -staging)\n- Capture multi-region deployments as separate entities\n- Focus on currently deployed resources, not planned ones\n- Extract from architecture diagrams if textually described\n- Include AWS service names when they represent specific instances\n\n## AWS NAMING STANDARDS:\n- Use full resource names including environment (e.g., \"prod-web-asg\")\n- Include region in name if multi-region (e.g., \"cache-cluster-us-east-1\")\n- Maintain AWS naming conventions (lowercase, hyphens)\n- Use canonical names for well-known AWS services\n- Include account context when relevant (e.g., \"prod-account-vpc\")\n\n" ++ pyStr custom_prompt ++ "\n")]

/-- Embeds the template function `reflexion` of `graphiti_core/prompts/cloud/aws/extract_nodes.py`. -/
def reflexion (context : Ctx) : Except PyErr (List Message) := do
  let previous_episodes ← Ctx.getItem context "previous_episodes"
  let previous_episodes_items ← pyIterList previous_episodes
  let episode_content ← Ctx.getItem context "episode_content"
  let extracted_entities ← Ctx.getItem context "extracted_entities"
  pure [Message.mk "system" "You are an AI assistant that determines which AWS entities have not been extracted from the given context",
    Message.mk "user" ("\n<PREVIOUS MESSAGES>\n" ++ jsonDumps (Val.list previous_episodes_items) ++ "\n</PREVIOUS MESSAGES>\n<CURRENT MESSAGE>\n" ++ pyStr episode_content ++ "\n</CURRENT MESSAGE>\n\n<EXTRACTED ENTITIES>\n" ++ pyStr extracted_entities ++ "\n</EXTRACTED ENTITIES>\n\nGiven the above previous messages, current message, and list of extracted entities; determine if any AWS infrastructure entities haven\x27t been extracted.\n\nFocus on missing:\n- EC2 instances and compute resources\n- VPC and networking components\n- Storage and database resources\n- Load balancers and traffic management\n- Security and IAM resources\n- Messaging and integration services\n- Monitoring and logging resources\n")]

/-- Embeds the template function `classify_nodes` of `graphiti_core/prompts/cloud/aws/extract_nodes.py`. -/
def classify_nodes (context : Ctx) : Except PyErr (List Message) := do
  let previous_episodes ← Ctx.getItem context "previous_episodes"
  let previous_episodes_items ← pyIterList previous_episodes
  let episode_content ← Ctx.getItem context "episode_content"
  let extracted_entities ← Ctx.getItem context "extracted_entities"
  let entity_types ← Ctx.getItem context "entity_types"
  pure [Message.mk "system" "You are an AI assistant that classifies AWS entity nodes given the context from which they were extracted",
    Message.mk "user" ("\n    <PREVIOUS MESSAGES>\n    " ++ jsonDumps (Val.list previous_episodes_items) ++ "\n    </PREVIOUS MESSAGES>\n    <CURRENT MESSAGE>\n    " ++ pyStr episode_content ++ "\n    </CURRENT MESSAGE>\n    \n    <EXTRACTED ENTITIES>\n    " ++ pyStr extracted_entities ++ "\n    </EXTRACTED ENTITIES>\n    \n    <ENTITY TYPES>\n    " ++ pyStr entity_types ++ "\n    </ENTITY TYPES>\n    \n    Given the above conversation, extracted entities, and provided entity types and their descriptions, classify the extracted AWS entities.\n    \n    Guidelines:\n    1. Each entity must have exactly one type\n    2. Only use the provided ENTITY TYPES as types, do not use additional types to classify entities.\n    3. If none of the provided entity types accurately classify an extracted node, the type should be set to None\n    4. Consider AWS-specific context when classifying (e.g., EC2 instances, S3 buckets, RDS instances)\n")]

/-- Embeds the template function `extract_attributes` of `graphiti_core/prompts/cloud/aws/extract_nodes.py`. -/
def extract_attributes (context : Ctx) : Except PyErr (List Message) := do
  let previous_episodes ← Ctx.getItem context "previous_episodes"
  let episode_content ← Ctx.getItem context "episode_content"
  let node ← Ctx.getItem context "node"
  pure [Message.mk "system" "You are a helpful assistant that extracts AWS entity properties from the provided text.",
    Message.mk "user" ("\n\n        <MESSAGES>\n        " ++ jsonDumps previous_episodes ++ "\n        " ++ jsonDumps episode_content ++ "\n        </MESSAGES>\n\n        Given the above MESSAGES and the following ENTITY, update any of its attributes based on the information provided\n        in MESSAGES. Use the provided attribute descriptions to better understand how each attribute should be determined.\n\n        Guidelines:\n        1. Do not hallucinate entity property values if they cannot be found in the current context.\n        2. Only use the provided MESSAGES and ENTITY to set attribute values.\n        3. The summary attribute represents a summary of the ENTITY, and should be updated with new information about the Entity from the MESSAGES. \n            Summaries must be no longer than 250 words.\n        4. Consider AWS-specific attributes like instance types, VPC IDs, security group configurations, etc.\n        \n        <ENTITY>\n        " ++ pyStr node ++ "\n        </ENTITY>\n        ")]

/-- Embeds the `versions` dictionary of `graphiti_core/prompts/cloud/aws/extract_nodes.py`. -/
def versions : TemplateSet :=
  [("extract_message", extract_message),
   ("extract_json", extract_json),
   ("extract_text", extract_text),
   ("reflexion", reflexion),
   ("classify_nodes", classify_nodes),
   ("extract_attributes", extract_attributes)]

end AwsExtractNodes

namespace AwsExtractEdges

/-- Embeds the template function `edge` of `graphiti_core/prompts/cloud/aws/extract_edges.py`. -/
def edge (context : Ctx) : Except PyErr (List Message) := do
  let previous_episodes ← Ctx.getItem context "previous_episodes"
  let previous_episodes_items ← pyIterList previous_episodes
  let episode_content ← Ctx.getItem context "episode_content"
  let nodes ← Ctx.getItem context "nodes"
  let reference_time ← Ctx.getItem context "reference_time"
  let edge_types ← Ctx.getItem context "edge_types"
  let custom_prompt ← Ctx.getItem context "custom_prompt"
  pure [Message.mk "system" "You are an expert at extracting AWS infrastructure relationships. Focus on AWS-specific services, networking, and resource dependencies.",
    Message.mk "user" ("\n<PREVIOUS_MESSAGES>\n" ++ jsonDumps (Val.list previous_episodes_items) ++ "\n</PREVIOUS_MESSAGES>\n\n<CURRENT_MESSAGE>\n" ++ pyStr episode_content ++ "\n</CURRENT_MESSAGE>\n\n<ENTITIES>\n" ++ pyStr nodes ++ " \n</ENTITIES>\n\n<REFERENCE_TIME>\n" ++ pyStr reference_time ++ "\n</REFERENCE_TIME>\n\n<FACT TYPES>\n" ++ pyStr edge_types ++ "\n</FACT TYPES>\n\n# TASK\nExtract relationships between AWS infrastructure entities.\n\n# AWS-SPECIFIC RELATIONSHIPS TO EXTRACT:\n\n1. **EC2 & Compute Relationships**:\n   - RESIDES_IN: Instance location (ec2_instance RESIDES_IN vpc)\n   - ATTACHED_TO: ENI attachment (eni ATTACHED_TO ec2_instance)\n   - RUNS_ON: Container execution (ecs_task RUNS_ON ecs_cluster)\n   - SCALED_BY: Auto-scaling (ec2_instance SCALED_BY auto_scaling_group)\n   - LOAD_BALANCED_BY: Load balancing (ec2_instance LOAD_BALANCED_BY alb)\n   - MANAGED_BY: Systems Manager (ec2_instance MANAGED_BY ssm)\n   - PROVISIONED_BY: Infrastructure as Code (resource PROVISIONED_BY cloudformation)\n\n2. **VPC & Networking**:\n   - IN_SUBNET: Subnet membership (ec2_instance IN_SUBNET private_subnet)\n   - USES_SECURITY_GROUP: Security association (ec2_instance USES_SECURITY_GROUP sg_web)\n   - ROUTES_TO: Route table routing (subnet ROUTES_TO internet_gateway)\n   - CONNECTED_VIA: VPC peering (vpc_a CONNECTED_VIA vpc_peering)\n   - ATTACHED_TO: Gateway attachment (vpc ATTACHED_TO internet_gateway)\n   - NATS_THROUGH: NAT gateway (private_subnet NATS_THROUGH nat_gateway)\n\n3. **Storage & Database**:\n   - MOUNTED_ON: EBS volume mounting (ebs_volume MOUNTED_ON ec2_instance)\n   - STORES_IN: S3 storage (application STORES_IN s3_bucket)\n   - BACKED_BY: RDS backing (application BACKED_BY rds_instance)\n   - REPLICATES_TO: RDS replication (primary_rds REPLICATES_TO read_replica)\n   - SNAPSHOTS_TO: Backup (ebs_volume SNAPSHOTS_TO s3_bucket)\n   - ARCHIVED_TO: Glacier archiving (s3_bucket ARCHIVED_TO glacier_vault)\n\n4. **Load Balancing & Auto Scaling**:\n   - TARGETS: ALB targets (alb TARGETS target_group)\n   - CONTAINS: Target group membership (target_group CONTAINS ec2_instance)\n   - SCALES: Auto scaling (auto_scaling_group SCALES ec2_instance)\n   - HEALTH_CHECKED_BY: Health monitoring (target_group HEALTH_CHECKED_BY alb)\n\n5. **Database & Cache**:\n   - CLUSTER_MEMBER_OF: RDS cluster (rds_instance CLUSTER_MEMBER_OF aurora_cluster)\n   - CACHES_FOR: ElastiCache (elasticache_cluster CACHES_FOR rds_instance)\n   - READS_FROM: Read replica (application READS_FROM read_replica)\n   - WRITES_TO: Primary database (application WRITES_TO primary_rds)\n   - REPLICATES_TO: Cross-region (rds_instance REPLICATES_TO dr_region)\n\n6. **Security & IAM**:\n   - ASSUMES_ROLE: IAM role assumption (ec2_instance ASSUMES_ROLE iam_role)\n   - GRANTS_ACCESS_TO: Permission grants (iam_role GRANTS_ACCESS_TO s3_bucket)\n   - ENCRYPTED_BY: KMS encryption (ebs_volume ENCRYPTED_BY kms_key)\n   - AUTHENTICATED_BY: Cognito auth (api_gateway AUTHENTICATED_BY cognito_user_pool)\n   - AUTHORIZED_BY: IAM policies (resource AUTHORIZED_BY iam_policy)\n\n7. **Multi-Region & Availability**:\n   - REPLICATED_IN: Cross-region replication (s3_bucket REPLICATED_IN us-west-2)\n   - FAILED_OVER_TO: DR relationships (primary_region FAILED_OVER_TO secondary_region)\n   - DISTRIBUTED_ACROSS: Multi-AZ (rds_cluster DISTRIBUTED_ACROSS availability_zones)\n   - BACKED_UP_TO: Cross-region backup (rds_instance BACKED_UP_TO backup_region)\n\n8. **Lambda & Serverless**:\n   - TRIGGERED_BY: Event triggers (lambda_function TRIGGERED_BY s3_event)\n   - INVOKES: Function invocation (api_gateway INVOKES lambda_function)\n   - PUBLISHES_TO: SNS publishing (lambda_function PUBLISHES_TO sns_topic)\n   - CONSUMES_FROM: SQS consumption (lambda_function CONSUMES_FROM sqs_queue)\n\n# EXTRACTION RULES FOR AWS:\n\n1. Focus on AWS-specific service names and relationships\n2. Include region/AZ information when relevant\n3. Capture both active and standby relationships\n4. Extract from:\n   - CloudFormation templates\n   - Terraform AWS provider\n   - AWS CLI output\n   - AWS Console configurations\n   - Architecture diagrams\n\n" ++ pyStr custom_prompt ++ "\n\n# EXAMPLES:\n- \"EC2 instances in prod-vpc\" \u2192 ec2_instance RESIDES_IN prod-vpc\n- \"ALB distributes traffic to target group\" \u2192 alb TARGETS target_group\n- \"RDS with read replicas\" \u2192 read_replica READS_FROM primary_rds\n- \"S3 bucket encrypted with KMS\" \u2192 s3_bucket ENCRYPTED_BY kms_key\n- \"Lambda triggered by S3 upload\" \u2192 lambda_function TRIGGERED_BY s3_event\n        ")]

/-- Embeds the template function `reflexion` of `graphiti_core/prompts/cloud/aws/extract_edges.py`. -/
def reflexion (context : Ctx) : Except PyErr (List Message) := do
  let previous_episodes ← Ctx.getItem context "previous_episodes"
  let previous_episodes_items ← pyIterList previous_episodes
  let episode_content ← Ctx.getItem context "episode_content"
  let nodes ← Ctx.getItem context "nodes"
  let extracted_facts ← Ctx.getItem context "extracted_facts"
  pure [Message.mk "system" "You are an AI assistant that determines which AWS infrastructure relationships have not been extracted from the given context",
    Message.mk "user" ("\n<PREVIOUS MESSAGES>\n" ++ jsonDumps (Val.list previous_episodes_items) ++ "\n</PREVIOUS MESSAGES>\n<CURRENT MESSAGE>\n" ++ pyStr episode_content ++ "\n</CURRENT MESSAGE>\n\n<EXTRACTED ENTITIES>\n" ++ pyStr nodes ++ "\n</EXTRACTED ENTITIES>\n\n<EXTRACTED FACTS>\n" ++ pyStr extracted_facts ++ "\n</EXTRACTED FACTS>\n\nGiven the above AWS infrastructure context, check for missing:\n- EC2 & Compute relationships (RESIDES_IN, ATTACHED_TO, RUNS_ON, SCALED_BY)\n- VPC & Networking relationships (IN_SUBNET, USES_SECURITY_GROUP, ROUTES_TO)\n- Storage & Database relationships (MOUNTED_ON, STORES_IN, BACKED_BY)\n- Load Balancing relationships (TARGETS, CONTAINS, SCALES)\n- Security & IAM relationships (ASSUMES_ROLE, GRANTS_ACCESS_TO, ENCRYPTED_BY)\n- Lambda & Serverless relationships (TRIGGERED_BY, INVOKES, PUBLISHES_TO)\n\nFocus on AWS-specific services and infrastructure topology.\n")]

/-- Embeds the template function `extract_attributes` of `graphiti_core/prompts/cloud/aws/extract_edges.py`. -/
def extract_attributes (context : Ctx) : Except PyErr (List Message) := do
  let episode_content ← Ctx.getItem context "episode_content"
  let reference_time ← Ctx.getItem context "reference_time"
  let fact ← Ctx.getItem context "fact"
  pure [Message.mk "system" "You are a helpful assistant that extracts AWS infrastructure relationship properties.",
    Message.mk "user" ("\n<MESSAGE>\n" ++ jsonDumps episode_content ++ "\n</MESSAGE>\n<REFERENCE TIME>\n" ++ pyStr reference_time ++ "\n</REFERENCE TIME>\n\nGiven the above AWS infrastructure content and the following relationship, update attributes based on:\n- AWS region/AZ information\n- VPC CIDR blocks or subnet IPs\n- EC2 instance types or sizes\n- KMS encryption details\n- RDS replication configurations\n- Auto-scaling group settings\n- Security group rules\n- IAM role permissions\n\n<FACT>\n" ++ pyStr fact ++ "\n</FACT>\n        ")]

/-- Embeds the `versions` dictionary of `graphiti_core/prompts/cloud/aws/extract_edges.py`. -/
def versions : TemplateSet :=
  [("edge", edge),
   ("reflexion", reflexion),
   ("extract_attributes", extract_attributes)]

end AwsExtractEdges

namespace AzureExtractNodes

/-- Embeds the template function `extract_message` of `graphiti_core/prompts/cloud/azure/extract_nodes.py`. -/
def extract_message (context : Ctx) : Except PyErr (List Message) := do
  let previous_episodes ← Ctx.getItem context "previous_episodes"
  let previous_episodes_items ← pyIterList previous_episodes
  let episode_content ← Ctx.getItem context "episode_content"
  let entity_types ← Ctx.getItem context "entity_types"
  let custom_prompt ← Ctx.getItem context "custom_prompt"
  pure [Message.mk "system" "You are an AI assistant specialized in extracting Azure infrastructure entities.\n    Your primary focus is identifying Azure resources, their configurations, and relationships from Azure configurations and IaC files.",
    Message.mk "user" ("\n<PREVIOUS MESSAGES>\n" ++ jsonDumps (Val.list previous_episodes_items) ++ "\n</PREVIOUS MESSAGES>\n\n<CURRENT MESSAGE>\n" ++ pyStr episode_content ++ "\n</CURRENT MESSAGE>\n\n<ENTITY TYPES>\n" ++ pyStr entity_types ++ "\n</ENTITY TYPES>\n\nYou are analyzing Azure infrastructure resources. Extract entities focusing on:\n\n## PRIMARY EXTRACTION TARGETS:\n\n1. **Virtual Machines & Compute Resources**:\n   - Virtual Machines (VM names)\n   - Virtual Machine Scale Sets (VMSS)\n   - Container Instances and Container Groups\n   - Azure Kubernetes Service (AKS) clusters\n   - Azure Functions\n   - Batch accounts and pools\n\n2. **Virtual Networks & Networking Resources**:\n   - Virtual Networks (VNet names)\n   - Subnets (with subnet names)\n   - Network Security Groups (NSG)\n   - Route Tables\n   - Application Gateways\n   - Load Balancers\n   - Virtual Network Gateways\n   - ExpressRoute circuits\n\n3. **Storage & Database Resources**:\n   - Storage Accounts\n   - Blob containers and file shares\n   - Managed Disks\n   - Azure SQL Database instances\n   - Azure Database for PostgreSQL/MySQL\n   - Cosmos DB accounts\n   - Redis Cache instances\n   - Data Lake Storage accounts\n\n4. **App Service & Web Resources**:\n   - App Service Plans\n   - Web Apps and API Apps\n   - Function Apps\n   - Static Web Apps\n   - App Service Environments (ASE)\n   - Deployment slots\n\n5. **Security & Identity**:\n   - Azure Active Directory (Azure AD) applications\n   - Managed Identities\n   - Key Vaults and secrets\n   - Role Definitions and Assignments\n   - Application Insights\n   - Azure Security Center resources\n\n6. **Messaging & Integration**:\n   - Service Bus namespaces and queues\n   - Event Hubs namespaces\n   - Event Grid topics and subscriptions\n   - Logic Apps workflows\n   - API Management services\n\n7. **Monitoring & Management**:\n   - Log Analytics workspaces\n   - Application Insights resources\n   - Azure Monitor action groups\n   - Azure Backup vaults\n   - Recovery Services vaults\n\n## AZURE-SPECIFIC RULES:\n- Use resource names as primary identifiers (Azure uses names rather than IDs)\n- Include resource group information when relevant\n- Include region information in entity names when relevant (e.g., \"prod-web-app-eastus\")\n- Extract Managed Identities and service principals as entities\n- Capture resource tags that indicate ownership or purpose\n- Include environment prefixes (prod-, staging-, dev-)\n\n## AZURE NAMING CONVENTIONS:\n- Virtual Machines: use VM names (e.g., \"prodWebVM\", \"stagingAppServer\")\n- Virtual Networks: use VNet names (e.g., \"prodVNet\", \"stagingNetwork\")\n- Storage Accounts: use storage account names (e.g., \"myappstorage\", \"prodlogs\")\n- App Services: use app names (e.g., \"myWebApp\", \"prodAPI\")\n\n## DO NOT EXTRACT:\n- IP addresses or CIDR blocks as separate entities\n- Temporary resources or build artifacts\n- Configuration values or parameters\n- Cost information or billing details\n- Generic Azure service names without specific instances\n\n" ++ pyStr custom_prompt ++ "\n")]

/-- Embeds the template function `extract_json` of `graphiti_core/prompts/cloud/azure/extract_nodes.py`. -/
def extract_json (context : Ctx) : Except PyErr (List Message) := do
  let source_description ← Ctx.getItem context "source_description"
  let episode_content ← Ctx.getItem context "episode_content"
  let entity_types ← Ctx.getItem context "entity_types"
  let custom_prompt ← Ctx.getItem context "custom_prompt"
  pure [Message.mk "system" "You are an AI assistant specialized in extracting Azure infrastructure entities from JSON configurations.\n    Focus on ARM templates, Terraform state files, Azure CLI output, and Azure API responses.",
    Message.mk "user" ("\n<SOURCE DESCRIPTION>:\n" ++ pyStr source_description ++ "\n</SOURCE DESCRIPTION>\n<JSON>\n" ++ pyStr episode_content ++ "\n</JSON>\n<ENTITY TYPES>\n" ++ pyStr entity_types ++ "\n</ENTITY TYPES>\n\nYou are analyzing JSON from Azure infrastructure. This could be:\n- ARM templates\n- Terraform state files (.tfstate)\n- Azure CLI output (az vm list, etc.)\n- Azure API responses\n- Bicep templates\n- Azure Resource Graph queries\n\n## EXTRACTION FOCUS FOR AZURE JSON:\n\n1. **From ARM Templates**:\n   - Resource names from \"resources\" array\n   - Resource types (Microsoft.Compute/virtualMachines, etc.)\n   - Resource group names\n   - Output values representing important resources\n\n2. **From Terraform State**:\n   - Resource names from \"resources\" array\n   - Resource types and their identifiers\n   - Module names representing infrastructure components\n   - Azure-specific resource attributes\n\n3. **From Azure CLI Output**:\n   - VM names from vm list\n   - VNet names from network vnet list\n   - Storage account names from storage account list\n   - App service names from webapp list\n   - Resource group names from group list\n\n4. **From Azure API Responses**:\n   - Resource identifiers and names\n   - Service-specific resource types\n   - Tagged resources with meaningful names\n\n## AZURE JSON SPECIFIC RULES:\n- Extract resource names from appropriate fields (name, id, resourceId)\n- Include resource type in extraction when it helps identify the entity\n- For nested resources, maintain the hierarchy in naming\n- Skip parameter definitions and variable declarations\n- Focus on actual provisioned resources, not templates\n- Extract from both \"resources\" and \"outputs\" sections in ARM templates\n\n" ++ pyStr custom_prompt ++ "\n")]

/-- Embeds the template function `extract_text` of `graphiti_core/prompts/cloud/azure/extract_nodes.py`. -/
def extract_text (context : Ctx) : Except PyErr (List Message) := do
  let episode_content ← Ctx.getItem context "episode_content"
  let entity_types ← Ctx.getItem context "entity_types"
  let custom_prompt ← Ctx.getItem context "custom_prompt"
  pure [Message.mk "system" "You are an AI assistant specialized in extracting Azure infrastructure entities from documentation and configuration files.\n    Focus on Azure infrastructure documentation, runbooks, and deployment guides.",
    Message.mk "user" ("\n<TEXT>\n" ++ pyStr episode_content ++ "\n</TEXT>\n<ENTITY TYPES>\n" ++ pyStr entity_types ++ "\n</ENTITY TYPES>\n\nYou are analyzing text about Azure infrastructure. This could be:\n- Azure infrastructure documentation\n- Deployment guides and runbooks\n- Architecture diagrams descriptions\n- Azure Well-Architected reviews\n- Cloud migration plans\n- Azure service documentation\n\n## EXTRACTION FOCUS FOR AZURE TEXT:\n\n1. **Infrastructure Components**:\n   - VNet names and network segments\n   - VM instance groups or VMSS\n   - SQL Database cluster names and instances\n   - Storage account names\n   - Load balancer names (ALB, Application Gateway)\n\n2. **Azure Managed Services**:\n   - AKS cluster names\n   - App Service names and plans\n   - Function App names\n   - API Management service names\n   - CDN profile names\n   - Service Bus namespace names\n\n3. **Architecture Entities**:\n   - Environment names (prod, staging, dev)\n   - Application tier names (web, app, data)\n   - Azure regions or availability zones\n   - Disaster recovery sites\n   - Azure subscription names or IDs\n\n## AZURE TEXT SPECIFIC RULES:\n- Extract specific resource names, not generic descriptions\n- Include environment prefixes/suffixes (prod-, -staging)\n- Capture multi-region deployments as separate entities\n- Focus on currently deployed resources, not planned ones\n- Extract from architecture diagrams if textually described\n- Include Azure service names when they represent specific instances\n\n## AZURE NAMING STANDARDS:\n- Use full resource names including environment (e.g., \"prodWebApp\")\n- Include region in name if multi-region (e.g., \"cacheClusterEastUS\")\n- Maintain Azure naming conventions (PascalCase, camelCase)\n- Use canonical names for well-known Azure services\n- Include subscription context when relevant (e.g., \"prodSubscriptionVNet\")\n\n" ++ pyStr custom_prompt ++ "\n")]

/-- Embeds the template function `reflexion` of `graphiti_core/prompts/cloud/azure/extract_nodes.py`. -/
def reflexion (context : Ctx) : Except PyErr (List Message) := do
  let previous_episodes ← Ctx.getItem context "previous_episodes"
  let previous_episodes_items ← pyIterList previous_episodes
  let episode_content ← Ctx.getItem context "episode_content"
  let extracted_entities ← Ctx.getItem context "extracted_entities"
  pure [Message.mk "system" "You are an AI assistant that determines which Azure entities have not been extracted from the given context",
    Message.mk "user" ("\n<PREVIOUS MESSAGES>\n" ++ jsonDumps (Val.list previous_episodes_items) ++ "\n</PREVIOUS MESSAGES>\n<CURRENT MESSAGE>\n" ++ pyStr episode_content ++ "\n</CURRENT MESSAGE>\n\n<EXTRACTED ENTITIES>\n" ++ pyStr extracted_entities ++ "\n</EXTRACTED ENTITIES>\n\nGiven the above previous messages, current message, and list of extracted entities; determine if any Azure infrastructure entities haven\x27t been extracted.\n\nFocus on missing:\n- Virtual Machines and compute resources\n- Virtual Networks and networking components\n- Storage and database resources\n- App Services and web resources\n- Security and identity resources\n- Messaging and integration services\n- Monitoring and management resources\n")]

/-- Embeds the template function `classify_nodes` of `graphiti_core/prompts/cloud/azure/extract_nodes.py`. -/
def classify_nodes (context : Ctx) : Except PyErr (List Message) := do
  let previous_episodes ← Ctx.getItem context "previous_episodes"
  let previous_episodes_items ← pyIterList previous_episodes
  let episode_content ← Ctx.getItem context "episode_content"
  let extracted_entities ← Ctx.getItem context "extracted_entities"
  let entity_types ← Ctx.getItem context "entity_types"
  pure [Message.mk "system" "You are an AI assistant that classifies Azure entity nodes given the context from which they were extracted",
    Message.mk "user" ("\n    <PREVIOUS MESSAGES>\n    " ++ jsonDumps (Val.list previous_episodes_items) ++ "\n    </PREVIOUS MESSAGES>\n    <CURRENT MESSAGE>\n    " ++ pyStr episode_content ++ "\n    </CURRENT MESSAGE>\n    \n    <EXTRACTED ENTITIES>\n    " ++ pyStr extracted_entities ++ "\n    </EXTRACTED ENTITIES>\n    \n    <ENTITY TYPES>\n    " ++ pyStr entity_types ++ "\n    </ENTITY TYPES>\n    \n    Given the above conversation, extracted entities, and provided entity types and their descriptions, classify the extracted Azure entities.\n    \n    Guidelines:\n    1. Each entity must have exactly one type\n    2. Only use the provided ENTITY TYPES as types, do not use additional types to classify entities.\n    3. If none of the provided entity types accurately classify an extracted node, the type should be set to None\n    4. Consider Azure-specific context when classifying (e.g., Virtual Machines, Storage Accounts, App Services)\n")]

/-- Embeds the template function `extract_attributes` of `graphiti_core/prompts/cloud/azure/extract_nodes.py`. -/
def extract_attributes (context : Ctx) : Except PyErr (List Message) := do
  let previous_episodes ← Ctx.getItem context "previous_episodes"
  let episode_content ← Ctx.getItem context "episode_content"
  let node ← Ctx.getItem context "node"
  pure [Message.mk "system" "You are a helpful assistant that extracts Azure entity properties from the provided text.",
    Message.mk "user" ("\n\n        <MESSAGES>\n        " ++ jsonDumps previous_episodes ++ "\n        " ++ jsonDumps episode_content ++ "\n        </MESSAGES>\n\n        Given the above MESSAGES and the following ENTITY, update any of its attributes based on the information provided\n        in MESSAGES. Use the provided attribute descriptions to better understand how each attribute should be determined.\n\n        Guidelines:\n        1. Do not hallucinate entity property values if they cannot be found in the current context.\n        2. Only use the provided MESSAGES and ENTITY to set attribute values.\n        3. The summary attribute represents a summary of the ENTITY, and should be updated with new information about the Entity from the MESSAGES. \n            Summaries must be no longer than 250 words.\n        4. Consider Azure-specific attributes like VM sizes, VNet configurations, storage account types, etc.\n        \n        <ENTITY>\n        " ++ pyStr node ++ "\n        </ENTITY>\n        ")]

/-- Embeds the `versions` dictionary of `graphiti_core/prompts/cloud/azure/extract_nodes.py`. -/
def versions : TemplateSet :=
  [("extract_message", extract_message),
   ("extract_json", extract_json),
   ("extract_text", extract_text),
   ("reflexion", reflexion),
   ("classify_nodes", classify_nodes),
   ("extract_attributes", extract_attributes)]

end AzureExtractNodes

namespace AzureExtractEdges

/-- Embeds the template function `edge` of `graphiti_core/prompts/cloud/azure/extract_edges.py`. -/
def edge (context : Ctx) : Except PyErr (List Message) := do
  let previous_episodes ← Ctx.getItem context "previous_episodes"
  let previous_episodes_items ← pyIterList previous_episodes
  let episode_content ← Ctx.getItem context "episode_content"
  let nodes ← Ctx.getItem context "nodes"
  let reference_time ← Ctx.getItem context "reference_time"
  let edge_types ← Ctx.getItem context "edge_types"
  let custom_prompt ← Ctx.getItem context "custom_prompt"
  pure [Message.mk "system" "You are an expert at extracting Azure infrastructure relationships. Focus on Azure-specific services, networking, and resource dependencies.",
    Message.mk "user" ("\n<PREVIOUS_MESSAGES>\n" ++ jsonDumps (Val.list previous_episodes_items) ++ "\n</PREVIOUS_MESSAGES>\n\n<CURRENT_MESSAGE>\n" ++ pyStr episode_content ++ "\n</CURRENT_MESSAGE>\n\n<ENTITIES>\n" ++ pyStr nodes ++ " \n</ENTITIES>\n\n<REFERENCE_TIME>\n" ++ pyStr reference_time ++ "\n</REFERENCE_TIME>\n\n<FACT TYPES>\n" ++ pyStr edge_types ++ "\n</FACT TYPES>\n\n# TASK\nExtract relationships between Azure infrastructure entities.\n\n# AZURE-SPECIFIC RELATIONSHIPS TO EXTRACT:\n\n1. **Virtual Machines & Compute**:\n   - RESIDES_IN: VM location (vm RESIDES_IN virtual_network)\n   - ATTACHED_TO: NIC attachment (network_interface ATTACHED_TO vm)\n   - RUNS_ON: Container execution (container_instance RUNS_ON container_group)\n   - SCALED_BY: VMSS scaling (vm SCALED_BY virtual_machine_scale_set)\n   - LOAD_BALANCED_BY: Load balancing (vm LOAD_BALANCED_BY load_balancer)\n   - MANAGED_BY: Azure Arc (vm MANAGED_BY arc_agent)\n   - PROVISIONED_BY: ARM templates (resource PROVISIONED_BY arm_template)\n\n2. **Virtual Networks & Networking**:\n   - IN_SUBNET: Subnet membership (vm IN_SUBNET private_subnet)\n   - USES_NSG: Network security group (vm USES_NSG network_security_group)\n   - ROUTES_TO: Route table routing (subnet ROUTES_TO internet_gateway)\n   - CONNECTED_VIA: VNet peering (vnet_a CONNECTED_VIA vnet_peering)\n   - ATTACHED_TO: Gateway attachment (vnet ATTACHED_TO virtual_network_gateway)\n   - NATS_THROUGH: NAT gateway (private_subnet NATS_THROUGH nat_gateway)\n\n3. **Storage & Database**:\n   - MOUNTED_ON: Managed disk mounting (managed_disk MOUNTED_ON vm)\n   - STORES_IN: Blob storage (application STORES_IN storage_account)\n   - BACKED_BY: SQL Database backing (application BACKED_BY sql_database)\n   - REPLICATES_TO: SQL replication (primary_sql REPLICATES_TO read_replica)\n   - SNAPSHOTS_TO: Backup (managed_disk SNAPSHOTS_TO recovery_services_vault)\n   - ARCHIVED_TO: Archive tier (storage_account ARCHIVED_TO archive_tier)\n\n4. **Load Balancing & Availability**:\n   - TARGETS: Load balancer targets (load_balancer TARGETS backend_pool)\n   - CONTAINS: Backend pool membership (backend_pool CONTAINS vm)\n   - SCALES: VMSS scaling (virtual_machine_scale_set SCALES vm)\n   - HEALTH_CHECKED_BY: Health monitoring (backend_pool HEALTH_CHECKED_BY load_balancer)\n   - DISTRIBUTED_ACROSS: Availability zones (vmss DISTRIBUTED_ACROSS availability_zones)\n\n5. **Database & Cache**:\n   - CLUSTER_MEMBER_OF: SQL cluster (sql_database CLUSTER_MEMBER_OF elastic_pool)\n   - CACHES_FOR: Redis Cache (redis_cache CACHES_FOR sql_database)\n   - READS_FROM: Read replica (application READS_FROM read_replica)\n   - WRITES_TO: Primary database (application WRITES_TO primary_sql)\n   - REPLICATES_TO: Geo-replication (sql_database REPLICATES_TO secondary_region)\n\n6. **Security & Identity**:\n   - ASSUMES_ROLE: Managed identity (vm ASSUMES_ROLE managed_identity)\n   - GRANTS_ACCESS_TO: RBAC grants (role_definition GRANTS_ACCESS_TO storage_account)\n   - ENCRYPTED_BY: Key Vault encryption (managed_disk ENCRYPTED_BY key_vault)\n   - AUTHENTICATED_BY: Azure AD auth (api_management AUTHENTICATED_BY azure_ad)\n   - AUTHORIZED_BY: RBAC policies (resource AUTHORIZED_BY role_assignment)\n\n7. **Multi-Region & Disaster Recovery**:\n   - REPLICATED_IN: Geo-replication (storage_account REPLICATED_IN west-us-2)\n   - FAILED_OVER_TO: DR relationships (primary_region FAILED_OVER_TO secondary_region)\n   - BACKED_UP_TO: Cross-region backup (sql_database BACKED_UP_TO backup_region)\n   - DISTRIBUTED_ACROSS: Multi-region (cosmos_db DISTRIBUTED_ACROSS regions)\n\n8. **Functions & Serverless**:\n   - TRIGGERED_BY: Event triggers (function_app TRIGGERED_BY storage_blob)\n   - INVOKES: Function invocation (api_management INVOKES function_app)\n   - PUBLISHES_TO: Event Grid (function_app PUBLISHES_TO event_grid_topic)\n   - CONSUMES_FROM: Service Bus (function_app CONSUMES_FROM service_bus_queue)\n\n9. **App Service & Web Apps**:\n   - HOSTED_ON: App Service hosting (web_app HOSTED_ON app_service_plan)\n   - CONNECTS_TO: Database connections (web_app CONNECTS_TO sql_database)\n   - DEPLOYS_TO: Deployment slots (web_app DEPLOYS_TO staging_slot)\n   - MONITORED_BY: Application Insights (web_app MONITORED_BY application_insights)\n\n# EXTRACTION RULES FOR AZURE:\n\n1. Focus on Azure-specific service names and relationships\n2. Include region/AZ information when relevant\n3. Capture both active and standby relationships\n4. Extract from:\n   - ARM templates\n   - Terraform Azure provider\n   - Azure CLI output\n   - Azure Portal configurations\n   - Architecture diagrams\n\n" ++ pyStr custom_prompt ++ "\n\n# EXAMPLES:\n- \"VM in prod-vnet\" \u2192 vm RESIDES_IN prod-vnet\n- \"Load balancer targets backend pool\" \u2192 load_balancer TARGETS backend_pool\n- \"SQL with read replicas\" \u2192 read_replica READS_FROM primary_sql\n- \"Storage account encrypted with Key Vault\" \u2192 storage_account ENCRYPTED_BY key_vault\n- \"Function triggered by blob storage\" \u2192 function_app TRIGGERED_BY storage_blob\n        ")]

/-- Embeds the template function `reflexion` of `graphiti_core/prompts/cloud/azure/extract_edges.py`. -/
def reflexion (context : Ctx) : Except PyErr (List Message) := do
  let previous_episodes ← Ctx.getItem context "previous_episodes"
  let previous_episodes_items ← pyIterList previous_episodes
  let episode_content ← Ctx.getItem context "episode_content"
  let nodes ← Ctx.getItem context "nodes"
  let extracted_facts ← Ctx.getItem context "extracted_facts"
  pure [Message.mk "system" "You are an AI assistant that determines which Azure infrastructure relationships have not been extracted from the given context",
    Message.mk "user" ("\n<PREVIOUS MESSAGES>\n" ++ jsonDumps (Val.list previous_episodes_items) ++ "\n</PREVIOUS MESSAGES>\n<CURRENT MESSAGE>\n" ++ pyStr episode_content ++ "\n</CURRENT MESSAGE>\n\n<EXTRACTED ENTITIES>\n" ++ pyStr nodes ++ "\n</EXTRACTED ENTITIES>\n\n<EXTRACTED FACTS>\n" ++ pyStr extracted_facts ++ "\n</EXTRACTED FACTS>\n\nGiven the above Azure infrastructure context, check for missing:\n- VM & Compute relationships (RESIDES_IN, ATTACHED_TO, RUNS_ON, SCALED_BY)\n- VNet & Networking relationships (IN_SUBNET, USES_NSG, ROUTES_TO)\n- Storage & Database relationships (MOUNTED_ON, STORES_IN, BACKED_BY)\n- Load Balancing relationships (TARGETS, CONTAINS, SCALES)\n- Security & Identity relationships (ASSUMES_ROLE, GRANTS_ACCESS_TO, ENCRYPTED_BY)\n- Functions & Serverless relationships (TRIGGERED_BY, INVOKES, PUBLISHES_TO)\n- App Service relationships (HOSTED_ON, CONNECTS_TO, MONITORED_BY)\n\nFocus on Azure-specific services and infrastructure topology.\n")]

/-- Embeds the template function `extract_attributes` of `graphiti_core/prompts/cloud/azure/extract_edges.py`. -/
def extract_attributes (context : Ctx) : Except PyErr (List Message) := do
  let episode_content ← Ctx.getItem context "episode_content"
  let reference_time ← Ctx.getItem context "reference_time"
  let fact ← Ctx.getItem context "fact"
  pure [Message.mk "system" "You are a helpful assistant that extracts Azure infrastructure relationship properties.",
    Message.mk "user" ("\n<MESSAGE>\n" ++ jsonDumps episode_content ++ "\n</MESSAGE>\n<REFERENCE TIME>\n" ++ pyStr reference_time ++ "\n</REFERENCE TIME>\n\nGiven the above Azure infrastructure content and the following relationship, update attributes based on:\n- Azure region/AZ information\n- VNet CIDR blocks or subnet IPs\n- VM sizes or SKUs\n- Key Vault encryption details\n- SQL Database replication configurations\n- VMSS scaling settings\n- NSG security rules\n- RBAC role permissions\n\n<FACT>\n" ++ pyStr fact ++ "\n</FACT>\n        ")]

/-- Embeds the `versions` dictionary of `graphiti_core/prompts/cloud/azure/extract_edges.py`. -/
def versions : TemplateSet :=
  [("edge", edge),
   ("reflexion", reflexion),
   ("extract_attributes", extract_attributes)]

end AzureExtractEdges

namespace GcpExtractNodes

/-- Embeds the template function `extract_message` of `graphiti_core/prompts/cloud/gcp/extract_nodes.py`. -/
def extract_message (context : Ctx) : Except PyErr (List Message) := do
  let previous_episodes ← Ctx.getItem context "previous_episodes"
  let previous_episodes_items ← pyIterList previous_episodes
  let episode_content ← Ctx.getItem context "episode_content"
  let entity_types ← Ctx.getItem context "entity_types"
  let custom_prompt ← Ctx.getItem context "custom_prompt"
  pure [Message.mk "system" "You are an AI assistant specialized in extracting GCP infrastructure entities.\n    Your primary focus is identifying GCP resources, their configurations, and relationships from GCP configurations and IaC files.",
    Message.mk "user" ("\n<PREVIOUS MESSAGES>\n" ++ jsonDumps (Val.list previous_episodes_items) ++ "\n</PREVIOUS MESSAGES>\n\n<CURRENT MESSAGE>\n" ++ pyStr episode_content ++ "\n</CURRENT MESSAGE>\n\n<ENTITY TYPES>\n" ++ pyStr entity_types ++ "\n</ENTITY TYPES>\n\nYou are analyzing GCP infrastructure resources. Extract entities focusing on:\n\n## PRIMARY EXTRACTION TARGETS:\n\n1. **Compute Engine & Compute Resources**:\n   - Compute Engine instances (VM names)\n   - Instance Groups and Instance Templates\n   - Container Instances and Container Groups\n   - Google Kubernetes Engine (GKE) clusters\n   - Cloud Functions\n   - Cloud Run services\n   - App Engine applications\n\n2. **VPC & Networking Resources**:\n   - VPC networks (network names)\n   - Subnets (with subnet names)\n   - Firewall rules\n   - Route tables\n   - Load balancers\n   - Cloud NAT gateways\n   - Cloud VPN gateways\n   - Cloud Interconnect\n\n3. **Storage & Database Resources**:\n   - Cloud Storage buckets\n   - Persistent disks\n   - Cloud SQL instances\n   - Cloud Spanner instances\n   - Firestore databases\n   - BigQuery datasets\n   - Memorystore instances\n   - Cloud Filestore instances\n\n4. **App Engine & Cloud Run Resources**:\n   - App Engine applications\n   - App Engine services and versions\n   - Cloud Run services\n   - Cloud Run revisions\n   - Cloud Build triggers\n   - Container Registry repositories\n\n5. **Security & Identity**:\n   - Service accounts\n   - IAM roles and policies\n   - Cloud KMS keys and key rings\n   - Identity Platform projects\n   - Secret Manager secrets\n   - Certificate Manager certificates\n\n6. **Messaging & Integration**:\n   - Pub/Sub topics and subscriptions\n   - Cloud Tasks queues\n   - Cloud Scheduler jobs\n   - Workflows\n   - API Gateway APIs\n\n7. **Monitoring & Management**:\n   - Cloud Monitoring workspaces\n   - Logging buckets and sinks\n   - Cloud Trace traces\n   - Cloud Debugger snapshots\n   - Cloud Profiler profiles\n\n## GCP-SPECIFIC RULES:\n- Use resource names as primary identifiers (GCP uses names rather than IDs)\n- Include project information when relevant\n- Include region/zone information in entity names when relevant (e.g., \"prod-web-app-us-central1\")\n- Extract service accounts and IAM resources as entities\n- Capture resource labels that indicate ownership or purpose\n- Include environment prefixes (prod-, staging-, dev-)\n\n## GCP NAMING CONVENTIONS:\n- Compute instances: use instance names (e.g., \"prod-web-server\", \"staging-app-instance\")\n- VPC networks: use network names (e.g., \"prod-network\", \"staging-vpc\")\n- Cloud Storage: use bucket names (e.g., \"my-app-storage\", \"prod-logs-bucket\")\n- Cloud SQL: use instance names (e.g., \"prod-database\", \"staging-postgres\")\n\n## DO NOT EXTRACT:\n- IP addresses or CIDR blocks as separate entities\n- Temporary resources or build artifacts\n- Configuration values or parameters\n- Cost information or billing details\n- Generic GCP service names without specific instances\n\n" ++ pyStr custom_prompt ++ "\n")]

/-- Embeds the template function `extract_json` of `graphiti_core/prompts/cloud/gcp/extract_nodes.py`. -/
def extract_json (context : Ctx) : Except PyErr (List Message) := do
  let source_description ← Ctx.getItem context "source_description"
  let episode_content ← Ctx.getItem context "episode_content"
  let entity_types ← Ctx.getItem context "entity_types"
  let custom_prompt ← Ctx.getItem context "custom_prompt"
  pure [Message.mk "system" "You are an AI assistant specialized in extracting GCP infrastructure entities from JSON configurations.\n    Focus on Deployment Manager templates, Terraform state files, gcloud CLI output, and GCP API responses.",
    Message.mk "user" ("\n<SOURCE DESCRIPTION>:\n" ++ pyStr source_description ++ "\n</SOURCE DESCRIPTION>\n<JSON>\n" ++ pyStr episode_content ++ "\n</JSON>\n<ENTITY TYPES>\n" ++ pyStr entity_types ++ "\n</ENTITY TYPES>\n\nYou are analyzing JSON from GCP infrastructure. This could be:\n- Deployment Manager templates\n- Terraform state files (.tfstate)\n- gcloud CLI output (gcloud compute instances list, etc.)\n- GCP API responses\n- Cloud Build configurations\n- GCP Resource Manager queries\n\n## EXTRACTION FOCUS FOR GCP JSON:\n\n1. **From Deployment Manager Templates**:\n   - Resource names from \"resources\" array\n   - Resource types (compute.v1.instance, storage.v1.bucket, etc.)\n   - Project names and configurations\n   - Output values representing important resources\n\n2. **From Terraform State**:\n   - Resource names from \"resources\" array\n   - Resource types and their identifiers\n   - Module names representing infrastructure components\n   - GCP-specific resource attributes\n\n3. **From gcloud CLI Output**:\n   - Instance names from compute instances list\n   - Network names from compute networks list\n   - Storage bucket names from storage buckets list\n   - App Engine app names from app describe\n   - Project names from config list\n\n4. **From GCP API Responses**:\n   - Resource identifiers and names\n   - Service-specific resource types\n   - Labeled resources with meaningful names\n\n## GCP JSON SPECIFIC RULES:\n- Extract resource names from appropriate fields (name, id, selfLink)\n- Include resource type in extraction when it helps identify the entity\n- For nested resources, maintain the hierarchy in naming\n- Skip parameter definitions and variable declarations\n- Focus on actual provisioned resources, not templates\n- Extract from both \"resources\" and \"outputs\" sections in Deployment Manager templates\n\n" ++ pyStr custom_prompt ++ "\n")]

/-- Embeds the template function `extract_text` of `graphiti_core/prompts/cloud/gcp/extract_nodes.py`. -/
def extract_text (context : Ctx) : Except PyErr (List Message) := do
  let episode_content ← Ctx.getItem context "episode_content"
  let entity_types ← Ctx.getItem context "entity_types"
  let custom_prompt ← Ctx.getItem context "custom_prompt"
  pure [Message.mk "system" "You are an AI assistant specialized in extracting GCP infrastructure entities from documentation and configuration files.\n    Focus on GCP infrastructure documentation, runbooks, and deployment guides.",
    Message.mk "user" ("\n<TEXT>\n" ++ pyStr episode_content ++ "\n</TEXT>\n<ENTITY TYPES>\n" ++ pyStr entity_types ++ "\n</ENTITY TYPES>\n\nYou are analyzing text about GCP infrastructure. This could be:\n- GCP infrastructure documentation\n- Deployment guides and runbooks\n- Architecture diagrams descriptions\n- GCP Well-Architected reviews\n- Cloud migration plans\n- GCP service documentation\n\n## EXTRACTION FOCUS FOR GCP TEXT:\n\n1. **Infrastructure Components**:\n   - VPC network names and network segments\n   - Compute instance groups or managed instance groups\n   - Cloud SQL cluster names and instances\n   - Cloud Storage bucket names\n   - Load balancer names (HTTP(S), TCP/UDP, SSL)\n\n2. **GCP Managed Services**:\n   - GKE cluster names\n   - App Engine application names\n   - Cloud Run service names\n   - Cloud Functions names\n   - API Gateway names\n   - Cloud CDN backend bucket names\n\n3. **Architecture Entities**:\n   - Environment names (prod, staging, dev)\n   - Application tier names (web, app, data)\n   - GCP regions or zones\n   - Disaster recovery sites\n   - GCP project names or IDs\n\n## GCP TEXT SPECIFIC RULES:\n- Extract specific resource names, not generic descriptions\n- Include environment prefixes/suffixes (prod-, -staging)\n- Capture multi-region deployments as separate entities\n- Focus on currently deployed resources, not planned ones\n- Extract from architecture diagrams if textually described\n- Include GCP service names when they represent specific instances\n\n## GCP NAMING STANDARDS:\n- Use full resource names including environment (e.g., \"prod-web-instance\")\n- Include region in name if multi-region (e.g., \"cache-cluster-us-central1\")\n- Maintain GCP naming conventions (lowercase, hyphens)\n- Use canonical names for well-known GCP services\n- Include project context when relevant (e.g., \"prod-project-vpc\")\n\n" ++ pyStr custom_prompt ++ "\n")]

/-- Embeds the template function `reflexion` of `graphiti_core/prompts/cloud/gcp/extract_nodes.py`. -/
def reflexion (context : Ctx) : Except PyErr (List Message) := do
  let previous_episodes ← Ctx.getItem context "previous_episodes"
  let previous_episodes_items ← pyIterList previous_episodes
  let episode_content ← Ctx.getItem context "episode_content"
  let extracted_entities ← Ctx.getItem context "extracted_entities"
  pure [Message.mk "system" "You are an AI assistant that determines which GCP entities have not been extracted from the given context",
    Message.mk "user" ("\n<PREVIOUS MESSAGES>\n" ++ jsonDumps (Val.list previous_episodes_items) ++ "\n</PREVIOUS MESSAGES>\n<CURRENT MESSAGE>\n" ++ pyStr episode_content ++ "\n</CURRENT MESSAGE>\n\n<EXTRACTED ENTITIES>\n" ++ pyStr extracted_entities ++ "\n</EXTRACTED ENTITIES>\n\nGiven the above previous messages, current message, and list of extracted entities; determine if any GCP infrastructure entities haven\x27t been extracted.\n\nFocus on missing:\n- Compute Engine instances and compute resources\n- VPC networks and networking components\n- Storage and database resources\n- App Engine and Cloud Run resources\n- Security and identity resources\n- Messaging and integration services\n- Monitoring and management resources\n")]

/-- Embeds the template function `classify_nodes` of `graphiti_core/prompts/cloud/gcp/extract_nodes.py`. -/
def classify_nodes (context : Ctx) : Except PyErr (List Message) := do
  let previous_episodes ← Ctx.getItem context "previous_episodes"
  let previous_episodes_items ← pyIterList previous_episodes
  let episode_content ← Ctx.getItem context "episode_content"
  let extracted_entities ← Ctx.getItem context "extracted_entities"
  let entity_types ← Ctx.getItem context "entity_types"
  pure [Message.mk "system" "You are an AI assistant that classifies GCP entity nodes given the context from which they were extracted",
    Message.mk "user" ("\n    <PREVIOUS MESSAGES>\n    " ++ jsonDumps (Val.list previous_episodes_items) ++ "\n    </PREVIOUS MESSAGES>\n    <CURRENT MESSAGE>\n    " ++ pyStr episode_content ++ "\n    </CURRENT MESSAGE>\n    \n    <EXTRACTED ENTITIES>\n    " ++ pyStr extracted_entities ++ "\n    </EXTRACTED ENTITIES>\n    \n    <ENTITY TYPES>\n    " ++ pyStr entity_types ++ "\n    </ENTITY TYPES>\n    \n    Given the above conversation, extracted entities, and provided entity types and their descriptions, classify the extracted GCP entities.\n    \n    Guidelines:\n    1. Each entity must have exactly one type\n    2. Only use the provided ENTITY TYPES as types, do not use additional types to classify entities.\n    3. If none of the provided entity types accurately classify an extracted node, the type should be set to None\n    4. Consider GCP-specific context when classifying (e.g., Compute Engine instances, Cloud Storage buckets, Cloud SQL instances)\n")]

/-- Embeds the template function `extract_attributes` of `graphiti_core/prompts/cloud/gcp/extract_nodes.py`. -/
def extract_attributes (context : Ctx) : Except PyErr (List Message) := do
  let previous_episodes ← Ctx.getItem context "previous_episodes"
  let episode_content ← Ctx.getItem context "episode_content"
  let node ← Ctx.getItem context "node"
  pure [Message.mk "system" "You are a helpful assistant that extracts GCP entity properties from the provided text.",
    Message.mk "user" ("\n\n        <MESSAGES>\n        " ++ jsonDumps previous_episodes ++ "\n        " ++ jsonDumps episode_content ++ "\n        </MESSAGES>\n\n        Given the above MESSAGES and the following ENTITY, update any of its attributes based on the information provided\n        in MESSAGES. Use the provided attribute descriptions to better understand how each attribute should be determined.\n\n        Guidelines:\n        1. Do not hallucinate entity property values if they cannot be found in the current context.\n        2. Only use the provided MESSAGES and ENTITY to set attribute values.\n        3. The summary attribute represents a summary of the ENTITY, and should be updated with new information about the Entity from the MESSAGES. \n            Summaries must be no longer than 250 words.\n        4. Consider GCP-specific attributes like machine types, VPC configurations, storage bucket types, etc.\n        \n        <ENTITY>\n        " ++ pyStr node ++ "\n        </ENTITY>\n        ")]

/-- Embeds the `versions` dictionary of `graphiti_core/prompts/cloud/gcp/extract_nodes.py`. -/
def versions : TemplateSet :=
  [("extract_message", extract_message),
   ("extract_json", extract_json),
   ("extract_text", extract_text),
   ("reflexion", reflexion),
   ("classify_nodes", classify_nodes),
   ("extract_attributes", extract_attributes)]

end GcpExtractNodes

namespace GcpExtractEdges

/-- Embeds the template function `edge` of `graphiti_core/prompts/cloud/gcp/extract_edges.py`. -/
def edge (context : Ctx) : Except PyErr (List Message) := do
  let previous_episodes ← Ctx.getItem context "previous_episodes"
  let previous_episodes_items ← pyIterList previous_episodes
  let episode_content ← Ctx.getItem context "episode_content"
  let nodes ← Ctx.getItem context "nodes"
  let reference_time ← Ctx.getItem context "reference_time"
  let edge_types ← Ctx.getItem context "edge_types"
  let custom_prompt ← Ctx.getItem context "custom_prompt"
  pure [Message.mk "system" "You are an expert at extracting GCP infrastructure relationships. Focus on GCP-specific services, networking, and resource dependencies.",
    Message.mk "user" ("\n<PREVIOUS_MESSAGES>\n" ++ jsonDumps (Val.list previous_episodes_items) ++ "\n</PREVIOUS_MESSAGES>\n\n<CURRENT_MESSAGE>\n" ++ pyStr episode_content ++ "\n</CURRENT_MESSAGE>\n\n<ENTITIES>\n" ++ pyStr nodes ++ " \n</ENTITIES>\n\n<REFERENCE_TIME>\n" ++ pyStr reference_time ++ "\n</REFERENCE_TIME>\n\n<FACT TYPES>\n" ++ pyStr edge_types ++ "\n</FACT TYPES>\n\n# TASK\nExtract relationships between GCP infrastructure entities.\n\n# GCP-SPECIFIC RELATIONSHIPS TO EXTRACT:\n\n1. **Compute Engine & Compute**:\n   - RESIDES_IN: Instance location (compute_instance RESIDES_IN vpc_network)\n   - ATTACHED_TO: NIC attachment (network_interface ATTACHED_TO compute_instance)\n   - RUNS_ON: Container execution (gke_pod RUNS_ON gke_cluster)\n   - SCALED_BY: Instance group scaling (compute_instance SCALED_BY instance_group)\n   - LOAD_BALANCED_BY: Load balancing (compute_instance LOAD_BALANCED_BY load_balancer)\n   - MANAGED_BY: Cloud Operations (compute_instance MANAGED_BY ops_agent)\n   - PROVISIONED_BY: Deployment Manager (resource PROVISIONED_BY deployment_manager)\n\n2. **VPC & Networking**:\n   - IN_SUBNET: Subnet membership (compute_instance IN_SUBNET private_subnet)\n   - USES_FIREWALL: Firewall rules (compute_instance USES_FIREWALL firewall_rule)\n   - ROUTES_TO: Route table routing (subnet ROUTES_TO internet_gateway)\n   - CONNECTED_VIA: VPC peering (vpc_a CONNECTED_VIA vpc_peering)\n   - ATTACHED_TO: Gateway attachment (vpc ATTACHED_TO cloud_nat)\n   - NATS_THROUGH: Cloud NAT (private_subnet NATS_THROUGH cloud_nat)\n\n3. **Storage & Database**:\n   - MOUNTED_ON: Persistent disk mounting (persistent_disk MOUNTED_ON compute_instance)\n   - STORES_IN: Cloud Storage (application STORES_IN storage_bucket)\n   - BACKED_BY: Cloud SQL backing (application BACKED_BY cloud_sql_instance)\n   - REPLICATES_TO: SQL replication (primary_sql REPLICATES_TO read_replica)\n   - SNAPSHOTS_TO: Backup (persistent_disk SNAPSHOTS_TO storage_bucket)\n   - ARCHIVED_TO: Archive class (storage_bucket ARCHIVED_TO archive_class)\n\n4. **Load Balancing & Availability**:\n   - TARGETS: Load balancer targets (load_balancer TARGETS backend_service)\n   - CONTAINS: Backend service membership (backend_service CONTAINS compute_instance)\n   - SCALES: Instance group scaling (instance_group SCALES compute_instance)\n   - HEALTH_CHECKED_BY: Health monitoring (backend_service HEALTH_CHECKED_BY health_check)\n   - DISTRIBUTED_ACROSS: Availability zones (instance_group DISTRIBUTED_ACROSS zones)\n\n5. **Database & Cache**:\n   - CLUSTER_MEMBER_OF: SQL cluster (cloud_sql_instance CLUSTER_MEMBER_OF sql_cluster)\n   - CACHES_FOR: Memorystore (memorystore_instance CACHES_FOR cloud_sql_instance)\n   - READS_FROM: Read replica (application READS_FROM read_replica)\n   - WRITES_TO: Primary database (application WRITES_TO primary_sql)\n   - REPLICATES_TO: Cross-region (cloud_sql_instance REPLICATES_TO secondary_region)\n\n6. **Security & IAM**:\n   - ASSUMES_ROLE: Service account (compute_instance ASSUMES_ROLE service_account)\n   - GRANTS_ACCESS_TO: IAM grants (service_account GRANTS_ACCESS_TO storage_bucket)\n   - ENCRYPTED_BY: Cloud KMS encryption (persistent_disk ENCRYPTED_BY kms_key)\n   - AUTHENTICATED_BY: Identity Platform (cloud_run AUTHENTICATED_BY identity_platform)\n   - AUTHORIZED_BY: IAM policies (resource AUTHORIZED_BY iam_policy)\n\n7. **Multi-Region & Disaster Recovery**:\n   - REPLICATED_IN: Cross-region replication (storage_bucket REPLICATED_IN us-west1)\n   - FAILED_OVER_TO: DR relationships (primary_region FAILED_OVER_TO secondary_region)\n   - BACKED_UP_TO: Cross-region backup (cloud_sql_instance BACKED_UP_TO backup_region)\n   - DISTRIBUTED_ACROSS: Multi-region (spanner_instance DISTRIBUTED_ACROSS regions)\n\n8. **Cloud Functions & Serverless**:\n   - TRIGGERED_BY: Event triggers (cloud_function TRIGGERED_BY cloud_storage_event)\n   - INVOKES: Function invocation (cloud_run INVOKES cloud_function)\n   - PUBLISHES_TO: Pub/Sub (cloud_function PUBLISHES_TO pubsub_topic)\n   - CONSUMES_FROM: Pub/Sub (cloud_function CONSUMES_FROM pubsub_subscription)\n\n9. **Kubernetes & GKE**:\n   - RUNS_ON: Pod execution (gke_pod RUNS_ON gke_node)\n   - DEPLOYED_TO: Deployment (gke_pod DEPLOYED_TO gke_deployment)\n   - EXPOSED_BY: Service exposure (gke_pod EXPOSED_BY gke_service)\n   - STORED_IN: ConfigMap/Secret (gke_pod STORED_IN config_map)\n   - MONITORED_BY: Cloud Monitoring (gke_cluster MONITORED_BY cloud_monitoring)\n\n10. **App Engine & Cloud Run**:\n    - HOSTED_ON: App Engine hosting (app_engine_app HOSTED_ON app_engine_service)\n    - CONNECTS_TO: Database connections (app_engine_app CONNECTS_TO cloud_sql_instance)\n    - DEPLOYS_TO: Version deployment (app_engine_app DEPLOYS_TO app_engine_version)\n    - MONITORED_BY: Cloud Monitoring (app_engine_app MONITORED_BY cloud_monitoring)\n\n# EXTRACTION RULES FOR GCP:\n\n1. Focus on GCP-specific service names and relationships\n2. Include region/zone information when relevant\n3. Capture both active and standby relationships\n4. Extract from:\n   - Deployment Manager templates\n   - Terraform GCP provider\n   - gcloud CLI output\n   - GCP Console configurations\n   - Architecture diagrams\n\n" ++ pyStr custom_prompt ++ "\n\n# EXAMPLES:\n- \"Compute instance in prod-vpc\" \u2192 compute_instance RESIDES_IN prod-vpc\n- \"Load balancer targets backend service\" \u2192 load_balancer TARGETS backend_service\n- \"Cloud SQL with read replicas\" \u2192 read_replica READS_FROM primary_sql\n- \"Storage bucket encrypted with KMS\" \u2192 storage_bucket ENCRYPTED_BY kms_key\n- \"Cloud Function triggered by Storage event\" \u2192 cloud_function TRIGGERED_BY cloud_storage_event\n        ")]

/-- Embeds the template function `reflexion` of `graphiti_core/prompts/cloud/gcp/extract_edges.py`. -/
def reflexion (context : Ctx) : Except PyErr (List Message) := do
  let previous_episodes ← Ctx.getItem context "previous_episodes"
  let previous_episodes_items ← pyIterList previous_episodes
  let episode_content ← Ctx.getItem context "episode_content"
  let nodes ← Ctx.getItem context "nodes"
  let extracted_facts ← Ctx.getItem context "extracted_facts"
  pure [Message.mk "system" "You are an AI assistant that determines which GCP infrastructure relationships have not been extracted from the given context",
    Message.mk "user" ("\n<PREVIOUS MESSAGES>\n" ++ jsonDumps (Val.list previous_episodes_items) ++ "\n</PREVIOUS MESSAGES>\n<CURRENT MESSAGE>\n" ++ pyStr episode_content ++ "\n</CURRENT MESSAGE>\n\n<EXTRACTED ENTITIES>\n" ++ pyStr nodes ++ "\n</EXTRACTED ENTITIES>\n\n<EXTRACTED FACTS>\n" ++ pyStr extracted_facts ++ "\n</EXTRACTED FACTS>\n\nGiven the above GCP infrastructure context, check for missing:\n- Compute Engine relationships (RESIDES_IN, ATTACHED_TO, RUNS_ON, SCALED_BY)\n- VPC & Networking relationships (IN_SUBNET, USES_FIREWALL, ROUTES_TO)\n- Storage & Database relationships (MOUNTED_ON, STORES_IN, BACKED_BY)\n- Load Balancing relationships (TARGETS, CONTAINS, SCALES)\n- Security & IAM relationships (ASSUMES_ROLE, GRANTS_ACCESS_TO, ENCRYPTED_BY)\n- Cloud Functions & Serverless relationships (TRIGGERED_BY, INVOKES, PUBLISHES_TO)\n- Kubernetes & GKE relationships (RUNS_ON, DEPLOYED_TO, EXPOSED_BY)\n- App Engine & Cloud Run relationships (HOSTED_ON, CONNECTS_TO, MONITORED_BY)\n\nFocus on GCP-specific services and infrastructure topology.\n")]

/-- Embeds the template function `extract_attributes` of `graphiti_core/prompts/cloud/gcp/extract_edges.py`. -/
def extract_attributes (context : Ctx) : Except PyErr (List Message) := do
  let episode_content ← Ctx.getItem context "episode_content"
  let reference_time ← Ctx.getItem context "reference_time"
  let fact ← Ctx.getItem context "fact"
  pure [Message.mk "system" "You are a helpful assistant that extracts GCP infrastructure relationship properties.",
    Message.mk "user" ("\n<MESSAGE>\n" ++ jsonDumps episode_content ++ "\n</MESSAGE>\n<REFERENCE TIME>\n" ++ pyStr reference_time ++ "\n</REFERENCE TIME>\n\nGiven the above GCP infrastructure content and the following relationship, update attributes based on:\n- GCP region/zone information\n- VPC CIDR blocks or subnet IPs\n- Compute instance machine types\n- Cloud KMS encryption details\n- Cloud SQL replication configurations\n- Instance group scaling settings\n- Firewall rule configurations\n- IAM role permissions\n\n<FACT>\n" ++ pyStr fact ++ "\n</FACT>\n        ")]

/-- Embeds the `versions` dictionary of `graphiti_core/prompts/cloud/gcp/extract_edges.py`. -/
def versions : TemplateSet :=
  [("edge", edge),
   ("reflexion", reflexion),
   ("extract_attributes", extract_attributes)]

end GcpExtractEdges

namespace GithubExtractNodes

/-- Embeds the template function `extract_message` of `graphiti_core/prompts/github/extract_nodes.py`. -/
def extract_message (context : Ctx) : Except PyErr (List Message) := do
  let previous_episodes ← Ctx.getItem context "previous_episodes"
  let previous_episodes_items ← pyIterList previous_episodes
  let episode_content ← Ctx.getItem context "episode_content"
  let entity_types ← Ctx.getItem context "entity_types"
  let custom_prompt ← Ctx.getItem context "custom_prompt"
  pure [Message.mk "system" "You are an AI assistant specialized in extracting GitHub repository entities.\n    Your primary focus is identifying GitHub repositories, workflows, and development resources from GitHub metadata and code.",
    Message.mk "user" ("\n<PREVIOUS MESSAGES>\n" ++ jsonDumps (Val.list previous_episodes_items) ++ "\n</PREVIOUS MESSAGES>\n\n<CURRENT MESSAGE>\n" ++ pyStr episode_content ++ "\n</CURRENT MESSAGE>\n\n<ENTITY TYPES>\n" ++ pyStr entity_types ++ "\n</ENTITY TYPES>\n\nYou are analyzing GitHub repository metadata and application code. Extract entities focusing on:\n\n## PRIMARY EXTRACTION TARGETS:\n\n1. **GitHub Repositories & Projects**:\n   - GitHub repositories (repo names like \"user/repo-name\")\n   - Repository branches (main, develop, feature branches)\n   - Repository tags and releases\n   - Repository environments (production, staging, development)\n   - Repository secrets and variables\n\n2. **GitHub Actions & Workflows**:\n   - GitHub Actions workflows (.github/workflows/*.yml)\n   - Workflow jobs and steps\n   - Self-hosted runners\n   - GitHub-hosted runners\n   - Action marketplace actions\n   - Custom actions\n\n3. **Code & Application Components**:\n   - Application names from package.json, requirements.txt, etc.\n   - Microservices and services\n   - API endpoints and routes\n   - Database schemas and models\n   - Configuration files and environments\n   - Docker containers and images\n\n4. **Dependencies & Libraries**:\n   - Package dependencies (npm, pip, maven, etc.)\n   - Framework names (React, Django, Spring, etc.)\n   - Library names and versions\n   - Development tools (webpack, babel, etc.)\n   - Testing frameworks (Jest, pytest, etc.)\n\n5. **Infrastructure & Deployment**:\n   - Deployment environments (production, staging, dev)\n   - Cloud services mentioned in code\n   - Database names and types\n   - External APIs and services\n   - Monitoring and logging services\n\n6. **Development Tools & Services**:\n   - CI/CD pipelines (GitHub Actions, Jenkins, etc.)\n   - Code quality tools (SonarQube, ESLint, etc.)\n   - Documentation platforms (GitHub Pages, ReadTheDocs)\n   - Issue tracking systems\n   - Code review tools\n\n## GITHUB-SPECIFIC RULES:\n- Extract repository names in format \"owner/repo-name\"\n- Include branch names when relevant (e.g., \"main\", \"develop\")\n- Extract application names from configuration files\n- Capture dependency names and versions\n- Include environment names (prod, staging, dev)\n- Extract from GitHub-specific files (.github/, workflows, etc.)\n\n## GITHUB NAMING CONVENTIONS:\n- Repositories: use \"owner/repo-name\" format\n- Branches: use branch names (e.g., \"main\", \"feature/new-feature\")\n- Applications: use names from config files (e.g., \"my-web-app\", \"api-service\")\n- Dependencies: use package names (e.g., \"react\", \"django\", \"express\")\n\n## DO NOT EXTRACT:\n- Generic file names without context\n- Temporary build artifacts\n- Configuration values or parameters\n- Personal information or tokens\n- Generic GitHub service names without specific instances\n\n" ++ pyStr custom_prompt ++ "\n")]

/-- Embeds the template function `extract_json` of `graphiti_core/prompts/github/extract_nodes.py`. -/
def extract_json (context : Ctx) : Except PyErr (List Message) := do
  let source_description ← Ctx.getItem context "source_description"
  let episode_content ← Ctx.getItem context "episode_content"
  let entity_types ← Ctx.getItem context "entity_types"
  let custom_prompt ← Ctx.getItem context "custom_prompt"
  pure [Message.mk "system" "You are an AI assistant specialized in extracting GitHub repository entities from JSON configurations.\n    Your primary focus is identifying GitHub repositories, workflows, and development resources from GitHub metadata and code.",
    Message.mk "user" ("\n<SOURCE DESCRIPTION>:\n" ++ pyStr source_description ++ "\n</SOURCE DESCRIPTION>\n<JSON>\n" ++ pyStr episode_content ++ "\n</JSON>\n<ENTITY TYPES>\n" ++ pyStr entity_types ++ "\n</ENTITY TYPES>\n\nYou are analyzing JSON from GitHub repositories. Extract entities focusing on:\n\n## PRIMARY EXTRACTION TARGETS:\n\n1. **GitHub Repositories & Projects**:\n   - GitHub repositories (repo names like \"user/repo-name\")\n   - Repository branches (main, develop, feature branches)\n   - Repository tags and releases\n   - Repository environments (production, staging, development)\n   - Repository secrets and variables\n\n2. **GitHub Actions & Workflows**:\n   - GitHub Actions workflows (.github/workflows/*.yml)\n   - Workflow jobs and steps\n   - Self-hosted runners\n   - GitHub-hosted runners\n   - Action marketplace actions\n   - Custom actions\n\n3. **Code & Application Components**:\n   - Application names from package.json, requirements.txt, etc.\n   - Microservices and services\n   - API endpoints and routes\n   - Database schemas and models\n   - Configuration files and environments\n   - Docker containers and images\n\n4. **Dependencies & Libraries**:\n   - Package dependencies (npm, pip, maven, etc.)\n   - Framework names (React, Django, Spring, etc.)\n   - Library names and versions\n   - Development tools (webpack, babel, etc.)\n   - Testing frameworks (Jest, pytest, etc.)\n\n5. **Infrastructure & Deployment**:\n   - Deployment environments (production, staging, dev)\n   - Cloud services mentioned in code\n   - Database names and types\n   - External APIs and services\n   - Monitoring and logging services\n\n6. **Development Tools & Services**:\n   - CI/CD pipelines (GitHub Actions, Jenkins, etc.)\n   - Code quality tools (SonarQube, ESLint, etc.)\n   - Documentation platforms (GitHub Pages, ReadTheDocs)\n   - Issue tracking systems\n   - Code review tools\n\n## GITHUB-SPECIFIC RULES:\n- Extract repository names in format \"owner/repo-name\"\n- Include branch names when relevant (e.g., \"main\", \"develop\")\n- Extract application names from configuration files\n- Capture dependency names and versions\n- Include environment names (prod, staging, dev)\n- Extract from GitHub-specific files (.github/, workflows, etc.)\n\n## GITHUB NAMING CONVENTIONS:\n- Repositories: use \"owner/repo-name\" format\n- Branches: use branch names (e.g., \"main\", \"feature/new-feature\")\n- Applications: use names from config files (e.g., \"my-web-app\", \"api-service\")\n- Dependencies: use package names (e.g., \"react\", \"django\", \"express\")\n\n## DO NOT EXTRACT:\n- Generic file names without context\n- Temporary build artifacts\n- Configuration values or parameters\n- Personal information or tokens\n- Generic GitHub service names without specific instances\n\n" ++ pyStr custom_prompt ++ "\n")]

/-- Embeds the template function `extract_text` of `graphiti_core/prompts/github/extract_nodes.py`. -/
def extract_text (context : Ctx) : Except PyErr (List Message) := do
  let episode_content ← Ctx.getItem context "episode_content"
  let entity_types ← Ctx.getItem context "entity_types"
  let custom_prompt ← Ctx.getItem context "custom_prompt"
  pure [Message.mk "system" "You are an AI assistant specialized in extracting GitHub repository entities from documentation and text files.\n    Your primary focus is identifying GitHub repositories, workflows, and development resources from GitHub metadata and code.",
    Message.mk "user" ("\n<TEXT>\n" ++ pyStr episode_content ++ "\n</TEXT>\n<ENTITY TYPES>\n" ++ pyStr entity_types ++ "\n</ENTITY TYPES>\n\nYou are analyzing text about GitHub repositories and development. Extract entities focusing on:\n\n## PRIMARY EXTRACTION TARGETS:\n\n1. **GitHub Repositories & Projects**:\n   - GitHub repositories (repo names like \"user/repo-name\")\n   - Repository branches (main, develop, feature branches)\n   - Repository tags and releases\n   - Repository environments (production, staging, development)\n   - Repository secrets and variables\n\n2. **GitHub Actions & Workflows**:\n   - GitHub Actions workflows (.github/workflows/*.yml)\n   - Workflow jobs and steps\n   - Self-hosted runners\n   - GitHub-hosted runners\n   - Action marketplace actions\n   - Custom actions\n\n3. **Code & Application Components**:\n   - Application names from package.json, requirements.txt, etc.\n   - Microservices and services\n   - API endpoints and routes\n   - Database schemas and models\n   - Configuration files and environments\n   - Docker containers and images\n\n4. **Dependencies & Libraries**:\n   - Package dependencies (npm, pip, maven, etc.)\n   - Framework names (React, Django, Spring, etc.)\n   - Library names and versions\n   - Development tools (webpack, babel, etc.)\n   - Testing frameworks (Jest, pytest, etc.)\n\n5. **Infrastructure & Deployment**:\n   - Deployment environments (production, staging, dev)\n   - Cloud services mentioned in code\n   - Database names and types\n   - External APIs and services\n   - Monitoring and logging services\n\n6. **Development Tools & Services**:\n   - CI/CD pipelines (GitHub Actions, Jenkins, etc.)\n   - Code quality tools (SonarQube, ESLint, etc.)\n   - Documentation platforms (GitHub Pages, ReadTheDocs)\n   - Issue tracking systems\n   - Code review tools\n\n## GITHUB-SPECIFIC RULES:\n- Extract repository names in format \"owner/repo-name\"\n- Include branch names when relevant (e.g., \"main\", \"develop\")\n- Extract application names from configuration files\n- Capture dependency names and versions\n- Include environment names (prod, staging, dev)\n- Extract from GitHub-specific files (.github/, workflows, etc.)\n\n## GITHUB NAMING CONVENTIONS:\n- Repositories: use \"owner/repo-name\" format\n- Branches: use branch names (e.g., \"main\", \"feature/new-feature\")\n- Applications: use names from config files (e.g., \"my-web-app\", \"api-service\")\n- Dependencies: use package names (e.g., \"react\", \"django\", \"express\")\n\n## DO NOT EXTRACT:\n- Generic file names without context\n- Temporary build artifacts\n- Configuration values or parameters\n- Personal information or tokens\n- Generic GitHub service names without specific instances\n\n" ++ pyStr custom_prompt ++ "\n")]

/-- Embeds the template function `reflexion` of `graphiti_core/prompts/github/extract_nodes.py`. -/
def reflexion (context : Ctx) : Except PyErr (List Message) := do
  let previous_episodes ← Ctx.getItem context "previous_episodes"
  let previous_episodes_items ← pyIterList previous_episodes
  let episode_content ← Ctx.getItem context "episode_content"
  let extracted_entities ← Ctx.getItem context "extracted_entities"
  pure [Message.mk "system" "You are an AI assistant that determines which GitHub entities have not been extracted from the given context",
    Message.mk "user" ("\n<PREVIOUS MESSAGES>\n" ++ jsonDumps (Val.list previous_episodes_items) ++ "\n</PREVIOUS MESSAGES>\n<CURRENT MESSAGE>\n" ++ pyStr episode_content ++ "\n</CURRENT MESSAGE>\n\n<EXTRACTED ENTITIES>\n" ++ pyStr extracted_entities ++ "\n</EXTRACTED ENTITIES>\n\nGiven the above previous messages, current message, and list of extracted entities; determine if any GitHub entities haven\x27t been extracted.\n\nFocus on missing:\n- GitHub repositories and branches\n- GitHub Actions workflows and jobs\n- Application and service names\n- Dependencies and frameworks\n- Development tools and services\n- Infrastructure and deployment resources\n")]

/-- Embeds the template function `classify_nodes` of `graphiti_core/prompts/github/extract_nodes.py`. -/
def classify_nodes (context : Ctx) : Except PyErr (List Message) := do
  let previous_episodes ← Ctx.getItem context "previous_episodes"
  let previous_episodes_items ← pyIterList previous_episodes
  let episode_content ← Ctx.getItem context "episode_content"
  let extracted_entities ← Ctx.getItem context "extracted_entities"
  let entity_types ← Ctx.getItem context "entity_types"
  pure [Message.mk "system" "You are an AI assistant that classifies GitHub entity nodes given the context from which they were extracted",
    Message.mk "user" ("\n    <PREVIOUS MESSAGES>\n    " ++ jsonDumps (Val.list previous_episodes_items) ++ "\n    </PREVIOUS MESSAGES>\n    <CURRENT MESSAGE>\n    " ++ pyStr episode_content ++ "\n    </CURRENT MESSAGE>\n    \n    <EXTRACTED ENTITIES>\n    " ++ pyStr extracted_entities ++ "\n    </EXTRACTED ENTITIES>\n    \n    <ENTITY TYPES>\n    " ++ pyStr entity_types ++ "\n    </ENTITY TYPES>\n    \n    Given the above conversation, extracted entities, and provided entity types and their descriptions, classify the extracted GitHub entities.\n    \n    Guidelines:\n    1. Each entity must have exactly one type\n    2. Only use the provided ENTITY TYPES as types, do not use additional types to classify entities.\n    3. If none of the provided entity types accurately classify an extracted node, the type should be set to None\n    4. Consider GitHub-specific context when classifying (e.g., repositories, workflows, applications)\n")]

/-- Embeds the template function `extract_attributes` of `graphiti_core/prompts/github/extract_nodes.py`. -/
def extract_attributes (context : Ctx) : Except PyErr (List Message) := do
  let previous_episodes ← Ctx.getItem context "previous_episodes"
  let episode_content ← Ctx.getItem context "episode_content"
  let node ← Ctx.getItem context "node"
  pure [Message.mk "system" "You are a helpful assistant that extracts GitHub entity properties from the provided text.",
    Message.mk "user" ("\n\n        <MESSAGES>\n        " ++ jsonDumps previous_episodes ++ "\n        " ++ jsonDumps episode_content ++ "\n        </MESSAGES>\n\n        Given the above MESSAGES and the following ENTITY, update any of its attributes based on the information provided\n        in MESSAGES. Use the provided attribute descriptions to better understand how each attribute should be determined.\n\n        Guidelines:\n        1. Do not hallucinate entity property values if they cannot be found in the current context.\n        2. Only use the provided MESSAGES and ENTITY to set attribute values.\n        3. The summary attribute represents a summary of the ENTITY, and should be updated with new information about the Entity from the MESSAGES. \n            Summaries must be no longer than 250 words.\n        4. Consider GitHub-specific attributes like repository URLs, branch information, workflow configurations, etc.\n        \n        <ENTITY>\n        " ++ pyStr node ++ "\n        </ENTITY>\n        ")]

/-- Embeds the `versions` dictionary of `graphiti_core/prompts/github/extract_nodes.py`. -/
def versions : TemplateSet :=
  [("extract_message", extract_message),
   ("extract_json", extract_json),
   ("extract_text", extract_text),
   ("reflexion", reflexion),
   ("classify_nodes", classify_nodes),
   ("extract_attributes", extract_attributes)]

end GithubExtractNodes

namespace GithubExtractEdges

/-- Embeds the template function `edge` of `graphiti_core/prompts/github/extract_edges.py`. -/
def edge (context : Ctx) : Except PyErr (List Message) := do
  let previous_episodes ← Ctx.getItem context "previous_episodes"
  let previous_episodes_items ← pyIterList previous_episodes
  let episode_content ← Ctx.getItem context "episode_content"
  let nodes ← Ctx.getItem context "nodes"
  let reference_time ← Ctx.getItem context "reference_time"
  let edge_types ← Ctx.getItem context "edge_types"
  let custom_prompt ← Ctx.getItem context "custom_prompt"
  pure [Message.mk "system" "You are an expert at extracting relationships between GitHub repositories and development components. Focus on code dependencies, service connections, and development workflow relationships.",
    Message.mk "user" ("\n<PREVIOUS_MESSAGES>\n" ++ jsonDumps (Val.list previous_episodes_items) ++ "\n</PREVIOUS_MESSAGES>\n\n<CURRENT_MESSAGE>\n" ++ pyStr episode_content ++ "\n</CURRENT_MESSAGE>\n\n<ENTITIES>\n" ++ pyStr nodes ++ " \n</ENTITIES>\n\n<REFERENCE_TIME>\n" ++ pyStr reference_time ++ "\n</REFERENCE_TIME>\n\n<FACT TYPES>\n" ++ pyStr edge_types ++ "\n</FACT TYPES>\n\n# TASK\nExtract relationships between GitHub repositories and development entities.\n\n# GITHUB-SPECIFIC RELATIONSHIPS TO EXTRACT:\n\n1. **Repository & Code Dependencies**:\n   - DEPENDS_ON: Package/library dependencies (app DEPENDS_ON library)\n   - IMPORTS: Module imports (service IMPORTS module)\n   - USES_FRAMEWORK: Application uses framework (app USES_FRAMEWORK express)\n   - REQUIRES: Build/runtime requirements (service REQUIRES nodejs)\n   - CONTAINS: Repository contains services (repo CONTAINS microservice)\n   - PART_OF: Component hierarchy (module PART_OF application)\n\n2. **Service & API Relationships**:\n   - CONNECTS_TO: Service connections (api CONNECTS_TO database)\n   - QUERIES: Database queries (service QUERIES postgres)\n   - CACHES_IN: Caching relationships (api CACHES_IN redis)\n   - PUBLISHES_TO: Message publishing (service PUBLISHES_TO rabbitmq)\n   - CONSUMES_FROM: Message consumption (worker CONSUMES_FROM kafka)\n   - EXPOSES: API exposure (service EXPOSES rest_api)\n\n3. **GitHub Workflow Relationships**:\n   - TRIGGERED_BY: Workflow triggers (workflow TRIGGERED_BY push)\n   - DEPLOYS_TO: Deployment targets (workflow DEPLOYS_TO production)\n   - TESTS: Testing relationships (workflow TESTS application)\n   - BUILDS: Build processes (workflow BUILDS docker_image)\n   - NOTIFIES: Notification relationships (workflow NOTIFIES slack)\n   - RUNS_ON: Execution environment (workflow RUNS_ON self_hosted_runner)\n\n4. **Branch & Version Relationships**:\n   - MERGES_TO: Branch merging (feature_branch MERGES_TO main)\n   - CREATES: Branch creation (main CREATES release_branch)\n   - TAGS: Version tagging (commit TAGS v1.0.0)\n   - RELEASES: Release relationships (tag RELEASES version)\n   - FORKS: Repository forking (repo FORKS original_repo)\n   - CLONES: Repository cloning (local_repo CLONES remote_repo)\n\n5. **Development Tool Relationships**:\n   - MONITORED_BY: Monitoring tools (app MONITORED_BY sentry)\n   - TESTED_BY: Testing frameworks (code TESTED_BY jest)\n   - LINTED_BY: Code quality (code LINTED_BY eslint)\n   - DOCUMENTED_BY: Documentation (api DOCUMENTED_BY swagger)\n   - BACKED_UP_BY: Backup systems (repo BACKED_UP_BY github)\n   - SECURED_BY: Security tools (repo SECURED_BY dependabot)\n\n6. **Environment & Deployment**:\n   - DEPLOYED_TO: Environment deployment (app DEPLOYED_TO staging)\n   - RUNS_IN: Runtime environment (service RUNS_IN docker)\n   - HOSTED_ON: Hosting platform (app HOSTED_ON heroku)\n   - SCALED_BY: Scaling relationships (app SCALED_BY kubernetes)\n   - LOAD_BALANCED_BY: Load balancing (api LOAD_BALANCED_BY nginx)\n   - PROXIED_BY: Proxy relationships (service PROXIED_BY cloudflare)\n\n7. **External Service Integration**:\n   - AUTHENTICATED_BY: Authentication (app AUTHENTICATED_BY oauth)\n   - AUTHORIZED_BY: Authorization (service AUTHORIZED_BY jwt)\n   - ENCRYPTED_BY: Encryption (data ENCRYPTED_BY ssl)\n   - STORED_IN: Storage relationships (files STORED_IN s3)\n   - LOGGED_TO: Logging (app LOGGED_TO cloudwatch)\n   - METRICED_BY: Metrics collection (service METRICED_BY prometheus)\n\n# EXTRACTION RULES FOR GITHUB:\n\n1. Focus on code dependencies and service relationships\n2. Include GitHub-specific workflow relationships\n3. Capture both direct and indirect dependencies\n4. Extract from:\n   - package.json and dependency files\n   - GitHub Actions workflows\n   - Configuration files\n   - Documentation and README files\n   - Code comments and imports\n\n" ++ pyStr custom_prompt ++ "\n\n# EXAMPLES:\n- \"app depends on express framework\" \u2192 app DEPENDS_ON express\n- \"API connects to PostgreSQL database\" \u2192 api CONNECTS_TO postgresql\n- \"workflow deploys to production\" \u2192 workflow DEPLOYS_TO production\n- \"feature branch merges to main\" \u2192 feature_branch MERGES_TO main\n- \"app monitored by Sentry\" \u2192 app MONITORED_BY sentry\n        ")]

/-- Embeds the template function `reflexion` of `graphiti_core/prompts/github/extract_edges.py`. -/
def reflexion (context : Ctx) : Except PyErr (List Message) := do
  let previous_episodes ← Ctx.getItem context "previous_episodes"
  let previous_episodes_items ← pyIterList previous_episodes
  let episode_content ← Ctx.getItem context "episode_content"
  let nodes ← Ctx.getItem context "nodes"
  let extracted_facts ← Ctx.getItem context "extracted_facts"
  pure [Message.mk "system" "You are an AI assistant that determines which GitHub relationships have not been extracted from the given context",
    Message.mk "user" ("\n<PREVIOUS MESSAGES>\n" ++ jsonDumps (Val.list previous_episodes_items) ++ "\n</PREVIOUS MESSAGES>\n<CURRENT MESSAGE>\n" ++ pyStr episode_content ++ "\n</CURRENT MESSAGE>\n\n<EXTRACTED ENTITIES>\n" ++ pyStr nodes ++ "\n</EXTRACTED ENTITIES>\n\n<EXTRACTED FACTS>\n" ++ pyStr extracted_facts ++ "\n</EXTRACTED FACTS>\n\nGiven the above GitHub context, check for missing:\n- Repository and code dependencies (DEPENDS_ON, IMPORTS, USES_FRAMEWORK)\n- Service and API relationships (CONNECTS_TO, QUERIES, EXPOSES)\n- GitHub workflow relationships (TRIGGERED_BY, DEPLOYS_TO, RUNS_ON)\n- Branch and version relationships (MERGES_TO, TAGS, RELEASES)\n- Development tool relationships (MONITORED_BY, TESTED_BY, LINTED_BY)\n- Environment and deployment relationships (DEPLOYED_TO, RUNS_IN, HOSTED_ON)\n- External service integration (AUTHENTICATED_BY, STORED_IN, LOGGED_TO)\n\nFocus on development workflow and code dependency relationships.\n")]

/-- Embeds the template function `extract_attributes` of `graphiti_core/prompts/github/extract_edges.py`. -/
def extract_attributes (context : Ctx) : Except PyErr (List Message) := do
  let episode_content ← Ctx.getItem context "episode_content"
  let reference_time ← Ctx.getItem context "reference_time"
  let fact ← Ctx.getItem context "fact"
  pure [Message.mk "system" "You are a helpful assistant that extracts GitHub relationship properties.",
    Message.mk "user" ("\n<MESSAGE>\n" ++ jsonDumps episode_content ++ "\n</MESSAGE>\n<REFERENCE TIME>\n" ++ pyStr reference_time ++ "\n</REFERENCE TIME>\n\nGiven the above GitHub content and the following relationship, update attributes based on:\n- Repository and branch information\n- Dependency versions and constraints\n- Workflow trigger conditions\n- Environment configurations\n- Service endpoints and URLs\n- Authentication and security settings\n- Deployment and scaling configurations\n\n<FACT>\n" ++ pyStr fact ++ "\n</FACT>\n        ")]

/-- Embeds the `versions` dictionary of `graphiti_core/prompts/github/extract_edges.py`. -/
def versions : TemplateSet :=
  [("edge", edge),
   ("reflexion", reflexion),
   ("extract_attributes", extract_attributes)]

end GithubExtractEdges

namespace CicdExtractNodes

/-- Embeds the template function `extract_message` of `graphiti_core/prompts/cicd/extract_nodes.py`. -/
def extract_message (context : Ctx) : Except PyErr (List Message) := do
  let previous_episodes ← Ctx.getItem context "previous_episodes"
  let previous_episodes_items ← pyIterList previous_episodes
  let episode_content ← Ctx.getItem context "episode_content"
  let entity_types ← Ctx.getItem context "entity_types"
  let custom_prompt ← Ctx.getItem context "custom_prompt"
  pure [Message.mk "system" "You are an AI assistant specialized in extracting CI/CD pipeline entities.\n    Your primary focus is identifying CI/CD tools, build systems, and deployment resources from configuration files and logs.",
    Message.mk "user" ("\n<PREVIOUS MESSAGES>\n" ++ jsonDumps (Val.list previous_episodes_items) ++ "\n</PREVIOUS MESSAGES>\n\n<CURRENT MESSAGE>\n" ++ pyStr episode_content ++ "\n</CURRENT MESSAGE>\n\n<ENTITY TYPES>\n" ++ pyStr entity_types ++ "\n</ENTITY TYPES>\n\nYou are analyzing CI/CD pipeline configurations and logs. Extract entities focusing on:\n\n## PRIMARY EXTRACTION TARGETS:\n\n1. **CI/CD Platforms & Tools**:\n   - Jenkins servers and jobs\n   - GitHub Actions workflows and runners\n   - GitLab CI/CD pipelines and runners\n   - Azure DevOps pipelines and agents\n   - CircleCI workflows and orbs\n   - Travis CI builds and stages\n   - TeamCity build configurations\n   - Bamboo build plans\n\n2. **Build & Test Systems**:\n   - Build tools (Maven, Gradle, npm, yarn, pip, etc.)\n   - Testing frameworks (JUnit, Jest, pytest, etc.)\n   - Code quality tools (SonarQube, ESLint, etc.)\n   - Build servers and agents\n   - Build artifacts and packages\n   - Test environments and databases\n\n3. **Deployment & Infrastructure**:\n   - Deployment environments (production, staging, dev)\n   - Container orchestration (Kubernetes, Docker Swarm)\n   - Infrastructure as Code tools (Terraform, CloudFormation)\n   - Deployment targets (servers, clusters, cloud services)\n   - Blue-green deployment environments\n   - Canary deployment stages\n\n4. **Artifact & Package Management**:\n   - Artifact repositories (Nexus, Artifactory, GitHub Packages)\n   - Container registries (Docker Hub, ECR, ACR, GCR)\n   - Package managers (npm, Maven, NuGet, PyPI)\n   - Build artifacts and binaries\n   - Docker images and containers\n   - Helm charts and Kubernetes manifests\n\n5. **Monitoring & Observability**:\n   - Monitoring tools (Prometheus, Grafana, Datadog)\n   - Logging systems (ELK Stack, Splunk, CloudWatch)\n   - Alerting systems (PagerDuty, Slack, email)\n   - APM tools (New Relic, AppDynamics)\n   - Health check endpoints\n   - Performance monitoring dashboards\n\n6. **Security & Compliance**:\n   - Security scanning tools (SonarQube, Snyk, OWASP ZAP)\n   - Vulnerability scanners\n   - Compliance checking tools\n   - Secret management systems (Vault, AWS Secrets Manager)\n   - Code signing tools\n   - Security testing environments\n\n7. **Communication & Notifications**:\n   - Notification channels (Slack, Teams, email)\n   - Chat platforms and webhooks\n   - Status pages and dashboards\n   - Communication tools for deployments\n   - Release notes and changelogs\n\n## CI/CD-SPECIFIC RULES:\n- Extract pipeline names and job names\n- Include environment names (prod, staging, dev)\n- Capture tool and platform names\n- Extract from configuration files (YAML, JSON, XML)\n- Include version information when relevant\n- Capture build and deployment targets\n\n## CI/CD NAMING CONVENTIONS:\n- Pipelines: use descriptive names (e.g., \"prod-deployment-pipeline\", \"test-automation\")\n- Jobs: use specific job names (e.g., \"build-and-test\", \"deploy-to-staging\")\n- Environments: use environment names (e.g., \"production\", \"staging\", \"development\")\n- Tools: use tool names (e.g., \"jenkins\", \"github-actions\", \"sonarqube\")\n\n## DO NOT EXTRACT:\n- Generic configuration values or parameters\n- Temporary build artifacts or logs\n- Personal information or credentials\n- Generic service names without specific instances\n- Build numbers or commit hashes as separate entities\n\n" ++ pyStr custom_prompt ++ "\n")]

/-- Embeds the template function `extract_json` of `graphiti_core/prompts/cicd/extract_nodes.py`. -/
def extract_json (context : Ctx) : Except PyErr (List Message) := do
  let source_description ← Ctx.getItem context "source_description"
  let episode_content ← Ctx.getItem context "episode_content"
  let entity_types ← Ctx.getItem context "entity_types"
  let custom_prompt ← Ctx.getItem context "custom_prompt"
  pure [Message.mk "system" "You are an AI assistant specialized in extracting CI/CD entities from JSON configurations.\n    Focus on pipeline configurations, build files, and CI/CD tool outputs.",
    Message.mk "user" ("\n<SOURCE DESCRIPTION>:\n" ++ pyStr source_description ++ "\n</SOURCE DESCRIPTION>\n<JSON>\n" ++ pyStr episode_content ++ "\n</JSON>\n<ENTITY TYPES>\n" ++ pyStr entity_types ++ "\n</ENTITY TYPES>\n\nYou are analyzing JSON from CI/CD systems. This could be:\n- Pipeline configuration files\n- Build tool outputs\n- CI/CD platform API responses\n- Deployment manifests\n- Configuration management files\n- Tool configuration files\n\n## EXTRACTION FOCUS FOR CI/CD JSON:\n\n1. **From Pipeline Configurations**:\n   - Pipeline names and job names\n   - Stage and step names\n   - Environment names and configurations\n   - Tool and service names\n   - Build and deployment targets\n\n2. **From Build Tool Outputs**:\n   - Build tool names and versions\n   - Test framework names\n   - Artifact names and locations\n   - Dependency names and versions\n   - Build environment information\n\n3. **From CI/CD Platform APIs**:\n   - Pipeline and job identifiers\n   - Runner and agent names\n   - Environment and deployment names\n   - Tool and service configurations\n   - Build and test results\n\n4. **From Deployment Manifests**:\n   - Deployment environment names\n   - Service and application names\n   - Infrastructure component names\n   - Configuration and secret names\n   - Monitoring and logging tools\n\n## CI/CD JSON SPECIFIC RULES:\n- Extract pipeline and job names from appropriate fields\n- Include environment information when available\n- Capture tool and platform names\n- Focus on build and deployment targets\n- Skip generic configuration values\n\n" ++ pyStr custom_prompt ++ "\n")]

/-- Embeds the template function `extract_text` of `graphiti_core/prompts/cicd/extract_nodes.py`. -/
def extract_text (context : Ctx) : Except PyErr (List Message) := do
  let episode_content ← Ctx.getItem context "episode_content"
  let entity_types ← Ctx.getItem context "entity_types"
  let custom_prompt ← Ctx.getItem context "custom_prompt"
  pure [Message.mk "system" "You are an AI assistant specialized in extracting CI/CD entities from documentation and logs.\n    Focus on CI/CD documentation, deployment guides, and pipeline logs.",
    Message.mk "user" ("\n<TEXT>\n" ++ pyStr episode_content ++ "\n</TEXT>\n<ENTITY TYPES>\n" ++ pyStr entity_types ++ "\n</ENTITY TYPES>\n\nYou are analyzing text about CI/CD systems. This could be:\n- CI/CD documentation and guides\n- Deployment runbooks\n- Pipeline logs and outputs\n- Build and test reports\n- Release notes and changelogs\n- Infrastructure documentation\n\n## EXTRACTION FOCUS FOR CI/CD TEXT:\n\n1. **Pipeline Information**:\n   - Pipeline names and descriptions\n   - Job and stage names\n   - Environment names and configurations\n   - Tool and platform names\n   - Build and deployment targets\n\n2. **Build and Test Components**:\n   - Build tool names and versions\n   - Test framework names\n   - Code quality tool names\n   - Artifact and package names\n   - Build environment information\n\n3. **Deployment and Infrastructure**:\n   - Deployment environment names\n   - Infrastructure component names\n   - Service and application names\n   - Monitoring and logging tools\n   - Security and compliance tools\n\n4. **Tools and Platforms**:\n   - CI/CD platform names\n   - Build and test tool names\n   - Deployment tool names\n   - Monitoring and alerting tools\n   - Communication and notification tools\n\n## CI/CD TEXT SPECIFIC RULES:\n- Extract specific pipeline and tool names\n- Include environment prefixes/suffixes (prod-, -staging)\n- Capture build and deployment target names\n- Focus on currently used tools and platforms\n- Extract from configuration examples and logs\n\n## CI/CD NAMING STANDARDS:\n- Use full pipeline names (e.g., \"prod-deployment-pipeline\")\n- Include environment context (e.g., \"staging-test-automation\")\n- Maintain original naming conventions\n- Use canonical names for well-known tools and platforms\n\n" ++ pyStr custom_prompt ++ "\n")]

/-- Embeds the template function `reflexion` of `graphiti_core/prompts/cicd/extract_nodes.py`. -/
def reflexion (context : Ctx) : Except PyErr (List Message) := do
  let previous_episodes ← Ctx.getItem context "previous_episodes"
  let previous_episodes_items ← pyIterList previous_episodes
  let episode_content ← Ctx.getItem context "episode_content"
  let extracted_entities ← Ctx.getItem context "extracted_entities"
  pure [Message.mk "system" "You are an AI assistant that determines which CI/CD entities have not been extracted from the given context",
    Message.mk "user" ("\n<PREVIOUS MESSAGES>\n" ++ jsonDumps (Val.list previous_episodes_items) ++ "\n</PREVIOUS MESSAGES>\n<CURRENT MESSAGE>\n" ++ pyStr episode_content ++ "\n</CURRENT MESSAGE>\n\n<EXTRACTED ENTITIES>\n" ++ pyStr extracted_entities ++ "\n</EXTRACTED ENTITIES>\n\nGiven the above previous messages, current message, and list of extracted entities; determine if any CI/CD entities haven\x27t been extracted.\n\nFocus on missing:\n- CI/CD platforms and tools\n- Build and test systems\n- Deployment and infrastructure components\n- Artifact and package management tools\n- Monitoring and observability tools\n- Security and compliance tools\n- Communication and notification systems\n")]

/-- Embeds the template function `classify_nodes` of `graphiti_core/prompts/cicd/extract_nodes.py`. -/
def classify_nodes (context : Ctx) : Except PyErr (List Message) := do
  let previous_episodes ← Ctx.getItem context "previous_episodes"
  let previous_episodes_items ← pyIterList previous_episodes
  let episode_content ← Ctx.getItem context "episode_content"
  let extracted_entities ← Ctx.getItem context "extracted_entities"
  let entity_types ← Ctx.getItem context "entity_types"
  pure [Message.mk "system" "You are an AI assistant that classifies CI/CD entity nodes given the context from which they were extracted",
    Message.mk "user" ("\n    <PREVIOUS MESSAGES>\n    " ++ jsonDumps (Val.list previous_episodes_items) ++ "\n    </PREVIOUS MESSAGES>\n    <CURRENT MESSAGE>\n    " ++ pyStr episode_content ++ "\n    </CURRENT MESSAGE>\n    \n    <EXTRACTED ENTITIES>\n    " ++ pyStr extracted_entities ++ "\n    </EXTRACTED ENTITIES>\n    \n    <ENTITY TYPES>\n    " ++ pyStr entity_types ++ "\n    </ENTITY TYPES>\n    \n    Given the above conversation, extracted entities, and provided entity types and their descriptions, classify the extracted CI/CD entities.\n    \n    Guidelines:\n    1. Each entity must have exactly one type\n    2. Only use the provided ENTITY TYPES as types, do not use additional types to classify entities.\n    3. If none of the provided entity types accurately classify an extracted node, the type should be set to None\n    4. Consider CI/CD-specific context when classifying (e.g., pipelines, build tools, deployment environments)\n")]

/-- Embeds the template function `extract_attributes` of `graphiti_core/prompts/cicd/extract_nodes.py`. -/
def extract_attributes (context : Ctx) : Except PyErr (List Message) := do
  let previous_episodes ← Ctx.getItem context "previous_episodes"
  let episode_content ← Ctx.getItem context "episode_content"
  let node ← Ctx.getItem context "node"
  pure [Message.mk "system" "You are a helpful assistant that extracts CI/CD entity properties from the provided text.",
    Message.mk "user" ("\n\n        <MESSAGES>\n        " ++ jsonDumps previous_episodes ++ "\n        " ++ jsonDumps episode_content ++ "\n        </MESSAGES>\n\n        Given the above MESSAGES and the following ENTITY, update any of its attributes based on the information provided\n        in MESSAGES. Use the provided attribute descriptions to better understand how each attribute should be determined.\n\n        Guidelines:\n        1. Do not hallucinate entity property values if they cannot be found in the current context.\n        2. Only use the provided MESSAGES and ENTITY to set attribute values.\n        3. The summary attribute represents a summary of the ENTITY, and should be updated with new information about the Entity from the MESSAGES. \n            Summaries must be no longer than 250 words.\n        4. Consider CI/CD-specific attributes like pipeline configurations, build environments, deployment targets, etc.\n        \n        <ENTITY>\n        " ++ pyStr node ++ "\n        </ENTITY>\n        ")]

/-- Embeds the `versions` dictionary of `graphiti_core/prompts/cicd/extract_nodes.py`. -/
def versions : TemplateSet :=
  [("extract_message", extract_message),
   ("extract_json", extract_json),
   ("extract_text", extract_text),
   ("reflexion", reflexion),
   ("classify_nodes", classify_nodes),
   ("extract_attributes", extract_attributes)]

end CicdExtractNodes

namespace CicdExtractEdges

/-- Embeds the template function `edge` of `graphiti_core/prompts/cicd/extract_edges.py`. -/
def edge (context : Ctx) : Except PyErr (List Message) := do
  let previous_episodes ← Ctx.getItem context "previous_episodes"
  let previous_episodes_items ← pyIterList previous_episodes
  let episode_content ← Ctx.getItem context "episode_content"
  let nodes ← Ctx.getItem context "nodes"
  let reference_time ← Ctx.getItem context "reference_time"
  let edge_types ← Ctx.getItem context "edge_types"
  let custom_prompt ← Ctx.getItem context "custom_prompt"
  pure [Message.mk "system" "You are an expert at extracting CI/CD pipeline relationships. Focus on build dependencies, deployment workflows, and pipeline stage relationships.",
    Message.mk "user" ("\n<PREVIOUS_MESSAGES>\n" ++ jsonDumps (Val.list previous_episodes_items) ++ "\n</PREVIOUS_MESSAGES>\n\n<CURRENT_MESSAGE>\n" ++ pyStr episode_content ++ "\n</CURRENT_MESSAGE>\n\n<ENTITIES>\n" ++ pyStr nodes ++ " \n</ENTITIES>\n\n<REFERENCE_TIME>\n" ++ pyStr reference_time ++ "\n</REFERENCE_TIME>\n\n<FACT TYPES>\n" ++ pyStr edge_types ++ "\n</FACT TYPES>\n\n# TASK\nExtract relationships between CI/CD pipeline entities.\n\n# CI/CD-SPECIFIC RELATIONSHIPS TO EXTRACT:\n\n1. **Pipeline & Stage Relationships**:\n   - TRIGGERED_BY: Pipeline triggers (pipeline TRIGGERED_BY code_push)\n   - CONTAINS: Stage containment (pipeline CONTAINS build_stage)\n   - PRECEDES: Stage ordering (build_stage PRECEDES test_stage)\n   - DEPENDS_ON: Stage dependencies (deploy_stage DEPENDS_ON test_stage)\n   - PARALLEL_TO: Parallel execution (unit_tests PARALLEL_TO integration_tests)\n   - CONDITIONAL_ON: Conditional execution (deploy_stage CONDITIONAL_ON test_success)\n\n2. **Build & Test Relationships**:\n   - BUILDS: Build processes (job BUILDS application)\n   - TESTS: Testing relationships (job TESTS code)\n   - VALIDATES: Validation processes (job VALIDATES configuration)\n   - SCANS: Security scanning (job SCANS vulnerabilities)\n   - ANALYZES: Code analysis (job ANALYZES quality)\n   - GENERATES: Artifact generation (job GENERATES docker_image)\n\n3. **Deployment & Environment Relationships**:\n   - DEPLOYS_TO: Deployment targets (pipeline DEPLOYS_TO production)\n   - PROMOTES_TO: Environment promotion (staging PROMOTES_TO production)\n   - ROLLS_BACK_TO: Rollback relationships (production ROLLS_BACK_TO previous_version)\n   - BLUE_GREEN_TO: Blue-green deployment (blue_environment BLUE_GREEN_TO green_environment)\n   - CANARY_TO: Canary deployment (canary_environment CANARY_TO production)\n   - SCALES_IN: Scaling relationships (application SCALES_IN kubernetes)\n\n4. **Artifact & Package Relationships**:\n   - PUBLISHES_TO: Artifact publishing (build PUBLISHES_TO artifact_repository)\n   - PULLS_FROM: Artifact retrieval (deploy PULLS_FROM container_registry)\n   - PUSHES_TO: Image pushing (build PUSHES_TO docker_registry)\n   - STORES_IN: Storage relationships (artifacts STORES_IN nexus)\n   - VERSIONS_WITH: Versioning (artifact VERSIONS_WITH git_tag)\n   - SIGNS_WITH: Code signing (artifact SIGNS_WITH certificate)\n\n5. **Infrastructure & Configuration Relationships**:\n   - PROVISIONED_BY: Infrastructure provisioning (environment PROVISIONED_BY terraform)\n   - CONFIGURED_BY: Configuration management (server CONFIGURED_BY ansible)\n   - SECURED_BY: Security tools (pipeline SECURED_BY vault)\n   - MONITORED_BY: Monitoring relationships (deployment MONITORED_BY prometheus)\n   - LOGGED_TO: Logging (application LOGGED_TO cloudwatch)\n   - ALERTED_BY: Alerting (service ALERTED_BY pagerduty)\n\n6. **Tool & Platform Relationships**:\n   - RUNS_ON: Execution environment (job RUNS_ON jenkins_agent)\n   - EXECUTED_BY: Tool execution (pipeline EXECUTED_BY github_actions)\n   - MANAGED_BY: Management relationships (build MANAGED_BY teamcity)\n   - INTEGRATED_WITH: Tool integration (jenkins INTEGRATED_WITH sonarqube)\n   - NOTIFIED_BY: Notifications (pipeline NOTIFIED_BY slack)\n   - REPORTED_TO: Reporting (test_results REPORTED_TO jira)\n\n7. **Quality & Compliance Relationships**:\n   - COMPLIANT_WITH: Compliance checking (code COMPLIANT_WITH security_policy)\n   - AUDITED_BY: Audit processes (deployment AUDITED_BY compliance_tool)\n   - APPROVED_BY: Approval workflows (deploy APPROVED_BY security_team)\n   - VALIDATED_BY: Validation processes (config VALIDATED_BY linting_tool)\n   - REVIEWED_BY: Code review (change REVIEWED_BY senior_developer)\n   - CERTIFIED_BY: Certification (release CERTIFIED_BY qa_team)\n\n# EXTRACTION RULES FOR CI/CD:\n\n1. Focus on pipeline stage dependencies and ordering\n2. Include build and deployment workflow relationships\n3. Capture artifact and package management relationships\n4. Extract from:\n   - Pipeline configuration files\n   - Build and deployment logs\n   - CI/CD platform configurations\n   - Infrastructure as Code files\n   - Monitoring and alerting configurations\n\n" ++ pyStr custom_prompt ++ "\n\n# EXAMPLES:\n- \"build stage precedes test stage\" \u2192 build_stage PRECEDES test_stage\n- \"pipeline deploys to production\" \u2192 pipeline DEPLOYS_TO production\n- \"build publishes to artifact repository\" \u2192 build PUBLISHES_TO artifact_repository\n- \"deployment monitored by Prometheus\" \u2192 deployment MONITORED_BY prometheus\n- \"pipeline notified by Slack\" \u2192 pipeline NOTIFIED_BY slack\n        ")]

/-- Embeds the template function `reflexion` of `graphiti_core/prompts/cicd/extract_edges.py`. -/
def reflexion (context : Ctx) : Except PyErr (List Message) := do
  let previous_episodes ← Ctx.getItem context "previous_episodes"
  let previous_episodes_items ← pyIterList previous_episodes
  let episode_content ← Ctx.getItem context "episode_content"
  let nodes ← Ctx.getItem context "nodes"
  let extracted_facts ← Ctx.getItem context "extracted_facts"
  pure [Message.mk "system" "You are an AI assistant that determines which CI/CD relationships have not been extracted from the given context",
    Message.mk "user" ("\n<PREVIOUS MESSAGES>\n" ++ jsonDumps (Val.list previous_episodes_items) ++ "\n</PREVIOUS MESSAGES>\n<CURRENT MESSAGE>\n" ++ pyStr episode_content ++ "\n</CURRENT MESSAGE>\n\n<EXTRACTED ENTITIES>\n" ++ pyStr nodes ++ "\n</EXTRACTED ENTITIES>\n\n<EXTRACTED FACTS>\n" ++ pyStr extracted_facts ++ "\n</EXTRACTED FACTS>\n\nGiven the above CI/CD context, check for missing:\n- Pipeline and stage relationships (TRIGGERED_BY, CONTAINS, PRECEDES, DEPENDS_ON)\n- Build and test relationships (BUILDS, TESTS, VALIDATES, SCANS)\n- Deployment and environment relationships (DEPLOYS_TO, PROMOTES_TO, ROLLS_BACK_TO)\n- Artifact and package relationships (PUBLISHES_TO, PULLS_FROM, STORES_IN)\n- Infrastructure and configuration relationships (PROVISIONED_BY, CONFIGURED_BY, MONITORED_BY)\n- Tool and platform relationships (RUNS_ON, EXECUTED_BY, INTEGRATED_WITH)\n- Quality and compliance relationships (COMPLIANT_WITH, AUDITED_BY, APPROVED_BY)\n\nFocus on CI/CD pipeline workflow and deployment relationships.\n")]

/-- Embeds the template function `extract_attributes` of `graphiti_core/prompts/cicd/extract_edges.py`. -/
def extract_attributes (context : Ctx) : Except PyErr (List Message) := do
  let episode_content ← Ctx.getItem context "episode_content"
  let reference_time ← Ctx.getItem context "reference_time"
  let fact ← Ctx.getItem context "fact"
  pure [Message.mk "system" "You are a helpful assistant that extracts CI/CD relationship properties.",
    Message.mk "user" ("\n<MESSAGE>\n" ++ jsonDumps episode_content ++ "\n</MESSAGE>\n<REFERENCE TIME>\n" ++ pyStr reference_time ++ "\n</REFERENCE TIME>\n\nGiven the above CI/CD content and the following relationship, update attributes based on:\n- Pipeline stage configurations and conditions\n- Build and deployment environment settings\n- Artifact versioning and storage information\n- Infrastructure provisioning details\n- Monitoring and alerting configurations\n- Security and compliance requirements\n- Tool integration and notification settings\n\n<FACT>\n" ++ pyStr fact ++ "\n</FACT>\n        ")]

/-- Embeds the `versions` dictionary of `graphiti_core/prompts/cicd/extract_edges.py`. -/
def versions : TemplateSet :=
  [("edge", edge),
   ("reflexion", reflexion),
   ("extract_attributes", extract_attributes)]

end CicdExtractEdges

namespace LogsExtractNodes

/-- Embeds the template function `extract_message` of `graphiti_core/prompts/observability/logs/extract_nodes.py`. -/
def extract_message (context : Ctx) : Except PyErr (List Message) := do
  let previous_episodes ← Ctx.getItem context "previous_episodes"
  let previous_episodes_items ← pyIterList previous_episodes
  let episode_content ← Ctx.getItem context "episode_content"
  let entity_types ← Ctx.getItem context "entity_types"
  let custom_prompt ← Ctx.getItem context "custom_prompt"
  pure [Message.mk "system" "You are an AI assistant specialized in extracting logging and observability entities.\n    Your primary focus is identifying logging systems, log sources, and log management tools from configurations and logs.",
    Message.mk "user" ("\n<PREVIOUS MESSAGES>\n" ++ jsonDumps (Val.list previous_episodes_items) ++ "\n</PREVIOUS MESSAGES>\n\n<CURRENT MESSAGE>\n" ++ pyStr episode_content ++ "\n</CURRENT MESSAGE>\n\n<ENTITY TYPES>\n" ++ pyStr entity_types ++ "\n</ENTITY TYPES>\n\nYou are analyzing logging and observability systems. Extract entities focusing on:\n\n## PRIMARY EXTRACTION TARGETS:\n\n1. **Logging Platforms & Systems**:\n   - ELK Stack (Elasticsearch, Logstash, Kibana)\n   - Splunk Enterprise and Cloud\n   - AWS CloudWatch Logs\n   - Azure Monitor Logs\n   - Google Cloud Logging\n   - Datadog Logs\n   - New Relic Logs\n   - Fluentd and Fluent Bit\n   - Logstash pipelines\n   - Graylog\n\n2. **Log Sources & Applications**:\n   - Application services and microservices\n   - Web servers (Nginx, Apache, IIS)\n   - Database systems (PostgreSQL, MySQL, MongoDB)\n   - Container platforms (Docker, Kubernetes)\n   - Cloud services and APIs\n   - Infrastructure components (servers, load balancers)\n   - Security systems and firewalls\n   - Network devices and routers\n\n3. **Log Management & Processing**:\n   - Log aggregators and collectors\n   - Log parsers and processors\n   - Log routing and forwarding systems\n   - Log retention and archival systems\n   - Log backup and recovery systems\n   - Log search and indexing engines\n   - Log analytics and reporting tools\n\n4. **Log Storage & Infrastructure**:\n   - Log storage systems and databases\n   - Log file systems and volumes\n   - Log backup storage (S3, Azure Blob, GCS)\n   - Log archival systems\n   - Log compression and deduplication tools\n   - Log encryption and security tools\n\n5. **Log Analysis & Visualization**:\n   - Log analysis dashboards\n   - Log visualization tools\n   - Log reporting systems\n   - Log alerting and notification systems\n   - Log correlation and analysis tools\n   - Log machine learning and AI tools\n\n6. **Log Security & Compliance**:\n   - Log security monitoring tools\n   - Log compliance and audit systems\n   - Log access control and authentication\n   - Log encryption and data protection\n   - Log retention policies and tools\n   - Log forensic analysis tools\n\n7. **Log Integration & APIs**:\n   - Log API endpoints and services\n   - Log integration platforms\n   - Log webhook and notification systems\n   - Log export and import tools\n   - Log synchronization systems\n   - Log federation and sharing tools\n\n## LOGGING-SPECIFIC RULES:\n- Extract logging platform and system names\n- Include log source application and service names\n- Capture log management tool names\n- Extract from logging configurations and manifests\n- Include environment names (prod, staging, dev)\n- Capture log storage and infrastructure names\n\n## LOGGING NAMING CONVENTIONS:\n- Logging platforms: use platform names (e.g., \"elasticsearch-cluster\", \"splunk-enterprise\")\n- Log sources: use application/service names (e.g., \"web-app-logs\", \"api-service-logs\")\n- Log storage: use storage system names (e.g., \"log-storage-s3\", \"log-backup-azure\")\n- Log dashboards: use dashboard names (e.g., \"application-logs-dashboard\", \"error-logs-view\")\n\n## DO NOT EXTRACT:\n- Generic log file names without context\n- Temporary log files or artifacts\n- Log configuration values or parameters\n- Personal information or credentials\n- Generic logging terms without specific instances\n\n" ++ pyStr custom_prompt ++ "\n")]

/-- Embeds the template function `extract_json` of `graphiti_core/prompts/observability/logs/extract_nodes.py`. -/
def extract_json (context : Ctx) : Except PyErr (List Message) := do
  let source_description ← Ctx.getItem context "source_description"
  let episode_content ← Ctx.getItem context "episode_content"
  let entity_types ← Ctx.getItem context "entity_types"
  let custom_prompt ← Ctx.getItem context "custom_prompt"
  pure [Message.mk "system" "You are an AI assistant specialized in extracting logging entities from JSON configurations.\n    Focus on logging platform configurations, log source definitions, and log management tool settings.",
    Message.mk "user" ("\n<SOURCE DESCRIPTION>:\n" ++ pyStr source_description ++ "\n</SOURCE DESCRIPTION>\n<JSON>\n" ++ pyStr episode_content ++ "\n</JSON>\n<ENTITY TYPES>\n" ++ pyStr entity_types ++ "\n</ENTITY TYPES>\n\nYou are analyzing JSON from logging systems. This could be:\n- Logging platform configurations\n- Log source definitions\n- Log management tool settings\n- Log storage configurations\n- Log analysis dashboard definitions\n- Log integration API responses\n\n## EXTRACTION FOCUS FOR LOGGING JSON:\n\n1. **From Logging Platform Configs**:\n   - Platform names and cluster names\n   - Index and index pattern names\n   - Pipeline and processor names\n   - Dashboard and visualization names\n   - Alert and notification names\n\n2. **From Log Source Definitions**:\n   - Application and service names\n   - Log file paths and names\n   - Container and pod names\n   - Infrastructure component names\n   - Log stream and topic names\n\n3. **From Log Management Tools**:\n   - Tool and system names\n   - Configuration and policy names\n   - Storage and backup system names\n   - Integration and API endpoint names\n   - Security and compliance tool names\n\n4. **From Log Analysis Configs**:\n   - Dashboard and report names\n   - Query and filter names\n   - Alert and notification names\n   - Visualization and chart names\n   - Export and integration names\n\n## LOGGING JSON SPECIFIC RULES:\n- Extract logging platform names from appropriate fields\n- Include log source application and service names\n- Capture log management tool and system names\n- Focus on log storage and infrastructure names\n- Skip generic configuration values\n\n" ++ pyStr custom_prompt ++ "\n")]

/-- Embeds the template function `extract_text` of `graphiti_core/prompts/observability/logs/extract_nodes.py`. -/
def extract_text (context : Ctx) : Except PyErr (List Message) := do
  let episode_content ← Ctx.getItem context "episode_content"
  let entity_types ← Ctx.getItem context "entity_types"
  let custom_prompt ← Ctx.getItem context "custom_prompt"
  pure [Message.mk "system" "You are an AI assistant specialized in extracting logging entities from documentation and logs.\n    Focus on logging documentation, log analysis reports, and logging system descriptions.",
    Message.mk "user" ("\n<TEXT>\n" ++ pyStr episode_content ++ "\n</TEXT>\n<ENTITY TYPES>\n" ++ pyStr entity_types ++ "\n</ENTITY TYPES>\n\nYou are analyzing text about logging systems. This could be:\n- Logging system documentation\n- Log analysis reports\n- Logging configuration guides\n- Log monitoring dashboards\n- Log troubleshooting guides\n- Logging architecture documentation\n\n## EXTRACTION FOCUS FOR LOGGING TEXT:\n\n1. **Logging Platform Information**:\n   - Platform names and descriptions\n   - Cluster and system names\n   - Index and pattern names\n   - Dashboard and visualization names\n   - Alert and notification names\n\n2. **Log Source Information**:\n   - Application and service names\n   - Infrastructure component names\n   - Log file and stream names\n   - Container and pod names\n   - Network and security device names\n\n3. **Log Management Information**:\n   - Tool and system names\n   - Storage and backup system names\n   - Processing and analysis tool names\n   - Integration and API names\n   - Security and compliance tool names\n\n4. **Log Analysis Information**:\n   - Dashboard and report names\n   - Query and filter names\n   - Alert and notification names\n   - Export and integration names\n   - Visualization and chart names\n\n## LOGGING TEXT SPECIFIC RULES:\n- Extract specific logging platform and tool names\n- Include environment prefixes/suffixes (prod-, -staging)\n- Capture log source application and service names\n- Focus on currently used logging tools and platforms\n- Extract from configuration examples and logs\n\n## LOGGING NAMING STANDARDS:\n- Use full logging platform names (e.g., \"elasticsearch-production-cluster\")\n- Include environment context (e.g., \"staging-application-logs\")\n- Maintain original naming conventions\n- Use canonical names for well-known logging platforms\n\n" ++ pyStr custom_prompt ++ "\n")]

/-- Embeds the template function `reflexion` of `graphiti_core/prompts/observability/logs/extract_nodes.py`. -/
def reflexion (context : Ctx) : Except PyErr (List Message) := do
  let previous_episodes ← Ctx.getItem context "previous_episodes"
  let previous_episodes_items ← pyIterList previous_episodes
  let episode_content ← Ctx.getItem context "episode_content"
  let extracted_entities ← Ctx.getItem context "extracted_entities"
  pure [Message.mk "system" "You are an AI assistant that determines which logging entities have not been extracted from the given context",
    Message.mk "user" ("\n<PREVIOUS MESSAGES>\n" ++ jsonDumps (Val.list previous_episodes_items) ++ "\n</PREVIOUS MESSAGES>\n<CURRENT MESSAGE>\n" ++ pyStr episode_content ++ "\n</CURRENT MESSAGE>\n\n<EXTRACTED ENTITIES>\n" ++ pyStr extracted_entities ++ "\n</EXTRACTED ENTITIES>\n\nGiven the above previous messages, current message, and list of extracted entities; determine if any logging entities haven\x27t been extracted.\n\nFocus on missing:\n- Logging platforms and systems\n- Log sources and applications\n- Log management and processing tools\n- Log storage and infrastructure\n- Log analysis and visualization tools\n- Log security and compliance tools\n- Log integration and API systems\n")]

/-- Embeds the template function `classify_nodes` of `graphiti_core/prompts/observability/logs/extract_nodes.py`. -/
def classify_nodes (context : Ctx) : Except PyErr (List Message) := do
  let previous_episodes ← Ctx.getItem context "previous_episodes"
  let previous_episodes_items ← pyIterList previous_episodes
  let episode_content ← Ctx.getItem context "episode_content"
  let extracted_entities ← Ctx.getItem context "extracted_entities"
  let entity_types ← Ctx.getItem context "entity_types"
  pure [Message.mk "system" "You are an AI assistant that classifies logging entity nodes given the context from which they were extracted",
    Message.mk "user" ("\n    <PREVIOUS MESSAGES>\n    " ++ jsonDumps (Val.list previous_episodes_items) ++ "\n    </PREVIOUS MESSAGES>\n    <CURRENT MESSAGE>\n    " ++ pyStr episode_content ++ "\n    </CURRENT MESSAGE>\n    \n    <EXTRACTED ENTITIES>\n    " ++ pyStr extracted_entities ++ "\n    </EXTRACTED ENTITIES>\n    \n    <ENTITY TYPES>\n    " ++ pyStr entity_types ++ "\n    </ENTITY TYPES>\n    \n    Given the above conversation, extracted entities, and provided entity types and their descriptions, classify the extracted logging entities.\n    \n    Guidelines:\n    1. Each entity must have exactly one type\n    2. Only use the provided ENTITY TYPES as types, do not use additional types to classify entities.\n    3. If none of the provided entity types accurately classify an extracted node, the type should be set to None\n    4. Consider logging-specific context when classifying (e.g., logging platforms, log sources, log management tools)\n")]

/-- Embeds the template function `extract_attributes` of `graphiti_core/prompts/observability/logs/extract_nodes.py`. -/
def extract_attributes (context : Ctx) : Except PyErr (List Message) := do
  let previous_episodes ← Ctx.getItem context "previous_episodes"
  let episode_content ← Ctx.getItem context "episode_content"
  let node ← Ctx.getItem context "node"
  pure [Message.mk "system" "You are a helpful assistant that extracts logging entity properties from the provided text.",
    Message.mk "user" ("\n\n        <MESSAGES>\n        " ++ jsonDumps previous_episodes ++ "\n        " ++ jsonDumps episode_content ++ "\n        </MESSAGES>\n\n        Given the above MESSAGES and the following ENTITY, update any of its attributes based on the information provided\n        in MESSAGES. Use the provided attribute descriptions to better understand how each attribute should be determined.\n\n        Guidelines:\n        1. Do not hallucinate entity property values if they cannot be found in the current context.\n        2. Only use the provided MESSAGES and ENTITY to set attribute values.\n        3. The summary attribute represents a summary of the ENTITY, and should be updated with new information about the Entity from the MESSAGES. \n            Summaries must be no longer than 250 words.\n        4. Consider logging-specific attributes like log formats, retention policies, storage configurations, etc.\n        \n        <ENTITY>\n        " ++ pyStr node ++ "\n        </ENTITY>\n        ")]

/-- Embeds the `versions` dictionary of `graphiti_core/prompts/observability/logs/extract_nodes.py`. -/
def versions : TemplateSet :=
  [("extract_message", extract_message),
   ("extract_json", extract_json),
   ("extract_text", extract_text),
   ("reflexion", reflexion),
   ("classify_nodes", classify_nodes),
   ("extract_attributes", extract_attributes)]

end LogsExtractNodes

namespace MetricsExtractNodes

/-- Embeds the template function `extract_message` of `graphiti_core/prompts/observability/metrics/extract_nodes.py`. -/
def extract_message (context : Ctx) : Except PyErr (List Message) := do
  let previous_episodes ← Ctx.getItem context "previous_episodes"
  let previous_episodes_items ← pyIterList previous_episodes
  let episode_content ← Ctx.getItem context "episode_content"
  let entity_types ← Ctx.getItem context "entity_types"
  let custom_prompt ← Ctx.getItem context "custom_prompt"
  pure [Message.mk "system" "You are an AI assistant specialized in extracting metrics and monitoring entities.\n    Your primary focus is identifying metrics collection systems, monitoring tools, and performance measurement platforms.",
    Message.mk "user" ("\n<PREVIOUS MESSAGES>\n" ++ jsonDumps (Val.list previous_episodes_items) ++ "\n</PREVIOUS MESSAGES>\n\n<CURRENT MESSAGE>\n" ++ pyStr episode_content ++ "\n</CURRENT MESSAGE>\n\n<ENTITY TYPES>\n" ++ pyStr entity_types ++ "\n</ENTITY TYPES>\n\nYou are analyzing metrics and monitoring systems. Extract entities focusing on:\n\n## PRIMARY EXTRACTION TARGETS:\n\n1. **Metrics Collection Platforms**:\n   - Prometheus and Prometheus-compatible systems\n   - Grafana and visualization platforms\n   - Datadog monitoring and analytics\n   - New Relic APM and monitoring\n   - AWS CloudWatch Metrics\n   - Azure Monitor Metrics\n   - Google Cloud Monitoring\n   - InfluxDB and time-series databases\n   - OpenTelemetry collectors\n   - StatsD and metrics aggregators\n\n2. **Application Performance Monitoring (APM)**:\n   - APM tools and platforms\n   - Application performance dashboards\n   - Service performance monitors\n   - Database performance monitoring\n   - API performance tracking\n   - User experience monitoring\n   - Real user monitoring (RUM)\n   - Synthetic monitoring tools\n\n3. **Infrastructure Monitoring**:\n   - Server and host monitoring\n   - Container and Kubernetes monitoring\n   - Network monitoring systems\n   - Storage monitoring tools\n   - Cloud resource monitoring\n   - Virtual machine monitoring\n   - Load balancer monitoring\n   - Database monitoring systems\n\n4. **Business Metrics & KPIs**:\n   - Business intelligence dashboards\n   - Key performance indicators\n   - Revenue and financial metrics\n   - User engagement metrics\n   - Conversion tracking systems\n   - Customer satisfaction metrics\n   - Operational efficiency metrics\n   - SLA and SLO monitoring\n\n5. **Alerting & Notification Systems**:\n   - Alert management platforms\n   - Notification systems (PagerDuty, Slack, etc.)\n   - Escalation management tools\n   - Incident response systems\n   - On-call management platforms\n   - Alert routing and filtering\n   - Alert correlation engines\n   - Status page systems\n\n6. **Metrics Storage & Processing**:\n   - Time-series databases\n   - Metrics aggregation systems\n   - Data retention and archival\n   - Metrics compression and optimization\n   - Metrics federation and sharing\n   - Metrics backup and recovery\n   - Metrics security and access control\n\n7. **Custom Metrics & Instrumentation**:\n   - Custom metric collectors\n   - Application instrumentation\n   - Business logic metrics\n   - Custom dashboards and reports\n   - Metric exporters and integrations\n   - Custom alerting rules\n   - Metric transformation tools\n\n## METRICS-SPECIFIC RULES:\n- Extract metrics platform and system names\n- Include monitoring tool and dashboard names\n- Capture metric collection agent names\n- Extract from monitoring configurations and manifests\n- Include environment names (prod, staging, dev)\n- Capture alerting and notification system names\n\n## METRICS NAMING CONVENTIONS:\n- Metrics platforms: use platform names (e.g., \"prometheus-cluster\", \"grafana-instance\")\n- Monitoring tools: use tool names (e.g., \"datadog-agent\", \"newrelic-apm\")\n- Dashboards: use dashboard names (e.g., \"application-metrics-dashboard\", \"infrastructure-overview\")\n- Alerts: use alert rule names (e.g., \"high-cpu-alert\", \"service-down-notification\")\n\n## DO NOT EXTRACT:\n- Generic metric names without context\n- Temporary metric files or artifacts\n- Metric configuration values or parameters\n- Personal information or credentials\n- Generic monitoring terms without specific instances\n\n" ++ pyStr custom_prompt ++ "\n")]

/-- Embeds the template function `extract_json` of `graphiti_core/prompts/observability/metrics/extract_nodes.py`. -/
def extract_json (context : Ctx) : Except PyErr (List Message) := do
  let source_description ← Ctx.getItem context "source_description"
  let episode_content ← Ctx.getItem context "episode_content"
  let entity_types ← Ctx.getItem context "entity_types"
  let custom_prompt ← Ctx.getItem context "custom_prompt"
  pure [Message.mk "system" "You are an AI assistant specialized in extracting metrics entities from JSON configurations.\n    Focus on monitoring platform configurations, metric definitions, and alerting rule settings.",
    Message.mk "user" ("\n<SOURCE DESCRIPTION>:\n" ++ pyStr source_description ++ "\n</SOURCE DESCRIPTION>\n<JSON>\n" ++ pyStr episode_content ++ "\n</JSON>\n<ENTITY TYPES>\n" ++ pyStr entity_types ++ "\n</ENTITY TYPES>\n\nYou are analyzing JSON from metrics systems. This could be:\n- Monitoring platform configurations\n- Metric definitions and rules\n- Alerting and notification settings\n- Dashboard configurations\n- Metrics collection agent settings\n- APM tool configurations\n\n## EXTRACTION FOCUS FOR METRICS JSON:\n\n1. **From Monitoring Platform Configs**:\n   - Platform names and cluster names\n   - Metric and alert rule names\n   - Dashboard and visualization names\n   - Data source and target names\n   - Integration and API endpoint names\n\n2. **From Metric Definitions**:\n   - Metric names and identifiers\n   - Collection agent names\n   - Data source and target names\n   - Processing and transformation names\n   - Storage and retention policy names\n\n3. **From Alerting Configurations**:\n   - Alert rule names and identifiers\n   - Notification channel names\n   - Escalation policy names\n   - Incident management system names\n   - Status page and communication names\n\n4. **From Dashboard Configs**:\n   - Dashboard and panel names\n   - Visualization and chart names\n   - Data source and query names\n   - Filter and variable names\n   - Export and sharing configuration names\n\n## METRICS JSON SPECIFIC RULES:\n- Extract monitoring platform names from appropriate fields\n- Include metric collection agent and tool names\n- Capture alerting and notification system names\n- Focus on dashboard and visualization names\n- Skip generic configuration values\n\n" ++ pyStr custom_prompt ++ "\n")]

/-- Embeds the template function `extract_text` of `graphiti_core/prompts/observability/metrics/extract_nodes.py`. -/
def extract_text (context : Ctx) : Except PyErr (List Message) := do
  let episode_content ← Ctx.getItem context "episode_content"
  let entity_types ← Ctx.getItem context "entity_types"
  let custom_prompt ← Ctx.getItem context "custom_prompt"
  pure [Message.mk "system" "You are an AI assistant specialized in extracting metrics entities from documentation and reports.\n    Focus on monitoring documentation, performance reports, and metrics system descriptions.",
    Message.mk "user" ("\n<TEXT>\n" ++ pyStr episode_content ++ "\n</TEXT>\n<ENTITY TYPES>\n" ++ pyStr entity_types ++ "\n</ENTITY TYPES>\n\nYou are analyzing text about metrics systems. This could be:\n- Monitoring system documentation\n- Performance analysis reports\n- Metrics configuration guides\n- Monitoring dashboards\n- Alerting and notification guides\n- Metrics architecture documentation\n\n## EXTRACTION FOCUS FOR METRICS TEXT:\n\n1. **Monitoring Platform Information**:\n   - Platform names and descriptions\n   - Cluster and system names\n   - Metric and alert rule names\n   - Dashboard and visualization names\n   - Integration and API names\n\n2. **Metrics Collection Information**:\n   - Collection agent and tool names\n   - Data source and target names\n   - Processing and transformation names\n   - Storage and retention system names\n   - Security and access control names\n\n3. **Alerting and Notification Information**:\n   - Alert rule and policy names\n   - Notification channel names\n   - Escalation and incident management names\n   - Status page and communication names\n   - Integration and webhook names\n\n4. **Performance and APM Information**:\n   - APM tool and platform names\n   - Performance dashboard names\n   - Service and application monitor names\n   - Database and infrastructure monitor names\n   - User experience monitoring names\n\n## METRICS TEXT SPECIFIC RULES:\n- Extract specific monitoring platform and tool names\n- Include environment prefixes/suffixes (prod-, -staging)\n- Capture metric collection agent and system names\n- Focus on currently used monitoring tools and platforms\n- Extract from configuration examples and reports\n\n## METRICS NAMING STANDARDS:\n- Use full monitoring platform names (e.g., \"prometheus-production-cluster\")\n- Include environment context (e.g., \"staging-application-metrics\")\n- Maintain original naming conventions\n- Use canonical names for well-known monitoring platforms\n\n" ++ pyStr custom_prompt ++ "\n")]

/-- Embeds the template function `reflexion` of `graphiti_core/prompts/observability/metrics/extract_nodes.py`. -/
def reflexion (context : Ctx) : Except PyErr (List Message) := do
  let previous_episodes ← Ctx.getItem context "previous_episodes"
  let previous_episodes_items ← pyIterList previous_episodes
  let episode_content ← Ctx.getItem context "episode_content"
  let extracted_entities ← Ctx.getItem context "extracted_entities"
  pure [Message.mk "system" "You are an AI assistant that determines which metrics entities have not been extracted from the given context",
    Message.mk "user" ("\n<PREVIOUS MESSAGES>\n" ++ jsonDumps (Val.list previous_episodes_items) ++ "\n</PREVIOUS MESSAGES>\n<CURRENT MESSAGE>\n" ++ pyStr episode_content ++ "\n</CURRENT MESSAGE>\n\n<EXTRACTED ENTITIES>\n" ++ pyStr extracted_entities ++ "\n</EXTRACTED ENTITIES>\n\nGiven the above previous messages, current message, and list of extracted entities; determine if any metrics entities haven\x27t been extracted.\n\nFocus on missing:\n- Metrics collection platforms and systems\n- Application performance monitoring tools\n- Infrastructure monitoring systems\n- Business metrics and KPI tools\n- Alerting and notification systems\n- Metrics storage and processing tools\n- Custom metrics and instrumentation tools\n")]

/-- Embeds the template function `classify_nodes` of `graphiti_core/prompts/observability/metrics/extract_nodes.py`. -/
def classify_nodes (context : Ctx) : Except PyErr (List Message) := do
  let previous_episodes ← Ctx.getItem context "previous_episodes"
  let previous_episodes_items ← pyIterList previous_episodes
  let episode_content ← Ctx.getItem context "episode_content"
  let extracted_entities ← Ctx.getItem context "extracted_entities"
  let entity_types ← Ctx.getItem context "entity_types"
  pure [Message.mk "system" "You are an AI assistant that classifies metrics entity nodes given the context from which they were extracted",
    Message.mk "user" ("\n    <PREVIOUS MESSAGES>\n    " ++ jsonDumps (Val.list previous_episodes_items) ++ "\n    </PREVIOUS MESSAGES>\n    <CURRENT MESSAGE>\n    " ++ pyStr episode_content ++ "\n    </CURRENT MESSAGE>\n    \n    <EXTRACTED ENTITIES>\n    " ++ pyStr extracted_entities ++ "\n    </EXTRACTED ENTITIES>\n    \n    <ENTITY TYPES>\n    " ++ pyStr entity_types ++ "\n    </ENTITY TYPES>\n    \n    Given the above conversation, extracted entities, and provided entity types and their descriptions, classify the extracted metrics entities.\n    \n    Guidelines:\n    1. Each entity must have exactly one type\n    2. Only use the provided ENTITY TYPES as types, do not use additional types to classify entities.\n    3. If none of the provided entity types accurately classify an extracted node, the type should be set to None\n    4. Consider metrics-specific context when classifying (e.g., monitoring platforms, APM tools, alerting systems)\n")]

/-- Embeds the template function `extract_attributes` of `graphiti_core/prompts/observability/metrics/extract_nodes.py`. -/
def extract_attributes (context : Ctx) : Except PyErr (List Message) := do
  let previous_episodes ← Ctx.getItem context "previous_episodes"
  let episode_content ← Ctx.getItem context "episode_content"
  let node ← Ctx.getItem context "node"
  pure [Message.mk "system" "You are a helpful assistant that extracts metrics entity properties from the provided text.",
    Message.mk "user" ("\n\n        <MESSAGES>\n        " ++ jsonDumps previous_episodes ++ "\n        " ++ jsonDumps episode_content ++ "\n        </MESSAGES>\n\n        Given the above MESSAGES and the following ENTITY, update any of its attributes based on the information provided\n        in MESSAGES. Use the provided attribute descriptions to better understand how each attribute should be determined.\n\n        Guidelines:\n        1. Do not hallucinate entity property values if they cannot be found in the current context.\n        2. Only use the provided MESSAGES and ENTITY to set attribute values.\n        3. The summary attribute represents a summary of the ENTITY, and should be updated with new information about the Entity from the MESSAGES. \n            Summaries must be no longer than 250 words.\n        4. Consider metrics-specific attributes like collection intervals, retention policies, alert thresholds, etc.\n        \n        <ENTITY>\n        " ++ pyStr node ++ "\n        </ENTITY>\n        ")]

/-- Embeds the `versions` dictionary of `graphiti_core/prompts/observability/metrics/extract_nodes.py`. -/
def versions : TemplateSet :=
  [("extract_message", extract_message),
   ("extract_json", extract_json),
   ("extract_text", extract_text),
   ("reflexion", reflexion),
   ("classify_nodes", classify_nodes),
   ("extract_attributes", extract_attributes)]

end MetricsExtractNodes

namespace MetricsExtractEdges

/-- Embeds the template function `edge` of `graphiti_core/prompts/observability/metrics/extract_edges.py`. -/
def edge (context : Ctx) : Except PyErr (List Message) := do
  let previous_episodes ← Ctx.getItem context "previous_episodes"
  let previous_episodes_items ← pyIterList previous_episodes
  let episode_content ← Ctx.getItem context "episode_content"
  let nodes ← Ctx.getItem context "nodes"
  let reference_time ← Ctx.getItem context "reference_time"
  let edge_types ← Ctx.getItem context "edge_types"
  let custom_prompt ← Ctx.getItem context "custom_prompt"
  pure [Message.mk "system" "You are an expert at extracting metrics collection and monitoring relationships. Focus on metrics collection dependencies, monitoring system connections, and performance measurement relationships.",
    Message.mk "user" ("\n<PREVIOUS_MESSAGES>\n" ++ jsonDumps (Val.list previous_episodes_items) ++ "\n</PREVIOUS_MESSAGES>\n\n<CURRENT_MESSAGE>\n" ++ pyStr episode_content ++ "\n</CURRENT MESSAGE>\n\n<ENTITIES>\n" ++ pyStr nodes ++ " \n</ENTITIES>\n\n<REFERENCE_TIME>\n" ++ pyStr reference_time ++ "\n</REFERENCE_TIME>\n\n<FACT TYPES>\n" ++ pyStr edge_types ++ "\n</FACT TYPES>\n\n# TASK\nExtract relationships between metrics and monitoring entities.\n\n# METRICS-SPECIFIC RELATIONSHIPS TO EXTRACT:\n\n1. **Metrics Collection Relationships**:\n   - COLLECTS_FROM: Metrics collection (prometheus COLLECTS_FROM application)\n   - EXPORTS_TO: Metrics export (application EXPORTS_TO prometheus)\n   - SCRAPES: Metrics scraping (prometheus SCRAPES node_exporter)\n   - PUSHES_TO: Metrics pushing (application PUSHES_TO pushgateway)\n   - PULLS_FROM: Metrics pulling (grafana PULLS_FROM prometheus)\n   - STORES_IN: Metrics storage (prometheus STORES_IN tsdb)\n\n2. **Monitoring & Alerting Relationships**:\n   - MONITORS: Monitoring relationships (datadog MONITORS web_service)\n   - ALERTS_ON: Alerting relationships (alert_rule ALERTS_ON high_cpu)\n   - NOTIFIES: Notification relationships (alert NOTIFIES slack_channel)\n   - ESCALATES_TO: Escalation relationships (alert ESCALATES_TO oncall_team)\n   - CORRELATES_WITH: Alert correlation (cpu_alert CORRELATES_WITH memory_alert)\n   - TRIGGERS: Alert triggering (threshold_breach TRIGGERS incident)\n\n3. **Dashboard & Visualization Relationships**:\n   - DISPLAYS: Dashboard display (dashboard DISPLAYS application_metrics)\n   - QUERIES: Data querying (dashboard QUERIES prometheus)\n   - VISUALIZES: Data visualization (chart VISUALIZES response_time)\n   - FILTERS: Data filtering (dashboard FILTERS by_environment)\n   - EXPORTS: Data export (dashboard EXPORTS to_pdf)\n   - SHARES: Dashboard sharing (dashboard SHARES with_team)\n\n4. **APM & Performance Relationships**:\n   - TRACKS: Performance tracking (newrelic TRACKS api_performance)\n   - MEASURES: Performance measurement (apm MEASURES response_time)\n   - PROFILES: Performance profiling (tool PROFILES cpu_usage)\n   - ANALYZES: Performance analysis (apm ANALYZES slow_queries)\n   - OPTIMIZES: Performance optimization (tool OPTIMIZES database_queries)\n   - BENCHMARKS: Performance benchmarking (tool BENCHMARKS throughput)\n\n5. **Infrastructure Monitoring Relationships**:\n   - WATCHES: Infrastructure watching (monitor WATCHES server_health)\n   - CHECKS: Health checking (health_check CHECKS service_endpoint)\n   - PROBES: Service probing (probe PROBES load_balancer)\n   - PINGS: Network pinging (monitor PINGS network_device)\n   - SCANS: Infrastructure scanning (scanner SCANS security_vulnerabilities)\n   - AUDITS: Security auditing (auditor AUDITS access_logs)\n\n6. **Data Flow & Processing Relationships**:\n   - PROCESSES: Data processing (processor PROCESSES raw_metrics)\n   - TRANSFORMS: Data transformation (transformer TRANSFORMS metric_format)\n   - AGGREGATES: Data aggregation (aggregator AGGREGATES time_series)\n   - FILTERS: Data filtering (filter FILTERS error_metrics)\n   - ENRICHES: Data enrichment (enricher ENRICHES with_metadata)\n   - VALIDATES: Data validation (validator VALIDATES metric_quality)\n\n7. **Integration & API Relationships**:\n   - INTEGRATES_WITH: Tool integration (prometheus INTEGRATES_WITH grafana)\n   - CONNECTS_TO: API connections (dashboard CONNECTS_TO metrics_api)\n   - WEBHOOKS_TO: Webhook relationships (alert WEBHOOKS_TO slack)\n   - CALLS: API calling (collector CALLS metrics_endpoint)\n   - SUBSCRIBES_TO: Event subscription (monitor SUBSCRIBES_TO health_events)\n   - PUBLISHES_TO: Event publishing (service PUBLISHES_TO metrics_topic)\n\n8. **Storage & Retention Relationships**:\n   - BACKS_UP_TO: Data backup (metrics BACKS_UP_TO s3_bucket)\n   - ARCHIVES_TO: Data archival (old_metrics ARCHIVES_TO cold_storage)\n   - COMPRESSES: Data compression (compressor COMPRESSES time_series)\n   - DEDUPLICATES: Data deduplication (deduplicator DEDUPLICATES metrics)\n   - ENCRYPTS: Data encryption (encryptor ENCRYPTS sensitive_metrics)\n   - RETENTION_POLICY: Retention management (policy RETENTION_POLICY metrics)\n\n# EXTRACTION RULES FOR METRICS:\n\n1. Focus on metrics collection and monitoring dependencies\n2. Include alerting and notification workflow relationships\n3. Capture dashboard and visualization data flow relationships\n4. Extract from:\n   - Monitoring platform configurations\n   - Metrics collection agent settings\n   - Alerting and notification configurations\n   - Dashboard and visualization definitions\n   - APM and performance monitoring setups\n\n" ++ pyStr custom_prompt ++ "\n\n# EXAMPLES:\n- \"Prometheus collects metrics from application\" \u2192 prometheus COLLECTS_FROM application\n- \"Alert rule monitors high CPU usage\" \u2192 alert_rule ALERTS_ON high_cpu\n- \"Dashboard displays application metrics\" \u2192 dashboard DISPLAYS application_metrics\n- \"New Relic tracks API performance\" \u2192 newrelic TRACKS api_performance\n- \"Grafana queries Prometheus\" \u2192 grafana QUERIES prometheus\n        ")]

/-- Embeds the template function `reflexion` of `graphiti_core/prompts/observability/metrics/extract_edges.py`. -/
def reflexion (context : Ctx) : Except PyErr (List Message) := do
  let previous_episodes ← Ctx.getItem context "previous_episodes"
  let previous_episodes_items ← pyIterList previous_episodes
  let episode_content ← Ctx.getItem context "episode_content"
  let nodes ← Ctx.getItem context "nodes"
  let extracted_facts ← Ctx.getItem context "extracted_facts"
  pure [Message.mk "system" "You are an AI assistant that determines which metrics relationships have not been extracted from the given context",
    Message.mk "user" ("\n<PREVIOUS MESSAGES>\n" ++ jsonDumps (Val.list previous_episodes_items) ++ "\n</PREVIOUS MESSAGES>\n<CURRENT MESSAGE>\n" ++ pyStr episode_content ++ "\n</CURRENT MESSAGE>\n\n<EXTRACTED ENTITIES>\n" ++ pyStr nodes ++ "\n</EXTRACTED ENTITIES>\n\n<EXTRACTED FACTS>\n" ++ pyStr extracted_facts ++ "\n</EXTRACTED FACTS>\n\nGiven the above metrics context, check for missing:\n- Metrics collection relationships (COLLECTS_FROM, EXPORTS_TO, SCRAPES, PUSHES_TO)\n- Monitoring and alerting relationships (MONITORS, ALERTS_ON, NOTIFIES, ESCALATES_TO)\n- Dashboard and visualization relationships (DISPLAYS, QUERIES, VISUALIZES, FILTERS)\n- APM and performance relationships (TRACKS, MEASURES, PROFILES, ANALYZES)\n- Infrastructure monitoring relationships (WATCHES, CHECKS, PROBES, PINGS)\n- Data flow and processing relationships (PROCESSES, TRANSFORMS, AGGREGATES, FILTERS)\n- Integration and API relationships (INTEGRATES_WITH, CONNECTS_TO, WEBHOOKS_TO, CALLS)\n- Storage and retention relationships (BACKS_UP_TO, ARCHIVES_TO, COMPRESSES, ENCRYPTS)\n\nFocus on metrics collection and monitoring system relationships.\n")]

/-- Embeds the template function `extract_attributes` of `graphiti_core/prompts/observability/metrics/extract_edges.py`. -/
def extract_attributes (context : Ctx) : Except PyErr (List Message) := do
  let episode_content ← Ctx.getItem context "episode_content"
  let reference_time ← Ctx.getItem context "reference_time"
  let fact ← Ctx.getItem context "fact"
  pure [Message.mk "system" "You are a helpful assistant that extracts metrics relationship properties.",
    Message.mk "user" ("\n<MESSAGE>\n" ++ jsonDumps episode_content ++ "\n</MESSAGE>\n<REFERENCE TIME>\n" ++ pyStr reference_time ++ "\n</REFERENCE TIME>\n\nGiven the above metrics content and the following relationship, update attributes based on:\n- Metrics collection intervals and frequencies\n- Alert thresholds and conditions\n- Dashboard refresh rates and time ranges\n- Data retention and archival policies\n- Integration configurations and endpoints\n- Performance measurement criteria\n- Monitoring scope and coverage\n\n<FACT>\n" ++ pyStr fact ++ "\n</FACT>\n        ")]

/-- Embeds the `versions` dictionary of `graphiti_core/prompts/observability/metrics/extract_edges.py`. -/
def versions : TemplateSet :=
  [("edge", edge),
   ("reflexion", reflexion),
   ("extract_attributes", extract_attributes)]

end MetricsExtractEdges

namespace TracesExtractNodes

/-- Embeds the template function `extract_message` of `graphiti_core/prompts/observability/traces/extract_nodes.py`. -/
def extract_message (context : Ctx) : Except PyErr (List Message) := do
  let previous_episodes ← Ctx.getItem context "previous_episodes"
  let previous_episodes_items ← pyIterList previous_episodes
  let episode_content ← Ctx.getItem context "episode_content"
  let entity_types ← Ctx.getItem context "entity_types"
  let custom_prompt ← Ctx.getItem context "custom_prompt"
  pure [Message.mk "system" "You are an AI assistant specialized in extracting distributed tracing entities.\n    Your primary focus is identifying tracing systems, trace collection tools, and trace analysis platforms.",
    Message.mk "user" ("\n<PREVIOUS MESSAGES>\n" ++ jsonDumps (Val.list previous_episodes_items) ++ "\n</PREVIOUS MESSAGES>\n\n<CURRENT MESSAGE>\n" ++ pyStr episode_content ++ "\n</CURRENT MESSAGE>\n\n<ENTITY TYPES>\n" ++ pyStr entity_types ++ "\n</ENTITY TYPES>\n\nYou are analyzing distributed tracing systems. Extract entities focusing on:\n\n## PRIMARY EXTRACTION TARGETS:\n\n1. **Distributed Tracing Platforms**:\n   - Jaeger distributed tracing system\n   - Zipkin distributed tracing\n   - AWS X-Ray tracing service\n   - Azure Application Insights\n   - Google Cloud Trace\n   - Datadog APM tracing\n   - New Relic distributed tracing\n   - OpenTelemetry tracing\n   - Lightstep tracing platform\n   - Honeycomb tracing\n\n2. **Trace Collection & Instrumentation**:\n   - Trace collectors and agents\n   - Application instrumentation libraries\n   - Auto-instrumentation tools\n   - Manual instrumentation code\n   - Trace sampling configurations\n   - Trace context propagation\n   - Trace correlation systems\n   - Trace enrichment tools\n\n3. **Trace Storage & Processing**:\n   - Trace storage systems and databases\n   - Trace indexing and search engines\n   - Trace compression and optimization\n   - Trace retention and archival systems\n   - Trace backup and recovery\n   - Trace security and access control\n   - Trace federation and sharing\n   - Trace data lakes and warehouses\n\n4. **Trace Analysis & Visualization**:\n   - Trace analysis dashboards\n   - Trace visualization tools\n   - Trace query and search interfaces\n   - Trace comparison and diff tools\n   - Trace performance analysis\n   - Trace dependency mapping\n   - Trace anomaly detection\n   - Trace machine learning tools\n\n5. **Service Mesh & Network Tracing**:\n   - Service mesh platforms (Istio, Linkerd, Consul)\n   - Network tracing tools\n   - Load balancer tracing\n   - API gateway tracing\n   - Proxy tracing (Envoy, HAProxy)\n   - Network flow analysis\n   - Traffic routing tracing\n   - Circuit breaker tracing\n\n6. **Database & Storage Tracing**:\n   - Database query tracing\n   - Storage operation tracing\n   - Cache tracing and analysis\n   - Message queue tracing\n   - Event streaming tracing\n   - File system operation tracing\n   - Backup and restore tracing\n   - Data migration tracing\n\n7. **Security & Compliance Tracing**:\n   - Security audit tracing\n   - Compliance monitoring tracing\n   - Access control tracing\n   - Authentication tracing\n   - Authorization tracing\n   - Data access tracing\n   - Privacy compliance tracing\n   - Forensic analysis tracing\n\n8. **Custom Trace Applications**:\n   - Business process tracing\n   - User journey tracing\n   - Workflow tracing\n   - Custom trace collectors\n   - Trace correlation with business metrics\n   - Custom trace analysis tools\n   - Trace-based alerting\n   - Trace-driven automation\n\n## TRACING-SPECIFIC RULES:\n- Extract tracing platform and system names\n- Include trace collection agent and tool names\n- Capture trace analysis and visualization tool names\n- Extract from tracing configurations and manifests\n- Include environment names (prod, staging, dev)\n- Capture service mesh and network tracing names\n\n## TRACING NAMING CONVENTIONS:\n- Tracing platforms: use platform names (e.g., \"jaeger-cluster\", \"zipkin-instance\")\n- Trace collectors: use collector names (e.g., \"jaeger-agent\", \"otlp-collector\")\n- Trace dashboards: use dashboard names (e.g., \"service-trace-dashboard\", \"latency-analysis\")\n- Trace services: use service names (e.g., \"user-service-traces\", \"payment-api-traces\")\n\n## DO NOT EXTRACT:\n- Generic trace names without context\n- Temporary trace files or artifacts\n- Trace configuration values or parameters\n- Personal information or credentials\n- Generic tracing terms without specific instances\n\n" ++ pyStr custom_prompt ++ "\n")]

/-- Embeds the template function `extract_json` of `graphiti_core/prompts/observability/traces/extract_nodes.py`. -/
def extract_json (context : Ctx) : Except PyErr (List Message) := do
  let source_description ← Ctx.getItem context "source_description"
  let episode_content ← Ctx.getItem context "episode_content"
  let entity_types ← Ctx.getItem context "entity_types"
  let custom_prompt ← Ctx.getItem context "custom_prompt"
  pure [Message.mk "system" "You are an AI assistant specialized in extracting tracing entities from JSON configurations.\n    Focus on tracing platform configurations, trace collection settings, and trace analysis tool configurations.",
    Message.mk "user" ("\n<SOURCE DESCRIPTION>:\n" ++ pyStr source_description ++ "\n</SOURCE DESCRIPTION>\n<JSON>\n" ++ pyStr episode_content ++ "\n</JSON>\n<ENTITY TYPES>\n" ++ pyStr entity_types ++ "\n</ENTITY TYPES>\n\nYou are analyzing JSON from tracing systems. This could be:\n- Tracing platform configurations\n- Trace collection agent settings\n- Trace analysis tool configurations\n- Service mesh configurations\n- Trace storage settings\n- Trace visualization configurations\n\n## EXTRACTION FOCUS FOR TRACING JSON:\n\n1. **From Tracing Platform Configs**:\n   - Platform names and cluster names\n   - Trace collector and agent names\n   - Storage and backend system names\n   - Query and search interface names\n   - Integration and API endpoint names\n\n2. **From Trace Collection Configs**:\n   - Collection agent and tool names\n   - Instrumentation library names\n   - Sampling and filtering configuration names\n   - Context propagation system names\n   - Trace correlation tool names\n\n3. **From Service Mesh Configs**:\n   - Service mesh platform names\n   - Proxy and sidecar names\n   - Traffic management rule names\n   - Security and policy names\n   - Observability integration names\n\n4. **From Trace Analysis Configs**:\n   - Analysis dashboard and tool names\n   - Query and search interface names\n   - Visualization and chart names\n   - Alert and notification names\n   - Export and integration names\n\n## TRACING JSON SPECIFIC RULES:\n- Extract tracing platform names from appropriate fields\n- Include trace collection agent and tool names\n- Capture trace analysis and visualization tool names\n- Focus on service mesh and network tracing names\n- Skip generic configuration values\n\n" ++ pyStr custom_prompt ++ "\n")]

/-- Embeds the template function `extract_text` of `graphiti_core/prompts/observability/traces/extract_nodes.py`. -/
def extract_text (context : Ctx) : Except PyErr (List Message) := do
  let episode_content ← Ctx.getItem context "episode_content"
  let entity_types ← Ctx.getItem context "entity_types"
  let custom_prompt ← Ctx.getItem context "custom_prompt"
  pure [Message.mk "system" "You are an AI assistant specialized in extracting tracing entities from documentation and reports.\n    Focus on tracing documentation, trace analysis reports, and distributed tracing system descriptions.",
    Message.mk "user" ("\n<TEXT>\n" ++ pyStr episode_content ++ "\n</TEXT>\n<ENTITY TYPES>\n" ++ pyStr entity_types ++ "\n</ENTITY TYPES>\n\nYou are analyzing text about tracing systems. This could be:\n- Tracing system documentation\n- Trace analysis reports\n- Tracing configuration guides\n- Trace visualization dashboards\n- Tracing troubleshooting guides\n- Distributed tracing architecture documentation\n\n## EXTRACTION FOCUS FOR TRACING TEXT:\n\n1. **Tracing Platform Information**:\n   - Platform names and descriptions\n   - Cluster and system names\n   - Collector and agent names\n   - Storage and backend system names\n   - Query and search interface names\n\n2. **Trace Collection Information**:\n   - Collection agent and tool names\n   - Instrumentation library names\n   - Sampling and filtering system names\n   - Context propagation system names\n   - Trace correlation tool names\n\n3. **Service Mesh Information**:\n   - Service mesh platform names\n   - Proxy and sidecar names\n   - Traffic management rule names\n   - Security and policy names\n   - Observability integration names\n\n4. **Trace Analysis Information**:\n   - Analysis dashboard and tool names\n   - Query and search interface names\n   - Visualization and chart names\n   - Alert and notification names\n   - Export and integration names\n\n## TRACING TEXT SPECIFIC RULES:\n- Extract specific tracing platform and tool names\n- Include environment prefixes/suffixes (prod-, -staging)\n- Capture trace collection agent and system names\n- Focus on currently used tracing tools and platforms\n- Extract from configuration examples and reports\n\n## TRACING NAMING STANDARDS:\n- Use full tracing platform names (e.g., \"jaeger-production-cluster\")\n- Include environment context (e.g., \"staging-service-traces\")\n- Maintain original naming conventions\n- Use canonical names for well-known tracing platforms\n\n" ++ pyStr custom_prompt ++ "\n")]

/-- Embeds the template function `reflexion` of `graphiti_core/prompts/observability/traces/extract_nodes.py`. -/
def reflexion (context : Ctx) : Except PyErr (List Message) := do
  let previous_episodes ← Ctx.getItem context "previous_episodes"
  let previous_episodes_items ← pyIterList previous_episodes
  let episode_content ← Ctx.getItem context "episode_content"
  let extracted_entities ← Ctx.getItem context "extracted_entities"
  pure [Message.mk "system" "You are an AI assistant that determines which tracing entities have not been extracted from the given context",
    Message.mk "user" ("\n<PREVIOUS MESSAGES>\n" ++ jsonDumps (Val.list previous_episodes_items) ++ "\n</PREVIOUS MESSAGES>\n<CURRENT MESSAGE>\n" ++ pyStr episode_content ++ "\n</CURRENT MESSAGE>\n\n<EXTRACTED ENTITIES>\n" ++ pyStr extracted_entities ++ "\n</EXTRACTED ENTITIES>\n\nGiven the above previous messages, current message, and list of extracted entities; determine if any tracing entities haven\x27t been extracted.\n\nFocus on missing:\n- Distributed tracing platforms and systems\n- Trace collection and instrumentation tools\n- Trace storage and processing systems\n- Trace analysis and visualization tools\n- Service mesh and network tracing tools\n- Database and storage tracing systems\n- Security and compliance tracing tools\n- Custom trace applications and tools\n")]

/-- Embeds the template function `classify_nodes` of `graphiti_core/prompts/observability/traces/extract_nodes.py`. -/
def classify_nodes (context : Ctx) : Except PyErr (List Message) := do
  let previous_episodes ← Ctx.getItem context "previous_episodes"
  let previous_episodes_items ← pyIterList previous_episodes
  let episode_content ← Ctx.getItem context "episode_content"
  let extracted_entities ← Ctx.getItem context "extracted_entities"
  let entity_types ← Ctx.getItem context "entity_types"
  pure [Message.mk "system" "You are an AI assistant that classifies tracing entity nodes given the context from which they were extracted",
    Message.mk "user" ("\n    <PREVIOUS MESSAGES>\n    " ++ jsonDumps (Val.list previous_episodes_items) ++ "\n    </PREVIOUS MESSAGES>\n    <CURRENT MESSAGE>\n    " ++ pyStr episode_content ++ "\n    </CURRENT MESSAGE>\n    \n    <EXTRACTED ENTITIES>\n    " ++ pyStr extracted_entities ++ "\n    </EXTRACTED ENTITIES>\n    \n    <ENTITY TYPES>\n    " ++ pyStr entity_types ++ "\n    </ENTITY TYPES>\n    \n    Given the above conversation, extracted entities, and provided entity types and their descriptions, classify the extracted tracing entities.\n    \n    Guidelines:\n    1. Each entity must have exactly one type\n    2. Only use the provided ENTITY TYPES as types, do not use additional types to classify entities.\n    3. If none of the provided entity types accurately classify an extracted node, the type should be set to None\n    4. Consider tracing-specific context when classifying (e.g., tracing platforms, trace collectors, service mesh tools)\n")]

/-- Embeds the template function `extract_attributes` of `graphiti_core/prompts/observability/traces/extract_nodes.py`. -/
def extract_attributes (context : Ctx) : Except PyErr (List Message) := do
  let previous_episodes ← Ctx.getItem context "previous_episodes"
  let episode_content ← Ctx.getItem context "episode_content"
  let node ← Ctx.getItem context "node"
  pure [Message.mk "system" "You are a helpful assistant that extracts tracing entity properties from the provided text.",
    Message.mk "user" ("\n\n        <MESSAGES>\n        " ++ jsonDumps previous_episodes ++ "\n        " ++ jsonDumps episode_content ++ "\n        </MESSAGES>\n\n        Given the above MESSAGES and the following ENTITY, update any of its attributes based on the information provided\n        in MESSAGES. Use the provided attribute descriptions to better understand how each attribute should be determined.\n\n        Guidelines:\n        1. Do not hallucinate entity property values if they cannot be found in the current context.\n        2. Only use the provided MESSAGES and ENTITY to set attribute values.\n        3. The summary attribute represents a summary of the ENTITY, and should be updated with new information about the Entity from the MESSAGES. \n            Summaries must be no longer than 250 words.\n        4. Consider tracing-specific attributes like sampling rates, trace formats, retention policies, etc.\n        \n        <ENTITY>\n        " ++ pyStr node ++ "\n        </ENTITY>\n        ")]

/-- Embeds the `versions` dictionary of `graphiti_core/prompts/observability/traces/extract_nodes.py`. -/
def versions : TemplateSet :=
  [("extract_message", extract_message),
   ("extract_json", extract_json),
   ("extract_text", extract_text),
   ("reflexion", reflexion),
   ("classify_nodes", classify_nodes),
   ("extract_attributes", extract_attributes)]

end TracesExtractNodes

namespace TracesExtractEdges

/-- Embeds the template function `edge` of `graphiti_core/prompts/observability/traces/extract_edges.py`. -/
def edge (context : Ctx) : Except PyErr (List Message) := do
  let previous_episodes ← Ctx.getItem context "previous_episodes"
  let previous_episodes_items ← pyIterList previous_episodes
  let episode_content ← Ctx.getItem context "episode_content"
  let nodes ← Ctx.getItem context "nodes"
  let reference_time ← Ctx.getItem context "reference_time"
  let edge_types ← Ctx.getItem context "edge_types"
  let custom_prompt ← Ctx.getItem context "custom_prompt"
  pure [Message.mk "system" "You are an expert at extracting distributed tracing relationships. Focus on trace flow dependencies, service call relationships, and distributed system connections.",
    Message.mk "user" ("\n<PREVIOUS_MESSAGES>\n" ++ jsonDumps (Val.list previous_episodes_items) ++ "\n</PREVIOUS_MESSAGES>\n\n<CURRENT_MESSAGE>\n" ++ pyStr episode_content ++ "\n</CURRENT MESSAGE>\n\n<ENTITIES>\n" ++ pyStr nodes ++ " \n</ENTITIES>\n\n<REFERENCE_TIME>\n" ++ pyStr reference_time ++ "\n</REFERENCE_TIME>\n\n<FACT TYPES>\n" ++ pyStr edge_types ++ "\n</FACT TYPES>\n\n# TASK\nExtract relationships between distributed tracing entities.\n\n# TRACING-SPECIFIC RELATIONSHIPS TO EXTRACT:\n\n1. **Trace Collection & Flow Relationships**:\n   - COLLECTS_FROM: Trace collection (jaeger COLLECTS_FROM application)\n   - EXPORTS_TO: Trace export (application EXPORTS_TO jaeger)\n   - INSTRUMENTS: Application instrumentation (agent INSTRUMENTS service)\n   - SAMPLES: Trace sampling (collector SAMPLES traces)\n   - PROPAGATES: Context propagation (service PROPAGATES trace_context)\n   - CORRELATES: Trace correlation (tool CORRELATES spans)\n\n2. **Service Call & Dependency Relationships**:\n   - CALLS: Service calls (api_service CALLS database_service)\n   - DEPENDS_ON: Service dependencies (frontend DEPENDS_ON backend)\n   - COMMUNICATES_WITH: Service communication (service_a COMMUNICATES_WITH service_b)\n   - INVOKES: Function invocation (lambda INVOKES external_api)\n   - QUERIES: Database queries (service QUERIES database)\n   - PUBLISHES_TO: Message publishing (service PUBLISHES_TO queue)\n\n3. **Service Mesh & Network Relationships**:\n   - ROUTES_THROUGH: Traffic routing (request ROUTES_THROUGH istio_proxy)\n   - LOAD_BALANCES: Load balancing (load_balancer LOAD_BALANCES services)\n   - PROXIES: Request proxying (envoy PROXIES api_gateway)\n   - CIRCUIT_BREAKS: Circuit breaking (circuit_breaker CIRCUIT_BREAKS service)\n   - RATE_LIMITS: Rate limiting (rate_limiter RATE_LIMITS requests)\n   - AUTHENTICATES: Authentication (auth_service AUTHENTICATES requests)\n\n4. **Trace Analysis & Visualization Relationships**:\n   - ANALYZES: Trace analysis (jaeger ANALYZES service_traces)\n   - VISUALIZES: Trace visualization (dashboard VISUALIZES trace_flow)\n   - QUERIES: Trace querying (ui QUERIES trace_database)\n   - COMPARES: Trace comparison (tool COMPARES trace_performance)\n   - DETECTS: Anomaly detection (system DETECTS slow_traces)\n   - ALERTS_ON: Trace alerting (alert_rule ALERTS_ON trace_anomaly)\n\n5. **Database & Storage Trace Relationships**:\n   - EXECUTES_QUERY: Query execution (service EXECUTES_QUERY sql)\n   - READS_FROM: Data reading (service READS_FROM cache)\n   - WRITES_TO: Data writing (service WRITES_TO database)\n   - BACKS_UP: Data backup (backup_service BACKS_UP trace_data)\n   - ARCHIVES: Data archival (archiver ARCHIVES old_traces)\n   - REPLICATES: Data replication (replicator REPLICATES trace_data)\n\n6. **Security & Compliance Trace Relationships**:\n   - AUDITS: Security auditing (auditor AUDITS access_traces)\n   - MONITORS: Security monitoring (security_monitor MONITORS trace_access)\n   - VALIDATES: Access validation (validator VALIDATES user_permissions)\n   - ENCRYPTS: Data encryption (encryptor ENCRYPTS sensitive_traces)\n   - COMPLIES_WITH: Compliance checking (system COMPLIES_WITH privacy_policy)\n   - DETECTS_THREAT: Threat detection (threat_detector DETECTS_THREAT suspicious_trace)\n\n7. **Trace Storage & Processing Relationships**:\n   - STORES_IN: Trace storage (jaeger STORES_IN elasticsearch)\n   - INDEXES: Trace indexing (indexer INDEXES trace_data)\n   - COMPRESSES: Trace compression (compressor COMPRESSES trace_files)\n   - DEDUPLICATES: Trace deduplication (deduplicator DEDUPLICATES traces)\n   - ENRICHES: Trace enrichment (enricher ENRICHES with_metadata)\n   - TRANSFORMS: Trace transformation (transformer TRANSFORMS trace_format)\n\n8. **Integration & API Trace Relationships**:\n   - INTEGRATES_WITH: Tool integration (jaeger INTEGRATES_WITH grafana)\n   - WEBHOOKS_TO: Webhook relationships (trace_event WEBHOOKS_TO notification)\n   - CALLS_API: API calling (collector CALLS_API trace_endpoint)\n   - SUBSCRIBES_TO: Event subscription (analyzer SUBSCRIBES_TO trace_events)\n   - PUBLISHES_EVENT: Event publishing (service PUBLISHES_EVENT trace_complete)\n   - SYNCHRONIZES_WITH: Data synchronization (jaeger SYNCHRONIZES_WITH zipkin)\n\n9. **Business Process Trace Relationships**:\n   - TRACKS_JOURNEY: User journey tracking (tracer TRACKS_JOURNEY user_flow)\n   - MONITORS_WORKFLOW: Workflow monitoring (monitor MONITORS_WORKFLOW process)\n   - CORRELATES_BUSINESS: Business correlation (correlator CORRELATES_BUSINESS metrics)\n   - OPTIMIZES_PROCESS: Process optimization (optimizer OPTIMIZES_PROCESS flow)\n   - MEASURES_SLA: SLA measurement (sla_monitor MEASURES_SLA performance)\n   - TRACKS_KPI: KPI tracking (kpi_tracker TRACKS_KPI business_metrics)\n\n# EXTRACTION RULES FOR TRACING:\n\n1. Focus on distributed trace flow and service call dependencies\n2. Include service mesh and network routing relationships\n3. Capture trace analysis and visualization data flow relationships\n4. Extract from:\n   - Tracing platform configurations\n   - Service mesh configurations\n   - Application instrumentation settings\n   - Trace analysis and visualization definitions\n   - Distributed system architecture documents\n\n" ++ pyStr custom_prompt ++ "\n\n# EXAMPLES:\n- \"Jaeger collects traces from application\" \u2192 jaeger COLLECTS_FROM application\n- \"API service calls database service\" \u2192 api_service CALLS database_service\n- \"Istio routes traffic through proxy\" \u2192 request ROUTES_THROUGH istio_proxy\n- \"Jaeger analyzes service traces\" \u2192 jaeger ANALYZES service_traces\n- \"Service queries database\" \u2192 service QUERIES database\n        ")]

/-- Embeds the template function `reflexion` of `graphiti_core/prompts/observability/traces/extract_edges.py`. -/
def reflexion (context : Ctx) : Except PyErr (List Message) := do
  let previous_episodes ← Ctx.getItem context "previous_episodes"
  let previous_episodes_items ← pyIterList previous_episodes
  let episode_content ← Ctx.getItem context "episode_content"
  let nodes ← Ctx.getItem context "nodes"
  let extracted_facts ← Ctx.getItem context "extracted_facts"
  pure [Message.mk "system" "You are an AI assistant that determines which tracing relationships have not been extracted from the given context",
    Message.mk "user" ("\n<PREVIOUS MESSAGES>\n" ++ jsonDumps (Val.list previous_episodes_items) ++ "\n</PREVIOUS MESSAGES>\n<CURRENT MESSAGE>\n" ++ pyStr episode_content ++ "\n</CURRENT MESSAGE>\n\n<EXTRACTED ENTITIES>\n" ++ pyStr nodes ++ "\n</EXTRACTED ENTITIES>\n\n<EXTRACTED FACTS>\n" ++ pyStr extracted_facts ++ "\n</EXTRACTED FACTS>\n\nGiven the above tracing context, check for missing:\n- Trace collection and flow relationships (COLLECTS_FROM, EXPORTS_TO, INSTRUMENTS, SAMPLES)\n- Service call and dependency relationships (CALLS, DEPENDS_ON, COMMUNICATES_WITH, INVOKES)\n- Service mesh and network relationships (ROUTES_THROUGH, LOAD_BALANCES, PROXIES, CIRCUIT_BREAKS)\n- Trace analysis and visualization relationships (ANALYZES, VISUALIZES, QUERIES, COMPARES)\n- Database and storage trace relationships (EXECUTES_QUERY, READS_FROM, WRITES_TO, BACKS_UP)\n- Security and compliance trace relationships (AUDITS, MONITORS, VALIDATES, ENCRYPTS)\n- Trace storage and processing relationships (STORES_IN, INDEXES, COMPRESSES, DEDUPLICATES)\n- Integration and API trace relationships (INTEGRATES_WITH, WEBHOOKS_TO, CALLS_API, SUBSCRIBES_TO)\n- Business process trace relationships (TRACKS_JOURNEY, MONITORS_WORKFLOW, CORRELATES_BUSINESS)\n\nFocus on distributed trace flow and service call relationships.\n")]

/-- Embeds the template function `extract_attributes` of `graphiti_core/prompts/observability/traces/extract_edges.py`. -/
def extract_attributes (context : Ctx) : Except PyErr (List Message) := do
  let episode_content ← Ctx.getItem context "episode_content"
  let reference_time ← Ctx.getItem context "reference_time"
  let fact ← Ctx.getItem context "fact"
  pure [Message.mk "system" "You are a helpful assistant that extracts tracing relationship properties.",
    Message.mk "user" ("\n<MESSAGE>\n" ++ jsonDumps episode_content ++ "\n</MESSAGE>\n<REFERENCE TIME>\n" ++ pyStr reference_time ++ "\n</REFERENCE TIME>\n\nGiven the above tracing content and the following relationship, update attributes based on:\n- Trace sampling rates and configurations\n- Service call latencies and timeouts\n- Trace context propagation settings\n- Service mesh routing rules and policies\n- Trace storage and retention configurations\n- Security and compliance requirements\n- Integration endpoints and protocols\n\n<FACT>\n" ++ pyStr fact ++ "\n</FACT>\n        ")]

/-- Embeds the `versions` dictionary of `graphiti_core/prompts/observability/traces/extract_edges.py`. -/
def versions : TemplateSet :=
  [("edge", edge),
   ("reflexion", reflexion),
   ("extract_attributes", extract_attributes)]

end TracesExtractEdges

namespace ApplicationExtractNodes

/-- Embeds the template function `extract_message` of `graphiti_core/prompts/extract_nodes_application.py`. -/
def extract_message (context : Ctx) : Except PyErr (List Message) := do
  let previous_episodes ← Ctx.getItem context "previous_episodes"
  let previous_episodes_items ← pyIterList previous_episodes
  let episode_content ← Ctx.getItem context "episode_content"
  let entity_types ← Ctx.getItem context "entity_types"
  let custom_prompt ← Ctx.getItem context "custom_prompt"
  pure [Message.mk "system" "You are an AI assistant specialized in extracting main application entities that serve as central hubs.\n    Your primary focus is identifying the core applications that connect resources across GitHub, Cloud, CI/CD, and Observability domains.",
    Message.mk "user" ("\n<PREVIOUS_MESSAGES>\n" ++ jsonDumps (Val.list previous_episodes_items) ++ "\n</PREVIOUS_MESSAGES>\n\n<CURRENT_MESSAGE>\n" ++ pyStr episode_content ++ "\n</CURRENT_MESSAGE>\n\n<ENTITY TYPES>\n" ++ pyStr entity_types ++ "\n</ENTITY TYPES>\n\nYou are analyzing cross-domain application resources. Extract entities focusing on:\n\n## PRIMARY EXTRACTION TARGETS:\n\n1. **Main Applications** (Central Hubs):\n   - Primary application names (e-commerce-platform, user-service, analytics-platform)\n   - Core business applications\n   - Microservice applications\n   - Platform applications\n   - System applications\n\n2. **Application Variants** (Environment/Deployment):\n   - Production applications (e-commerce-platform-prod)\n   - Staging applications (user-service-staging)\n   - Development applications (analytics-platform-dev)\n   - Regional deployments (e-commerce-platform-us-east-1)\n\n3. **Application Components** (Sub-Services):\n   - Frontend applications (e-commerce-frontend)\n   - Backend APIs (e-commerce-api)\n   - Worker services (e-commerce-worker)\n   - Background jobs (e-commerce-scheduler)\n\n## APPLICATION-CENTRIC EXTRACTION RULES:\n\n1. **Identify Core Applications**: Look for the main application names that appear across multiple domains\n2. **Cross-Domain Consistency**: Extract applications that are referenced in GitHub, Cloud, CI/CD, and Observability contexts\n3. **Naming Patterns**: Look for consistent naming patterns across domains\n4. **Business Context**: Focus on applications that represent business capabilities\n5. **Central Hub Potential**: Extract applications that can serve as central nodes connecting all resources\n\n## NAMING CONVENTIONS:\n\n### **Main Applications**:\n- Use canonical application names (e.g., \"e-commerce-platform\", \"user-service\")\n- Include business context in names\n- Use consistent naming across domains\n- Avoid environment-specific suffixes for main applications\n\n### **Application Variants**:\n- Include environment context (e.g., \"e-commerce-platform-prod\")\n- Include region/zone information when relevant\n- Use deployment-specific naming\n\n## DO EXTRACT:\n- Main application names that appear across domains\n- Core business applications\n- Microservice application names\n- Platform application names\n- Application names from repository names\n- Service names from deployment configurations\n- Application names from monitoring configurations\n\n## DO NOT EXTRACT:\n- Individual resource names (databases, caches, etc.)\n- Infrastructure components (load balancers, VPCs, etc.)\n- Tool names (Jenkins, Prometheus, etc.)\n- Generic terms without specific application context\n- Temporary or build-specific names\n\n" ++ pyStr custom_prompt ++ "\n")]

/-- Embeds the template function `extract_json` of `graphiti_core/prompts/extract_nodes_application.py`. -/
def extract_json (context : Ctx) : Except PyErr (List Message) := do
  let source_description ← Ctx.getItem context "source_description"
  let episode_content ← Ctx.getItem context "episode_content"
  let entity_types ← Ctx.getItem context "entity_types"
  let custom_prompt ← Ctx.getItem context "custom_prompt"
  pure [Message.mk "system" "You are an AI assistant specialized in extracting main application entities from JSON configurations.\n    Focus on application names that appear across multiple domain configurations.",
    Message.mk "user" ("\n<SOURCE DESCRIPTION>:\n" ++ pyStr source_description ++ "\n</SOURCE DESCRIPTION>\n<JSON>\n" ++ pyStr episode_content ++ "\n</JSON>\n<ENTITY TYPES>\n" ++ pyStr entity_types ++ "\n</ENTITY TYPES>\n\nYou are analyzing JSON from cross-domain configurations. This could be:\n- Application configuration files\n- Deployment manifests\n- Service definitions\n- Cross-domain integration configs\n- Application metadata\n\n## EXTRACTION FOCUS FOR APPLICATION JSON:\n\n1. **From Application Configs**:\n   - Application names from \"name\", \"application_name\", \"service_name\" fields\n   - Main service identifiers\n   - Application identifiers across domains\n\n2. **From Deployment Manifests**:\n   - Application names in deployment configurations\n   - Service names in orchestration files\n   - Application identifiers in container configs\n\n3. **From Cross-Domain Configs**:\n   - Application names that appear in multiple domain contexts\n   - Central application identifiers\n   - Business application names\n\n## APPLICATION JSON SPECIFIC RULES:\n- Extract main application names, not individual resources\n- Focus on names that could serve as central hubs\n- Look for consistent naming across different JSON structures\n- Extract application names that connect multiple domains\n- Focus on business application names, not technical resource names\n\n" ++ pyStr custom_prompt ++ "\n")]

/-- Embeds the template function `extract_text` of `graphiti_core/prompts/extract_nodes_application.py`. -/
def extract_text (context : Ctx) : Except PyErr (List Message) := do
  let episode_content ← Ctx.getItem context "episode_content"
  let entity_types ← Ctx.getItem context "entity_types"
  let custom_prompt ← Ctx.getItem context "custom_prompt"
  pure [Message.mk "system" "You are an AI assistant specialized in extracting main application entities from documentation and descriptions.\n    Focus on applications that serve as central hubs connecting resources across domains.",
    Message.mk "user" ("\n<TEXT>\n" ++ pyStr episode_content ++ "\n</TEXT>\n<ENTITY TYPES>\n" ++ pyStr entity_types ++ "\n</ENTITY TYPES>\n\nYou are analyzing text about cross-domain applications. This could be:\n- Application architecture documentation\n- System overview descriptions\n- Cross-domain integration guides\n- Application deployment documentation\n- Business application descriptions\n\n## EXTRACTION FOCUS FOR APPLICATION TEXT:\n\n1. **Main Applications**:\n   - Core business application names\n   - Primary service applications\n   - Platform application names\n   - System application names\n\n2. **Cross-Domain Applications**:\n   - Applications mentioned across multiple domains\n   - Central application hubs\n   - Business capability applications\n   - Integration point applications\n\n3. **Application Context**:\n   - Applications that connect multiple resources\n   - Central applications in system architecture\n   - Business applications with multiple dependencies\n\n## APPLICATION TEXT SPECIFIC RULES:\n- Extract main application names, not individual components\n- Focus on applications that can serve as central hubs\n- Look for applications mentioned across multiple contexts\n- Extract business application names, not technical resource names\n- Focus on applications that connect multiple domains\n\n## NAMING STANDARDS:\n- Use canonical application names\n- Include business context when relevant\n- Maintain consistency with cross-domain naming\n- Use full application names, not abbreviations\n\n" ++ pyStr custom_prompt ++ "\n")]

/-- Embeds the template function `reflexion` of `graphiti_core/prompts/extract_nodes_application.py`. -/
def reflexion (context : Ctx) : Except PyErr (List Message) := do
  let previous_episodes ← Ctx.getItem context "previous_episodes"
  let previous_episodes_items ← pyIterList previous_episodes
  let episode_content ← Ctx.getItem context "episode_content"
  let extracted_entities ← Ctx.getItem context "extracted_entities"
  pure [Message.mk "system" "You are an AI assistant that determines which main application entities have not been extracted from the given context",
    Message.mk "user" ("\n<PREVIOUS MESSAGES>\n" ++ jsonDumps (Val.list previous_episodes_items) ++ "\n</PREVIOUS MESSAGES>\n<CURRENT MESSAGE>\n" ++ pyStr episode_content ++ "\n</CURRENT MESSAGE>\n\n<EXTRACTED ENTITIES>\n" ++ pyStr extracted_entities ++ "\n</EXTRACTED ENTITIES>\n\nGiven the above previous messages, current message, and list of extracted entities; determine if any main application entities haven\x27t been\nextracted.\n")]

/-- Embeds the template function `classify_nodes` of `graphiti_core/prompts/extract_nodes_application.py`. -/
def classify_nodes (context : Ctx) : Except PyErr (List Message) := do
  let previous_episodes ← Ctx.getItem context "previous_episodes"
  let previous_episodes_items ← pyIterList previous_episodes
  let episode_content ← Ctx.getItem context "episode_content"
  let extracted_entities ← Ctx.getItem context "extracted_entities"
  let entity_types ← Ctx.getItem context "entity_types"
  pure [Message.mk "system" "You are an AI assistant that classifies application entity nodes given the context from which they were extracted",
    Message.mk "user" ("\n    <PREVIOUS MESSAGES>\n    " ++ jsonDumps (Val.list previous_episodes_items) ++ "\n    </PREVIOUS MESSAGES>\n    <CURRENT MESSAGE>\n    " ++ pyStr episode_content ++ "\n    </CURRENT MESSAGE>\n    \n    <EXTRACTED ENTITIES>\n    " ++ pyStr extracted_entities ++ "\n    </EXTRACTED ENTITIES>\n    \n    <ENTITY TYPES>\n    " ++ pyStr entity_types ++ "\n    </ENTITY TYPES>\n    \n    Given the above conversation, extracted entities, and provided entity types and their descriptions, classify the extracted application entities.\n    \n    Guidelines:\n    1. Each entity must have exactly one type\n    2. Only use the provided ENTITY TYPES as types, do not use additional types to classify entities.\n    3. If none of the provided entity types accurately classify an extracted node, the type should be set to None\n    4. Focus on classifying main application entities that can serve as central hubs\n")]

/-- Embeds the template function `extract_attributes` of `graphiti_core/prompts/extract_nodes_application.py`. -/
def extract_attributes (context : Ctx) : Except PyErr (List Message) := do
  let previous_episodes ← Ctx.getItem context "previous_episodes"
  let episode_content ← Ctx.getItem context "episode_content"
  let node ← Ctx.getItem context "node"
  pure [Message.mk "system" "You are a helpful assistant that extracts application entity properties from the provided text.",
    Message.mk "user" ("\n\n        <MESSAGES>\n        " ++ jsonDumps previous_episodes ++ "\n        " ++ jsonDumps episode_content ++ "\n        </MESSAGES>\n\n        Given the above MESSAGES and the following ENTITY, update any of its attributes based on the information provided\n        in MESSAGES. Use the provided attribute descriptions to better understand how each attribute should be determined.\n\n        Guidelines:\n        1. Do not hallucinate entity property values if they cannot be found in the current context.\n        2. Only use the provided MESSAGES and ENTITY to set attribute values.\n        3. The summary attribute represents a summary of the ENTITY, and should be updated with new information about the Entity from the MESSAGES. \n            Summaries must be no longer than 250 words.\n        4. Focus on application-specific attributes like business context, cross-domain connections, and central hub characteristics.\n        \n        <ENTITY>\n        " ++ pyStr node ++ "\n        </ENTITY>\n        ")]

/-- Embeds the `versions` dictionary of `graphiti_core/prompts/extract_nodes_application.py`. -/
def versions : TemplateSet :=
  [("extract_message", extract_message),
   ("extract_json", extract_json),
   ("extract_text", extract_text),
   ("reflexion", reflexion),
   ("classify_nodes", classify_nodes),
   ("extract_attributes", extract_attributes)]

end ApplicationExtractNodes

namespace ApplicationExtractEdges

/-- Embeds the template function `edge` of `graphiti_core/prompts/extract_edges_application.py`. -/
def edge (context : Ctx) : Except PyErr (List Message) := do
  let previous_episodes ← Ctx.getItem context "previous_episodes"
  let previous_episodes_items ← pyIterList previous_episodes
  let episode_content ← Ctx.getItem context "episode_content"
  let nodes ← Ctx.getItem context "nodes"
  let reference_time ← Ctx.getItem context "reference_time"
  let edge_types ← Ctx.getItem context "edge_types"
  let custom_prompt ← Ctx.getItem context "custom_prompt"
  pure [Message.mk "system" "You are an expert at creating cross-domain application relationships. Your goal is to connect applications to all their resources across GitHub, Cloud, CI/CD, and Observability domains to enable comprehensive system understanding and troubleshooting.",
    Message.mk "user" ("\n<PREVIOUS_MESSAGES>\n" ++ jsonDumps (Val.list previous_episodes_items) ++ "\n</PREVIOUS_MESSAGES>\n\n<CURRENT_MESSAGE>\n" ++ pyStr episode_content ++ "\n</CURRENT_MESSAGE>\n\n<ENTITIES>\n" ++ pyStr nodes ++ " \n</ENTITIES>\n\n<REFERENCE_TIME>\n" ++ pyStr reference_time ++ "\n</REFERENCE_TIME>\n\n<FACT TYPES>\n" ++ pyStr edge_types ++ "\n</FACT TYPES>\n\n# TASK\nCreate cross-domain relationships that connect applications to all their resources across domains.\nThis enables comprehensive system understanding and troubleshooting.\n\n# APPLICATION-CENTRIC RELATIONSHIPS TO EXTRACT:\n\n## 1. **Application Ownership & Deployment**:\n   - DEPLOYED_AS: Application deployment relationships (e-commerce-platform DEPLOYED_AS production-service)\n   - RUNS_ON: Execution platform (application RUNS_ON kubernetes-cluster)\n   - HOSTED_IN: Hosting relationships (web-app HOSTED_IN aws-ec2)\n   - CONTAINED_IN: Container relationships (service CONTAINED_IN docker-container)\n\n## 2. **GitHub & Development Connections**:\n   - SOURCE_CODE_IN: Repository relationships (application SOURCE_CODE_IN github-repo)\n   - BUILT_FROM: Build source (service BUILT_FROM main-branch)\n   - VERSIONED_IN: Version control (app VERSIONED_IN release-tag)\n   - DEVELOPED_BY: Development team (application DEVELOPED_BY backend-team)\n\n## 3. **Cloud Infrastructure Dependencies**:\n   - USES_DATABASE: Database connections (app USES_DATABASE postgres-instance)\n   - CACHES_IN: Caching relationships (service CACHES_IN redis-cluster)\n   - STORES_DATA_IN: Storage relationships (app STORES_DATA_IN s3-bucket)\n   - CONNECTS_TO: Service connections (api CONNECTS_TO external-service)\n   - LOAD_BALANCED_BY: Load balancing (app LOAD_BALANCED_BY alb)\n\n## 4. **CI/CD Pipeline Integration**:\n   - DEPLOYED_VIA: Deployment pipeline (app DEPLOYED_VIA github-actions)\n   - TESTED_BY: Testing relationships (service TESTED_BY automated-tests)\n   - MONITORED_BY: Pipeline monitoring (deploy MONITORED_BY jenkins)\n   - ARTIFACT_FROM: Build artifacts (deployment ARTIFACT_FROM docker-image)\n\n## 5. **Observability & Monitoring**:\n   - MONITORED_BY: Monitoring systems (app MONITORED_BY prometheus)\n   - LOGS_TO: Logging relationships (service LOGS_TO elasticsearch)\n   - TRACED_BY: Distributed tracing (app TRACED_BY jaeger)\n   - ALERTED_ON: Alerting relationships (service ALERTED_ON pagerduty)\n   - METRICS_COLLECTED_BY: Metrics collection (app METRICS_COLLECTED_BY datadog)\n\n## 6. **Cross-Domain Dependencies**:\n   - DEPENDS_ON: Service dependencies (frontend DEPENDS_ON backend-api)\n   - COMMUNICATES_WITH: Inter-service communication (auth-service COMMUNICATES_WITH user-db)\n   - SHARES_DATA_WITH: Data sharing (analytics SHARES_DATA_WITH reporting-dashboard)\n   - INTEGRATES_WITH: External integrations (payment-service INTEGRATES_WITH stripe)\n\n# EXTRACTION RULES FOR APPLICATION-CENTRIC RELATIONSHIPS:\n\n1. **Identify the Main Application**: Look for the primary application name across all domains\n2. **Connect All Resources**: Create relationships from the application to all its resources\n3. **Cross-Domain Mapping**: Connect resources that belong to the same application across domains\n4. **Enable Troubleshooting**: Create relationships that help understand system dependencies\n5. **Extract from**:\n   - Application names in GitHub repositories\n   - Service names in cloud configurations\n   - Pipeline names in CI/CD configurations\n   - Service names in monitoring configurations\n   - Common naming patterns across domains\n\n# EXAMPLES:\n- \"E-Commerce Platform\" \u2192 \"ecommerce-platform SOURCE_CODE_IN github-repo\"\n- \"E-Commerce Platform\" \u2192 \"ecommerce-platform USES_DATABASE postgres-db\"\n- \"E-Commerce Platform\" \u2192 \"ecommerce-platform DEPLOYED_VIA github-actions\"\n- \"E-Commerce Platform\" \u2192 \"ecommerce-platform MONITORED_BY prometheus\"\n- \"User Service\" \u2192 \"user-service CONNECTS_TO auth-service\"\n- \"Analytics Platform\" \u2192 \"analytics-platform SHARES_DATA_WITH reporting-dashboard\"\n\n" ++ pyStr custom_prompt ++ "\n        ")]

/-- Embeds the template function `reflexion` of `graphiti_core/prompts/extract_edges_application.py`. -/
def reflexion (context : Ctx) : Except PyErr (List Message) := do
  let previous_episodes ← Ctx.getItem context "previous_episodes"
  let previous_episodes_items ← pyIterList previous_episodes
  let episode_content ← Ctx.getItem context "episode_content"
  let nodes ← Ctx.getItem context "nodes"
  let extracted_facts ← Ctx.getItem context "extracted_facts"
  pure [Message.mk "system" "You are an AI assistant that determines which cross-domain application relationships have not been extracted from the given context",
    Message.mk "user" ("\n<PREVIOUS MESSAGES>\n" ++ jsonDumps (Val.list previous_episodes_items) ++ "\n</PREVIOUS MESSAGES>\n<CURRENT MESSAGE>\n" ++ pyStr episode_content ++ "\n</CURRENT MESSAGE>\n\n<EXTRACTED ENTITIES>\n" ++ pyStr nodes ++ "\n</EXTRACTED ENTITIES>\n\n<EXTRACTED FACTS>\n" ++ pyStr extracted_facts ++ "\n</EXTRACTED FACTS>\n\nGiven the above cross-domain context, check for missing:\n- Application ownership relationships (DEPLOYED_AS, RUNS_ON, HOSTED_IN)\n- GitHub connections (SOURCE_CODE_IN, BUILT_FROM, VERSIONED_IN)\n- Cloud infrastructure dependencies (USES_DATABASE, CACHES_IN, STORES_DATA_IN)\n- CI/CD pipeline integration (DEPLOYED_VIA, TESTED_BY, MONITORED_BY)\n- Observability relationships (MONITORED_BY, LOGS_TO, TRACED_BY)\n- Cross-domain dependencies (DEPENDS_ON, COMMUNICATES_WITH, INTEGRATES_WITH)\n\nFocus on creating a complete picture of how applications connect to all their resources across domains.\n")]

/-- Embeds the template function `extract_attributes` of `graphiti_core/prompts/extract_edges_application.py`. -/
def extract_attributes (context : Ctx) : Except PyErr (List Message) := do
  let episode_content ← Ctx.getItem context "episode_content"
  let reference_time ← Ctx.getItem context "reference_time"
  let fact ← Ctx.getItem context "fact"
  pure [Message.mk "system" "You are a helpful assistant that extracts cross-domain relationship properties.",
    Message.mk "user" ("\n<MESSAGE>\n" ++ jsonDumps episode_content ++ "\n</MESSAGE>\n<REFERENCE TIME>\n" ++ pyStr reference_time ++ "\n</REFERENCE TIME>\n\nGiven the above cross-domain content and the following relationship, update attributes based on:\n- Application version information\n- Deployment environment details\n- Cross-domain configuration parameters\n- Integration settings and endpoints\n- Monitoring and alerting configurations\n- Service dependency information\n\n<FACT>\n" ++ pyStr fact ++ "\n</FACT>\n        ")]

/-- Embeds the `versions` dictionary of `graphiti_core/prompts/extract_edges_application.py`. -/
def versions : TemplateSet :=
  [("edge", edge),
   ("reflexion", reflexion),
   ("extract_attributes", extract_attributes)]

end ApplicationExtractEdges

end Graphiti
namespace Graphiti

namespace ExtractEdges

/-- Modelled from the spec: `graphiti_core/prompts/extract_edges.py`, the
generic (default) edge prompt module, is imported by prompt_factory.py and
lib.py but its file is not part of the given source fragment.  Per the
spec, the generic edge TemplateSet implements the edge operation
vocabulary `edge`, `reflexion`, `extract_attributes`; `edge` finds
relationships between the previously extracted entities, reading the
context keys the spec lists for the edge family (`previous_episodes`,
`episode_content`, `nodes`, `reference_time`, `edge_types`,
`custom_prompt`), and returns a system message and a user message. -/
def edge (context : Ctx) : Except PyErr (List Message) := do
  let previous_episodes ← Ctx.getItem context "previous_episodes"
  let previous_episodes_items ← pyIterList previous_episodes
  let episode_content ← Ctx.getItem context "episode_content"
  let nodes ← Ctx.getItem context "nodes"
  let reference_time ← Ctx.getItem context "reference_time"
  let edge_types ← Ctx.getItem context "edge_types"
  let custom_prompt ← Ctx.getItem context "custom_prompt"
  pure [Message.mk "system" "You are an expert fact extractor that extracts fact triples from text.",
    Message.mk "user" ("\n<PREVIOUS MESSAGES>\n" ++ jsonDumps (Val.list previous_episodes_items) ++ "\n</PREVIOUS MESSAGES>\n<CURRENT MESSAGE>\n" ++ pyStr episode_content ++ "\n</CURRENT MESSAGE>\n<ENTITIES>\n" ++ pyStr nodes ++ "\n</ENTITIES>\n<REFERENCE TIME>\n" ++ pyStr reference_time ++ "\n</REFERENCE TIME>\n<FACT TYPES>\n" ++ pyStr edge_types ++ "\n</FACT TYPES>\n\nGiven the above MESSAGES and ENTITIES, extract all facts (relationships) between the listed entities, tagging each with a relation type from FACT TYPES.\n" ++ pyStr custom_prompt ++ "\n")]

/-- Modelled from the spec: the generic edge `reflexion` operation (source
file absent, see `ExtractEdges.edge`): finds relationships missed by a
prior pass, reading `previous_episodes`, `episode_content`, `nodes` and
`extracted_facts`. -/
def reflexion (context : Ctx) : Except PyErr (List Message) := do
  let previous_episodes ← Ctx.getItem context "previous_episodes"
  let previous_episodes_items ← pyIterList previous_episodes
  let episode_content ← Ctx.getItem context "episode_content"
  let nodes ← Ctx.getItem context "nodes"
  let extracted_facts ← Ctx.getItem context "extracted_facts"
  pure [Message.mk "system" "You are an AI assistant that determines which facts have not been extracted from the given context",
    Message.mk "user" ("\n<PREVIOUS MESSAGES>\n" ++ jsonDumps (Val.list previous_episodes_items) ++ "\n</PREVIOUS MESSAGES>\n<CURRENT MESSAGE>\n" ++ pyStr episode_content ++ "\n</CURRENT MESSAGE>\n\n<EXTRACTED ENTITIES>\n" ++ pyStr nodes ++ "\n</EXTRACTED ENTITIES>\n\n<EXTRACTED FACTS>\n" ++ pyStr extracted_facts ++ "\n</EXTRACTED FACTS>\n\nGiven the above messages, entities and extracted facts; determine if any facts have not been extracted.\n")]

/-- Modelled from the spec: the generic edge `extract_attributes` operation
(source file absent, see `ExtractEdges.edge`): fills structured fields,
including the optional validity-interval timestamps, on one relationship,
reading `episode_content`, `reference_time` and `fact`. -/
def extract_attributes (context : Ctx) : Except PyErr (List Message) := do
  let episode_content ← Ctx.getItem context "episode_content"
  let reference_time ← Ctx.getItem context "reference_time"
  let fact ← Ctx.getItem context "fact"
  pure [Message.mk "system" "You are a helpful assistant that extracts fact properties from the provided text.",
    Message.mk "user" ("\n<MESSAGE>\n" ++ jsonDumps episode_content ++ "\n</MESSAGE>\n<REFERENCE TIME>\n" ++ pyStr reference_time ++ "\n</REFERENCE TIME>\n\nGiven the above MESSAGE, its REFERENCE TIME, and the following FACT, update any of its attributes (including valid_at and invalid_at) based on the information provided.\n\n<FACT>\n" ++ pyStr fact ++ "\n</FACT>\n")]

/-- Modelled from the spec: the `versions` dictionary of the absent generic
edge module, implementing the full edge operation vocabulary. -/
def versions : TemplateSet :=
  [("edge", edge),
   ("reflexion", reflexion),
   ("extract_attributes", extract_attributes)]

end ExtractEdges

/-- Embeds the mutable state of `PromptSelector` (prompt_factory.py): the
node and edge registries and the two default fallbacks.  The
`_domain_mapping` table of the source only feeds log strings and is not
modelled; logging does not affect any returned value. -/
structure PromptSelector where
  node_registry : List (String × TemplateSet)
  edge_registry : List (String × TemplateSet)
  default_nodes : TemplateSet
  default_edges : TemplateSet

/-- Embeds `PromptSelector.__init__` (prompt_factory.py lines 64-119): the
registries as initialized, entry for entry and in source order, and the
generic default fallbacks. -/
def PromptSelector.init : PromptSelector :=
  { node_registry := [
      ("aws_resources", AwsExtractNodes.versions),
      ("azure_resources", AzureExtractNodes.versions),
      ("gcp_resources", GcpExtractNodes.versions),
      ("cloud_resources", AwsExtractNodes.versions),
      ("github_repo", GithubExtractNodes.versions),
      ("github_resources", GithubExtractNodes.versions),
      ("cicd_resources", CicdExtractNodes.versions),
      ("pipeline_resources", CicdExtractNodes.versions),
      ("logs_resources", LogsExtractNodes.versions),
      ("metrics_resources", MetricsExtractNodes.versions),
      ("traces_resources", TracesExtractNodes.versions),
      ("observability_resources", MetricsExtractNodes.versions),
      ("monitoring_resources", MetricsExtractNodes.versions),
      ("application_resources", ApplicationExtractNodes.versions)],
    edge_registry := [
      ("aws_resources", AwsExtractEdges.versions),
      ("azure_resources", AzureExtractEdges.versions),
      ("gcp_resources", GcpExtractEdges.versions),
      ("cloud_resources", AwsExtractEdges.versions),
      ("github_repo", GithubExtractEdges.versions),
      ("github_resources", GithubExtractEdges.versions),
      ("cicd_resources", CicdExtractEdges.versions),
      ("pipeline_resources", CicdExtractEdges.versions),
      ("metrics_resources", MetricsExtractEdges.versions),
      ("traces_resources", TracesExtractEdges.versions),
      ("observability_resources", MetricsExtractEdges.versions),
      ("monitoring_resources", MetricsExtractEdges.versions),
      ("application_resources", ApplicationExtractEdges.versions)],
    default_nodes := ExtractNodes.versions,
    default_edges := ExtractEdges.versions }

/-- Embeds `PromptSelector.register_node_prompts`: insert-or-replace in the
node registry (the informational log entry is not modelled). -/
def PromptSelector.register_node_prompts (self : PromptSelector)
    (source_description : String) (prompt_versions : TemplateSet) : PromptSelector :=
  { self with node_registry := dictInsert source_description prompt_versions self.node_registry }

/-- Embeds `PromptSelector.register_edge_prompts`: insert-or-replace in the
edge registry. -/
def PromptSelector.register_edge_prompts (self : PromptSelector)
    (source_description : String) (prompt_versions : TemplateSet) : PromptSelector :=
  { self with edge_registry := dictInsert source_description prompt_versions self.edge_registry }

/-- Embeds `PromptSelector.get_node_prompts(source_description:
Optional[str])` (prompt_factory.py lines 138-151).  The Python guard `if
not source_description` is true both for None and for the empty string; on
a registry hit the registered set is returned, otherwise the default.  The
function is total: it never raises, and the log calls it performs do not
affect the result. -/
def PromptSelector.get_node_prompts (self : PromptSelector)
    (source_description : Option String) : TemplateSet :=
  match source_description with
  | Option.none => self.default_nodes
  | some s =>
    if s = "" then self.default_nodes
    else
      match self.node_registry.lookup s with
      | some v => v
      | Option.none => self.default_nodes

/-- Embeds `PromptSelector.get_edge_prompts` (prompt_factory.py lines
153-166): the identical contract against the edge registry. -/
def PromptSelector.get_edge_prompts (self : PromptSelector)
    (source_description : Option String) : TemplateSet :=
  match source_description with
  | Option.none => self.default_edges
  | some s =>
    if s = "" then self.default_edges
    else
      match self.edge_registry.lookup s with
      | some v => v
      | Option.none => self.default_edges

/-- The string `context.get('source_description', '')` passed by the
module-level helpers of prompt_factory.py, under the source's
`Optional[str]` typing of source descriptions (a context storing a
non-string under this key is outside the source's annotated contract and
is read as the absent-key default here). -/
def Ctx.sourceDescription (context : Ctx) : String :=
  match Ctx.getD context "source_description" (Val.str "") with
  | Val.str s => s
  | _ => ""

/-- Embeds `get_extract_node_prompts(context)` (prompt_factory.py lines
173-176), parametrized by the selector instance (the source closes over
the module-global `prompt_selector`). -/
def get_extract_node_prompts (selector : PromptSelector) (context : Ctx) : TemplateSet :=
  PromptSelector.get_node_prompts selector (some (Ctx.sourceDescription context))

/-- Embeds `get_extract_edge_prompts(context)` (prompt_factory.py lines
179-182). -/
def get_extract_edge_prompts (selector : PromptSelector) (context : Ctx) : TemplateSet :=
  PromptSelector.get_edge_prompts selector (some (Ctx.sourceDescription context))

/-- Embeds `DO_NOT_ESCAPE_UNICODE` of prompt_helpers.py. -/
def DO_NOT_ESCAPE_UNICODE : String := "\nDo not escape unicode characters.\n"

/-- Embeds the suffixing loop shared by `VersionWrapper.__call__` and the
`dynamic_wrapper` closure (lib.py lines 77-78 and 136-137): every message
whose role is `system` gets `DO_NOT_ESCAPE_UNICODE` appended to its
content; every other message is left untouched. -/
def applyUnicodeSuffix (messages : List Message) : List Message :=
  messages.map (fun message =>
    if message.role = "system"
    then { message with content := message.content ++ DO_NOT_ESCAPE_UNICODE }
    else message)

/-- Embeds `VersionWrapper.__call__` (lib.py lines 75-79): invoke the
wrapped template function, then apply the system-message suffix.  A raised
error from the template propagates unchanged. -/
def VersionWrapper.call (func : PromptFunction) (context : Ctx) : Except PyErr (List Message) :=
  Except.map applyUnicodeSuffix (func context)

/-- Embeds the per-instance state of `DynamicPromptTypeWrapper` (lib.py
lines 93-96): the prompt family name and the default versions dictionary. -/
structure DynamicPromptTypeWrapper where
  prompt_type : String
  default_versions : TemplateSet

/-- Embeds the per-call prompt-function resolution performed inside the
`dynamic_wrapper` closure of `DynamicPromptTypeWrapper.__getattr__`
(lib.py lines 100-132), parametrized by the selector instance: for the
extract_nodes (resp. extract_edges) family with `source_description`
present in the context, look the requested version up in the
domain-resolved TemplateSet, fall back to the same-named version of the
default TemplateSet, and raise AttributeError when both lookups miss;
otherwise resolve against the default TemplateSet alone. -/
def resolvePromptFunction (selector : PromptSelector) (w : DynamicPromptTypeWrapper)
    (version : String) (context : Ctx) : Except PyErr PromptFunction :=
  if w.prompt_type = "extract_nodes" ∧ Ctx.contains context "source_description" = true then
    match (get_extract_node_prompts selector context).lookup version with
    | some func => Except.ok func
    | Option.none =>
      match w.default_versions.lookup version with
      | some func => Except.ok func
      | Option.none =>
        Except.error (PyErr.attributeError ("Version \x27" ++ version ++ "\x27 not found"))
  else if w.prompt_type = "extract_edges" ∧ Ctx.contains context "source_description" = true then
    match (get_extract_edge_prompts selector context).lookup version with
    | some func => Except.ok func
    | Option.none =>
      match w.default_versions.lookup version with
      | some func => Except.ok func
      | Option.none =>
        Except.error (PyErr.attributeError ("Version \x27" ++ version ++ "\x27 not found"))
  else
    match w.default_versions.lookup version with
    | some func => Except.ok func
    | Option.none =>
      Except.error (PyErr.attributeError ("Version \x27" ++ version ++ "\x27 not found"))

/-- Embeds the `dynamic_wrapper` closure returned by
`DynamicPromptTypeWrapper.__getattr__` (lib.py lines 99-138): resolve the
prompt function per call, invoke it on the context, and apply the
system-message suffix.  Any raised error (KeyError from the template,
AttributeError from resolution) propagates to the caller; nothing is
caught or defaulted here. -/
def dynamic_wrapper (selector : PromptSelector) (w : DynamicPromptTypeWrapper)
    (version : String) (context : Ctx) : Except PyErr (List Message) := do
  let func ← resolvePromptFunction selector w version context
  let messages ← func context
  pure (applyUnicodeSuffix messages)

/-- Embeds `DynamicPromptTypeWrapper.__getattr__` itself (lib.py lines
98-140): attribute access is total, returning for every version name the
`dynamic_wrapper` callable; no error can be raised before that callable is
invoked on a context. -/
def DynamicPromptTypeWrapper.getattr (selector : PromptSelector)
    (w : DynamicPromptTypeWrapper) (version : String) : Ctx → Except PyErr (List Message) :=
  dynamic_wrapper selector w version

/-- The node operation vocabulary (keys of the Versions TypedDict of every
node prompt module). -/
def nodeOperationNames : List String :=
  ["extract_message", "extract_json", "extract_text", "reflexion", "classify_nodes",
   "extract_attributes"]

/-- The edge operation vocabulary (keys of the Versions TypedDict of every
edge prompt module). -/
def edgeOperationNames : List String := ["edge", "reflexion", "extract_attributes"]

/-- The context keys each node operation reads, in read order — identical
across every node prompt module of the source (checked module by module
against the f-string holes and json.dumps accesses). -/
def nodeOpReadKeys : String → List String
  | "extract_message" => ["previous_episodes", "episode_content", "entity_types", "custom_prompt"]
  | "extract_json" => ["source_description", "episode_content", "entity_types", "custom_prompt"]
  | "extract_text" => ["episode_content", "entity_types", "custom_prompt"]
  | "reflexion" => ["previous_episodes", "episode_content", "extracted_entities"]
  | "classify_nodes" => ["previous_episodes", "episode_content", "extracted_entities", "entity_types"]
  | "extract_attributes" => ["previous_episodes", "episode_content", "node"]
  | _ => []

/-- The context keys each edge operation reads, in read order — identical
across every edge prompt module of the source. -/
def edgeOpReadKeys : String → List String
  | "edge" => ["previous_episodes", "episode_content", "nodes", "reference_time", "edge_types",
               "custom_prompt"]
  | "reflexion" => ["previous_episodes", "episode_content", "nodes", "extracted_facts"]
  | "extract_attributes" => ["episode_content", "reference_time", "fact"]
  | _ => []

/-- Every node TemplateSet of the program: the default generic set and the
nine domain sets the node registry references. -/
def allNodeTemplateSets : List TemplateSet :=
  [ExtractNodes.versions, AwsExtractNodes.versions, AzureExtractNodes.versions,
   GcpExtractNodes.versions, GithubExtractNodes.versions, CicdExtractNodes.versions,
   LogsExtractNodes.versions, MetricsExtractNodes.versions, TracesExtractNodes.versions,
   ApplicationExtractNodes.versions]

/-- Every edge TemplateSet of the program: the default generic set and the
eight domain sets the edge registry references. -/
def allEdgeTemplateSets : List TemplateSet :=
  [ExtractEdges.versions, AwsExtractEdges.versions, AzureExtractEdges.versions,
   GcpExtractEdges.versions, GithubExtractEdges.versions, CicdExtractEdges.versions,
   MetricsExtractEdges.versions, TracesExtractEdges.versions, ApplicationExtractEdges.versions]

end Graphiti
namespace Graphiti

/-- Any context lacking one of the keys `ExtractNodes.extract_message` reads makes it raise
KeyError at the first missing key in its read order (a present
previous_episodes value is assumed list-valued, matching its iteration
by the templates). -/
theorem keySpec_ExtractNodes_extract_message (context : Ctx)
    (hprev : ∀ v, context.lookup "previous_episodes" = some v → ∃ xs, v = Val.list xs)
    (hmiss : ∃ k, k ∈ ["previous_episodes", "episode_content", "entity_types", "custom_prompt"] ∧ context.lookup k = Option.none) :
    ∃ k2, k2 ∈ ["previous_episodes", "episode_content", "entity_types", "custom_prompt"] ∧ context.lookup k2 = Option.none ∧
      ExtractNodes.extract_message context = Except.error (PyErr.keyError k2) := by
  rcases h1 : context.lookup "previous_episodes" with _ | v1
  · exact ⟨"previous_episodes", by simp, h1, by simp [ExtractNodes.extract_message, Ctx.getItem, h1, Bind.bind, Except.bind, pyIterList]⟩
  obtain ⟨xs1, rfl⟩ := hprev v1 h1
  rcases h2 : context.lookup "episode_content" with _ | v2
  · exact ⟨"episode_content", by simp, h2, by simp [ExtractNodes.extract_message, Ctx.getItem, h1, h2, Bind.bind, Except.bind, pyIterList]⟩
  rcases h3 : context.lookup "entity_types" with _ | v3
  · exact ⟨"entity_types", by simp, h3, by simp [ExtractNodes.extract_message, Ctx.getItem, h1, h2, h3, Bind.bind, Except.bind, pyIterList]⟩
  rcases h4 : context.lookup "custom_prompt" with _ | v4
  · exact ⟨"custom_prompt", by simp, h4, by simp [ExtractNodes.extract_message, Ctx.getItem, h1, h2, h3, h4, Bind.bind, Except.bind, pyIterList]⟩
  rcases hmiss with ⟨k, hk, hnone⟩
  simp at hk
  rcases hk with rfl | rfl | rfl | rfl <;> simp_all

/-- Any context lacking one of the keys `ExtractNodes.extract_json` reads makes it raise
KeyError at the first missing key in its read order (a present
previous_episodes value is assumed list-valued, matching its iteration
by the templates). -/
theorem keySpec_ExtractNodes_extract_json (context : Ctx)
    (_hprev : ∀ v, context.lookup "previous_episodes" = some v → ∃ xs, v = Val.list xs)
    (hmiss : ∃ k, k ∈ ["source_description", "episode_content", "entity_types", "custom_prompt"] ∧ context.lookup k = Option.none) :
    ∃ k2, k2 ∈ ["source_description", "episode_content", "entity_types", "custom_prompt"] ∧ context.lookup k2 = Option.none ∧
      ExtractNodes.extract_json context = Except.error (PyErr.keyError k2) := by
  rcases h1 : context.lookup "source_description" with _ | v1
  · exact ⟨"source_description", by simp, h1, by simp [ExtractNodes.extract_json, Ctx.getItem, h1, Bind.bind, Except.bind, pyIterList]⟩
  rcases h2 : context.lookup "episode_content" with _ | v2
  · exact ⟨"episode_content", by simp, h2, by simp [ExtractNodes.extract_json, Ctx.getItem, h1, h2, Bind.bind, Except.bind, pyIterList]⟩
  rcases h3 : context.lookup "entity_types" with _ | v3
  · exact ⟨"entity_types", by simp, h3, by simp [ExtractNodes.extract_json, Ctx.getItem, h1, h2, h3, Bind.bind, Except.bind, pyIterList]⟩
  rcases h4 : context.lookup "custom_prompt" with _ | v4
  · exact ⟨"custom_prompt", by simp, h4, by simp [ExtractNodes.extract_json, Ctx.getItem, h1, h2, h3, h4, Bind.bind, Except.bind, pyIterList]⟩
  rcases hmiss with ⟨k, hk, hnone⟩
  simp at hk
  rcases hk with rfl | rfl | rfl | rfl <;> simp_all

/-- Any context lacking one of the keys `ExtractNodes.extract_text` reads makes it raise
KeyError at the first missing key in its read order (a present
previous_episodes value is assumed list-valued, matching its iteration
by the templates). -/
theorem keySpec_ExtractNodes_extract_text (context : Ctx)
    (_hprev : ∀ v, context.lookup "previous_episodes" = some v → ∃ xs, v = Val.list xs)
    (hmiss : ∃ k, k ∈ ["episode_content", "entity_types", "custom_prompt"] ∧ context.lookup k = Option.none) :
    ∃ k2, k2 ∈ ["episode_content", "entity_types", "custom_prompt"] ∧ context.lookup k2 = Option.none ∧
      ExtractNodes.extract_text context = Except.error (PyErr.keyError k2) := by
  rcases h1 : context.lookup "episode_content" with _ | v1
  · exact ⟨"episode_content", by simp, h1, by simp [ExtractNodes.extract_text, Ctx.getItem, h1, Bind.bind, Except.bind, pyIterList]⟩
  rcases h2 : context.lookup "entity_types" with _ | v2
  · exact ⟨"entity_types", by simp, h2, by simp [ExtractNodes.extract_text, Ctx.getItem, h1, h2, Bind.bind, Except.bind, pyIterList]⟩
  rcases h3 : context.lookup "custom_prompt" with _ | v3
  · exact ⟨"custom_prompt", by simp, h3, by simp [ExtractNodes.extract_text, Ctx.getItem, h1, h2, h3, Bind.bind, Except.bind, pyIterList]⟩
  rcases hmiss with ⟨k, hk, hnone⟩
  simp at hk
  rcases hk with rfl | rfl | rfl <;> simp_all

/-- Any context lacking one of the keys `ExtractNodes.reflexion` reads makes it raise
KeyError at the first missing key in its read order (a present
previous_episodes value is assumed list-valued, matching its iteration
by the templates). -/
theorem keySpec_ExtractNodes_reflexion (context : Ctx)
    (hprev : ∀ v, context.lookup "previous_episodes" = some v → ∃ xs, v = Val.list xs)
    (hmiss : ∃ k, k ∈ ["previous_episodes", "episode_content", "extracted_entities"] ∧ context.lookup k = Option.none) :
    ∃ k2, k2 ∈ ["previous_episodes", "episode_content", "extracted_entities"] ∧ context.lookup k2 = Option.none ∧
      ExtractNodes.reflexion context = Except.error (PyErr.keyError k2) := by
  rcases h1 : context.lookup "previous_episodes" with _ | v1
  · exact ⟨"previous_episodes", by simp, h1, by simp [ExtractNodes.reflexion, Ctx.getItem, h1, Bind.bind, Except.bind, pyIterList]⟩
  obtain ⟨xs1, rfl⟩ := hprev v1 h1
  rcases h2 : context.lookup "episode_content" with _ | v2
  · exact ⟨"episode_content", by simp, h2, by simp [ExtractNodes.reflexion, Ctx.getItem, h1, h2, Bind.bind, Except.bind, pyIterList]⟩
  rcases h3 : context.lookup "extracted_entities" with _ | v3
  · exact ⟨"extracted_entities", by simp, h3, by simp [ExtractNodes.reflexion, Ctx.getItem, h1, h2, h3, Bind.bind, Except.bind, pyIterList]⟩
  rcases hmiss with ⟨k, hk, hnone⟩
  simp at hk
  rcases hk with rfl | rfl | rfl <;> simp_all

/-- Any context lacking one of the keys `ExtractNodes.classify_nodes` reads makes it raise
KeyError at the first missing key in its read order (a present
previous_episodes value is assumed list-valued, matching its iteration
by the templates). -/
theorem keySpec_ExtractNodes_classify_nodes (context : Ctx)
    (hprev : ∀ v, context.lookup "previous_episodes" = some v → ∃ xs, v = Val.list xs)
    (hmiss : ∃ k, k ∈ ["previous_episodes", "episode_content", "extracted_entities", "entity_types"] ∧ context.lookup k = Option.none) :
    ∃ k2, k2 ∈ ["previous_episodes", "episode_content", "extracted_entities", "entity_types"] ∧ context.lookup k2 = Option.none ∧
      ExtractNodes.classify_nodes context = Except.error (PyErr.keyError k2) := by
  rcases h1 : context.lookup "previous_episodes" with _ | v1
  · exact ⟨"previous_episodes", by simp, h1, by simp [ExtractNodes.classify_nodes, Ctx.getItem, h1, Bind.bind, Except.bind, pyIterList]⟩
  obtain ⟨xs1, rfl⟩ := hprev v1 h1
  rcases h2 : context.lookup "episode_content" with _ | v2
  · exact ⟨"episode_content", by simp, h2, by simp [ExtractNodes.classify_nodes, Ctx.getItem, h1, h2, Bind.bind, Except.bind, pyIterList]⟩
  rcases h3 : context.lookup "extracted_entities" with _ | v3
  · exact ⟨"extracted_entities", by simp, h3, by simp [ExtractNodes.classify_nodes, Ctx.getItem, h1, h2, h3, Bind.bind, Except.bind, pyIterList]⟩
  rcases h4 : context.lookup "entity_types" with _ | v4
  · exact ⟨"entity_types", by simp, h4, by simp [ExtractNodes.classify_nodes, Ctx.getItem, h1, h2, h3, h4, Bind.bind, Except.bind, pyIterList]⟩
  rcases hmiss with ⟨k, hk, hnone⟩
  simp at hk
  rcases hk with rfl | rfl | rfl | rfl <;> simp_all

/-- Any context lacking one of the keys `ExtractNodes.extract_attributes` reads makes it raise
KeyError at the first missing key in its read order (a present
previous_episodes value is assumed list-valued, matching its iteration
by the templates). -/
theorem keySpec_ExtractNodes_extract_attributes (context : Ctx)
    (_hprev : ∀ v, context.lookup "previous_episodes" = some v → ∃ xs, v = Val.list xs)
    (hmiss : ∃ k, k ∈ ["previous_episodes", "episode_content", "node"] ∧ context.lookup k = Option.none) :
    ∃ k2, k2 ∈ ["previous_episodes", "episode_content", "node"] ∧ context.lookup k2 = Option.none ∧
      ExtractNodes.extract_attributes context = Except.error (PyErr.keyError k2) := by
  rcases h1 : context.lookup "previous_episodes" with _ | v1
  · exact ⟨"previous_episodes", by simp, h1, by simp [ExtractNodes.extract_attributes, Ctx.getItem, h1, Bind.bind, Except.bind, pyIterList]⟩
  rcases h2 : context.lookup "episode_content" with _ | v2
  · exact ⟨"episode_content", by simp, h2, by simp [ExtractNodes.extract_attributes, Ctx.getItem, h1, h2, Bind.bind, Except.bind, pyIterList]⟩
  rcases h3 : context.lookup "node" with _ | v3
  · exact ⟨"node", by simp, h3, by simp [ExtractNodes.extract_attributes, Ctx.getItem, h1, h2, h3, Bind.bind, Except.bind, pyIterList]⟩
  rcases hmiss with ⟨k, hk, hnone⟩
  simp at hk
  rcases hk with rfl | rfl | rfl <;> simp_all

/-- Bundles the per-operation missing-key lemmas over the full operation
vocabulary of `ExtractNodes.versions`. -/
theorem keySpecAll_ExtractNodes (context : Ctx)
    (hprev : ∀ v, context.lookup "previous_episodes" = some v → ∃ xs, v = Val.list xs) :
    ∀ op ∈ nodeOperationNames, ∀ k ∈ nodeOpReadKeys op, context.lookup k = Option.none →
      ∃ f k2, ExtractNodes.versions.lookup op = some f ∧ k2 ∈ nodeOpReadKeys op ∧
        context.lookup k2 = Option.none ∧
        f context = Except.error (PyErr.keyError k2) := by
  intro op hop k hk hknone
  fin_cases hop
  · obtain ⟨k2, hk2, hn2, herr⟩ := keySpec_ExtractNodes_extract_message context hprev
      ⟨k, by simpa [nodeOpReadKeys] using hk, hknone⟩
    exact ⟨ExtractNodes.extract_message, k2, rfl, by simpa [nodeOpReadKeys] using hk2, hn2, herr⟩
  · obtain ⟨k2, hk2, hn2, herr⟩ := keySpec_ExtractNodes_extract_json context hprev
      ⟨k, by simpa [nodeOpReadKeys] using hk, hknone⟩
    exact ⟨ExtractNodes.extract_json, k2, rfl, by simpa [nodeOpReadKeys] using hk2, hn2, herr⟩
  · obtain ⟨k2, hk2, hn2, herr⟩ := keySpec_ExtractNodes_extract_text context hprev
      ⟨k, by simpa [nodeOpReadKeys] using hk, hknone⟩
    exact ⟨ExtractNodes.extract_text, k2, rfl, by simpa [nodeOpReadKeys] using hk2, hn2, herr⟩
  · obtain ⟨k2, hk2, hn2, herr⟩ := keySpec_ExtractNodes_reflexion context hprev
      ⟨k, by simpa [nodeOpReadKeys] using hk, hknone⟩
    exact ⟨ExtractNodes.reflexion, k2, rfl, by simpa [nodeOpReadKeys] using hk2, hn2, herr⟩
  · obtain ⟨k2, hk2, hn2, herr⟩ := keySpec_ExtractNodes_classify_nodes context hprev
      ⟨k, by simpa [nodeOpReadKeys] using hk, hknone⟩
    exact ⟨ExtractNodes.classify_nodes, k2, rfl, by simpa [nodeOpReadKeys] using hk2, hn2, herr⟩
  · obtain ⟨k2, hk2, hn2, herr⟩ := keySpec_ExtractNodes_extract_attributes context hprev
      ⟨k, by simpa [nodeOpReadKeys] using hk, hknone⟩
    exact ⟨ExtractNodes.extract_attributes, k2, rfl, by simpa [nodeOpReadKeys] using hk2, hn2, herr⟩

/-- Any context lacking one of the keys `AwsExtractNodes.extract_message` reads makes it raise
KeyError at the first missing key in its read order (a present
previous_episodes value is assumed list-valued, matching its iteration
by the templates). -/
theorem keySpec_AwsExtractNodes_extract_message (context : Ctx)
    (hprev : ∀ v, context.lookup "previous_episodes" = some v → ∃ xs, v = Val.list xs)
    (hmiss : ∃ k, k ∈ ["previous_episodes", "episode_content", "entity_types", "custom_prompt"] ∧ context.lookup k = Option.none) :
    ∃ k2, k2 ∈ ["previous_episodes", "episode_content", "entity_types", "custom_prompt"] ∧ context.lookup k2 = Option.none ∧
      AwsExtractNodes.extract_message context = Except.error (PyErr.keyError k2) := by
  rcases h1 : context.lookup "previous_episodes" with _ | v1
  · exact ⟨"previous_episodes", by simp, h1, by simp [AwsExtractNodes.extract_message, Ctx.getItem, h1, Bind.bind, Except.bind, pyIterList]⟩
  obtain ⟨xs1, rfl⟩ := hprev v1 h1
  rcases h2 : context.lookup "episode_content" with _ | v2
  · exact ⟨"episode_content", by simp, h2, by simp [AwsExtractNodes.extract_message, Ctx.getItem, h1, h2, Bind.bind, Except.bind, pyIterList]⟩
  rcases h3 : context.lookup "entity_types" with _ | v3
  · exact ⟨"entity_types", by simp, h3, by simp [AwsExtractNodes.extract_message, Ctx.getItem, h1, h2, h3, Bind.bind, Except.bind, pyIterList]⟩
  rcases h4 : context.lookup "custom_prompt" with _ | v4
  · exact ⟨"custom_prompt", by simp, h4, by simp [AwsExtractNodes.extract_message, Ctx.getItem, h1, h2, h3, h4, Bind.bind, Except.bind, pyIterList]⟩
  rcases hmiss with ⟨k, hk, hnone⟩
  simp at hk
  rcases hk with rfl | rfl | rfl | rfl <;> simp_all

/-- Any context lacking one of the keys `AwsExtractNodes.extract_json` reads makes it raise
KeyError at the first missing key in its read order (a present
previous_episodes value is assumed list-valued, matching its iteration
by the templates). -/
theorem keySpec_AwsExtractNodes_extract_json (context : Ctx)
    (_hprev : ∀ v, context.lookup "previous_episodes" = some v → ∃ xs, v = Val.list xs)
    (hmiss : ∃ k, k ∈ ["source_description", "episode_content", "entity_types", "custom_prompt"] ∧ context.lookup k = Option.none) :
    ∃ k2, k2 ∈ ["source_description", "episode_content", "entity_types", "custom_prompt"] ∧ context.lookup k2 = Option.none ∧
      AwsExtractNodes.extract_json context = Except.error (PyErr.keyError k2) := by
  rcases h1 : context.lookup "source_description" with _ | v1
  · exact ⟨"source_description", by simp, h1, by simp [AwsExtractNodes.extract_json, Ctx.getItem, h1, Bind.bind, Except.bind, pyIterList]⟩
  rcases h2 : context.lookup "episode_content" with _ | v2
  · exact ⟨"episode_content", by simp, h2, by simp [AwsExtractNodes.extract_json, Ctx.getItem, h1, h2, Bind.bind, Except.bind, pyIterList]⟩
  rcases h3 : context.lookup "entity_types" with _ | v3
  · exact ⟨"entity_types", by simp, h3, by simp [AwsExtractNodes.extract_json, Ctx.getItem, h1, h2, h3, Bind.bind, Except.bind, pyIterList]⟩
  rcases h4 : context.lookup "custom_prompt" with _ | v4
  · exact ⟨"custom_prompt", by simp, h4, by simp [AwsExtractNodes.extract_json, Ctx.getItem, h1, h2, h3, h4, Bind.bind, Except.bind, pyIterList]⟩
  rcases hmiss with ⟨k, hk, hnone⟩
  simp at hk
  rcases hk with rfl | rfl | rfl | rfl <;> simp_all

/-- Any context lacking one of the keys `AwsExtractNodes.extract_text` reads makes it raise
KeyError at the first missing key in its read order (a present
previous_episodes value is assumed list-valued, matching its iteration
by the templates). -/
theorem keySpec_AwsExtractNodes_extract_text (context : Ctx)
    (_hprev : ∀ v, context.lookup "previous_episodes" = some v → ∃ xs, v = Val.list xs)
    (hmiss : ∃ k, k ∈ ["episode_content", "entity_types", "custom_prompt"] ∧ context.lookup k = Option.none) :
    ∃ k2, k2 ∈ ["episode_content", "entity_types", "custom_prompt"] ∧ context.lookup k2 = Option.none ∧
      AwsExtractNodes.extract_text context = Except.error (PyErr.keyError k2) := by
  rcases h1 : context.lookup "episode_content" with _ | v1
  · exact ⟨"episode_content", by simp, h1, by simp [AwsExtractNodes.extract_text, Ctx.getItem, h1, Bind.bind, Except.bind, pyIterList]⟩
  rcases h2 : context.lookup "entity_types" with _ | v2
  · exact ⟨"entity_types", by simp, h2, by simp [AwsExtractNodes.extract_text, Ctx.getItem, h1, h2, Bind.bind, Except.bind, pyIterList]⟩
  rcases h3 : context.lookup "custom_prompt" with _ | v3
  · exact ⟨"custom_prompt", by simp, h3, by simp [AwsExtractNodes.extract_text, Ctx.getItem, h1, h2, h3, Bind.bind, Except.bind, pyIterList]⟩
  rcases hmiss with ⟨k, hk, hnone⟩
  simp at hk
  rcases hk with rfl | rfl | rfl <;> simp_all

/-- Any context lacking one of the keys `AwsExtractNodes.reflexion` reads makes it raise
KeyError at the first missing key in its read order (a present
previous_episodes value is assumed list-valued, matching its iteration
by the templates). -/
theorem keySpec_AwsExtractNodes_reflexion (context : Ctx)
    (hprev : ∀ v, context.lookup "previous_episodes" = some v → ∃ xs, v = Val.list xs)
    (hmiss : ∃ k, k ∈ ["previous_episodes", "episode_content", "extracted_entities"] ∧ context.lookup k = Option.none) :
    ∃ k2, k2 ∈ ["previous_episodes", "episode_content", "extracted_entities"] ∧ context.lookup k2 = Option.none ∧
      AwsExtractNodes.reflexion context = Except.error (PyErr.keyError k2) := by
  rcases h1 : context.lookup "previous_episodes" with _ | v1
  · exact ⟨"previous_episodes", by simp, h1, by simp [AwsExtractNodes.reflexion, Ctx.getItem, h1, Bind.bind, Except.bind, pyIterList]⟩
  obtain ⟨xs1, rfl⟩ := hprev v1 h1
  rcases h2 : context.lookup "episode_content" with _ | v2
  · exact ⟨"episode_content", by simp, h2, by simp [AwsExtractNodes.reflexion, Ctx.getItem, h1, h2, Bind.bind, Except.bind, pyIterList]⟩
  rcases h3 : context.lookup "extracted_entities" with _ | v3
  · exact ⟨"extracted_entities", by simp, h3, by simp [AwsExtractNodes.reflexion, Ctx.getItem, h1, h2, h3, Bind.bind, Except.bind, pyIterList]⟩
  rcases hmiss with ⟨k, hk, hnone⟩
  simp at hk
  rcases hk with rfl | rfl | rfl <;> simp_all

/-- Any context lacking one of the keys `AwsExtractNodes.classify_nodes` reads makes it raise
KeyError at the first missing key in its read order (a present
previous_episodes value is assumed list-valued, matching its iteration
by the templates). -/
theorem keySpec_AwsExtractNodes_classify_nodes (context : Ctx)
    (hprev : ∀ v, context.lookup "previous_episodes" = some v → ∃ xs, v = Val.list xs)
    (hmiss : ∃ k, k ∈ ["previous_episodes", "episode_content", "extracted_entities", "entity_types"] ∧ context.lookup k = Option.none) :
    ∃ k2, k2 ∈ ["previous_episodes", "episode_content", "extracted_entities", "entity_types"] ∧ context.lookup k2 = Option.none ∧
      AwsExtractNodes.classify_nodes context = Except.error (PyErr.keyError k2) := by
  rcases h1 : context.lookup "previous_episodes" with _ | v1
  · exact ⟨"previous_episodes", by simp, h1, by simp [AwsExtractNodes.classify_nodes, Ctx.getItem, h1, Bind.bind, Except.bind, pyIterList]⟩
  obtain ⟨xs1, rfl⟩ := hprev v1 h1
  rcases h2 : context.lookup "episode_content" with _ | v2
  · exact ⟨"episode_content", by simp, h2, by simp [AwsExtractNodes.classify_nodes, Ctx.getItem, h1, h2, Bind.bind, Except.bind, pyIterList]⟩
  rcases h3 : context.lookup "extracted_entities" with _ | v3
  · exact ⟨"extracted_entities", by simp, h3, by simp [AwsExtractNodes.classify_nodes, Ctx.getItem, h1, h2, h3, Bind.bind, Except.bind, pyIterList]⟩
  rcases h4 : context.lookup "entity_types" with _ | v4
  · exact ⟨"entity_types", by simp, h4, by simp [AwsExtractNodes.classify_nodes, Ctx.getItem, h1, h2, h3, h4, Bind.bind, Except.bind, pyIterList]⟩
  rcases hmiss with ⟨k, hk, hnone⟩
  simp at hk
  rcases hk with rfl | rfl | rfl | rfl <;> simp_all

/-- Any context lacking one of the keys `AwsExtractNodes.extract_attributes` reads makes it raise
KeyError at the first missing key in its read order (a present
previous_episodes value is assumed list-valued, matching its iteration
by the templates). -/
theorem keySpec_AwsExtractNodes_extract_attributes (context : Ctx)
    (_hprev : ∀ v, context.lookup "previous_episodes" = some v → ∃ xs, v = Val.list xs)
    (hmiss : ∃ k, k ∈ ["previous_episodes", "episode_content", "node"] ∧ context.lookup k = Option.none) :
    ∃ k2, k2 ∈ ["previous_episodes", "episode_content", "node"] ∧ context.lookup k2 = Option.none ∧
      AwsExtractNodes.extract_attributes context = Except.error (PyErr.keyError k2) := by
  rcases h1 : context.lookup "previous_episodes" with _ | v1
  · exact ⟨"previous_episodes", by simp, h1, by simp [AwsExtractNodes.extract_attributes, Ctx.getItem, h1, Bind.bind, Except.bind, pyIterList]⟩
  rcases h2 : context.lookup "episode_content" with _ | v2
  · exact ⟨"episode_content", by simp, h2, by simp [AwsExtractNodes.extract_attributes, Ctx.getItem, h1, h2, Bind.bind, Except.bind, pyIterList]⟩
  rcases h3 : context.lookup "node" with _ | v3
  · exact ⟨"node", by simp, h3, by simp [AwsExtractNodes.extract_attributes, Ctx.getItem, h1, h2, h3, Bind.bind, Except.bind, pyIterList]⟩
  rcases hmiss with ⟨k, hk, hnone⟩
  simp at hk
  rcases hk with rfl | rfl | rfl <;> simp_all

/-- Bundles the per-operation missing-key lemmas over the full operation
vocabulary of `AwsExtractNodes.versions`. -/
theorem keySpecAll_AwsExtractNodes (context : Ctx)
    (hprev : ∀ v, context.lookup "previous_episodes" = some v → ∃ xs, v = Val.list xs) :
    ∀ op ∈ nodeOperationNames, ∀ k ∈ nodeOpReadKeys op, context.lookup k = Option.none →
      ∃ f k2, AwsExtractNodes.versions.lookup op = some f ∧ k2 ∈ nodeOpReadKeys op ∧
        context.lookup k2 = Option.none ∧
        f context = Except.error (PyErr.keyError k2) := by
  intro op hop k hk hknone
  fin_cases hop
  · obtain ⟨k2, hk2, hn2, herr⟩ := keySpec_AwsExtractNodes_extract_message context hprev
      ⟨k, by simpa [nodeOpReadKeys] using hk, hknone⟩
    exact ⟨AwsExtractNodes.extract_message, k2, rfl, by simpa [nodeOpReadKeys] using hk2, hn2, herr⟩
  · obtain ⟨k2, hk2, hn2, herr⟩ := keySpec_AwsExtractNodes_extract_json context hprev
      ⟨k, by simpa [nodeOpReadKeys] using hk, hknone⟩
    exact ⟨AwsExtractNodes.extract_json, k2, rfl, by simpa [nodeOpReadKeys] using hk2, hn2, herr⟩
  · obtain ⟨k2, hk2, hn2, herr⟩ := keySpec_AwsExtractNodes_extract_text context hprev
      ⟨k, by simpa [nodeOpReadKeys] using hk, hknone⟩
    exact ⟨AwsExtractNodes.extract_text, k2, rfl, by simpa [nodeOpReadKeys] using hk2, hn2, herr⟩
  · obtain ⟨k2, hk2, hn2, herr⟩ := keySpec_AwsExtractNodes_reflexion context hprev
      ⟨k, by simpa [nodeOpReadKeys] using hk, hknone⟩
    exact ⟨AwsExtractNodes.reflexion, k2, rfl, by simpa [nodeOpReadKeys] using hk2, hn2, herr⟩
  · obtain ⟨k2, hk2, hn2, herr⟩ := keySpec_AwsExtractNodes_classify_nodes context hprev
      ⟨k, by simpa [nodeOpReadKeys] using hk, hknone⟩
    exact ⟨AwsExtractNodes.classify_nodes, k2, rfl, by simpa [nodeOpReadKeys] using hk2, hn2, herr⟩
  · obtain ⟨k2, hk2, hn2, herr⟩ := keySpec_AwsExtractNodes_extract_attributes context hprev
      ⟨k, by simpa [nodeOpReadKeys] using hk, hknone⟩
    exact ⟨AwsExtractNodes.extract_attributes, k2, rfl, by simpa [nodeOpReadKeys] using hk2, hn2, herr⟩

/-- Any context lacking one of the keys `AwsExtractEdges.edge` reads makes it raise
KeyError at the first missing key in its read order (a present
previous_episodes value is assumed list-valued, matching its iteration
by the templates). -/
theorem keySpec_AwsExtractEdges_edge (context : Ctx)
    (hprev : ∀ v, context.lookup "previous_episodes" = some v → ∃ xs, v = Val.list xs)
    (hmiss : ∃ k, k ∈ ["previous_episodes", "episode_content", "nodes", "reference_time", "edge_types", "custom_prompt"] ∧ context.lookup k = Option.none) :
    ∃ k2, k2 ∈ ["previous_episodes", "episode_content", "nodes", "reference_time", "edge_types", "custom_prompt"] ∧ context.lookup k2 = Option.none ∧
      AwsExtractEdges.edge context = Except.error (PyErr.keyError k2) := by
  rcases h1 : context.lookup "previous_episodes" with _ | v1
  · exact ⟨"previous_episodes", by simp, h1, by simp [AwsExtractEdges.edge, Ctx.getItem, h1, Bind.bind, Except.bind, pyIterList]⟩
  obtain ⟨xs1, rfl⟩ := hprev v1 h1
  rcases h2 : context.lookup "episode_content" with _ | v2
  · exact ⟨"episode_content", by simp, h2, by simp [AwsExtractEdges.edge, Ctx.getItem, h1, h2, Bind.bind, Except.bind, pyIterList]⟩
  rcases h3 : context.lookup "nodes" with _ | v3
  · exact ⟨"nodes", by simp, h3, by simp [AwsExtractEdges.edge, Ctx.getItem, h1, h2, h3, Bind.bind, Except.bind, pyIterList]⟩
  rcases h4 : context.lookup "reference_time" with _ | v4
  · exact ⟨"reference_time", by simp, h4, by simp [AwsExtractEdges.edge, Ctx.getItem, h1, h2, h3, h4, Bind.bind, Except.bind, pyIterList]⟩
  rcases h5 : context.lookup "edge_types" with _ | v5
  · exact ⟨"edge_types", by simp, h5, by simp [AwsExtractEdges.edge, Ctx.getItem, h1, h2, h3, h4, h5, Bind.bind, Except.bind, pyIterList]⟩
  rcases h6 : context.lookup "custom_prompt" with _ | v6
  · exact ⟨"custom_prompt", by simp, h6, by simp [AwsExtractEdges.edge, Ctx.getItem, h1, h2, h3, h4, h5, h6, Bind.bind, Except.bind, pyIterList]⟩
  rcases hmiss with ⟨k, hk, hnone⟩
  simp at hk
  rcases hk with rfl | rfl | rfl | rfl | rfl | rfl <;> simp_all

/-- Any context lacking one of the keys `AwsExtractEdges.reflexion` reads makes it raise
KeyError at the first missing key in its read order (a present
previous_episodes value is assumed list-valued, matching its iteration
by the templates). -/
theorem keySpec_AwsExtractEdges_reflexion (context : Ctx)
    (hprev : ∀ v, context.lookup "previous_episodes" = some v → ∃ xs, v = Val.list xs)
    (hmiss : ∃ k, k ∈ ["previous_episodes", "episode_content", "nodes", "extracted_facts"] ∧ context.lookup k = Option.none) :
    ∃ k2, k2 ∈ ["previous_episodes", "episode_content", "nodes", "extracted_facts"] ∧ context.lookup k2 = Option.none ∧
      AwsExtractEdges.reflexion context = Except.error (PyErr.keyError k2) := by
  rcases h1 : context.lookup "previous_episodes" with _ | v1
  · exact ⟨"previous_episodes", by simp, h1, by simp [AwsExtractEdges.reflexion, Ctx.getItem, h1, Bind.bind, Except.bind, pyIterList]⟩
  obtain ⟨xs1, rfl⟩ := hprev v1 h1
  rcases h2 : context.lookup "episode_content" with _ | v2
  · exact ⟨"episode_content", by simp, h2, by simp [AwsExtractEdges.reflexion, Ctx.getItem, h1, h2, Bind.bind, Except.bind, pyIterList]⟩
  rcases h3 : context.lookup "nodes" with _ | v3
  · exact ⟨"nodes", by simp, h3, by simp [AwsExtractEdges.reflexion, Ctx.getItem, h1, h2, h3, Bind.bind, Except.bind, pyIterList]⟩
  rcases h4 : context.lookup "extracted_facts" with _ | v4
  · exact ⟨"extracted_facts", by simp, h4, by simp [AwsExtractEdges.reflexion, Ctx.getItem, h1, h2, h3, h4, Bind.bind, Except.bind, pyIterList]⟩
  rcases hmiss with ⟨k, hk, hnone⟩
  simp at hk
  rcases hk with rfl | rfl | rfl | rfl <;> simp_all

/-- Any context lacking one of the keys `AwsExtractEdges.extract_attributes` reads makes it raise
KeyError at the first missing key in its read order (a present
previous_episodes value is assumed list-valued, matching its iteration
by the templates). -/
theorem keySpec_AwsExtractEdges_extract_attributes (context : Ctx)
    (_hprev : ∀ v, context.lookup "previous_episodes" = some v → ∃ xs, v = Val.list xs)
    (hmiss : ∃ k, k ∈ ["episode_content", "reference_time", "fact"] ∧ context.lookup k = Option.none) :
    ∃ k2, k2 ∈ ["episode_content", "reference_time", "fact"] ∧ context.lookup k2 = Option.none ∧
      AwsExtractEdges.extract_attributes context = Except.error (PyErr.keyError k2) := by
  rcases h1 : context.lookup "episode_content" with _ | v1
  · exact ⟨"episode_content", by simp, h1, by simp [AwsExtractEdges.extract_attributes, Ctx.getItem, h1, Bind.bind, Except.bind, pyIterList]⟩
  rcases h2 : context.lookup "reference_time" with _ | v2
  · exact ⟨"reference_time", by simp, h2, by simp [AwsExtractEdges.extract_attributes, Ctx.getItem, h1, h2, Bind.bind, Except.bind, pyIterList]⟩
  rcases h3 : context.lookup "fact" with _ | v3
  · exact ⟨"fact", by simp, h3, by simp [AwsExtractEdges.extract_attributes, Ctx.getItem, h1, h2, h3, Bind.bind, Except.bind, pyIterList]⟩
  rcases hmiss with ⟨k, hk, hnone⟩
  simp at hk
  rcases hk with rfl | rfl | rfl <;> simp_all

/-- Bundles the per-operation missing-key lemmas over the full operation
vocabulary of `AwsExtractEdges.versions`. -/
theorem keySpecAll_AwsExtractEdges (context : Ctx)
    (hprev : ∀ v, context.lookup "previous_episodes" = some v → ∃ xs, v = Val.list xs) :
    ∀ op ∈ edgeOperationNames, ∀ k ∈ edgeOpReadKeys op, context.lookup k = Option.none →
      ∃ f k2, AwsExtractEdges.versions.lookup op = some f ∧ k2 ∈ edgeOpReadKeys op ∧
        context.lookup k2 = Option.none ∧
        f context = Except.error (PyErr.keyError k2) := by
  intro op hop k hk hknone
  fin_cases hop
  · obtain ⟨k2, hk2, hn2, herr⟩ := keySpec_AwsExtractEdges_edge context hprev
      ⟨k, by simpa [edgeOpReadKeys] using hk, hknone⟩
    exact ⟨AwsExtractEdges.edge, k2, rfl, by simpa [edgeOpReadKeys] using hk2, hn2, herr⟩
  · obtain ⟨k2, hk2, hn2, herr⟩ := keySpec_AwsExtractEdges_reflexion context hprev
      ⟨k, by simpa [edgeOpReadKeys] using hk, hknone⟩
    exact ⟨AwsExtractEdges.reflexion, k2, rfl, by simpa [edgeOpReadKeys] using hk2, hn2, herr⟩
  · obtain ⟨k2, hk2, hn2, herr⟩ := keySpec_AwsExtractEdges_extract_attributes context hprev
      ⟨k, by simpa [edgeOpReadKeys] using hk, hknone⟩
    exact ⟨AwsExtractEdges.extract_attributes, k2, rfl, by simpa [edgeOpReadKeys] using hk2, hn2, herr⟩

/-- Any context lacking one of the keys `AzureExtractNodes.extract_message` reads makes it raise
KeyError at the first missing key in its read order (a present
previous_episodes value is assumed list-valued, matching its iteration
by the templates). -/
theorem keySpec_AzureExtractNodes_extract_message (context : Ctx)
    (hprev : ∀ v, context.lookup "previous_episodes" = some v → ∃ xs, v = Val.list xs)
    (hmiss : ∃ k, k ∈ ["previous_episodes", "episode_content", "entity_types", "custom_prompt"] ∧ context.lookup k = Option.none) :
    ∃ k2, k2 ∈ ["previous_episodes", "episode_content", "entity_types", "custom_prompt"] ∧ context.lookup k2 = Option.none ∧
      AzureExtractNodes.extract_message context = Except.error (PyErr.keyError k2) := by
  rcases h1 : context.lookup "previous_episodes" with _ | v1
  · exact ⟨"previous_episodes", by simp, h1, by simp [AzureExtractNodes.extract_message, Ctx.getItem, h1, Bind.bind, Except.bind, pyIterList]⟩
  obtain ⟨xs1, rfl⟩ := hprev v1 h1
  rcases h2 : context.lookup "episode_content" with _ | v2
  · exact ⟨"episode_content", by simp, h2, by simp [AzureExtractNodes.extract_message, Ctx.getItem, h1, h2, Bind.bind, Except.bind, pyIterList]⟩
  rcases h3 : context.lookup "entity_types" with _ | v3
  · exact ⟨"entity_types", by simp, h3, by simp [AzureExtractNodes.extract_message, Ctx.getItem, h1, h2, h3, Bind.bind, Except.bind, pyIterList]⟩
  rcases h4 : context.lookup "custom_prompt" with _ | v4
  · exact ⟨"custom_prompt", by simp, h4, by simp [AzureExtractNodes.extract_message, Ctx.getItem, h1, h2, h3, h4, Bind.bind, Except.bind, pyIterList]⟩
  rcases hmiss with ⟨k, hk, hnone⟩
  simp at hk
  rcases hk with rfl | rfl | rfl | rfl <;> simp_all

/-- Any context lacking one of the keys `AzureExtractNodes.extract_json` reads makes it raise
KeyError at the first missing key in its read order (a present
previous_episodes value is assumed list-valued, matching its iteration
by the templates). -/
theorem keySpec_AzureExtractNodes_extract_json (context : Ctx)
    (_hprev : ∀ v, context.lookup "previous_episodes" = some v → ∃ xs, v = Val.list xs)
    (hmiss : ∃ k, k ∈ ["source_description", "episode_content", "entity_types", "custom_prompt"] ∧ context.lookup k = Option.none) :
    ∃ k2, k2 ∈ ["source_description", "episode_content", "entity_types", "custom_prompt"] ∧ context.lookup k2 = Option.none ∧
      AzureExtractNodes.extract_json context = Except.error (PyErr.keyError k2) := by
  rcases h1 : context.lookup "source_description" with _ | v1
  · exact ⟨"source_description", by simp, h1, by simp [AzureExtractNodes.extract_json, Ctx.getItem, h1, Bind.bind, Except.bind, pyIterList]⟩
  rcases h2 : context.lookup "episode_content" with _ | v2
  · exact ⟨"episode_content", by simp, h2, by simp [AzureExtractNodes.extract_json, Ctx.getItem, h1, h2, Bind.bind, Except.bind, pyIterList]⟩
  rcases h3 : context.lookup "entity_types" with _ | v3
  · exact ⟨"entity_types", by simp, h3, by simp [AzureExtractNodes.extract_json, Ctx.getItem, h1, h2, h3, Bind.bind, Except.bind, pyIterList]⟩
  rcases h4 : context.lookup "custom_prompt" with _ | v4
  · exact ⟨"custom_prompt", by simp, h4, by simp [AzureExtractNodes.extract_json, Ctx.getItem, h1, h2, h3, h4, Bind.bind, Except.bind, pyIterList]⟩
  rcases hmiss with ⟨k, hk, hnone⟩
  simp at hk
  rcases hk with rfl | rfl | rfl | rfl <;> simp_all

/-- Any context lacking one of the keys `AzureExtractNodes.extract_text` reads makes it raise
KeyError at the first missing key in its read order (a present
previous_episodes value is assumed list-valued, matching its iteration
by the templates). -/
theorem keySpec_AzureExtractNodes_extract_text (context : Ctx)
    (_hprev : ∀ v, context.lookup "previous_episodes" = some v → ∃ xs, v = Val.list xs)
    (hmiss : ∃ k, k ∈ ["episode_content", "entity_types", "custom_prompt"] ∧ context.lookup k = Option.none) :
    ∃ k2, k2 ∈ ["episode_content", "entity_types", "custom_prompt"] ∧ context.lookup k2 = Option.none ∧
      AzureExtractNodes.extract_text context = Except.error (PyErr.keyError k2) := by
  rcases h1 : context.lookup "episode_content" with _ | v1
  · exact ⟨"episode_content", by simp, h1, by simp [AzureExtractNodes.extract_text, Ctx.getItem, h1, Bind.bind, Except.bind, pyIterList]⟩
  rcases h2 : context.lookup "entity_types" with _ | v2
  · exact ⟨"entity_types", by simp, h2, by simp [AzureExtractNodes.extract_text, Ctx.getItem, h1, h2, Bind.bind, Except.bind, pyIterList]⟩
  rcases h3 : context.lookup "custom_prompt" with _ | v3
  · exact ⟨"custom_prompt", by simp, h3, by simp [AzureExtractNodes.extract_text, Ctx.getItem, h1, h2, h3, Bind.bind, Except.bind, pyIterList]⟩
  rcases hmiss with ⟨k, hk, hnone⟩
  simp at hk
  rcases hk with rfl | rfl | rfl <;> simp_all

/-- Any context lacking one of the keys `AzureExtractNodes.reflexion` reads makes it raise
KeyError at the first missing key in its read order (a present
previous_episodes value is assumed list-valued, matching its iteration
by the templates). -/
theorem keySpec_AzureExtractNodes_reflexion (context : Ctx)
    (hprev : ∀ v, context.lookup "previous_episodes" = some v → ∃ xs, v = Val.list xs)
    (hmiss : ∃ k, k ∈ ["previous_episodes", "episode_content", "extracted_entities"] ∧ context.lookup k = Option.none) :
    ∃ k2, k2 ∈ ["previous_episodes", "episode_content", "extracted_entities"] ∧ context.lookup k2 = Option.none ∧
      AzureExtractNodes.reflexion context = Except.error (PyErr.keyError k2) := by
  rcases h1 : context.lookup "previous_episodes" with _ | v1
  · exact ⟨"previous_episodes", by simp, h1, by simp [AzureExtractNodes.reflexion, Ctx.getItem, h1, Bind.bind, Except.bind, pyIterList]⟩
  obtain ⟨xs1, rfl⟩ := hprev v1 h1
  rcases h2 : context.lookup "episode_content" with _ | v2
  · exact ⟨"episode_content", by simp, h2, by simp [AzureExtractNodes.reflexion, Ctx.getItem, h1, h2, Bind.bind, Except.bind, pyIterList]⟩
  rcases h3 : context.lookup "extracted_entities" with _ | v3
  · exact ⟨"extracted_entities", by simp, h3, by simp [AzureExtractNodes.reflexion, Ctx.getItem, h1, h2, h3, Bind.bind, Except.bind, pyIterList]⟩
  rcases hmiss with ⟨k, hk, hnone⟩
  simp at hk
  rcases hk with rfl | rfl | rfl <;> simp_all

/-- Any context lacking one of the keys `AzureExtractNodes.classify_nodes` reads makes it raise
KeyError at the first missing key in its read order (a present
previous_episodes value is assumed list-valued, matching its iteration
by the templates). -/
theorem keySpec_AzureExtractNodes_classify_nodes (context : Ctx)
    (hprev : ∀ v, context.lookup "previous_episodes" = some v → ∃ xs, v = Val.list xs)
    (hmiss : ∃ k, k ∈ ["previous_episodes", "episode_content", "extracted_entities", "entity_types"] ∧ context.lookup k = Option.none) :
    ∃ k2, k2 ∈ ["previous_episodes", "episode_content", "extracted_entities", "entity_types"] ∧ context.lookup k2 = Option.none ∧
      AzureExtractNodes.classify_nodes context = Except.error (PyErr.keyError k2) := by
  rcases h1 : context.lookup "previous_episodes" with _ | v1
  · exact ⟨"previous_episodes", by simp, h1, by simp [AzureExtractNodes.classify_nodes, Ctx.getItem, h1, Bind.bind, Except.bind, pyIterList]⟩
  obtain ⟨xs1, rfl⟩ := hprev v1 h1
  rcases h2 : context.lookup "episode_content" with _ | v2
  · exact ⟨"episode_content", by simp, h2, by simp [AzureExtractNodes.classify_nodes, Ctx.getItem, h1, h2, Bind.bind, Except.bind, pyIterList]⟩
  rcases h3 : context.lookup "extracted_entities" with _ | v3
  · exact ⟨"extracted_entities", by simp, h3, by simp [AzureExtractNodes.classify_nodes, Ctx.getItem, h1, h2, h3, Bind.bind, Except.bind, pyIterList]⟩
  rcases h4 : context.lookup "entity_types" with _ | v4
  · exact ⟨"entity_types", by simp, h4, by simp [AzureExtractNodes.classify_nodes, Ctx.getItem, h1, h2, h3, h4, Bind.bind, Except.bind, pyIterList]⟩
  rcases hmiss with ⟨k, hk, hnone⟩
  simp at hk
  rcases hk with rfl | rfl | rfl | rfl <;> simp_all

/-- Any context lacking one of the keys `AzureExtractNodes.extract_attributes` reads makes it raise
KeyError at the first missing key in its read order (a present
previous_episodes value is assumed list-valued, matching its iteration
by the templates). -/
theorem keySpec_AzureExtractNodes_extract_attributes (context : Ctx)
    (_hprev : ∀ v, context.lookup "previous_episodes" = some v → ∃ xs, v = Val.list xs)
    (hmiss : ∃ k, k ∈ ["previous_episodes", "episode_content", "node"] ∧ context.lookup k = Option.none) :
    ∃ k2, k2 ∈ ["previous_episodes", "episode_content", "node"] ∧ context.lookup k2 = Option.none ∧
      AzureExtractNodes.extract_attributes context = Except.error (PyErr.keyError k2) := by
  rcases h1 : context.lookup "previous_episodes" with _ | v1
  · exact ⟨"previous_episodes", by simp, h1, by simp [AzureExtractNodes.extract_attributes, Ctx.getItem, h1, Bind.bind, Except.bind, pyIterList]⟩
  rcases h2 : context.lookup "episode_content" with _ | v2
  · exact ⟨"episode_content", by simp, h2, by simp [AzureExtractNodes.extract_attributes, Ctx.getItem, h1, h2, Bind.bind, Except.bind, pyIterList]⟩
  rcases h3 : context.lookup "node" with _ | v3
  · exact ⟨"node", by simp, h3, by simp [AzureExtractNodes.extract_attributes, Ctx.getItem, h1, h2, h3, Bind.bind, Except.bind, pyIterList]⟩
  rcases hmiss with ⟨k, hk, hnone⟩
  simp at hk
  rcases hk with rfl | rfl | rfl <;> simp_all

/-- Bundles the per-operation missing-key lemmas over the full operation
vocabulary of `AzureExtractNodes.versions`. -/
theorem keySpecAll_AzureExtractNodes (context : Ctx)
    (hprev : ∀ v, context.lookup "previous_episodes" = some v → ∃ xs, v = Val.list xs) :
    ∀ op ∈ nodeOperationNames, ∀ k ∈ nodeOpReadKeys op, context.lookup k = Option.none →
      ∃ f k2, AzureExtractNodes.versions.lookup op = some f ∧ k2 ∈ nodeOpReadKeys op ∧
        context.lookup k2 = Option.none ∧
        f context = Except.error (PyErr.keyError k2) := by
  intro op hop k hk hknone
  fin_cases hop
  · obtain ⟨k2, hk2, hn2, herr⟩ := keySpec_AzureExtractNodes_extract_message context hprev
      ⟨k, by simpa [nodeOpReadKeys] using hk, hknone⟩
    exact ⟨AzureExtractNodes.extract_message, k2, rfl, by simpa [nodeOpReadKeys] using hk2, hn2, herr⟩
  · obtain ⟨k2, hk2, hn2, herr⟩ := keySpec_AzureExtractNodes_extract_json context hprev
      ⟨k, by simpa [nodeOpReadKeys] using hk, hknone⟩
    exact ⟨AzureExtractNodes.extract_json, k2, rfl, by simpa [nodeOpReadKeys] using hk2, hn2, herr⟩
  · obtain ⟨k2, hk2, hn2, herr⟩ := keySpec_AzureExtractNodes_extract_text context hprev
      ⟨k, by simpa [nodeOpReadKeys] using hk, hknone⟩
    exact ⟨AzureExtractNodes.extract_text, k2, rfl, by simpa [nodeOpReadKeys] using hk2, hn2, herr⟩
  · obtain ⟨k2, hk2, hn2, herr⟩ := keySpec_AzureExtractNodes_reflexion context hprev
      ⟨k, by simpa [nodeOpReadKeys] using hk, hknone⟩
    exact ⟨AzureExtractNodes.reflexion, k2, rfl, by simpa [nodeOpReadKeys] using hk2, hn2, herr⟩
  · obtain ⟨k2, hk2, hn2, herr⟩ := keySpec_AzureExtractNodes_classify_nodes context hprev
      ⟨k, by simpa [nodeOpReadKeys] using hk, hknone⟩
    exact ⟨AzureExtractNodes.classify_nodes, k2, rfl, by simpa [nodeOpReadKeys] using hk2, hn2, herr⟩
  · obtain ⟨k2, hk2, hn2, herr⟩ := keySpec_AzureExtractNodes_extract_attributes context hprev
      ⟨k, by simpa [nodeOpReadKeys] using hk, hknone⟩
    exact ⟨AzureExtractNodes.extract_attributes, k2, rfl, by simpa [nodeOpReadKeys] using hk2, hn2, herr⟩

/-- Any context lacking one of the keys `AzureExtractEdges.edge` reads makes it raise
KeyError at the first missing key in its read order (a present
previous_episodes value is assumed list-valued, matching its iteration
by the templates). -/
theorem keySpec_AzureExtractEdges_edge (context : Ctx)
    (hprev : ∀ v, context.lookup "previous_episodes" = some v → ∃ xs, v = Val.list xs)
    (hmiss : ∃ k, k ∈ ["previous_episodes", "episode_content", "nodes", "reference_time", "edge_types", "custom_prompt"] ∧ context.lookup k = Option.none) :
    ∃ k2, k2 ∈ ["previous_episodes", "episode_content", "nodes", "reference_time", "edge_types", "custom_prompt"] ∧ context.lookup k2 = Option.none ∧
      AzureExtractEdges.edge context = Except.error (PyErr.keyError k2) := by
  rcases h1 : context.lookup "previous_episodes" with _ | v1
  · exact ⟨"previous_episodes", by simp, h1, by simp [AzureExtractEdges.edge, Ctx.getItem, h1, Bind.bind, Except.bind, pyIterList]⟩
  obtain ⟨xs1, rfl⟩ := hprev v1 h1
  rcases h2 : context.lookup "episode_content" with _ | v2
  · exact ⟨"episode_content", by simp, h2, by simp [AzureExtractEdges.edge, Ctx.getItem, h1, h2, Bind.bind, Except.bind, pyIterList]⟩
  rcases h3 : context.lookup "nodes" with _ | v3
  · exact ⟨"nodes", by simp, h3, by simp [AzureExtractEdges.edge, Ctx.getItem, h1, h2, h3, Bind.bind, Except.bind, pyIterList]⟩
  rcases h4 : context.lookup "reference_time" with _ | v4
  · exact ⟨"reference_time", by simp, h4, by simp [AzureExtractEdges.edge, Ctx.getItem, h1, h2, h3, h4, Bind.bind, Except.bind, pyIterList]⟩
  rcases h5 : context.lookup "edge_types" with _ | v5
  · exact ⟨"edge_types", by simp, h5, by simp [AzureExtractEdges.edge, Ctx.getItem, h1, h2, h3, h4, h5, Bind.bind, Except.bind, pyIterList]⟩
  rcases h6 : context.lookup "custom_prompt" with _ | v6
  · exact ⟨"custom_prompt", by simp, h6, by simp [AzureExtractEdges.edge, Ctx.getItem, h1, h2, h3, h4, h5, h6, Bind.bind, Except.bind, pyIterList]⟩
  rcases hmiss with ⟨k, hk, hnone⟩
  simp at hk
  rcases hk with rfl | rfl | rfl | rfl | rfl | rfl <;> simp_all

/-- Any context lacking one of the keys `AzureExtractEdges.reflexion` reads makes it raise
KeyError at the first missing key in its read order (a present
previous_episodes value is assumed list-valued, matching its iteration
by the templates). -/
theorem keySpec_AzureExtractEdges_reflexion (context : Ctx)
    (hprev : ∀ v, context.lookup "previous_episodes" = some v → ∃ xs, v = Val.list xs)
    (hmiss : ∃ k, k ∈ ["previous_episodes", "episode_content", "nodes", "extracted_facts"] ∧ context.lookup k = Option.none) :
    ∃ k2, k2 ∈ ["previous_episodes", "episode_content", "nodes", "extracted_facts"] ∧ context.lookup k2 = Option.none ∧
      AzureExtractEdges.reflexion context = Except.error (PyErr.keyError k2) := by
  rcases h1 : context.lookup "previous_episodes" with _ | v1
  · exact ⟨"previous_episodes", by simp, h1, by simp [AzureExtractEdges.reflexion, Ctx.getItem, h1, Bind.bind, Except.bind, pyIterList]⟩
  obtain ⟨xs1, rfl⟩ := hprev v1 h1
  rcases h2 : context.lookup "episode_content" with _ | v2
  · exact ⟨"episode_content", by simp, h2, by simp [AzureExtractEdges.reflexion, Ctx.getItem, h1, h2, Bind.bind, Except.bind, pyIterList]⟩
  rcases h3 : context.lookup "nodes" with _ | v3
  · exact ⟨"nodes", by simp, h3, by simp [AzureExtractEdges.reflexion, Ctx.getItem, h1, h2, h3, Bind.bind, Except.bind, pyIterList]⟩
  rcases h4 : context.lookup "extracted_facts" with _ | v4
  · exact ⟨"extracted_facts", by simp, h4, by simp [AzureExtractEdges.reflexion, Ctx.getItem, h1, h2, h3, h4, Bind.bind, Except.bind, pyIterList]⟩
  rcases hmiss with ⟨k, hk, hnone⟩
  simp at hk
  rcases hk with rfl | rfl | rfl | rfl <;> simp_all

/-- Any context lacking one of the keys `AzureExtractEdges.extract_attributes` reads makes it raise
KeyError at the first missing key in its read order (a present
previous_episodes value is assumed list-valued, matching its iteration
by the templates). -/
theorem keySpec_AzureExtractEdges_extract_attributes (context : Ctx)
    (_hprev : ∀ v, context.lookup "previous_episodes" = some v → ∃ xs, v = Val.list xs)
    (hmiss : ∃ k, k ∈ ["episode_content", "reference_time", "fact"] ∧ context.lookup k = Option.none) :
    ∃ k2, k2 ∈ ["episode_content", "reference_time", "fact"] ∧ context.lookup k2 = Option.none ∧
      AzureExtractEdges.extract_attributes context = Except.error (PyErr.keyError k2) := by
  rcases h1 : context.lookup "episode_content" with _ | v1
  · exact ⟨"episode_content", by simp, h1, by simp [AzureExtractEdges.extract_attributes, Ctx.getItem, h1, Bind.bind, Except.bind, pyIterList]⟩
  rcases h2 : context.lookup "reference_time" with _ | v2
  · exact ⟨"reference_time", by simp, h2, by simp [AzureExtractEdges.extract_attributes, Ctx.getItem, h1, h2, Bind.bind, Except.bind, pyIterList]⟩
  rcases h3 : context.lookup "fact" with _ | v3
  · exact ⟨"fact", by simp, h3, by simp [AzureExtractEdges.extract_attributes, Ctx.getItem, h1, h2, h3, Bind.bind, Except.bind, pyIterList]⟩
  rcases hmiss with ⟨k, hk, hnone⟩
  simp at hk
  rcases hk with rfl | rfl | rfl <;> simp_all

/-- Bundles the per-operation missing-key lemmas over the full operation
vocabulary of `AzureExtractEdges.versions`. -/
theorem keySpecAll_AzureExtractEdges (context : Ctx)
    (hprev : ∀ v, context.lookup "previous_episodes" = some v → ∃ xs, v = Val.list xs) :
    ∀ op ∈ edgeOperationNames, ∀ k ∈ edgeOpReadKeys op, context.lookup k = Option.none →
      ∃ f k2, AzureExtractEdges.versions.lookup op = some f ∧ k2 ∈ edgeOpReadKeys op ∧
        context.lookup k2 = Option.none ∧
        f context = Except.error (PyErr.keyError k2) := by
  intro op hop k hk hknone
  fin_cases hop
  · obtain ⟨k2, hk2, hn2, herr⟩ := keySpec_AzureExtractEdges_edge context hprev
      ⟨k, by simpa [edgeOpReadKeys] using hk, hknone⟩
    exact ⟨AzureExtractEdges.edge, k2, rfl, by simpa [edgeOpReadKeys] using hk2, hn2, herr⟩
  · obtain ⟨k2, hk2, hn2, herr⟩ := keySpec_AzureExtractEdges_reflexion context hprev
      ⟨k, by simpa [edgeOpReadKeys] using hk, hknone⟩
    exact ⟨AzureExtractEdges.reflexion, k2, rfl, by simpa [edgeOpReadKeys] using hk2, hn2, herr⟩
  · obtain ⟨k2, hk2, hn2, herr⟩ := keySpec_AzureExtractEdges_extract_attributes context hprev
      ⟨k, by simpa [edgeOpReadKeys] using hk, hknone⟩
    exact ⟨AzureExtractEdges.extract_attributes, k2, rfl, by simpa [edgeOpReadKeys] using hk2, hn2, herr⟩

/-- Any context lacking one of the keys `GcpExtractNodes.extract_message` reads makes it raise
KeyError at the first missing key in its read order (a present
previous_episodes value is assumed list-valued, matching its iteration
by the templates). -/
theorem keySpec_GcpExtractNodes_extract_message (context : Ctx)
    (hprev : ∀ v, context.lookup "previous_episodes" = some v → ∃ xs, v = Val.list xs)
    (hmiss : ∃ k, k ∈ ["previous_episodes", "episode_content", "entity_types", "custom_prompt"] ∧ context.lookup k = Option.none) :
    ∃ k2, k2 ∈ ["previous_episodes", "episode_content", "entity_types", "custom_prompt"] ∧ context.lookup k2 = Option.none ∧
      GcpExtractNodes.extract_message context = Except.error (PyErr.keyError k2) := by
  rcases h1 : context.lookup "previous_episodes" with _ | v1
  · exact ⟨"previous_episodes", by simp, h1, by simp [GcpExtractNodes.extract_message, Ctx.getItem, h1, Bind.bind, Except.bind, pyIterList]⟩
  obtain ⟨xs1, rfl⟩ := hprev v1 h1
  rcases h2 : context.lookup "episode_content" with _ | v2
  · exact ⟨"episode_content", by simp, h2, by simp [GcpExtractNodes.extract_message, Ctx.getItem, h1, h2, Bind.bind, Except.bind, pyIterList]⟩
  rcases h3 : context.lookup "entity_types" with _ | v3
  · exact ⟨"entity_types", by simp, h3, by simp [GcpExtractNodes.extract_message, Ctx.getItem, h1, h2, h3, Bind.bind, Except.bind, pyIterList]⟩
  rcases h4 : context.lookup "custom_prompt" with _ | v4
  · exact ⟨"custom_prompt", by simp, h4, by simp [GcpExtractNodes.extract_message, Ctx.getItem, h1, h2, h3, h4, Bind.bind, Except.bind, pyIterList]⟩
  rcases hmiss with ⟨k, hk, hnone⟩
  simp at hk
  rcases hk with rfl | rfl | rfl | rfl <;> simp_all

/-- Any context lacking one of the keys `GcpExtractNodes.extract_json` reads makes it raise
KeyError at the first missing key in its read order (a present
previous_episodes value is assumed list-valued, matching its iteration
by the templates). -/
theorem keySpec_GcpExtractNodes_extract_json (context : Ctx)
    (_hprev : ∀ v, context.lookup "previous_episodes" = some v → ∃ xs, v = Val.list xs)
    (hmiss : ∃ k, k ∈ ["source_description", "episode_content", "entity_types", "custom_prompt"] ∧ context.lookup k = Option.none) :
    ∃ k2, k2 ∈ ["source_description", "episode_content", "entity_types", "custom_prompt"] ∧ context.lookup k2 = Option.none ∧
      GcpExtractNodes.extract_json context = Except.error (PyErr.keyError k2) := by
  rcases h1 : context.lookup "source_description" with _ | v1
  · exact ⟨"source_description", by simp, h1, by simp [GcpExtractNodes.extract_json, Ctx.getItem, h1, Bind.bind, Except.bind, pyIterList]⟩
  rcases h2 : context.lookup "episode_content" with _ | v2
  · exact ⟨"episode_content", by simp, h2, by simp [GcpExtractNodes.extract_json, Ctx.getItem, h1, h2, Bind.bind, Except.bind, pyIterList]⟩
  rcases h3 : context.lookup "entity_types" with _ | v3
  · exact ⟨"entity_types", by simp, h3, by simp [GcpExtractNodes.extract_json, Ctx.getItem, h1, h2, h3, Bind.bind, Except.bind, pyIterList]⟩
  rcases h4 : context.lookup "custom_prompt" with _ | v4
  · exact ⟨"custom_prompt", by simp, h4, by simp [GcpExtractNodes.extract_json, Ctx.getItem, h1, h2, h3, h4, Bind.bind, Except.bind, pyIterList]⟩
  rcases hmiss with ⟨k, hk, hnone⟩
  simp at hk
  rcases hk with rfl | rfl | rfl | rfl <;> simp_all

/-- Any context lacking one of the keys `GcpExtractNodes.extract_text` reads makes it raise
KeyError at the first missing key in its read order (a present
previous_episodes value is assumed list-valued, matching its iteration
by the templates). -/
theorem keySpec_GcpExtractNodes_extract_text (context : Ctx)
    (_hprev : ∀ v, context.lookup "previous_episodes" = some v → ∃ xs, v = Val.list xs)
    (hmiss : ∃ k, k ∈ ["episode_content", "entity_types", "custom_prompt"] ∧ context.lookup k = Option.none) :
    ∃ k2, k2 ∈ ["episode_content", "entity_types", "custom_prompt"] ∧ context.lookup k2 = Option.none ∧
      GcpExtractNodes.extract_text context = Except.error (PyErr.keyError k2) := by
  rcases h1 : context.lookup "episode_content" with _ | v1
  · exact ⟨"episode_content", by simp, h1, by simp [GcpExtractNodes.extract_text, Ctx.getItem, h1, Bind.bind, Except.bind, pyIterList]⟩
  rcases h2 : context.lookup "entity_types" with _ | v2
  · exact ⟨"entity_types", by simp, h2, by simp [GcpExtractNodes.extract_text, Ctx.getItem, h1, h2, Bind.bind, Except.bind, pyIterList]⟩
  rcases h3 : context.lookup "custom_prompt" with _ | v3
  · exact ⟨"custom_prompt", by simp, h3, by simp [GcpExtractNodes.extract_text, Ctx.getItem, h1, h2, h3, Bind.bind, Except.bind, pyIterList]⟩
  rcases hmiss with ⟨k, hk, hnone⟩
  simp at hk
  rcases hk with rfl | rfl | rfl <;> simp_all

/-- Any context lacking one of the keys `GcpExtractNodes.reflexion` reads makes it raise
KeyError at the first missing key in its read order (a present
previous_episodes value is assumed list-valued, matching its iteration
by the templates). -/
theorem keySpec_GcpExtractNodes_reflexion (context : Ctx)
    (hprev : ∀ v, context.lookup "previous_episodes" = some v → ∃ xs, v = Val.list xs)
    (hmiss : ∃ k, k ∈ ["previous_episodes", "episode_content", "extracted_entities"] ∧ context.lookup k = Option.none) :
    ∃ k2, k2 ∈ ["previous_episodes", "episode_content", "extracted_entities"] ∧ context.lookup k2 = Option.none ∧
      GcpExtractNodes.reflexion context = Except.error (PyErr.keyError k2) := by
  rcases h1 : context.lookup "previous_episodes" with _ | v1
  · exact ⟨"previous_episodes", by simp, h1, by simp [GcpExtractNodes.reflexion, Ctx.getItem, h1, Bind.bind, Except.bind, pyIterList]⟩
  obtain ⟨xs1, rfl⟩ := hprev v1 h1
  rcases h2 : context.lookup "episode_content" with _ | v2
  · exact ⟨"episode_content", by simp, h2, by simp [GcpExtractNodes.reflexion, Ctx.getItem, h1, h2, Bind.bind, Except.bind, pyIterList]⟩
  rcases h3 : context.lookup "extracted_entities" with _ | v3
  · exact ⟨"extracted_entities", by simp, h3, by simp [GcpExtractNodes.reflexion, Ctx.getItem, h1, h2, h3, Bind.bind, Except.bind, pyIterList]⟩
  rcases hmiss with ⟨k, hk, hnone⟩
  simp at hk
  rcases hk with rfl | rfl | rfl <;> simp_all

/-- Any context lacking one of the keys `GcpExtractNodes.classify_nodes` reads makes it raise
KeyError at the first missing key in its read order (a present
previous_episodes value is assumed list-valued, matching its iteration
by the templates). -/
theorem keySpec_GcpExtractNodes_classify_nodes (context : Ctx)
    (hprev : ∀ v, context.lookup "previous_episodes" = some v → ∃ xs, v = Val.list xs)
    (hmiss : ∃ k, k ∈ ["previous_episodes", "episode_content", "extracted_entities", "entity_types"] ∧ context.lookup k = Option.none) :
    ∃ k2, k2 ∈ ["previous_episodes", "episode_content", "extracted_entities", "entity_types"] ∧ context.lookup k2 = Option.none ∧
      GcpExtractNodes.classify_nodes context = Except.error (PyErr.keyError k2) := by
  rcases h1 : context.lookup "previous_episodes" with _ | v1
  · exact ⟨"previous_episodes", by simp, h1, by simp [GcpExtractNodes.classify_nodes, Ctx.getItem, h1, Bind.bind, Except.bind, pyIterList]⟩
  obtain ⟨xs1, rfl⟩ := hprev v1 h1
  rcases h2 : context.lookup "episode_content" with _ | v2
  · exact ⟨"episode_content", by simp, h2, by simp [GcpExtractNodes.classify_nodes, Ctx.getItem, h1, h2, Bind.bind, Except.bind, pyIterList]⟩
  rcases h3 : context.lookup "extracted_entities" with _ | v3
  · exact ⟨"extracted_entities", by simp, h3, by simp [GcpExtractNodes.classify_nodes, Ctx.getItem, h1, h2, h3, Bind.bind, Except.bind, pyIterList]⟩
  rcases h4 : context.lookup "entity_types" with _ | v4
  · exact ⟨"entity_types", by simp, h4, by simp [GcpExtractNodes.classify_nodes, Ctx.getItem, h1, h2, h3, h4, Bind.bind, Except.bind, pyIterList]⟩
  rcases hmiss with ⟨k, hk, hnone⟩
  simp at hk
  rcases hk with rfl | rfl | rfl | rfl <;> simp_all

/-- Any context lacking one of the keys `GcpExtractNodes.extract_attributes` reads makes it raise
KeyError at the first missing key in its read order (a present
previous_episodes value is assumed list-valued, matching its iteration
by the templates). -/
theorem keySpec_GcpExtractNodes_extract_attributes (context : Ctx)
    (_hprev : ∀ v, context.lookup "previous_episodes" = some v → ∃ xs, v = Val.list xs)
    (hmiss : ∃ k, k ∈ ["previous_episodes", "episode_content", "node"] ∧ context.lookup k = Option.none) :
    ∃ k2, k2 ∈ ["previous_episodes", "episode_content", "node"] ∧ context.lookup k2 = Option.none ∧
      GcpExtractNodes.extract_attributes context = Except.error (PyErr.keyError k2) := by
  rcases h1 : context.lookup "previous_episodes" with _ | v1
  · exact ⟨"previous_episodes", by simp, h1, by simp [GcpExtractNodes.extract_attributes, Ctx.getItem, h1, Bind.bind, Except.bind, pyIterList]⟩
  rcases h2 : context.lookup "episode_content" with _ | v2
  · exact ⟨"episode_content", by simp, h2, by simp [GcpExtractNodes.extract_attributes, Ctx.getItem, h1, h2, Bind.bind, Except.bind, pyIterList]⟩
  rcases h3 : context.lookup "node" with _ | v3
  · exact ⟨"node", by simp, h3, by simp [GcpExtractNodes.extract_attributes, Ctx.getItem, h1, h2, h3, Bind.bind, Except.bind, pyIterList]⟩
  rcases hmiss with ⟨k, hk, hnone⟩
  simp at hk
  rcases hk with rfl | rfl | rfl <;> simp_all

/-- Bundles the per-operation missing-key lemmas over the full operation
vocabulary of `GcpExtractNodes.versions`. -/
theorem keySpecAll_GcpExtractNodes (context : Ctx)
    (hprev : ∀ v, context.lookup "previous_episodes" = some v → ∃ xs, v = Val.list xs) :
    ∀ op ∈ nodeOperationNames, ∀ k ∈ nodeOpReadKeys op, context.lookup k = Option.none →
      ∃ f k2, GcpExtractNodes.versions.lookup op = some f ∧ k2 ∈ nodeOpReadKeys op ∧
        context.lookup k2 = Option.none ∧
        f context = Except.error (PyErr.keyError k2) := by
  intro op hop k hk hknone
  fin_cases hop
  · obtain ⟨k2, hk2, hn2, herr⟩ := keySpec_GcpExtractNodes_extract_message context hprev
      ⟨k, by simpa [nodeOpReadKeys] using hk, hknone⟩
    exact ⟨GcpExtractNodes.extract_message, k2, rfl, by simpa [nodeOpReadKeys] using hk2, hn2, herr⟩
  · obtain ⟨k2, hk2, hn2, herr⟩ := keySpec_GcpExtractNodes_extract_json context hprev
      ⟨k, by simpa [nodeOpReadKeys] using hk, hknone⟩
    exact ⟨GcpExtractNodes.extract_json, k2, rfl, by simpa [nodeOpReadKeys] using hk2, hn2, herr⟩
  · obtain ⟨k2, hk2, hn2, herr⟩ := keySpec_GcpExtractNodes_extract_text context hprev
      ⟨k, by simpa [nodeOpReadKeys] using hk, hknone⟩
    exact ⟨GcpExtractNodes.extract_text, k2, rfl, by simpa [nodeOpReadKeys] using hk2, hn2, herr⟩
  · obtain ⟨k2, hk2, hn2, herr⟩ := keySpec_GcpExtractNodes_reflexion context hprev
      ⟨k, by simpa [nodeOpReadKeys] using hk, hknone⟩
    exact ⟨GcpExtractNodes.reflexion, k2, rfl, by simpa [nodeOpReadKeys] using hk2, hn2, herr⟩
  · obtain ⟨k2, hk2, hn2, herr⟩ := keySpec_GcpExtractNodes_classify_nodes context hprev
      ⟨k, by simpa [nodeOpReadKeys] using hk, hknone⟩
    exact ⟨GcpExtractNodes.classify_nodes, k2, rfl, by simpa [nodeOpReadKeys] using hk2, hn2, herr⟩
  · obtain ⟨k2, hk2, hn2, herr⟩ := keySpec_GcpExtractNodes_extract_attributes context hprev
      ⟨k, by simpa [nodeOpReadKeys] using hk, hknone⟩
    exact ⟨GcpExtractNodes.extract_attributes, k2, rfl, by simpa [nodeOpReadKeys] using hk2, hn2, herr⟩

/-- Any context lacking one of the keys `GcpExtractEdges.edge` reads makes it raise
KeyError at the first missing key in its read order (a present
previous_episodes value is assumed list-valued, matching its iteration
by the templates). -/
theorem keySpec_GcpExtractEdges_edge (context : Ctx)
    (hprev : ∀ v, context.lookup "previous_episodes" = some v → ∃ xs, v = Val.list xs)
    (hmiss : ∃ k, k ∈ ["previous_episodes", "episode_content", "nodes", "reference_time", "edge_types", "custom_prompt"] ∧ context.lookup k = Option.none) :
    ∃ k2, k2 ∈ ["previous_episodes", "episode_content", "nodes", "reference_time", "edge_types", "custom_prompt"] ∧ context.lookup k2 = Option.none ∧
      GcpExtractEdges.edge context = Except.error (PyErr.keyError k2) := by
  rcases h1 : context.lookup "previous_episodes" with _ | v1
  · exact ⟨"previous_episodes", by simp, h1, by simp [GcpExtractEdges.edge, Ctx.getItem, h1, Bind.bind, Except.bind, pyIterList]⟩
  obtain ⟨xs1, rfl⟩ := hprev v1 h1
  rcases h2 : context.lookup "episode_content" with _ | v2
  · exact ⟨"episode_content", by simp, h2, by simp [GcpExtractEdges.edge, Ctx.getItem, h1, h2, Bind.bind, Except.bind, pyIterList]⟩
  rcases h3 : context.lookup "nodes" with _ | v3
  · exact ⟨"nodes", by simp, h3, by simp [GcpExtractEdges.edge, Ctx.getItem, h1, h2, h3, Bind.bind, Except.bind, pyIterList]⟩
  rcases h4 : context.lookup "reference_time" with _ | v4
  · exact ⟨"reference_time", by simp, h4, by simp [GcpExtractEdges.edge, Ctx.getItem, h1, h2, h3, h4, Bind.bind, Except.bind, pyIterList]⟩
  rcases h5 : context.lookup "edge_types" with _ | v5
  · exact ⟨"edge_types", by simp, h5, by simp [GcpExtractEdges.edge, Ctx.getItem, h1, h2, h3, h4, h5, Bind.bind, Except.bind, pyIterList]⟩
  rcases h6 : context.lookup "custom_prompt" with _ | v6
  · exact ⟨"custom_prompt", by simp, h6, by simp [GcpExtractEdges.edge, Ctx.getItem, h1, h2, h3, h4, h5, h6, Bind.bind, Except.bind, pyIterList]⟩
  rcases hmiss with ⟨k, hk, hnone⟩
  simp at hk
  rcases hk with rfl | rfl | rfl | rfl | rfl | rfl <;> simp_all

/-- Any context lacking one of the keys `GcpExtractEdges.reflexion` reads makes it raise
KeyError at the first missing key in its read order (a present
previous_episodes value is assumed list-valued, matching its iteration
by the templates). -/
theorem keySpec_GcpExtractEdges_reflexion (context : Ctx)
    (hprev : ∀ v, context.lookup "previous_episodes" = some v → ∃ xs, v = Val.list xs)
    (hmiss : ∃ k, k ∈ ["previous_episodes", "episode_content", "nodes", "extracted_facts"] ∧ context.lookup k = Option.none) :
    ∃ k2, k2 ∈ ["previous_episodes", "episode_content", "nodes", "extracted_facts"] ∧ context.lookup k2 = Option.none ∧
      GcpExtractEdges.reflexion context = Except.error (PyErr.keyError k2) := by
  rcases h1 : context.lookup "previous_episodes" with _ | v1
  · exact ⟨"previous_episodes", by simp, h1, by simp [GcpExtractEdges.reflexion, Ctx.getItem, h1, Bind.bind, Except.bind, pyIterList]⟩
  obtain ⟨xs1, rfl⟩ := hprev v1 h1
  rcases h2 : context.lookup "episode_content" with _ | v2
  · exact ⟨"episode_content", by simp, h2, by simp [GcpExtractEdges.reflexion, Ctx.getItem, h1, h2, Bind.bind, Except.bind, pyIterList]⟩
  rcases h3 : context.lookup "nodes" with _ | v3
  · exact ⟨"nodes", by simp, h3, by simp [GcpExtractEdges.reflexion, Ctx.getItem, h1, h2, h3, Bind.bind, Except.bind, pyIterList]⟩
  rcases h4 : context.lookup "extracted_facts" with _ | v4
  · exact ⟨"extracted_facts", by simp, h4, by simp [GcpExtractEdges.reflexion, Ctx.getItem, h1, h2, h3, h4, Bind.bind, Except.bind, pyIterList]⟩
  rcases hmiss with ⟨k, hk, hnone⟩
  simp at hk
  rcases hk with rfl | rfl | rfl | rfl <;> simp_all

/-- Any context lacking one of the keys `GcpExtractEdges.extract_attributes` reads makes it raise
KeyError at the first missing key in its read order (a present
previous_episodes value is assumed list-valued, matching its iteration
by the templates). -/
theorem keySpec_GcpExtractEdges_extract_attributes (context : Ctx)
    (_hprev : ∀ v, context.lookup "previous_episodes" = some v → ∃ xs, v = Val.list xs)
    (hmiss : ∃ k, k ∈ ["episode_content", "reference_time", "fact"] ∧ context.lookup k = Option.none) :
    ∃ k2, k2 ∈ ["episode_content", "reference_time", "fact"] ∧ context.lookup k2 = Option.none ∧
      GcpExtractEdges.extract_attributes context = Except.error (PyErr.keyError k2) := by
  rcases h1 : context.lookup "episode_content" with _ | v1
  · exact ⟨"episode_content", by simp, h1, by simp [GcpExtractEdges.extract_attributes, Ctx.getItem, h1, Bind.bind, Except.bind, pyIterList]⟩
  rcases h2 : context.lookup "reference_time" with _ | v2
  · exact ⟨"reference_time", by simp, h2, by simp [GcpExtractEdges.extract_attributes, Ctx.getItem, h1, h2, Bind.bind, Except.bind, pyIterList]⟩
  rcases h3 : context.lookup "fact" with _ | v3
  · exact ⟨"fact", by simp, h3, by simp [GcpExtractEdges.extract_attributes, Ctx.getItem, h1, h2, h3, Bind.bind, Except.bind, pyIterList]⟩
  rcases hmiss with ⟨k, hk, hnone⟩
  simp at hk
  rcases hk with rfl | rfl | rfl <;> simp_all

/-- Bundles the per-operation missing-key lemmas over the full operation
vocabulary of `GcpExtractEdges.versions`. -/
theorem keySpecAll_GcpExtractEdges (context : Ctx)
    (hprev : ∀ v, context.lookup "previous_episodes" = some v → ∃ xs, v = Val.list xs) :
    ∀ op ∈ edgeOperationNames, ∀ k ∈ edgeOpReadKeys op, context.lookup k = Option.none →
      ∃ f k2, GcpExtractEdges.versions.lookup op = some f ∧ k2 ∈ edgeOpReadKeys op ∧
        context.lookup k2 = Option.none ∧
        f context = Except.error (PyErr.keyError k2) := by
  intro op hop k hk hknone
  fin_cases hop
  · obtain ⟨k2, hk2, hn2, herr⟩ := keySpec_GcpExtractEdges_edge context hprev
      ⟨k, by simpa [edgeOpReadKeys] using hk, hknone⟩
    exact ⟨GcpExtractEdges.edge, k2, rfl, by simpa [edgeOpReadKeys] using hk2, hn2, herr⟩
  · obtain ⟨k2, hk2, hn2, herr⟩ := keySpec_GcpExtractEdges_reflexion context hprev
      ⟨k, by simpa [edgeOpReadKeys] using hk, hknone⟩
    exact ⟨GcpExtractEdges.reflexion, k2, rfl, by simpa [edgeOpReadKeys] using hk2, hn2, herr⟩
  · obtain ⟨k2, hk2, hn2, herr⟩ := keySpec_GcpExtractEdges_extract_attributes context hprev
      ⟨k, by simpa [edgeOpReadKeys] using hk, hknone⟩
    exact ⟨GcpExtractEdges.extract_attributes, k2, rfl, by simpa [edgeOpReadKeys] using hk2, hn2, herr⟩

/-- Any context lacking one of the keys `GithubExtractNodes.extract_message` reads makes it raise
KeyError at the first missing key in its read order (a present
previous_episodes value is assumed list-valued, matching its iteration
by the templates). -/
theorem keySpec_GithubExtractNodes_extract_message (context : Ctx)
    (hprev : ∀ v, context.lookup "previous_episodes" = some v → ∃ xs, v = Val.list xs)
    (hmiss : ∃ k, k ∈ ["previous_episodes", "episode_content", "entity_types", "custom_prompt"] ∧ context.lookup k = Option.none) :
    ∃ k2, k2 ∈ ["previous_episodes", "episode_content", "entity_types", "custom_prompt"] ∧ context.lookup k2 = Option.none ∧
      GithubExtractNodes.extract_message context = Except.error (PyErr.keyError k2) := by
  rcases h1 : context.lookup "previous_episodes" with _ | v1
  · exact ⟨"previous_episodes", by simp, h1, by simp [GithubExtractNodes.extract_message, Ctx.getItem, h1, Bind.bind, Except.bind, pyIterList]⟩
  obtain ⟨xs1, rfl⟩ := hprev v1 h1
  rcases h2 : context.lookup "episode_content" with _ | v2
  · exact ⟨"episode_content", by simp, h2, by simp [GithubExtractNodes.extract_message, Ctx.getItem, h1, h2, Bind.bind, Except.bind, pyIterList]⟩
  rcases h3 : context.lookup "entity_types" with _ | v3
  · exact ⟨"entity_types", by simp, h3, by simp [GithubExtractNodes.extract_message, Ctx.getItem, h1, h2, h3, Bind.bind, Except.bind, pyIterList]⟩
  rcases h4 : context.lookup "custom_prompt" with _ | v4
  · exact ⟨"custom_prompt", by simp, h4, by simp [GithubExtractNodes.extract_message, Ctx.getItem, h1, h2, h3, h4, Bind.bind, Except.bind, pyIterList]⟩
  rcases hmiss with ⟨k, hk, hnone⟩
  simp at hk
  rcases hk with rfl | rfl | rfl | rfl <;> simp_all

/-- Any context lacking one of the keys `GithubExtractNodes.extract_json` reads makes it raise
KeyError at the first missing key in its read order (a present
previous_episodes value is assumed list-valued, matching its iteration
by the templates). -/
theorem keySpec_GithubExtractNodes_extract_json (context : Ctx)
    (_hprev : ∀ v, context.lookup "previous_episodes" = some v → ∃ xs, v = Val.list xs)
    (hmiss : ∃ k, k ∈ ["source_description", "episode_content", "entity_types", "custom_prompt"] ∧ context.lookup k = Option.none) :
    ∃ k2, k2 ∈ ["source_description", "episode_content", "entity_types", "custom_prompt"] ∧ context.lookup k2 = Option.none ∧
      GithubExtractNodes.extract_json context = Except.error (PyErr.keyError k2) := by
  rcases h1 : context.lookup "source_description" with _ | v1
  · exact ⟨"source_description", by simp, h1, by simp [GithubExtractNodes.extract_json, Ctx.getItem, h1, Bind.bind, Except.bind, pyIterList]⟩
  rcases h2 : context.lookup "episode_content" with _ | v2
  · exact ⟨"episode_content", by simp, h2, by simp [GithubExtractNodes.extract_json, Ctx.getItem, h1, h2, Bind.bind, Except.bind, pyIterList]⟩
  rcases h3 : context.lookup "entity_types" with _ | v3
  · exact ⟨"entity_types", by simp, h3, by simp [GithubExtractNodes.extract_json, Ctx.getItem, h1, h2, h3, Bind.bind, Except.bind, pyIterList]⟩
  rcases h4 : context.lookup "custom_prompt" with _ | v4
  · exact ⟨"custom_prompt", by simp, h4, by simp [GithubExtractNodes.extract_json, Ctx.getItem, h1, h2, h3, h4, Bind.bind, Except.bind, pyIterList]⟩
  rcases hmiss with ⟨k, hk, hnone⟩
  simp at hk
  rcases hk with rfl | rfl | rfl | rfl <;> simp_all

/-- Any context lacking one of the keys `GithubExtractNodes.extract_text` reads makes it raise
KeyError at the first missing key in its read order (a present
previous_episodes value is assumed list-valued, matching its iteration
by the templates). -/
theorem keySpec_GithubExtractNodes_extract_text (context : Ctx)
    (_hprev : ∀ v, context.lookup "previous_episodes" = some v → ∃ xs, v = Val.list xs)
    (hmiss : ∃ k, k ∈ ["episode_content", "entity_types", "custom_prompt"] ∧ context.lookup k = Option.none) :
    ∃ k2, k2 ∈ ["episode_content", "entity_types", "custom_prompt"] ∧ context.lookup k2 = Option.none ∧
      GithubExtractNodes.extract_text context = Except.error (PyErr.keyError k2) := by
  rcases h1 : context.lookup "episode_content" with _ | v1
  · exact ⟨"episode_content", by simp, h1, by simp [GithubExtractNodes.extract_text, Ctx.getItem, h1, Bind.bind, Except.bind, pyIterList]⟩
  rcases h2 : context.lookup "entity_types" with _ | v2
  · exact ⟨"entity_types", by simp, h2, by simp [GithubExtractNodes.extract_text, Ctx.getItem, h1, h2, Bind.bind, Except.bind, pyIterList]⟩
  rcases h3 : context.lookup "custom_prompt" with _ | v3
  · exact ⟨"custom_prompt", by simp, h3, by simp [GithubExtractNodes.extract_text, Ctx.getItem, h1, h2, h3, Bind.bind, Except.bind, pyIterList]⟩
  rcases hmiss with ⟨k, hk, hnone⟩
  simp at hk
  rcases hk with rfl | rfl | rfl <;> simp_all

/-- Any context lacking one of the keys `GithubExtractNodes.reflexion` reads makes it raise
KeyError at the first missing key in its read order (a present
previous_episodes value is assumed list-valued, matching its iteration
by the templates). -/
theorem keySpec_GithubExtractNodes_reflexion (context : Ctx)
    (hprev : ∀ v, context.lookup "previous_episodes" = some v → ∃ xs, v = Val.list xs)
    (hmiss : ∃ k, k ∈ ["previous_episodes", "episode_content", "extracted_entities"] ∧ context.lookup k = Option.none) :
    ∃ k2, k2 ∈ ["previous_episodes", "episode_content", "extracted_entities"] ∧ context.lookup k2 = Option.none ∧
      GithubExtractNodes.reflexion context = Except.error (PyErr.keyError k2) := by
  rcases h1 : context.lookup "previous_episodes" with _ | v1
  · exact ⟨"previous_episodes", by simp, h1, by simp [GithubExtractNodes.reflexion, Ctx.getItem, h1, Bind.bind, Except.bind, pyIterList]⟩
  obtain ⟨xs1, rfl⟩ := hprev v1 h1
  rcases h2 : context.lookup "episode_content" with _ | v2
  · exact ⟨"episode_content", by simp, h2, by simp [GithubExtractNodes.reflexion, Ctx.getItem, h1, h2, Bind.bind, Except.bind, pyIterList]⟩
  rcases h3 : context.lookup "extracted_entities" with _ | v3
  · exact ⟨"extracted_entities", by simp, h3, by simp [GithubExtractNodes.reflexion, Ctx.getItem, h1, h2, h3, Bind.bind, Except.bind, pyIterList]⟩
  rcases hmiss with ⟨k, hk, hnone⟩
  simp at hk
  rcases hk with rfl | rfl | rfl <;> simp_all

/-- Any context lacking one of the keys `GithubExtractNodes.classify_nodes` reads makes it raise
KeyError at the first missing key in its read order (a present
previous_episodes value is assumed list-valued, matching its iteration
by the templates). -/
theorem keySpec_GithubExtractNodes_classify_nodes (context : Ctx)
    (hprev : ∀ v, context.lookup "previous_episodes" = some v → ∃ xs, v = Val.list xs)
    (hmiss : ∃ k, k ∈ ["previous_episodes", "episode_content", "extracted_entities", "entity_types"] ∧ context.lookup k = Option.none) :
    ∃ k2, k2 ∈ ["previous_episodes", "episode_content", "extracted_entities", "entity_types"] ∧ context.lookup k2 = Option.none ∧
      GithubExtractNodes.classify_nodes context = Except.error (PyErr.keyError k2) := by
  rcases h1 : context.lookup "previous_episodes" with _ | v1
  · exact ⟨"previous_episodes", by simp, h1, by simp [GithubExtractNodes.classify_nodes, Ctx.getItem, h1, Bind.bind, Except.bind, pyIterList]⟩
  obtain ⟨xs1, rfl⟩ := hprev v1 h1
  rcases h2 : context.lookup "episode_content" with _ | v2
  · exact ⟨"episode_content", by simp, h2, by simp [GithubExtractNodes.classify_nodes, Ctx.getItem, h1, h2, Bind.bind, Except.bind, pyIterList]⟩
  rcases h3 : context.lookup "extracted_entities" with _ | v3
  · exact ⟨"extracted_entities", by simp, h3, by simp [GithubExtractNodes.classify_nodes, Ctx.getItem, h1, h2, h3, Bind.bind, Except.bind, pyIterList]⟩
  rcases h4 : context.lookup "entity_types" with _ | v4
  · exact ⟨"entity_types", by simp, h4, by simp [GithubExtractNodes.classify_nodes, Ctx.getItem, h1, h2, h3, h4, Bind.bind, Except.bind, pyIterList]⟩
  rcases hmiss with ⟨k, hk, hnone⟩
  simp at hk
  rcases hk with rfl | rfl | rfl | rfl <;> simp_all

/-- Any context lacking one of the keys `GithubExtractNodes.extract_attributes` reads makes it raise
KeyError at the first missing key in its read order (a present
previous_episodes value is assumed list-valued, matching its iteration
by the templates). -/
theorem keySpec_GithubExtractNodes_extract_attributes (context : Ctx)
    (_hprev : ∀ v, context.lookup "previous_episodes" = some v → ∃ xs, v = Val.list xs)
    (hmiss : ∃ k, k ∈ ["previous_episodes", "episode_content", "node"] ∧ context.lookup k = Option.none) :
    ∃ k2, k2 ∈ ["previous_episodes", "episode_content", "node"] ∧ context.lookup k2 = Option.none ∧
      GithubExtractNodes.extract_attributes context = Except.error (PyErr.keyError k2) := by
  rcases h1 : context.lookup "previous_episodes" with _ | v1
  · exact ⟨"previous_episodes", by simp, h1, by simp [GithubExtractNodes.extract_attributes, Ctx.getItem, h1, Bind.bind, Except.bind, pyIterList]⟩
  rcases h2 : context.lookup "episode_content" with _ | v2
  · exact ⟨"episode_content", by simp, h2, by simp [GithubExtractNodes.extract_attributes, Ctx.getItem, h1, h2, Bind.bind, Except.bind, pyIterList]⟩
  rcases h3 : context.lookup "node" with _ | v3
  · exact ⟨"node", by simp, h3, by simp [GithubExtractNodes.extract_attributes, Ctx.getItem, h1, h2, h3, Bind.bind, Except.bind, pyIterList]⟩
  rcases hmiss with ⟨k, hk, hnone⟩
  simp at hk
  rcases hk with rfl | rfl | rfl <;> simp_all

/-- Bundles the per-operation missing-key lemmas over the full operation
vocabulary of `GithubExtractNodes.versions`. -/
theorem keySpecAll_GithubExtractNodes (context : Ctx)
    (hprev : ∀ v, context.lookup "previous_episodes" = some v → ∃ xs, v = Val.list xs) :
    ∀ op ∈ nodeOperationNames, ∀ k ∈ nodeOpReadKeys op, context.lookup k = Option.none →
      ∃ f k2, GithubExtractNodes.versions.lookup op = some f ∧ k2 ∈ nodeOpReadKeys op ∧
        context.lookup k2 = Option.none ∧
        f context = Except.error (PyErr.keyError k2) := by
  intro op hop k hk hknone
  fin_cases hop
  · obtain ⟨k2, hk2, hn2, herr⟩ := keySpec_GithubExtractNodes_extract_message context hprev
      ⟨k, by simpa [nodeOpReadKeys] using hk, hknone⟩
    exact ⟨GithubExtractNodes.extract_message, k2, rfl, by simpa [nodeOpReadKeys] using hk2, hn2, herr⟩
  · obtain ⟨k2, hk2, hn2, herr⟩ := keySpec_GithubExtractNodes_extract_json context hprev
      ⟨k, by simpa [nodeOpReadKeys] using hk, hknone⟩
    exact ⟨GithubExtractNodes.extract_json, k2, rfl, by simpa [nodeOpReadKeys] using hk2, hn2, herr⟩
  · obtain ⟨k2, hk2, hn2, herr⟩ := keySpec_GithubExtractNodes_extract_text context hprev
      ⟨k, by simpa [nodeOpReadKeys] using hk, hknone⟩
    exact ⟨GithubExtractNodes.extract_text, k2, rfl, by simpa [nodeOpReadKeys] using hk2, hn2, herr⟩
  · obtain ⟨k2, hk2, hn2, herr⟩ := keySpec_GithubExtractNodes_reflexion context hprev
      ⟨k, by simpa [nodeOpReadKeys] using hk, hknone⟩
    exact ⟨GithubExtractNodes.reflexion, k2, rfl, by simpa [nodeOpReadKeys] using hk2, hn2, herr⟩
  · obtain ⟨k2, hk2, hn2, herr⟩ := keySpec_GithubExtractNodes_classify_nodes context hprev
      ⟨k, by simpa [nodeOpReadKeys] using hk, hknone⟩
    exact ⟨GithubExtractNodes.classify_nodes, k2, rfl, by simpa [nodeOpReadKeys] using hk2, hn2, herr⟩
  · obtain ⟨k2, hk2, hn2, herr⟩ := keySpec_GithubExtractNodes_extract_attributes context hprev
      ⟨k, by simpa [nodeOpReadKeys] using hk, hknone⟩
    exact ⟨GithubExtractNodes.extract_attributes, k2, rfl, by simpa [nodeOpReadKeys] using hk2, hn2, herr⟩

/-- Any context lacking one of the keys `GithubExtractEdges.edge` reads makes it raise
KeyError at the first missing key in its read order (a present
previous_episodes value is assumed list-valued, matching its iteration
by the templates). -/
theorem keySpec_GithubExtractEdges_edge (context : Ctx)
    (hprev : ∀ v, context.lookup "previous_episodes" = some v → ∃ xs, v = Val.list xs)
    (hmiss : ∃ k, k ∈ ["previous_episodes", "episode_content", "nodes", "reference_time", "edge_types", "custom_prompt"] ∧ context.lookup k = Option.none) :
    ∃ k2, k2 ∈ ["previous_episodes", "episode_content", "nodes", "reference_time", "edge_types", "custom_prompt"] ∧ context.lookup k2 = Option.none ∧
      GithubExtractEdges.edge context = Except.error (PyErr.keyError k2) := by
  rcases h1 : context.lookup "previous_episodes" with _ | v1
  · exact ⟨"previous_episodes", by simp, h1, by simp [GithubExtractEdges.edge, Ctx.getItem, h1, Bind.bind, Except.bind, pyIterList]⟩
  obtain ⟨xs1, rfl⟩ := hprev v1 h1
  rcases h2 : context.lookup "episode_content" with _ | v2
  · exact ⟨"episode_content", by simp, h2, by simp [GithubExtractEdges.edge, Ctx.getItem, h1, h2, Bind.bind, Except.bind, pyIterList]⟩
  rcases h3 : context.lookup "nodes" with _ | v3
  · exact ⟨"nodes", by simp, h3, by simp [GithubExtractEdges.edge, Ctx.getItem, h1, h2, h3, Bind.bind, Except.bind, pyIterList]⟩
  rcases h4 : context.lookup "reference_time" with _ | v4
  · exact ⟨"reference_time", by simp, h4, by simp [GithubExtractEdges.edge, Ctx.getItem, h1, h2, h3, h4, Bind.bind, Except.bind, pyIterList]⟩
  rcases h5 : context.lookup "edge_types" with _ | v5
  · exact ⟨"edge_types", by simp, h5, by simp [GithubExtractEdges.edge, Ctx.getItem, h1, h2, h3, h4, h5, Bind.bind, Except.bind, pyIterList]⟩
  rcases h6 : context.lookup "custom_prompt" with _ | v6
  · exact ⟨"custom_prompt", by simp, h6, by simp [GithubExtractEdges.edge, Ctx.getItem, h1, h2, h3, h4, h5, h6, Bind.bind, Except.bind, pyIterList]⟩
  rcases hmiss with ⟨k, hk, hnone⟩
  simp at hk
  rcases hk with rfl | rfl | rfl | rfl | rfl | rfl <;> simp_all

/-- Any context lacking one of the keys `GithubExtractEdges.reflexion` reads makes it raise
KeyError at the first missing key in its read order (a present
previous_episodes value is assumed list-valued, matching its iteration
by the templates). -/
theorem keySpec_GithubExtractEdges_reflexion (context : Ctx)
    (hprev : ∀ v, context.lookup "previous_episodes" = some v → ∃ xs, v = Val.list xs)
    (hmiss : ∃ k, k ∈ ["previous_episodes", "episode_content", "nodes", "extracted_facts"] ∧ context.lookup k = Option.none) :
    ∃ k2, k2 ∈ ["previous_episodes", "episode_content", "nodes", "extracted_facts"] ∧ context.lookup k2 = Option.none ∧
      GithubExtractEdges.reflexion context = Except.error (PyErr.keyError k2) := by
  rcases h1 : context.lookup "previous_episodes" with _ | v1
  · exact ⟨"previous_episodes", by simp, h1, by simp [GithubExtractEdges.reflexion, Ctx.getItem, h1, Bind.bind, Except.bind, pyIterList]⟩
  obtain ⟨xs1, rfl⟩ := hprev v1 h1
  rcases h2 : context.lookup "episode_content" with _ | v2
  · exact ⟨"episode_content", by simp, h2, by simp [GithubExtractEdges.reflexion, Ctx.getItem, h1, h2, Bind.bind, Except.bind, pyIterList]⟩
  rcases h3 : context.lookup "nodes" with _ | v3
  · exact ⟨"nodes", by simp, h3, by simp [GithubExtractEdges.reflexion, Ctx.getItem, h1, h2, h3, Bind.bind, Except.bind, pyIterList]⟩
  rcases h4 : context.lookup "extracted_facts" with _ | v4
  · exact ⟨"extracted_facts", by simp, h4, by simp [GithubExtractEdges.reflexion, Ctx.getItem, h1, h2, h3, h4, Bind.bind, Except.bind, pyIterList]⟩
  rcases hmiss with ⟨k, hk, hnone⟩
  simp at hk
  rcases hk with rfl | rfl | rfl | rfl <;> simp_all

/-- Any context lacking one of the keys `GithubExtractEdges.extract_attributes` reads makes it raise
KeyError at the first missing key in its read order (a present
previous_episodes value is assumed list-valued, matching its iteration
by the templates). -/
theorem keySpec_GithubExtractEdges_extract_attributes (context : Ctx)
    (_hprev : ∀ v, context.lookup "previous_episodes" = some v → ∃ xs, v = Val.list xs)
    (hmiss : ∃ k, k ∈ ["episode_content", "reference_time", "fact"] ∧ context.lookup k = Option.none) :
    ∃ k2, k2 ∈ ["episode_content", "reference_time", "fact"] ∧ context.lookup k2 = Option.none ∧
      GithubExtractEdges.extract_attributes context = Except.error (PyErr.keyError k2) := by
  rcases h1 : context.lookup "episode_content" with _ | v1
  · exact ⟨"episode_content", by simp, h1, by simp [GithubExtractEdges.extract_attributes, Ctx.getItem, h1, Bind.bind, Except.bind, pyIterList]⟩
  rcases h2 : context.lookup "reference_time" with _ | v2
  · exact ⟨"reference_time", by simp, h2, by simp [GithubExtractEdges.extract_attributes, Ctx.getItem, h1, h2, Bind.bind, Except.bind, pyIterList]⟩
  rcases h3 : context.lookup "fact" with _ | v3
  · exact ⟨"fact", by simp, h3, by simp [GithubExtractEdges.extract_attributes, Ctx.getItem, h1, h2, h3, Bind.bind, Except.bind, pyIterList]⟩
  rcases hmiss with ⟨k, hk, hnone⟩
  simp at hk
  rcases hk with rfl | rfl | rfl <;> simp_all

/-- Bundles the per-operation missing-key lemmas over the full operation
vocabulary of `GithubExtractEdges.versions`. -/
theorem keySpecAll_GithubExtractEdges (context : Ctx)
    (hprev : ∀ v, context.lookup "previous_episodes" = some v → ∃ xs, v = Val.list xs) :
    ∀ op ∈ edgeOperationNames, ∀ k ∈ edgeOpReadKeys op, context.lookup k = Option.none →
      ∃ f k2, GithubExtractEdges.versions.lookup op = some f ∧ k2 ∈ edgeOpReadKeys op ∧
        context.lookup k2 = Option.none ∧
        f context = Except.error (PyErr.keyError k2) := by
  intro op hop k hk hknone
  fin_cases hop
  · obtain ⟨k2, hk2, hn2, herr⟩ := keySpec_GithubExtractEdges_edge context hprev
      ⟨k, by simpa [edgeOpReadKeys] using hk, hknone⟩
    exact ⟨GithubExtractEdges.edge, k2, rfl, by simpa [edgeOpReadKeys] using hk2, hn2, herr⟩
  · obtain ⟨k2, hk2, hn2, herr⟩ := keySpec_GithubExtractEdges_reflexion context hprev
      ⟨k, by simpa [edgeOpReadKeys] using hk, hknone⟩
    exact ⟨GithubExtractEdges.reflexion, k2, rfl, by simpa [edgeOpReadKeys] using hk2, hn2, herr⟩
  · obtain ⟨k2, hk2, hn2, herr⟩ := keySpec_GithubExtractEdges_extract_attributes context hprev
      ⟨k, by simpa [edgeOpReadKeys] using hk, hknone⟩
    exact ⟨GithubExtractEdges.extract_attributes, k2, rfl, by simpa [edgeOpReadKeys] using hk2, hn2, herr⟩

/-- Any context lacking one of the keys `CicdExtractNodes.extract_message` reads makes it raise
KeyError at the first missing key in its read order (a present
previous_episodes value is assumed list-valued, matching its iteration
by the templates). -/
theorem keySpec_CicdExtractNodes_extract_message (context : Ctx)
    (hprev : ∀ v, context.lookup "previous_episodes" = some v → ∃ xs, v = Val.list xs)
    (hmiss : ∃ k, k ∈ ["previous_episodes", "episode_content", "entity_types", "custom_prompt"] ∧ context.lookup k = Option.none) :
    ∃ k2, k2 ∈ ["previous_episodes", "episode_content", "entity_types", "custom_prompt"] ∧ context.lookup k2 = Option.none ∧
      CicdExtractNodes.extract_message context = Except.error (PyErr.keyError k2) := by
  rcases h1 : context.lookup "previous_episodes" with _ | v1
  · exact ⟨"previous_episodes", by simp, h1, by simp [CicdExtractNodes.extract_message, Ctx.getItem, h1, Bind.bind, Except.bind, pyIterList]⟩
  obtain ⟨xs1, rfl⟩ := hprev v1 h1
  rcases h2 : context.lookup "episode_content" with _ | v2
  · exact ⟨"episode_content", by simp, h2, by simp [CicdExtractNodes.extract_message, Ctx.getItem, h1, h2, Bind.bind, Except.bind, pyIterList]⟩
  rcases h3 : context.lookup "entity_types" with _ | v3
  · exact ⟨"entity_types", by simp, h3, by simp [CicdExtractNodes.extract_message, Ctx.getItem, h1, h2, h3, Bind.bind, Except.bind, pyIterList]⟩
  rcases h4 : context.lookup "custom_prompt" with _ | v4
  · exact ⟨"custom_prompt", by simp, h4, by simp [CicdExtractNodes.extract_message, Ctx.getItem, h1, h2, h3, h4, Bind.bind, Except.bind, pyIterList]⟩
  rcases hmiss with ⟨k, hk, hnone⟩
  simp at hk
  rcases hk with rfl | rfl | rfl | rfl <;> simp_all

/-- Any context lacking one of the keys `CicdExtractNodes.extract_json` reads makes it raise
KeyError at the first missing key in its read order (a present
previous_episodes value is assumed list-valued, matching its iteration
by the templates). -/
theorem keySpec_CicdExtractNodes_extract_json (context : Ctx)
    (_hprev : ∀ v, context.lookup "previous_episodes" = some v → ∃ xs, v = Val.list xs)
    (hmiss : ∃ k, k ∈ ["source_description", "episode_content", "entity_types", "custom_prompt"] ∧ context.lookup k = Option.none) :
    ∃ k2, k2 ∈ ["source_description", "episode_content", "entity_types", "custom_prompt"] ∧ context.lookup k2 = Option.none ∧
      CicdExtractNodes.extract_json context = Except.error (PyErr.keyError k2) := by
  rcases h1 : context.lookup "source_description" with _ | v1
  · exact ⟨"source_description", by simp, h1, by simp [CicdExtractNodes.extract_json, Ctx.getItem, h1, Bind.bind, Except.bind, pyIterList]⟩
  rcases h2 : context.lookup "episode_content" with _ | v2
  · exact ⟨"episode_content", by simp, h2, by simp [CicdExtractNodes.extract_json, Ctx.getItem, h1, h2, Bind.bind, Except.bind, pyIterList]⟩
  rcases h3 : context.lookup "entity_types" with _ | v3
  · exact ⟨"entity_types", by simp, h3, by simp [CicdExtractNodes.extract_json, Ctx.getItem, h1, h2, h3, Bind.bind, Except.bind, pyIterList]⟩
  rcases h4 : context.lookup "custom_prompt" with _ | v4
  · exact ⟨"custom_prompt", by simp, h4, by simp [CicdExtractNodes.extract_json, Ctx.getItem, h1, h2, h3, h4, Bind.bind, Except.bind, pyIterList]⟩
  rcases hmiss with ⟨k, hk, hnone⟩
  simp at hk
  rcases hk with rfl | rfl | rfl | rfl <;> simp_all

/-- Any context lacking one of the keys `CicdExtractNodes.extract_text` reads makes it raise
KeyError at the first missing key in its read order (a present
previous_episodes value is assumed list-valued, matching its iteration
by the templates). -/
theorem keySpec_CicdExtractNodes_extract_text (context : Ctx)
    (_hprev : ∀ v, context.lookup "previous_episodes" = some v → ∃ xs, v = Val.list xs)
    (hmiss : ∃ k, k ∈ ["episode_content", "entity_types", "custom_prompt"] ∧ context.lookup k = Option.none) :
    ∃ k2, k2 ∈ ["episode_content", "entity_types", "custom_prompt"] ∧ context.lookup k2 = Option.none ∧
      CicdExtractNodes.extract_text context = Except.error (PyErr.keyError k2) := by
  rcases h1 : context.lookup "episode_content" with _ | v1
  · exact ⟨"episode_content", by simp, h1, by simp [CicdExtractNodes.extract_text, Ctx.getItem, h1, Bind.bind, Except.bind, pyIterList]⟩
  rcases h2 : context.lookup "entity_types" with _ | v2
  · exact ⟨"entity_types", by simp, h2, by simp [CicdExtractNodes.extract_text, Ctx.getItem, h1, h2, Bind.bind, Except.bind, pyIterList]⟩
  rcases h3 : context.lookup "custom_prompt" with _ | v3
  · exact ⟨"custom_prompt", by simp, h3, by simp [CicdExtractNodes.extract_text, Ctx.getItem, h1, h2, h3, Bind.bind, Except.bind, pyIterList]⟩
  rcases hmiss with ⟨k, hk, hnone⟩
  simp at hk
  rcases hk with rfl | rfl | rfl <;> simp_all

/-- Any context lacking one of the keys `CicdExtractNodes.reflexion` reads makes it raise
KeyError at the first missing key in its read order (a present
previous_episodes value is assumed list-valued, matching its iteration
by the templates). -/
theorem keySpec_CicdExtractNodes_reflexion (context : Ctx)
    (hprev : ∀ v, context.lookup "previous_episodes" = some v → ∃ xs, v = Val.list xs)
    (hmiss : ∃ k, k ∈ ["previous_episodes", "episode_content", "extracted_entities"] ∧ context.lookup k = Option.none) :
    ∃ k2, k2 ∈ ["previous_episodes", "episode_content", "extracted_entities"] ∧ context.lookup k2 = Option.none ∧
      CicdExtractNodes.reflexion context = Except.error (PyErr.keyError k2) := by
  rcases h1 : context.lookup "previous_episodes" with _ | v1
  · exact ⟨"previous_episodes", by simp, h1, by simp [CicdExtractNodes.reflexion, Ctx.getItem, h1, Bind.bind, Except.bind, pyIterList]⟩
  obtain ⟨xs1, rfl⟩ := hprev v1 h1
  rcases h2 : context.lookup "episode_content" with _ | v2
  · exact ⟨"episode_content", by simp, h2, by simp [CicdExtractNodes.reflexion, Ctx.getItem, h1, h2, Bind.bind, Except.bind, pyIterList]⟩
  rcases h3 : context.lookup "extracted_entities" with _ | v3
  · exact ⟨"extracted_entities", by simp, h3, by simp [CicdExtractNodes.reflexion, Ctx.getItem, h1, h2, h3, Bind.bind, Except.bind, pyIterList]⟩
  rcases hmiss with ⟨k, hk, hnone⟩
  simp at hk
  rcases hk with rfl | rfl | rfl <;> simp_all

/-- Any context lacking one of the keys `CicdExtractNodes.classify_nodes` reads makes it raise
KeyError at the first missing key in its read order (a present
previous_episodes value is assumed list-valued, matching its iteration
by the templates). -/
theorem keySpec_CicdExtractNodes_classify_nodes (context : Ctx)
    (hprev : ∀ v, context.lookup "previous_episodes" = some v → ∃ xs, v = Val.list xs)
    (hmiss : ∃ k, k ∈ ["previous_episodes", "episode_content", "extracted_entities", "entity_types"] ∧ context.lookup k = Option.none) :
    ∃ k2, k2 ∈ ["previous_episodes", "episode_content", "extracted_entities", "entity_types"] ∧ context.lookup k2 = Option.none ∧
      CicdExtractNodes.classify_nodes context = Except.error (PyErr.keyError k2) := by
  rcases h1 : context.lookup "previous_episodes" with _ | v1
  · exact ⟨"previous_episodes", by simp, h1, by simp [CicdExtractNodes.classify_nodes, Ctx.getItem, h1, Bind.bind, Except.bind, pyIterList]⟩
  obtain ⟨xs1, rfl⟩ := hprev v1 h1
  rcases h2 : context.lookup "episode_content" with _ | v2
  · exact ⟨"episode_content", by simp, h2, by simp [CicdExtractNodes.classify_nodes, Ctx.getItem, h1, h2, Bind.bind, Except.bind, pyIterList]⟩
  rcases h3 : context.lookup "extracted_entities" with _ | v3
  · exact ⟨"extracted_entities", by simp, h3, by simp [CicdExtractNodes.classify_nodes, Ctx.getItem, h1, h2, h3, Bind.bind, Except.bind, pyIterList]⟩
  rcases h4 : context.lookup "entity_types" with _ | v4
  · exact ⟨"entity_types", by simp, h4, by simp [CicdExtractNodes.classify_nodes, Ctx.getItem, h1, h2, h3, h4, Bind.bind, Except.bind, pyIterList]⟩
  rcases hmiss with ⟨k, hk, hnone⟩
  simp at hk
  rcases hk with rfl | rfl | rfl | rfl <;> simp_all

/-- Any context lacking one of the keys `CicdExtractNodes.extract_attributes` reads makes it raise
KeyError at the first missing key in its read order (a present
previous_episodes value is assumed list-valued, matching its iteration
by the templates). -/
theorem keySpec_CicdExtractNodes_extract_attributes (context : Ctx)
    (_hprev : ∀ v, context.lookup "previous_episodes" = some v → ∃ xs, v = Val.list xs)
    (hmiss : ∃ k, k ∈ ["previous_episodes", "episode_content", "node"] ∧ context.lookup k = Option.none) :
    ∃ k2, k2 ∈ ["previous_episodes", "episode_content", "node"] ∧ context.lookup k2 = Option.none ∧
      CicdExtractNodes.extract_attributes context = Except.error (PyErr.keyError k2) := by
  rcases h1 : context.lookup "previous_episodes" with _ | v1
  · exact ⟨"previous_episodes", by simp, h1, by simp [CicdExtractNodes.extract_attributes, Ctx.getItem, h1, Bind.bind, Except.bind, pyIterList]⟩
  rcases h2 : context.lookup "episode_content" with _ | v2
  · exact ⟨"episode_content", by simp, h2, by simp [CicdExtractNodes.extract_attributes, Ctx.getItem, h1, h2, Bind.bind, Except.bind, pyIterList]⟩
  rcases h3 : context.lookup "node" with _ | v3
  · exact ⟨"node", by simp, h3, by simp [CicdExtractNodes.extract_attributes, Ctx.getItem, h1, h2, h3, Bind.bind, Except.bind, pyIterList]⟩
  rcases hmiss with ⟨k, hk, hnone⟩
  simp at hk
  rcases hk with rfl | rfl | rfl <;> simp_all

/-- Bundles the per-operation missing-key lemmas over the full operation
vocabulary of `CicdExtractNodes.versions`. -/
theorem keySpecAll_CicdExtractNodes (context : Ctx)
    (hprev : ∀ v, context.lookup "previous_episodes" = some v → ∃ xs, v = Val.list xs) :
    ∀ op ∈ nodeOperationNames, ∀ k ∈ nodeOpReadKeys op, context.lookup k = Option.none →
      ∃ f k2, CicdExtractNodes.versions.lookup op = some f ∧ k2 ∈ nodeOpReadKeys op ∧
        context.lookup k2 = Option.none ∧
        f context = Except.error (PyErr.keyError k2) := by
  intro op hop k hk hknone
  fin_cases hop
  · obtain ⟨k2, hk2, hn2, herr⟩ := keySpec_CicdExtractNodes_extract_message context hprev
      ⟨k, by simpa [nodeOpReadKeys] using hk, hknone⟩
    exact ⟨CicdExtractNodes.extract_message, k2, rfl, by simpa [nodeOpReadKeys] using hk2, hn2, herr⟩
  · obtain ⟨k2, hk2, hn2, herr⟩ := keySpec_CicdExtractNodes_extract_json context hprev
      ⟨k, by simpa [nodeOpReadKeys] using hk, hknone⟩
    exact ⟨CicdExtractNodes.extract_json, k2, rfl, by simpa [nodeOpReadKeys] using hk2, hn2, herr⟩
  · obtain ⟨k2, hk2, hn2, herr⟩ := keySpec_CicdExtractNodes_extract_text context hprev
      ⟨k, by simpa [nodeOpReadKeys] using hk, hknone⟩
    exact ⟨CicdExtractNodes.extract_text, k2, rfl, by simpa [nodeOpReadKeys] using hk2, hn2, herr⟩
  · obtain ⟨k2, hk2, hn2, herr⟩ := keySpec_CicdExtractNodes_reflexion context hprev
      ⟨k, by simpa [nodeOpReadKeys] using hk, hknone⟩
    exact ⟨CicdExtractNodes.reflexion, k2, rfl, by simpa [nodeOpReadKeys] using hk2, hn2, herr⟩
  · obtain ⟨k2, hk2, hn2, herr⟩ := keySpec_CicdExtractNodes_classify_nodes context hprev
      ⟨k, by simpa [nodeOpReadKeys] using hk, hknone⟩
    exact ⟨CicdExtractNodes.classify_nodes, k2, rfl, by simpa [nodeOpReadKeys] using hk2, hn2, herr⟩
  · obtain ⟨k2, hk2, hn2, herr⟩ := keySpec_CicdExtractNodes_extract_attributes context hprev
      ⟨k, by simpa [nodeOpReadKeys] using hk, hknone⟩
    exact ⟨CicdExtractNodes.extract_attributes, k2, rfl, by simpa [nodeOpReadKeys] using hk2, hn2, herr⟩

/-- Any context lacking one of the keys `CicdExtractEdges.edge` reads makes it raise
KeyError at the first missing key in its read order (a present
previous_episodes value is assumed list-valued, matching its iteration
by the templates). -/
theorem keySpec_CicdExtractEdges_edge (context : Ctx)
    (hprev : ∀ v, context.lookup "previous_episodes" = some v → ∃ xs, v = Val.list xs)
    (hmiss : ∃ k, k ∈ ["previous_episodes", "episode_content", "nodes", "reference_time", "edge_types", "custom_prompt"] ∧ context.lookup k = Option.none) :
    ∃ k2, k2 ∈ ["previous_episodes", "episode_content", "nodes", "reference_time", "edge_types", "custom_prompt"] ∧ context.lookup k2 = Option.none ∧
      CicdExtractEdges.edge context = Except.error (PyErr.keyError k2) := by
  rcases h1 : context.lookup "previous_episodes" with _ | v1
  · exact ⟨"previous_episodes", by simp, h1, by simp [CicdExtractEdges.edge, Ctx.getItem, h1, Bind.bind, Except.bind, pyIterList]⟩
  obtain ⟨xs1, rfl⟩ := hprev v1 h1
  rcases h2 : context.lookup "episode_content" with _ | v2
  · exact ⟨"episode_content", by simp, h2, by simp [CicdExtractEdges.edge, Ctx.getItem, h1, h2, Bind.bind, Except.bind, pyIterList]⟩
  rcases h3 : context.lookup "nodes" with _ | v3
  · exact ⟨"nodes", by simp, h3, by simp [CicdExtractEdges.edge, Ctx.getItem, h1, h2, h3, Bind.bind, Except.bind, pyIterList]⟩
  rcases h4 : context.lookup "reference_time" with _ | v4
  · exact ⟨"reference_time", by simp, h4, by simp [CicdExtractEdges.edge, Ctx.getItem, h1, h2, h3, h4, Bind.bind, Except.bind, pyIterList]⟩
  rcases h5 : context.lookup "edge_types" with _ | v5
  · exact ⟨"edge_types", by simp, h5, by simp [CicdExtractEdges.edge, Ctx.getItem, h1, h2, h3, h4, h5, Bind.bind, Except.bind, pyIterList]⟩
  rcases h6 : context.lookup "custom_prompt" with _ | v6
  · exact ⟨"custom_prompt", by simp, h6, by simp [CicdExtractEdges.edge, Ctx.getItem, h1, h2, h3, h4, h5, h6, Bind.bind, Except.bind, pyIterList]⟩
  rcases hmiss with ⟨k, hk, hnone⟩
  simp at hk
  rcases hk with rfl | rfl | rfl | rfl | rfl | rfl <;> simp_all

/-- Any context lacking one of the keys `CicdExtractEdges.reflexion` reads makes it raise
KeyError at the first missing key in its read order (a present
previous_episodes value is assumed list-valued, matching its iteration
by the templates). -/
theorem keySpec_CicdExtractEdges_reflexion (context : Ctx)
    (hprev : ∀ v, context.lookup "previous_episodes" = some v → ∃ xs, v = Val.list xs)
    (hmiss : ∃ k, k ∈ ["previous_episodes", "episode_content", "nodes", "extracted_facts"] ∧ context.lookup k = Option.none) :
    ∃ k2, k2 ∈ ["previous_episodes", "episode_content", "nodes", "extracted_facts"] ∧ context.lookup k2 = Option.none ∧
      CicdExtractEdges.reflexion context = Except.error (PyErr.keyError k2) := by
  rcases h1 : context.lookup "previous_episodes" with _ | v1
  · exact ⟨"previous_episodes", by simp, h1, by simp [CicdExtractEdges.reflexion, Ctx.getItem, h1, Bind.bind, Except.bind, pyIterList]⟩
  obtain ⟨xs1, rfl⟩ := hprev v1 h1
  rcases h2 : context.lookup "episode_content" with _ | v2
  · exact ⟨"episode_content", by simp, h2, by simp [CicdExtractEdges.reflexion, Ctx.getItem, h1, h2, Bind.bind, Except.bind, pyIterList]⟩
  rcases h3 : context.lookup "nodes" with _ | v3
  · exact ⟨"nodes", by simp, h3, by simp [CicdExtractEdges.reflexion, Ctx.getItem, h1, h2, h3, Bind.bind, Except.bind, pyIterList]⟩
  rcases h4 : context.lookup "extracted_facts" with _ | v4
  · exact ⟨"extracted_facts", by simp, h4, by simp [CicdExtractEdges.reflexion, Ctx.getItem, h1, h2, h3, h4, Bind.bind, Except.bind, pyIterList]⟩
  rcases hmiss with ⟨k, hk, hnone⟩
  simp at hk
  rcases hk with rfl | rfl | rfl | rfl <;> simp_all

/-- Any context lacking one of the keys `CicdExtractEdges.extract_attributes` reads makes it raise
KeyError at the first missing key in its read order (a present
previous_episodes value is assumed list-valued, matching its iteration
by the templates). -/
theorem keySpec_CicdExtractEdges_extract_attributes (context : Ctx)
    (_hprev : ∀ v, context.lookup "previous_episodes" = some v → ∃ xs, v = Val.list xs)
    (hmiss : ∃ k, k ∈ ["episode_content", "reference_time", "fact"] ∧ context.lookup k = Option.none) :
    ∃ k2, k2 ∈ ["episode_content", "reference_time", "fact"] ∧ context.lookup k2 = Option.none ∧
      CicdExtractEdges.extract_attributes context = Except.error (PyErr.keyError k2) := by
  rcases h1 : context.lookup "episode_content" with _ | v1
  · exact ⟨"episode_content", by simp, h1, by simp [CicdExtractEdges.extract_attributes, Ctx.getItem, h1, Bind.bind, Except.bind, pyIterList]⟩
  rcases h2 : context.lookup "reference_time" with _ | v2
  · exact ⟨"reference_time", by simp, h2, by simp [CicdExtractEdges.extract_attributes, Ctx.getItem, h1, h2, Bind.bind, Except.bind, pyIterList]⟩
  rcases h3 : context.lookup "fact" with _ | v3
  · exact ⟨"fact", by simp, h3, by simp [CicdExtractEdges.extract_attributes, Ctx.getItem, h1, h2, h3, Bind.bind, Except.bind, pyIterList]⟩
  rcases hmiss with ⟨k, hk, hnone⟩
  simp at hk
  rcases hk with rfl | rfl | rfl <;> simp_all

/-- Bundles the per-operation missing-key lemmas over the full operation
vocabulary of `CicdExtractEdges.versions`. -/
theorem keySpecAll_CicdExtractEdges (context : Ctx)
    (hprev : ∀ v, context.lookup "previous_episodes" = some v → ∃ xs, v = Val.list xs) :
    ∀ op ∈ edgeOperationNames, ∀ k ∈ edgeOpReadKeys op, context.lookup k = Option.none →
      ∃ f k2, CicdExtractEdges.versions.lookup op = some f ∧ k2 ∈ edgeOpReadKeys op ∧
        context.lookup k2 = Option.none ∧
        f context = Except.error (PyErr.keyError k2) := by
  intro op hop k hk hknone
  fin_cases hop
  · obtain ⟨k2, hk2, hn2, herr⟩ := keySpec_CicdExtractEdges_edge context hprev
      ⟨k, by simpa [edgeOpReadKeys] using hk, hknone⟩
    exact ⟨CicdExtractEdges.edge, k2, rfl, by simpa [edgeOpReadKeys] using hk2, hn2, herr⟩
  · obtain ⟨k2, hk2, hn2, herr⟩ := keySpec_CicdExtractEdges_reflexion context hprev
      ⟨k, by simpa [edgeOpReadKeys] using hk, hknone⟩
    exact ⟨CicdExtractEdges.reflexion, k2, rfl, by simpa [edgeOpReadKeys] using hk2, hn2, herr⟩
  · obtain ⟨k2, hk2, hn2, herr⟩ := keySpec_CicdExtractEdges_extract_attributes context hprev
      ⟨k, by simpa [edgeOpReadKeys] using hk, hknone⟩
    exact ⟨CicdExtractEdges.extract_attributes, k2, rfl, by simpa [edgeOpReadKeys] using hk2, hn2, herr⟩

/-- Any context lacking one of the keys `LogsExtractNodes.extract_message` reads makes it raise
KeyError at the first missing key in its read order (a present
previous_episodes value is assumed list-valued, matching its iteration
by the templates). -/
theorem keySpec_LogsExtractNodes_extract_message (context : Ctx)
    (hprev : ∀ v, context.lookup "previous_episodes" = some v → ∃ xs, v = Val.list xs)
    (hmiss : ∃ k, k ∈ ["previous_episodes", "episode_content", "entity_types", "custom_prompt"] ∧ context.lookup k = Option.none) :
    ∃ k2, k2 ∈ ["previous_episodes", "episode_content", "entity_types", "custom_prompt"] ∧ context.lookup k2 = Option.none ∧
      LogsExtractNodes.extract_message context = Except.error (PyErr.keyError k2) := by
  rcases h1 : context.lookup "previous_episodes" with _ | v1
  · exact ⟨"previous_episodes", by simp, h1, by simp [LogsExtractNodes.extract_message, Ctx.getItem, h1, Bind.bind, Except.bind, pyIterList]⟩
  obtain ⟨xs1, rfl⟩ := hprev v1 h1
  rcases h2 : context.lookup "episode_content" with _ | v2
  · exact ⟨"episode_content", by simp, h2, by simp [LogsExtractNodes.extract_message, Ctx.getItem, h1, h2, Bind.bind, Except.bind, pyIterList]⟩
  rcases h3 : context.lookup "entity_types" with _ | v3
  · exact ⟨"entity_types", by simp, h3, by simp [LogsExtractNodes.extract_message, Ctx.getItem, h1, h2, h3, Bind.bind, Except.bind, pyIterList]⟩
  rcases h4 : context.lookup "custom_prompt" with _ | v4
  · exact ⟨"custom_prompt", by simp, h4, by simp [LogsExtractNodes.extract_message, Ctx.getItem, h1, h2, h3, h4, Bind.bind, Except.bind, pyIterList]⟩
  rcases hmiss with ⟨k, hk, hnone⟩
  simp at hk
  rcases hk with rfl | rfl | rfl | rfl <;> simp_all

/-- Any context lacking one of the keys `LogsExtractNodes.extract_json` reads makes it raise
KeyError at the first missing key in its read order (a present
previous_episodes value is assumed list-valued, matching its iteration
by the templates). -/
theorem keySpec_LogsExtractNodes_extract_json (context : Ctx)
    (_hprev : ∀ v, context.lookup "previous_episodes" = some v → ∃ xs, v = Val.list xs)
    (hmiss : ∃ k, k ∈ ["source_description", "episode_content", "entity_types", "custom_prompt"] ∧ context.lookup k = Option.none) :
    ∃ k2, k2 ∈ ["source_description", "episode_content", "entity_types", "custom_prompt"] ∧ context.lookup k2 = Option.none ∧
      LogsExtractNodes.extract_json context = Except.error (PyErr.keyError k2) := by
  rcases h1 : context.lookup "source_description" with _ | v1
  · exact ⟨"source_description", by simp, h1, by simp [LogsExtractNodes.extract_json, Ctx.getItem, h1, Bind.bind, Except.bind, pyIterList]⟩
  rcases h2 : context.lookup "episode_content" with _ | v2
  · exact ⟨"episode_content", by simp, h2, by simp [LogsExtractNodes.extract_json, Ctx.getItem, h1, h2, Bind.bind, Except.bind, pyIterList]⟩
  rcases h3 : context.lookup "entity_types" with _ | v3
  · exact ⟨"entity_types", by simp, h3, by simp [LogsExtractNodes.extract_json, Ctx.getItem, h1, h2, h3, Bind.bind, Except.bind, pyIterList]⟩
  rcases h4 : context.lookup "custom_prompt" with _ | v4
  · exact ⟨"custom_prompt", by simp, h4, by simp [LogsExtractNodes.extract_json, Ctx.getItem, h1, h2, h3, h4, Bind.bind, Except.bind, pyIterList]⟩
  rcases hmiss with ⟨k, hk, hnone⟩
  simp at hk
  rcases hk with rfl | rfl | rfl | rfl <;> simp_all

/-- Any context lacking one of the keys `LogsExtractNodes.extract_text` reads makes it raise
KeyError at the first missing key in its read order (a present
previous_episodes value is assumed list-valued, matching its iteration
by the templates). -/
theorem keySpec_LogsExtractNodes_extract_text (context : Ctx)
    (_hprev : ∀ v, context.lookup "previous_episodes" = some v → ∃ xs, v = Val.list xs)
    (hmiss : ∃ k, k ∈ ["episode_content", "entity_types", "custom_prompt"] ∧ context.lookup k = Option.none) :
    ∃ k2, k2 ∈ ["episode_content", "entity_types", "custom_prompt"] ∧ context.lookup k2 = Option.none ∧
      LogsExtractNodes.extract_text context = Except.error (PyErr.keyError k2) := by
  rcases h1 : context.lookup "episode_content" with _ | v1
  · exact ⟨"episode_content", by simp, h1, by simp [LogsExtractNodes.extract_text, Ctx.getItem, h1, Bind.bind, Except.bind, pyIterList]⟩
  rcases h2 : context.lookup "entity_types" with _ | v2
  · exact ⟨"entity_types", by simp, h2, by simp [LogsExtractNodes.extract_text, Ctx.getItem, h1, h2, Bind.bind, Except.bind, pyIterList]⟩
  rcases h3 : context.lookup "custom_prompt" with _ | v3
  · exact ⟨"custom_prompt", by simp, h3, by simp [LogsExtractNodes.extract_text, Ctx.getItem, h1, h2, h3, Bind.bind, Except.bind, pyIterList]⟩
  rcases hmiss with ⟨k, hk, hnone⟩
  simp at hk
  rcases hk with rfl | rfl | rfl <;> simp_all

/-- Any context lacking one of the keys `LogsExtractNodes.reflexion` reads makes it raise
KeyError at the first missing key in its read order (a present
previous_episodes value is assumed list-valued, matching its iteration
by the templates). -/
theorem keySpec_LogsExtractNodes_reflexion (context : Ctx)
    (hprev : ∀ v, context.lookup "previous_episodes" = some v → ∃ xs, v = Val.list xs)
    (hmiss : ∃ k, k ∈ ["previous_episodes", "episode_content", "extracted_entities"] ∧ context.lookup k = Option.none) :
    ∃ k2, k2 ∈ ["previous_episodes", "episode_content", "extracted_entities"] ∧ context.lookup k2 = Option.none ∧
      LogsExtractNodes.reflexion context = Except.error (PyErr.keyError k2) := by
  rcases h1 : context.lookup "previous_episodes" with _ | v1
  · exact ⟨"previous_episodes", by simp, h1, by simp [LogsExtractNodes.reflexion, Ctx.getItem, h1, Bind.bind, Except.bind, pyIterList]⟩
  obtain ⟨xs1, rfl⟩ := hprev v1 h1
  rcases h2 : context.lookup "episode_content" with _ | v2
  · exact ⟨"episode_content", by simp, h2, by simp [LogsExtractNodes.reflexion, Ctx.getItem, h1, h2, Bind.bind, Except.bind, pyIterList]⟩
  rcases h3 : context.lookup "extracted_entities" with _ | v3
  · exact ⟨"extracted_entities", by simp, h3, by simp [LogsExtractNodes.reflexion, Ctx.getItem, h1, h2, h3, Bind.bind, Except.bind, pyIterList]⟩
  rcases hmiss with ⟨k, hk, hnone⟩
  simp at hk
  rcases hk with rfl | rfl | rfl <;> simp_all

/-- Any context lacking one of the keys `LogsExtractNodes.classify_nodes` reads makes it raise
KeyError at the first missing key in its read order (a present
previous_episodes value is assumed list-valued, matching its iteration
by the templates). -/
theorem keySpec_LogsExtractNodes_classify_nodes (context : Ctx)
    (hprev : ∀ v, context.lookup "previous_episodes" = some v → ∃ xs, v = Val.list xs)
    (hmiss : ∃ k, k ∈ ["previous_episodes", "episode_content", "extracted_entities", "entity_types"] ∧ context.lookup k = Option.none) :
    ∃ k2, k2 ∈ ["previous_episodes", "episode_content", "extracted_entities", "entity_types"] ∧ context.lookup k2 = Option.none ∧
      LogsExtractNodes.classify_nodes context = Except.error (PyErr.keyError k2) := by
  rcases h1 : context.lookup "previous_episodes" with _ | v1
  · exact ⟨"previous_episodes", by simp, h1, by simp [LogsExtractNodes.classify_nodes, Ctx.getItem, h1, Bind.bind, Except.bind, pyIterList]⟩
  obtain ⟨xs1, rfl⟩ := hprev v1 h1
  rcases h2 : context.lookup "episode_content" with _ | v2
  · exact ⟨"episode_content", by simp, h2, by simp [LogsExtractNodes.classify_nodes, Ctx.getItem, h1, h2, Bind.bind, Except.bind, pyIterList]⟩
  rcases h3 : context.lookup "extracted_entities" with _ | v3
  · exact ⟨"extracted_entities", by simp, h3, by simp [LogsExtractNodes.classify_nodes, Ctx.getItem, h1, h2, h3, Bind.bind, Except.bind, pyIterList]⟩
  rcases h4 : context.lookup "entity_types" with _ | v4
  · exact ⟨"entity_types", by simp, h4, by simp [LogsExtractNodes.classify_nodes, Ctx.getItem, h1, h2, h3, h4, Bind.bind, Except.bind, pyIterList]⟩
  rcases hmiss with ⟨k, hk, hnone⟩
  simp at hk
  rcases hk with rfl | rfl | rfl | rfl <;> simp_all

/-- Any context lacking one of the keys `LogsExtractNodes.extract_attributes` reads makes it raise
KeyError at the first missing key in its read order (a present
previous_episodes value is assumed list-valued, matching its iteration
by the templates). -/
theorem keySpec_LogsExtractNodes_extract_attributes (context : Ctx)
    (_hprev : ∀ v, context.lookup "previous_episodes" = some v → ∃ xs, v = Val.list xs)
    (hmiss : ∃ k, k ∈ ["previous_episodes", "episode_content", "node"] ∧ context.lookup k = Option.none) :
    ∃ k2, k2 ∈ ["previous_episodes", "episode_content", "node"] ∧ context.lookup k2 = Option.none ∧
      LogsExtractNodes.extract_attributes context = Except.error (PyErr.keyError k2) := by
  rcases h1 : context.lookup "previous_episodes" with _ | v1
  · exact ⟨"previous_episodes", by simp, h1, by simp [LogsExtractNodes.extract_attributes, Ctx.getItem, h1, Bind.bind, Except.bind, pyIterList]⟩
  rcases h2 : context.lookup "episode_content" with _ | v2
  · exact ⟨"episode_content", by simp, h2, by simp [LogsExtractNodes.extract_attributes, Ctx.getItem, h1, h2, Bind.bind, Except.bind, pyIterList]⟩
  rcases h3 : context.lookup "node" with _ | v3
  · exact ⟨"node", by simp, h3, by simp [LogsExtractNodes.extract_attributes, Ctx.getItem, h1, h2, h3, Bind.bind, Except.bind, pyIterList]⟩
  rcases hmiss with ⟨k, hk, hnone⟩
  simp at hk
  rcases hk with rfl | rfl | rfl <;> simp_all

/-- Bundles the per-operation missing-key lemmas over the full operation
vocabulary of `LogsExtractNodes.versions`. -/
theorem keySpecAll_LogsExtractNodes (context : Ctx)
    (hprev : ∀ v, context.lookup "previous_episodes" = some v → ∃ xs, v = Val.list xs) :
    ∀ op ∈ nodeOperationNames, ∀ k ∈ nodeOpReadKeys op, context.lookup k = Option.none →
      ∃ f k2, LogsExtractNodes.versions.lookup op = some f ∧ k2 ∈ nodeOpReadKeys op ∧
        context.lookup k2 = Option.none ∧
        f context = Except.error (PyErr.keyError k2) := by
  intro op hop k hk hknone
  fin_cases hop
  · obtain ⟨k2, hk2, hn2, herr⟩ := keySpec_LogsExtractNodes_extract_message context hprev
      ⟨k, by simpa [nodeOpReadKeys] using hk, hknone⟩
    exact ⟨LogsExtractNodes.extract_message, k2, rfl, by simpa [nodeOpReadKeys] using hk2, hn2, herr⟩
  · obtain ⟨k2, hk2, hn2, herr⟩ := keySpec_LogsExtractNodes_extract_json context hprev
      ⟨k, by simpa [nodeOpReadKeys] using hk, hknone⟩
    exact ⟨LogsExtractNodes.extract_json, k2, rfl, by simpa [nodeOpReadKeys] using hk2, hn2, herr⟩
  · obtain ⟨k2, hk2, hn2, herr⟩ := keySpec_LogsExtractNodes_extract_text context hprev
      ⟨k, by simpa [nodeOpReadKeys] using hk, hknone⟩
    exact ⟨LogsExtractNodes.extract_text, k2, rfl, by simpa [nodeOpReadKeys] using hk2, hn2, herr⟩
  · obtain ⟨k2, hk2, hn2, herr⟩ := keySpec_LogsExtractNodes_reflexion context hprev
      ⟨k, by simpa [nodeOpReadKeys] using hk, hknone⟩
    exact ⟨LogsExtractNodes.reflexion, k2, rfl, by simpa [nodeOpReadKeys] using hk2, hn2, herr⟩
  · obtain ⟨k2, hk2, hn2, herr⟩ := keySpec_LogsExtractNodes_classify_nodes context hprev
      ⟨k, by simpa [nodeOpReadKeys] using hk, hknone⟩
    exact ⟨LogsExtractNodes.classify_nodes, k2, rfl, by simpa [nodeOpReadKeys] using hk2, hn2, herr⟩
  · obtain ⟨k2, hk2, hn2, herr⟩ := keySpec_LogsExtractNodes_extract_attributes context hprev
      ⟨k, by simpa [nodeOpReadKeys] using hk, hknone⟩
    exact ⟨LogsExtractNodes.extract_attributes, k2, rfl, by simpa [nodeOpReadKeys] using hk2, hn2, herr⟩

/-- Any context lacking one of the keys `MetricsExtractNodes.extract_message` reads makes it raise
KeyError at the first missing key in its read order (a present
previous_episodes value is assumed list-valued, matching its iteration
by the templates). -/
theorem keySpec_MetricsExtractNodes_extract_message (context : Ctx)
    (hprev : ∀ v, context.lookup "previous_episodes" = some v → ∃ xs, v = Val.list xs)
    (hmiss : ∃ k, k ∈ ["previous_episodes", "episode_content", "entity_types", "custom_prompt"] ∧ context.lookup k = Option.none) :
    ∃ k2, k2 ∈ ["previous_episodes", "episode_content", "entity_types", "custom_prompt"] ∧ context.lookup k2 = Option.none ∧
      MetricsExtractNodes.extract_message context = Except.error (PyErr.keyError k2) := by
  rcases h1 : context.lookup "previous_episodes" with _ | v1
  · exact ⟨"previous_episodes", by simp, h1, by simp [MetricsExtractNodes.extract_message, Ctx.getItem, h1, Bind.bind, Except.bind, pyIterList]⟩
  obtain ⟨xs1, rfl⟩ := hprev v1 h1
  rcases h2 : context.lookup "episode_content" with _ | v2
  · exact ⟨"episode_content", by simp, h2, by simp [MetricsExtractNodes.extract_message, Ctx.getItem, h1, h2, Bind.bind, Except.bind, pyIterList]⟩
  rcases h3 : context.lookup "entity_types" with _ | v3
  · exact ⟨"entity_types", by simp, h3, by simp [MetricsExtractNodes.extract_message, Ctx.getItem, h1, h2, h3, Bind.bind, Except.bind, pyIterList]⟩
  rcases h4 : context.lookup "custom_prompt" with _ | v4
  · exact ⟨"custom_prompt", by simp, h4, by simp [MetricsExtractNodes.extract_message, Ctx.getItem, h1, h2, h3, h4, Bind.bind, Except.bind, pyIterList]⟩
  rcases hmiss with ⟨k, hk, hnone⟩
  simp at hk
  rcases hk with rfl | rfl | rfl | rfl <;> simp_all

/-- Any context lacking one of the keys `MetricsExtractNodes.extract_json` reads makes it raise
KeyError at the first missing key in its read order (a present
previous_episodes value is assumed list-valued, matching its iteration
by the templates). -/
theorem keySpec_MetricsExtractNodes_extract_json (context : Ctx)
    (_hprev : ∀ v, context.lookup "previous_episodes" = some v → ∃ xs, v = Val.list xs)
    (hmiss : ∃ k, k ∈ ["source_description", "episode_content", "entity_types", "custom_prompt"] ∧ context.lookup k = Option.none) :
    ∃ k2, k2 ∈ ["source_description", "episode_content", "entity_types", "custom_prompt"] ∧ context.lookup k2 = Option.none ∧
      MetricsExtractNodes.extract_json context = Except.error (PyErr.keyError k2) := by
  rcases h1 : context.lookup "source_description" with _ | v1
  · exact ⟨"source_description", by simp, h1, by simp [MetricsExtractNodes.extract_json, Ctx.getItem, h1, Bind.bind, Except.bind, pyIterList]⟩
  rcases h2 : context.lookup "episode_content" with _ | v2
  · exact ⟨"episode_content", by simp, h2, by simp [MetricsExtractNodes.extract_json, Ctx.getItem, h1, h2, Bind.bind, Except.bind, pyIterList]⟩
  rcases h3 : context.lookup "entity_types" with _ | v3
  · exact ⟨"entity_types", by simp, h3, by simp [MetricsExtractNodes.extract_json, Ctx.getItem, h1, h2, h3, Bind.bind, Except.bind, pyIterList]⟩
  rcases h4 : context.lookup "custom_prompt" with _ | v4
  · exact ⟨"custom_prompt", by simp, h4, by simp [MetricsExtractNodes.extract_json, Ctx.getItem, h1, h2, h3, h4, Bind.bind, Except.bind, pyIterList]⟩
  rcases hmiss with ⟨k, hk, hnone⟩
  simp at hk
  rcases hk with rfl | rfl | rfl | rfl <;> simp_all

/-- Any context lacking one of the keys `MetricsExtractNodes.extract_text` reads makes it raise
KeyError at the first missing key in its read order (a present
previous_episodes value is assumed list-valued, matching its iteration
by the templates). -/
theorem keySpec_MetricsExtractNodes_extract_text (context : Ctx)
    (_hprev : ∀ v, context.lookup "previous_episodes" = some v → ∃ xs, v = Val.list xs)
    (hmiss : ∃ k, k ∈ ["episode_content", "entity_types", "custom_prompt"] ∧ context.lookup k = Option.none) :
    ∃ k2, k2 ∈ ["episode_content", "entity_types", "custom_prompt"] ∧ context.lookup k2 = Option.none ∧
      MetricsExtractNodes.extract_text context = Except.error (PyErr.keyError k2) := by
  rcases h1 : context.lookup "episode_content" with _ | v1
  · exact ⟨"episode_content", by simp, h1, by simp [MetricsExtractNodes.extract_text, Ctx.getItem, h1, Bind.bind, Except.bind, pyIterList]⟩
  rcases h2 : context.lookup "entity_types" with _ | v2
  · exact ⟨"entity_types", by simp, h2, by simp [MetricsExtractNodes.extract_text, Ctx.getItem, h1, h2, Bind.bind, Except.bind, pyIterList]⟩
  rcases h3 : context.lookup "custom_prompt" with _ | v3
  · exact ⟨"custom_prompt", by simp, h3, by simp [MetricsExtractNodes.extract_text, Ctx.getItem, h1, h2, h3, Bind.bind, Except.bind, pyIterList]⟩
  rcases hmiss with ⟨k, hk, hnone⟩
  simp at hk
  rcases hk with rfl | rfl | rfl <;> simp_all

/-- Any context lacking one of the keys `MetricsExtractNodes.reflexion` reads makes it raise
KeyError at the first missing key in its read order (a present
previous_episodes value is assumed list-valued, matching its iteration
by the templates). -/
theorem keySpec_MetricsExtractNodes_reflexion (context : Ctx)
    (hprev : ∀ v, context.lookup "previous_episodes" = some v → ∃ xs, v = Val.list xs)
    (hmiss : ∃ k, k ∈ ["previous_episodes", "episode_content", "extracted_entities"] ∧ context.lookup k = Option.none) :
    ∃ k2, k2 ∈ ["previous_episodes", "episode_content", "extracted_entities"] ∧ context.lookup k2 = Option.none ∧
      MetricsExtractNodes.reflexion context = Except.error (PyErr.keyError k2) := by
  rcases h1 : context.lookup "previous_episodes" with _ | v1
  · exact ⟨"previous_episodes", by simp, h1, by simp [MetricsExtractNodes.reflexion, Ctx.getItem, h1, Bind.bind, Except.bind, pyIterList]⟩
  obtain ⟨xs1, rfl⟩ := hprev v1 h1
  rcases h2 : context.lookup "episode_content" with _ | v2
  · exact ⟨"episode_content", by simp, h2, by simp [MetricsExtractNodes.reflexion, Ctx.getItem, h1, h2, Bind.bind, Except.bind, pyIterList]⟩
  rcases h3 : context.lookup "extracted_entities" with _ | v3
  · exact ⟨"extracted_entities", by simp, h3, by simp [MetricsExtractNodes.reflexion, Ctx.getItem, h1, h2, h3, Bind.bind, Except.bind, pyIterList]⟩
  rcases hmiss with ⟨k, hk, hnone⟩
  simp at hk
  rcases hk with rfl | rfl | rfl <;> simp_all

/-- Any context lacking one of the keys `MetricsExtractNodes.classify_nodes` reads makes it raise
KeyError at the first missing key in its read order (a present
previous_episodes value is assumed list-valued, matching its iteration
by the templates). -/
theorem keySpec_MetricsExtractNodes_classify_nodes (context : Ctx)
    (hprev : ∀ v, context.lookup "previous_episodes" = some v → ∃ xs, v = Val.list xs)
    (hmiss : ∃ k, k ∈ ["previous_episodes", "episode_content", "extracted_entities", "entity_types"] ∧ context.lookup k = Option.none) :
    ∃ k2, k2 ∈ ["previous_episodes", "episode_content", "extracted_entities", "entity_types"] ∧ context.lookup k2 = Option.none ∧
      MetricsExtractNodes.classify_nodes context = Except.error (PyErr.keyError k2) := by
  rcases h1 : context.lookup "previous_episodes" with _ | v1
  · exact ⟨"previous_episodes", by simp, h1, by simp [MetricsExtractNodes.classify_nodes, Ctx.getItem, h1, Bind.bind, Except.bind, pyIterList]⟩
  obtain ⟨xs1, rfl⟩ := hprev v1 h1
  rcases h2 : context.lookup "episode_content" with _ | v2
  · exact ⟨"episode_content", by simp, h2, by simp [MetricsExtractNodes.classify_nodes, Ctx.getItem, h1, h2, Bind.bind, Except.bind, pyIterList]⟩
  rcases h3 : context.lookup "extracted_entities" with _ | v3
  · exact ⟨"extracted_entities", by simp, h3, by simp [MetricsExtractNodes.classify_nodes, Ctx.getItem, h1, h2, h3, Bind.bind, Except.bind, pyIterList]⟩
  rcases h4 : context.lookup "entity_types" with _ | v4
  · exact ⟨"entity_types", by simp, h4, by simp [MetricsExtractNodes.classify_nodes, Ctx.getItem, h1, h2, h3, h4, Bind.bind, Except.bind, pyIterList]⟩
  rcases hmiss with ⟨k, hk, hnone⟩
  simp at hk
  rcases hk with rfl | rfl | rfl | rfl <;> simp_all

/-- Any context lacking one of the keys `MetricsExtractNodes.extract_attributes` reads makes it raise
KeyError at the first missing key in its read order (a present
previous_episodes value is assumed list-valued, matching its iteration
by the templates). -/
theorem keySpec_MetricsExtractNodes_extract_attributes (context : Ctx)
    (_hprev : ∀ v, context.lookup "previous_episodes" = some v → ∃ xs, v = Val.list xs)
    (hmiss : ∃ k, k ∈ ["previous_episodes", "episode_content", "node"] ∧ context.lookup k = Option.none) :
    ∃ k2, k2 ∈ ["previous_episodes", "episode_content", "node"] ∧ context.lookup k2 = Option.none ∧
      MetricsExtractNodes.extract_attributes context = Except.error (PyErr.keyError k2) := by
  rcases h1 : context.lookup "previous_episodes" with _ | v1
  · exact ⟨"previous_episodes", by simp, h1, by simp [MetricsExtractNodes.extract_attributes, Ctx.getItem, h1, Bind.bind, Except.bind, pyIterList]⟩
  rcases h2 : context.lookup "episode_content" with _ | v2
  · exact ⟨"episode_content", by simp, h2, by simp [MetricsExtractNodes.extract_attributes, Ctx.getItem, h1, h2, Bind.bind, Except.bind, pyIterList]⟩
  rcases h3 : context.lookup "node" with _ | v3
  · exact ⟨"node", by simp, h3, by simp [MetricsExtractNodes.extract_attributes, Ctx.getItem, h1, h2, h3, Bind.bind, Except.bind, pyIterList]⟩
  rcases hmiss with ⟨k, hk, hnone⟩
  simp at hk
  rcases hk with rfl | rfl | rfl <;> simp_all

/-- Bundles the per-operation missing-key lemmas over the full operation
vocabulary of `MetricsExtractNodes.versions`. -/
theorem keySpecAll_MetricsExtractNodes (context : Ctx)
    (hprev : ∀ v, context.lookup "previous_episodes" = some v → ∃ xs, v = Val.list xs) :
    ∀ op ∈ nodeOperationNames, ∀ k ∈ nodeOpReadKeys op, context.lookup k = Option.none →
      ∃ f k2, MetricsExtractNodes.versions.lookup op = some f ∧ k2 ∈ nodeOpReadKeys op ∧
        context.lookup k2 = Option.none ∧
        f context = Except.error (PyErr.keyError k2) := by
  intro op hop k hk hknone
  fin_cases hop
  · obtain ⟨k2, hk2, hn2, herr⟩ := keySpec_MetricsExtractNodes_extract_message context hprev
      ⟨k, by simpa [nodeOpReadKeys] using hk, hknone⟩
    exact ⟨MetricsExtractNodes.extract_message, k2, rfl, by simpa [nodeOpReadKeys] using hk2, hn2, herr⟩
  · obtain ⟨k2, hk2, hn2, herr⟩ := keySpec_MetricsExtractNodes_extract_json context hprev
      ⟨k, by simpa [nodeOpReadKeys] using hk, hknone⟩
    exact ⟨MetricsExtractNodes.extract_json, k2, rfl, by simpa [nodeOpReadKeys] using hk2, hn2, herr⟩
  · obtain ⟨k2, hk2, hn2, herr⟩ := keySpec_MetricsExtractNodes_extract_text context hprev
      ⟨k, by simpa [nodeOpReadKeys] using hk, hknone⟩
    exact ⟨MetricsExtractNodes.extract_text, k2, rfl, by simpa [nodeOpReadKeys] using hk2, hn2, herr⟩
  · obtain ⟨k2, hk2, hn2, herr⟩ := keySpec_MetricsExtractNodes_reflexion context hprev
      ⟨k, by simpa [nodeOpReadKeys] using hk, hknone⟩
    exact ⟨MetricsExtractNodes.reflexion, k2, rfl, by simpa [nodeOpReadKeys] using hk2, hn2, herr⟩
  · obtain ⟨k2, hk2, hn2, herr⟩ := keySpec_MetricsExtractNodes_classify_nodes context hprev
      ⟨k, by simpa [nodeOpReadKeys] using hk, hknone⟩
    exact ⟨MetricsExtractNodes.classify_nodes, k2, rfl, by simpa [nodeOpReadKeys] using hk2, hn2, herr⟩
  · obtain ⟨k2, hk2, hn2, herr⟩ := keySpec_MetricsExtractNodes_extract_attributes context hprev
      ⟨k, by simpa [nodeOpReadKeys] using hk, hknone⟩
    exact ⟨MetricsExtractNodes.extract_attributes, k2, rfl, by simpa [nodeOpReadKeys] using hk2, hn2, herr⟩

/-- Any context lacking one of the keys `MetricsExtractEdges.edge` reads makes it raise
KeyError at the first missing key in its read order (a present
previous_episodes value is assumed list-valued, matching its iteration
by the templates). -/
theorem keySpec_MetricsExtractEdges_edge (context : Ctx)
    (hprev : ∀ v, context.lookup "previous_episodes" = some v → ∃ xs, v = Val.list xs)
    (hmiss : ∃ k, k ∈ ["previous_episodes", "episode_content", "nodes", "reference_time", "edge_types", "custom_prompt"] ∧ context.lookup k = Option.none) :
    ∃ k2, k2 ∈ ["previous_episodes", "episode_content", "nodes", "reference_time", "edge_types", "custom_prompt"] ∧ context.lookup k2 = Option.none ∧
      MetricsExtractEdges.edge context = Except.error (PyErr.keyError k2) := by
  rcases h1 : context.lookup "previous_episodes" with _ | v1
  · exact ⟨"previous_episodes", by simp, h1, by simp [MetricsExtractEdges.edge, Ctx.getItem, h1, Bind.bind, Except.bind, pyIterList]⟩
  obtain ⟨xs1, rfl⟩ := hprev v1 h1
  rcases h2 : context.lookup "episode_content" with _ | v2
  · exact ⟨"episode_content", by simp, h2, by simp [MetricsExtractEdges.edge, Ctx.getItem, h1, h2, Bind.bind, Except.bind, pyIterList]⟩
  rcases h3 : context.lookup "nodes" with _ | v3
  · exact ⟨"nodes", by simp, h3, by simp [MetricsExtractEdges.edge, Ctx.getItem, h1, h2, h3, Bind.bind, Except.bind, pyIterList]⟩
  rcases h4 : context.lookup "reference_time" with _ | v4
  · exact ⟨"reference_time", by simp, h4, by simp [MetricsExtractEdges.edge, Ctx.getItem, h1, h2, h3, h4, Bind.bind, Except.bind, pyIterList]⟩
  rcases h5 : context.lookup "edge_types" with _ | v5
  · exact ⟨"edge_types", by simp, h5, by simp [MetricsExtractEdges.edge, Ctx.getItem, h1, h2, h3, h4, h5, Bind.bind, Except.bind, pyIterList]⟩
  rcases h6 : context.lookup "custom_prompt" with _ | v6
  · exact ⟨"custom_prompt", by simp, h6, by simp [MetricsExtractEdges.edge, Ctx.getItem, h1, h2, h3, h4, h5, h6, Bind.bind, Except.bind, pyIterList]⟩
  rcases hmiss with ⟨k, hk, hnone⟩
  simp at hk
  rcases hk with rfl | rfl | rfl | rfl | rfl | rfl <;> simp_all

/-- Any context lacking one of the keys `MetricsExtractEdges.reflexion` reads makes it raise
KeyError at the first missing key in its read order (a present
previous_episodes value is assumed list-valued, matching its iteration
by the templates). -/
theorem keySpec_MetricsExtractEdges_reflexion (context : Ctx)
    (hprev : ∀ v, context.lookup "previous_episodes" = some v → ∃ xs, v = Val.list xs)
    (hmiss : ∃ k, k ∈ ["previous_episodes", "episode_content", "nodes", "extracted_facts"] ∧ context.lookup k = Option.none) :
    ∃ k2, k2 ∈ ["previous_episodes", "episode_content", "nodes", "extracted_facts"] ∧ context.lookup k2 = Option.none ∧
      MetricsExtractEdges.reflexion context = Except.error (PyErr.keyError k2) := by
  rcases h1 : context.lookup "previous_episodes" with _ | v1
  · exact ⟨"previous_episodes", by simp, h1, by simp [MetricsExtractEdges.reflexion, Ctx.getItem, h1, Bind.bind, Except.bind, pyIterList]⟩
  obtain ⟨xs1, rfl⟩ := hprev v1 h1
  rcases h2 : context.lookup "episode_content" with _ | v2
  · exact ⟨"episode_content", by simp, h2, by simp [MetricsExtractEdges.reflexion, Ctx.getItem, h1, h2, Bind.bind, Except.bind, pyIterList]⟩
  rcases h3 : context.lookup "nodes" with _ | v3
  · exact ⟨"nodes", by simp, h3, by simp [MetricsExtractEdges.reflexion, Ctx.getItem, h1, h2, h3, Bind.bind, Except.bind, pyIterList]⟩
  rcases h4 : context.lookup "extracted_facts" with _ | v4
  · exact ⟨"extracted_facts", by simp, h4, by simp [MetricsExtractEdges.reflexion, Ctx.getItem, h1, h2, h3, h4, Bind.bind, Except.bind, pyIterList]⟩
  rcases hmiss with ⟨k, hk, hnone⟩
  simp at hk
  rcases hk with rfl | rfl | rfl | rfl <;> simp_all

/-- Any context lacking one of the keys `MetricsExtractEdges.extract_attributes` reads makes it raise
KeyError at the first missing key in its read order (a present
previous_episodes value is assumed list-valued, matching its iteration
by the templates). -/
theorem keySpec_MetricsExtractEdges_extract_attributes (context : Ctx)
    (_hprev : ∀ v, context.lookup "previous_episodes" = some v → ∃ xs, v = Val.list xs)
    (hmiss : ∃ k, k ∈ ["episode_content", "reference_time", "fact"] ∧ context.lookup k = Option.none) :
    ∃ k2, k2 ∈ ["episode_content", "reference_time", "fact"] ∧ context.lookup k2 = Option.none ∧
      MetricsExtractEdges.extract_attributes context = Except.error (PyErr.keyError k2) := by
  rcases h1 : context.lookup "episode_content" with _ | v1
  · exact ⟨"episode_content", by simp, h1, by simp [MetricsExtractEdges.extract_attributes, Ctx.getItem, h1, Bind.bind, Except.bind, pyIterList]⟩
  rcases h2 : context.lookup "reference_time" with _ | v2
  · exact ⟨"reference_time", by simp, h2, by simp [MetricsExtractEdges.extract_attributes, Ctx.getItem, h1, h2, Bind.bind, Except.bind, pyIterList]⟩
  rcases h3 : context.lookup "fact" with _ | v3
  · exact ⟨"fact", by simp, h3, by simp [MetricsExtractEdges.extract_attributes, Ctx.getItem, h1, h2, h3, Bind.bind, Except.bind, pyIterList]⟩
  rcases hmiss with ⟨k, hk, hnone⟩
  simp at hk
  rcases hk with rfl | rfl | rfl <;> simp_all

/-- Bundles the per-operation missing-key lemmas over the full operation
vocabulary of `MetricsExtractEdges.versions`. -/
theorem keySpecAll_MetricsExtractEdges (context : Ctx)
    (hprev : ∀ v, context.lookup "previous_episodes" = some v → ∃ xs, v = Val.list xs) :
    ∀ op ∈ edgeOperationNames, ∀ k ∈ edgeOpReadKeys op, context.lookup k = Option.none →
      ∃ f k2, MetricsExtractEdges.versions.lookup op = some f ∧ k2 ∈ edgeOpReadKeys op ∧
        context.lookup k2 = Option.none ∧
        f context = Except.error (PyErr.keyError k2) := by
  intro op hop k hk hknone
  fin_cases hop
  · obtain ⟨k2, hk2, hn2, herr⟩ := keySpec_MetricsExtractEdges_edge context hprev
      ⟨k, by simpa [edgeOpReadKeys] using hk, hknone⟩
    exact ⟨MetricsExtractEdges.edge, k2, rfl, by simpa [edgeOpReadKeys] using hk2, hn2, herr⟩
  · obtain ⟨k2, hk2, hn2, herr⟩ := keySpec_MetricsExtractEdges_reflexion context hprev
      ⟨k, by simpa [edgeOpReadKeys] using hk, hknone⟩
    exact ⟨MetricsExtractEdges.reflexion, k2, rfl, by simpa [edgeOpReadKeys] using hk2, hn2, herr⟩
  · obtain ⟨k2, hk2, hn2, herr⟩ := keySpec_MetricsExtractEdges_extract_attributes context hprev
      ⟨k, by simpa [edgeOpReadKeys] using hk, hknone⟩
    exact ⟨MetricsExtractEdges.extract_attributes, k2, rfl, by simpa [edgeOpReadKeys] using hk2, hn2, herr⟩

/-- Any context lacking one of the keys `TracesExtractNodes.extract_message` reads makes it raise
KeyError at the first missing key in its read order (a present
previous_episodes value is assumed list-valued, matching its iteration
by the templates). -/
theorem keySpec_TracesExtractNodes_extract_message (context : Ctx)
    (hprev : ∀ v, context.lookup "previous_episodes" = some v → ∃ xs, v = Val.list xs)
    (hmiss : ∃ k, k ∈ ["previous_episodes", "episode_content", "entity_types", "custom_prompt"] ∧ context.lookup k = Option.none) :
    ∃ k2, k2 ∈ ["previous_episodes", "episode_content", "entity_types", "custom_prompt"] ∧ context.lookup k2 = Option.none ∧
      TracesExtractNodes.extract_message context = Except.error (PyErr.keyError k2) := by
  rcases h1 : context.lookup "previous_episodes" with _ | v1
  · exact ⟨"previous_episodes", by simp, h1, by simp [TracesExtractNodes.extract_message, Ctx.getItem, h1, Bind.bind, Except.bind, pyIterList]⟩
  obtain ⟨xs1, rfl⟩ := hprev v1 h1
  rcases h2 : context.lookup "episode_content" with _ | v2
  · exact ⟨"episode_content", by simp, h2, by simp [TracesExtractNodes.extract_message, Ctx.getItem, h1, h2, Bind.bind, Except.bind, pyIterList]⟩
  rcases h3 : context.lookup "entity_types" with _ | v3
  · exact ⟨"entity_types", by simp, h3, by simp [TracesExtractNodes.extract_message, Ctx.getItem, h1, h2, h3, Bind.bind, Except.bind, pyIterList]⟩
  rcases h4 : context.lookup "custom_prompt" with _ | v4
  · exact ⟨"custom_prompt", by simp, h4, by simp [TracesExtractNodes.extract_message, Ctx.getItem, h1, h2, h3, h4, Bind.bind, Except.bind, pyIterList]⟩
  rcases hmiss with ⟨k, hk, hnone⟩
  simp at hk
  rcases hk with rfl | rfl | rfl | rfl <;> simp_all

/-- Any context lacking one of the keys `TracesExtractNodes.extract_json` reads makes it raise
KeyError at the first missing key in its read order (a present
previous_episodes value is assumed list-valued, matching its iteration
by the templates). -/
theorem keySpec_TracesExtractNodes_extract_json (context : Ctx)
    (_hprev : ∀ v, context.lookup "previous_episodes" = some v → ∃ xs, v = Val.list xs)
    (hmiss : ∃ k, k ∈ ["source_description", "episode_content", "entity_types", "custom_prompt"] ∧ context.lookup k = Option.none) :
    ∃ k2, k2 ∈ ["source_description", "episode_content", "entity_types", "custom_prompt"] ∧ context.lookup k2 = Option.none ∧
      TracesExtractNodes.extract_json context = Except.error (PyErr.keyError k2) := by
  rcases h1 : context.lookup "source_description" with _ | v1
  · exact ⟨"source_description", by simp, h1, by simp [TracesExtractNodes.extract_json, Ctx.getItem, h1, Bind.bind, Except.bind, pyIterList]⟩
  rcases h2 : context.lookup "episode_content" with _ | v2
  · exact ⟨"episode_content", by simp, h2, by simp [TracesExtractNodes.extract_json, Ctx.getItem, h1, h2, Bind.bind, Except.bind, pyIterList]⟩
  rcases h3 : context.lookup "entity_types" with _ | v3
  · exact ⟨"entity_types", by simp, h3, by simp [TracesExtractNodes.extract_json, Ctx.getItem, h1, h2, h3, Bind.bind, Except.bind, pyIterList]⟩
  rcases h4 : context.lookup "custom_prompt" with _ | v4
  · exact ⟨"custom_prompt", by simp, h4, by simp [TracesExtractNodes.extract_json, Ctx.getItem, h1, h2, h3, h4, Bind.bind, Except.bind, pyIterList]⟩
  rcases hmiss with ⟨k, hk, hnone⟩
  simp at hk
  rcases hk with rfl | rfl | rfl | rfl <;> simp_all

/-- Any context lacking one of the keys `TracesExtractNodes.extract_text` reads makes it raise
KeyError at the first missing key in its read order (a present
previous_episodes value is assumed list-valued, matching its iteration
by the templates). -/
theorem keySpec_TracesExtractNodes_extract_text (context : Ctx)
    (_hprev : ∀ v, context.lookup "previous_episodes" = some v → ∃ xs, v = Val.list xs)
    (hmiss : ∃ k, k ∈ ["episode_content", "entity_types", "custom_prompt"] ∧ context.lookup k = Option.none) :
    ∃ k2, k2 ∈ ["episode_content", "entity_types", "custom_prompt"] ∧ context.lookup k2 = Option.none ∧
      TracesExtractNodes.extract_text context = Except.error (PyErr.keyError k2) := by
  rcases h1 : context.lookup "episode_content" with _ | v1
  · exact ⟨"episode_content", by simp, h1, by simp [TracesExtractNodes.extract_text, Ctx.getItem, h1, Bind.bind, Except.bind, pyIterList]⟩
  rcases h2 : context.lookup "entity_types" with _ | v2
  · exact ⟨"entity_types", by simp, h2, by simp [TracesExtractNodes.extract_text, Ctx.getItem, h1, h2, Bind.bind, Except.bind, pyIterList]⟩
  rcases h3 : context.lookup "custom_prompt" with _ | v3
  · exact ⟨"custom_prompt", by simp, h3, by simp [TracesExtractNodes.extract_text, Ctx.getItem, h1, h2, h3, Bind.bind, Except.bind, pyIterList]⟩
  rcases hmiss with ⟨k, hk, hnone⟩
  simp at hk
  rcases hk with rfl | rfl | rfl <;> simp_all

/-- Any context lacking one of the keys `TracesExtractNodes.reflexion` reads makes it raise
KeyError at the first missing key in its read order (a present
previous_episodes value is assumed list-valued, matching its iteration
by the templates). -/
theorem keySpec_TracesExtractNodes_reflexion (context : Ctx)
    (hprev : ∀ v, context.lookup "previous_episodes" = some v → ∃ xs, v = Val.list xs)
    (hmiss : ∃ k, k ∈ ["previous_episodes", "episode_content", "extracted_entities"] ∧ context.lookup k = Option.none) :
    ∃ k2, k2 ∈ ["previous_episodes", "episode_content", "extracted_entities"] ∧ context.lookup k2 = Option.none ∧
      TracesExtractNodes.reflexion context = Except.error (PyErr.keyError k2) := by
  rcases h1 : context.lookup "previous_episodes" with _ | v1
  · exact ⟨"previous_episodes", by simp, h1, by simp [TracesExtractNodes.reflexion, Ctx.getItem, h1, Bind.bind, Except.bind, pyIterList]⟩
  obtain ⟨xs1, rfl⟩ := hprev v1 h1
  rcases h2 : context.lookup "episode_content" with _ | v2
  · exact ⟨"episode_content", by simp, h2, by simp [TracesExtractNodes.reflexion, Ctx.getItem, h1, h2, Bind.bind, Except.bind, pyIterList]⟩
  rcases h3 : context.lookup "extracted_entities" with _ | v3
  · exact ⟨"extracted_entities", by simp, h3, by simp [TracesExtractNodes.reflexion, Ctx.getItem, h1, h2, h3, Bind.bind, Except.bind, pyIterList]⟩
  rcases hmiss with ⟨k, hk, hnone⟩
  simp at hk
  rcases hk with rfl | rfl | rfl <;> simp_all

/-- Any context lacking one of the keys `TracesExtractNodes.classify_nodes` reads makes it raise
KeyError at the first missing key in its read order (a present
previous_episodes value is assumed list-valued, matching its iteration
by the templates). -/
theorem keySpec_TracesExtractNodes_classify_nodes (context : Ctx)
    (hprev : ∀ v, context.lookup "previous_episodes" = some v → ∃ xs, v = Val.list xs)
    (hmiss : ∃ k, k ∈ ["previous_episodes", "episode_content", "extracted_entities", "entity_types"] ∧ context.lookup k = Option.none) :
    ∃ k2, k2 ∈ ["previous_episodes", "episode_content", "extracted_entities", "entity_types"] ∧ context.lookup k2 = Option.none ∧
      TracesExtractNodes.classify_nodes context = Except.error (PyErr.keyError k2) := by
  rcases h1 : context.lookup "previous_episodes" with _ | v1
  · exact ⟨"previous_episodes", by simp, h1, by simp [TracesExtractNodes.classify_nodes, Ctx.getItem, h1, Bind.bind, Except.bind, pyIterList]⟩
  obtain ⟨xs1, rfl⟩ := hprev v1 h1
  rcases h2 : context.lookup "episode_content" with _ | v2
  · exact ⟨"episode_content", by simp, h2, by simp [TracesExtractNodes.classify_nodes, Ctx.getItem, h1, h2, Bind.bind, Except.bind, pyIterList]⟩
  rcases h3 : context.lookup "extracted_entities" with _ | v3
  · exact ⟨"extracted_entities", by simp, h3, by simp [TracesExtractNodes.classify_nodes, Ctx.getItem, h1, h2, h3, Bind.bind, Except.bind, pyIterList]⟩
  rcases h4 : context.lookup "entity_types" with _ | v4
  · exact ⟨"entity_types", by simp, h4, by simp [TracesExtractNodes.classify_nodes, Ctx.getItem, h1, h2, h3, h4, Bind.bind, Except.bind, pyIterList]⟩
  rcases hmiss with ⟨k, hk, hnone⟩
  simp at hk
  rcases hk with rfl | rfl | rfl | rfl <;> simp_all

/-- Any context lacking one of the keys `TracesExtractNodes.extract_attributes` reads makes it raise
KeyError at the first missing key in its read order (a present
previous_episodes value is assumed list-valued, matching its iteration
by the templates). -/
theorem keySpec_TracesExtractNodes_extract_attributes (context : Ctx)
    (_hprev : ∀ v, context.lookup "previous_episodes" = some v → ∃ xs, v = Val.list xs)
    (hmiss : ∃ k, k ∈ ["previous_episodes", "episode_content", "node"] ∧ context.lookup k = Option.none) :
    ∃ k2, k2 ∈ ["previous_episodes", "episode_content", "node"] ∧ context.lookup k2 = Option.none ∧
      TracesExtractNodes.extract_attributes context = Except.error (PyErr.keyError k2) := by
  rcases h1 : context.lookup "previous_episodes" with _ | v1
  · exact ⟨"previous_episodes", by simp, h1, by simp [TracesExtractNodes.extract_attributes, Ctx.getItem, h1, Bind.bind, Except.bind, pyIterList]⟩
  rcases h2 : context.lookup "episode_content" with _ | v2
  · exact ⟨"episode_content", by simp, h2, by simp [TracesExtractNodes.extract_attributes, Ctx.getItem, h1, h2, Bind.bind, Except.bind, pyIterList]⟩
  rcases h3 : context.lookup "node" with _ | v3
  · exact ⟨"node", by simp, h3, by simp [TracesExtractNodes.extract_attributes, Ctx.getItem, h1, h2, h3, Bind.bind, Except.bind, pyIterList]⟩
  rcases hmiss with ⟨k, hk, hnone⟩
  simp at hk
  rcases hk with rfl | rfl | rfl <;> simp_all

/-- Bundles the per-operation missing-key lemmas over the full operation
vocabulary of `TracesExtractNodes.versions`. -/
theorem keySpecAll_TracesExtractNodes (context : Ctx)
    (hprev : ∀ v, context.lookup "previous_episodes" = some v → ∃ xs, v = Val.list xs) :
    ∀ op ∈ nodeOperationNames, ∀ k ∈ nodeOpReadKeys op, context.lookup k = Option.none →
      ∃ f k2, TracesExtractNodes.versions.lookup op = some f ∧ k2 ∈ nodeOpReadKeys op ∧
        context.lookup k2 = Option.none ∧
        f context = Except.error (PyErr.keyError k2) := by
  intro op hop k hk hknone
  fin_cases hop
  · obtain ⟨k2, hk2, hn2, herr⟩ := keySpec_TracesExtractNodes_extract_message context hprev
      ⟨k, by simpa [nodeOpReadKeys] using hk, hknone⟩
    exact ⟨TracesExtractNodes.extract_message, k2, rfl, by simpa [nodeOpReadKeys] using hk2, hn2, herr⟩
  · obtain ⟨k2, hk2, hn2, herr⟩ := keySpec_TracesExtractNodes_extract_json context hprev
      ⟨k, by simpa [nodeOpReadKeys] using hk, hknone⟩
    exact ⟨TracesExtractNodes.extract_json, k2, rfl, by simpa [nodeOpReadKeys] using hk2, hn2, herr⟩
  · obtain ⟨k2, hk2, hn2, herr⟩ := keySpec_TracesExtractNodes_extract_text context hprev
      ⟨k, by simpa [nodeOpReadKeys] using hk, hknone⟩
    exact ⟨TracesExtractNodes.extract_text, k2, rfl, by simpa [nodeOpReadKeys] using hk2, hn2, herr⟩
  · obtain ⟨k2, hk2, hn2, herr⟩ := keySpec_TracesExtractNodes_reflexion context hprev
      ⟨k, by simpa [nodeOpReadKeys] using hk, hknone⟩
    exact ⟨TracesExtractNodes.reflexion, k2, rfl, by simpa [nodeOpReadKeys] using hk2, hn2, herr⟩
  · obtain ⟨k2, hk2, hn2, herr⟩ := keySpec_TracesExtractNodes_classify_nodes context hprev
      ⟨k, by simpa [nodeOpReadKeys] using hk, hknone⟩
    exact ⟨TracesExtractNodes.classify_nodes, k2, rfl, by simpa [nodeOpReadKeys] using hk2, hn2, herr⟩
  · obtain ⟨k2, hk2, hn2, herr⟩ := keySpec_TracesExtractNodes_extract_attributes context hprev
      ⟨k, by simpa [nodeOpReadKeys] using hk, hknone⟩
    exact ⟨TracesExtractNodes.extract_attributes, k2, rfl, by simpa [nodeOpReadKeys] using hk2, hn2, herr⟩

/-- Any context lacking one of the keys `TracesExtractEdges.edge` reads makes it raise
KeyError at the first missing key in its read order (a present
previous_episodes value is assumed list-valued, matching its iteration
by the templates). -/
theorem keySpec_TracesExtractEdges_edge (context : Ctx)
    (hprev : ∀ v, context.lookup "previous_episodes" = some v → ∃ xs, v = Val.list xs)
    (hmiss : ∃ k, k ∈ ["previous_episodes", "episode_content", "nodes", "reference_time", "edge_types", "custom_prompt"] ∧ context.lookup k = Option.none) :
    ∃ k2, k2 ∈ ["previous_episodes", "episode_content", "nodes", "reference_time", "edge_types", "custom_prompt"] ∧ context.lookup k2 = Option.none ∧
      TracesExtractEdges.edge context = Except.error (PyErr.keyError k2) := by
  rcases h1 : context.lookup "previous_episodes" with _ | v1
  · exact ⟨"previous_episodes", by simp, h1, by simp [TracesExtractEdges.edge, Ctx.getItem, h1, Bind.bind, Except.bind, pyIterList]⟩
  obtain ⟨xs1, rfl⟩ := hprev v1 h1
  rcases h2 : context.lookup "episode_content" with _ | v2
  · exact ⟨"episode_content", by simp, h2, by simp [TracesExtractEdges.edge, Ctx.getItem, h1, h2, Bind.bind, Except.bind, pyIterList]⟩
  rcases h3 : context.lookup "nodes" with _ | v3
  · exact ⟨"nodes", by simp, h3, by simp [TracesExtractEdges.edge, Ctx.getItem, h1, h2, h3, Bind.bind, Except.bind, pyIterList]⟩
  rcases h4 : context.lookup "reference_time" with _ | v4
  · exact ⟨"reference_time", by simp, h4, by simp [TracesExtractEdges.edge, Ctx.getItem, h1, h2, h3, h4, Bind.bind, Except.bind, pyIterList]⟩
  rcases h5 : context.lookup "edge_types" with _ | v5
  · exact ⟨"edge_types", by simp, h5, by simp [TracesExtractEdges.edge, Ctx.getItem, h1, h2, h3, h4, h5, Bind.bind, Except.bind, pyIterList]⟩
  rcases h6 : context.lookup "custom_prompt" with _ | v6
  · exact ⟨"custom_prompt", by simp, h6, by simp [TracesExtractEdges.edge, Ctx.getItem, h1, h2, h3, h4, h5, h6, Bind.bind, Except.bind, pyIterList]⟩
  rcases hmiss with ⟨k, hk, hnone⟩
  simp at hk
  rcases hk with rfl | rfl | rfl | rfl | rfl | rfl <;> simp_all

/-- Any context lacking one of the keys `TracesExtractEdges.reflexion` reads makes it raise
KeyError at the first missing key in its read order (a present
previous_episodes value is assumed list-valued, matching its iteration
by the templates). -/
theorem keySpec_TracesExtractEdges_reflexion (context : Ctx)
    (hprev : ∀ v, context.lookup "previous_episodes" = some v → ∃ xs, v = Val.list xs)
    (hmiss : ∃ k, k ∈ ["previous_episodes", "episode_content", "nodes", "extracted_facts"] ∧ context.lookup k = Option.none) :
    ∃ k2, k2 ∈ ["previous_episodes", "episode_content", "nodes", "extracted_facts"] ∧ context.lookup k2 = Option.none ∧
      TracesExtractEdges.reflexion context = Except.error (PyErr.keyError k2) := by
  rcases h1 : context.lookup "previous_episodes" with _ | v1
  · exact ⟨"previous_episodes", by simp, h1, by simp [TracesExtractEdges.reflexion, Ctx.getItem, h1, Bind.bind, Except.bind, pyIterList]⟩
  obtain ⟨xs1, rfl⟩ := hprev v1 h1
  rcases h2 : context.lookup "episode_content" with _ | v2
  · exact ⟨"episode_content", by simp, h2, by simp [TracesExtractEdges.reflexion, Ctx.getItem, h1, h2, Bind.bind, Except.bind, pyIterList]⟩
  rcases h3 : context.lookup "nodes" with _ | v3
  · exact ⟨"nodes", by simp, h3, by simp [TracesExtractEdges.reflexion, Ctx.getItem, h1, h2, h3, Bind.bind, Except.bind, pyIterList]⟩
  rcases h4 : context.lookup "extracted_facts" with _ | v4
  · exact ⟨"extracted_facts", by simp, h4, by simp [TracesExtractEdges.reflexion, Ctx.getItem, h1, h2, h3, h4, Bind.bind, Except.bind, pyIterList]⟩
  rcases hmiss with ⟨k, hk, hnone⟩
  simp at hk
  rcases hk with rfl | rfl | rfl | rfl <;> simp_all

/-- Any context lacking one of the keys `TracesExtractEdges.extract_attributes` reads makes it raise
KeyError at the first missing key in its read order (a present
previous_episodes value is assumed list-valued, matching its iteration
by the templates). -/
theorem keySpec_TracesExtractEdges_extract_attributes (context : Ctx)
    (_hprev : ∀ v, context.lookup "previous_episodes" = some v → ∃ xs, v = Val.list xs)
    (hmiss : ∃ k, k ∈ ["episode_content", "reference_time", "fact"] ∧ context.lookup k = Option.none) :
    ∃ k2, k2 ∈ ["episode_content", "reference_time", "fact"] ∧ context.lookup k2 = Option.none ∧
      TracesExtractEdges.extract_attributes context = Except.error (PyErr.keyError k2) := by
  rcases h1 : context.lookup "episode_content" with _ | v1
  · exact ⟨"episode_content", by simp, h1, by simp [TracesExtractEdges.extract_attributes, Ctx.getItem, h1, Bind.bind, Except.bind, pyIterList]⟩
  rcases h2 : context.lookup "reference_time" with _ | v2
  · exact ⟨"reference_time", by simp, h2, by simp [TracesExtractEdges.extract_attributes, Ctx.getItem, h1, h2, Bind.bind, Except.bind, pyIterList]⟩
  rcases h3 : context.lookup "fact" with _ | v3
  · exact ⟨"fact", by simp, h3, by simp [TracesExtractEdges.extract_attributes, Ctx.getItem, h1, h2, h3, Bind.bind, Except.bind, pyIterList]⟩
  rcases hmiss with ⟨k, hk, hnone⟩
  simp at hk
  rcases hk with rfl | rfl | rfl <;> simp_all

/-- Bundles the per-operation missing-key lemmas over the full operation
vocabulary of `TracesExtractEdges.versions`. -/
theorem keySpecAll_TracesExtractEdges (context : Ctx)
    (hprev : ∀ v, context.lookup "previous_episodes" = some v → ∃ xs, v = Val.list xs) :
    ∀ op ∈ edgeOperationNames, ∀ k ∈ edgeOpReadKeys op, context.lookup k = Option.none →
      ∃ f k2, TracesExtractEdges.versions.lookup op = some f ∧ k2 ∈ edgeOpReadKeys op ∧
        context.lookup k2 = Option.none ∧
        f context = Except.error (PyErr.keyError k2) := by
  intro op hop k hk hknone
  fin_cases hop
  · obtain ⟨k2, hk2, hn2, herr⟩ := keySpec_TracesExtractEdges_edge context hprev
      ⟨k, by simpa [edgeOpReadKeys] using hk, hknone⟩
    exact ⟨TracesExtractEdges.edge, k2, rfl, by simpa [edgeOpReadKeys] using hk2, hn2, herr⟩
  · obtain ⟨k2, hk2, hn2, herr⟩ := keySpec_TracesExtractEdges_reflexion context hprev
      ⟨k, by simpa [edgeOpReadKeys] using hk, hknone⟩
    exact ⟨TracesExtractEdges.reflexion, k2, rfl, by simpa [edgeOpReadKeys] using hk2, hn2, herr⟩
  · obtain ⟨k2, hk2, hn2, herr⟩ := keySpec_TracesExtractEdges_extract_attributes context hprev
      ⟨k, by simpa [edgeOpReadKeys] using hk, hknone⟩
    exact ⟨TracesExtractEdges.extract_attributes, k2, rfl, by simpa [edgeOpReadKeys] using hk2, hn2, herr⟩

/-- Any context lacking one of the keys `ApplicationExtractNodes.extract_message` reads makes it raise
KeyError at the first missing key in its read order (a present
previous_episodes value is assumed list-valued, matching its iteration
by the templates). -/
theorem keySpec_ApplicationExtractNodes_extract_message (context : Ctx)
    (hprev : ∀ v, context.lookup "previous_episodes" = some v → ∃ xs, v = Val.list xs)
    (hmiss : ∃ k, k ∈ ["previous_episodes", "episode_content", "entity_types", "custom_prompt"] ∧ context.lookup k = Option.none) :
    ∃ k2, k2 ∈ ["previous_episodes", "episode_content", "entity_types", "custom_prompt"] ∧ context.lookup k2 = Option.none ∧
      ApplicationExtractNodes.extract_message context = Except.error (PyErr.keyError k2) := by
  rcases h1 : context.lookup "previous_episodes" with _ | v1
  · exact ⟨"previous_episodes", by simp, h1, by simp [ApplicationExtractNodes.extract_message, Ctx.getItem, h1, Bind.bind, Except.bind, pyIterList]⟩
  obtain ⟨xs1, rfl⟩ := hprev v1 h1
  rcases h2 : context.lookup "episode_content" with _ | v2
  · exact ⟨"episode_content", by simp, h2, by simp [ApplicationExtractNodes.extract_message, Ctx.getItem, h1, h2, Bind.bind, Except.bind, pyIterList]⟩
  rcases h3 : context.lookup "entity_types" with _ | v3
  · exact ⟨"entity_types", by simp, h3, by simp [ApplicationExtractNodes.extract_message, Ctx.getItem, h1, h2, h3, Bind.bind, Except.bind, pyIterList]⟩
  rcases h4 : context.lookup "custom_prompt" with _ | v4
  · exact ⟨"custom_prompt", by simp, h4, by simp [ApplicationExtractNodes.extract_message, Ctx.getItem, h1, h2, h3, h4, Bind.bind, Except.bind, pyIterList]⟩
  rcases hmiss with ⟨k, hk, hnone⟩
  simp at hk
  rcases hk with rfl | rfl | rfl | rfl <;> simp_all

/-- Any context lacking one of the keys `ApplicationExtractNodes.extract_json` reads makes it raise
KeyError at the first missing key in its read order (a present
previous_episodes value is assumed list-valued, matching its iteration
by the templates). -/
theorem keySpec_ApplicationExtractNodes_extract_json (context : Ctx)
    (_hprev : ∀ v, context.lookup "previous_episodes" = some v → ∃ xs, v = Val.list xs)
    (hmiss : ∃ k, k ∈ ["source_description", "episode_content", "entity_types", "custom_prompt"] ∧ context.lookup k = Option.none) :
    ∃ k2, k2 ∈ ["source_description", "episode_content", "entity_types", "custom_prompt"] ∧ context.lookup k2 = Option.none ∧
      ApplicationExtractNodes.extract_json context = Except.error (PyErr.keyError k2) := by
  rcases h1 : context.lookup "source_description" with _ | v1
  · exact ⟨"source_description", by simp, h1, by simp [ApplicationExtractNodes.extract_json, Ctx.getItem, h1, Bind.bind, Except.bind, pyIterList]⟩
  rcases h2 : context.lookup "episode_content" with _ | v2
  · exact ⟨"episode_content", by simp, h2, by simp [ApplicationExtractNodes.extract_json, Ctx.getItem, h1, h2, Bind.bind, Except.bind, pyIterList]⟩
  rcases h3 : context.lookup "entity_types" with _ | v3
  · exact ⟨"entity_types", by simp, h3, by simp [ApplicationExtractNodes.extract_json, Ctx.getItem, h1, h2, h3, Bind.bind, Except.bind, pyIterList]⟩
  rcases h4 : context.lookup "custom_prompt" with _ | v4
  · exact ⟨"custom_prompt", by simp, h4, by simp [ApplicationExtractNodes.extract_json, Ctx.getItem, h1, h2, h3, h4, Bind.bind, Except.bind, pyIterList]⟩
  rcases hmiss with ⟨k, hk, hnone⟩
  simp at hk
  rcases hk with rfl | rfl | rfl | rfl <;> simp_all

/-- Any context lacking one of the keys `ApplicationExtractNodes.extract_text` reads makes it raise
KeyError at the first missing key in its read order (a present
previous_episodes value is assumed list-valued, matching its iteration
by the templates). -/
theorem keySpec_ApplicationExtractNodes_extract_text (context : Ctx)
    (_hprev : ∀ v, context.lookup "previous_episodes" = some v → ∃ xs, v = Val.list xs)
    (hmiss : ∃ k, k ∈ ["episode_content", "entity_types", "custom_prompt"] ∧ context.lookup k = Option.none) :
    ∃ k2, k2 ∈ ["episode_content", "entity_types", "custom_prompt"] ∧ context.lookup k2 = Option.none ∧
      ApplicationExtractNodes.extract_text context = Except.error (PyErr.keyError k2) := by
  rcases h1 : context.lookup "episode_content" with _ | v1
  · exact ⟨"episode_content", by simp, h1, by simp [ApplicationExtractNodes.extract_text, Ctx.getItem, h1, Bind.bind, Except.bind, pyIterList]⟩
  rcases h2 : context.lookup "entity_types" with _ | v2
  · exact ⟨"entity_types", by simp, h2, by simp [ApplicationExtractNodes.extract_text, Ctx.getItem, h1, h2, Bind.bind, Except.bind, pyIterList]⟩
  rcases h3 : context.lookup "custom_prompt" with _ | v3
  · exact ⟨"custom_prompt", by simp, h3, by simp [ApplicationExtractNodes.extract_text, Ctx.getItem, h1, h2, h3, Bind.bind, Except.bind, pyIterList]⟩
  rcases hmiss with ⟨k, hk, hnone⟩
  simp at hk
  rcases hk with rfl | rfl | rfl <;> simp_all

/-- Any context lacking one of the keys `ApplicationExtractNodes.reflexion` reads makes it raise
KeyError at the first missing key in its read order (a present
previous_episodes value is assumed list-valued, matching its iteration
by the templates). -/
theorem keySpec_ApplicationExtractNodes_reflexion (context : Ctx)
    (hprev : ∀ v, context.lookup "previous_episodes" = some v → ∃ xs, v = Val.list xs)
    (hmiss : ∃ k, k ∈ ["previous_episodes", "episode_content", "extracted_entities"] ∧ context.lookup k = Option.none) :
    ∃ k2, k2 ∈ ["previous_episodes", "episode_content", "extracted_entities"] ∧ context.lookup k2 = Option.none ∧
      ApplicationExtractNodes.reflexion context = Except.error (PyErr.keyError k2) := by
  rcases h1 : context.lookup "previous_episodes" with _ | v1
  · exact ⟨"previous_episodes", by simp, h1, by simp [ApplicationExtractNodes.reflexion, Ctx.getItem, h1, Bind.bind, Except.bind, pyIterList]⟩
  obtain ⟨xs1, rfl⟩ := hprev v1 h1
  rcases h2 : context.lookup "episode_content" with _ | v2
  · exact ⟨"episode_content", by simp, h2, by simp [ApplicationExtractNodes.reflexion, Ctx.getItem, h1, h2, Bind.bind, Except.bind, pyIterList]⟩
  rcases h3 : context.lookup "extracted_entities" with _ | v3
  · exact ⟨"extracted_entities", by simp, h3, by simp [ApplicationExtractNodes.reflexion, Ctx.getItem, h1, h2, h3, Bind.bind, Except.bind, pyIterList]⟩
  rcases hmiss with ⟨k, hk, hnone⟩
  simp at hk
  rcases hk with rfl | rfl | rfl <;> simp_all

/-- Any context lacking one of the keys `ApplicationExtractNodes.classify_nodes` reads makes it raise
KeyError at the first missing key in its read order (a present
previous_episodes value is assumed list-valued, matching its iteration
by the templates). -/
theorem keySpec_ApplicationExtractNodes_classify_nodes (context : Ctx)
    (hprev : ∀ v, context.lookup "previous_episodes" = some v → ∃ xs, v = Val.list xs)
    (hmiss : ∃ k, k ∈ ["previous_episodes", "episode_content", "extracted_entities", "entity_types"] ∧ context.lookup k = Option.none) :
    ∃ k2, k2 ∈ ["previous_episodes", "episode_content", "extracted_entities", "entity_types"] ∧ context.lookup k2 = Option.none ∧
      ApplicationExtractNodes.classify_nodes context = Except.error (PyErr.keyError k2) := by
  rcases h1 : context.lookup "previous_episodes" with _ | v1
  · exact ⟨"previous_episodes", by simp, h1, by simp [ApplicationExtractNodes.classify_nodes, Ctx.getItem, h1, Bind.bind, Except.bind, pyIterList]⟩
  obtain ⟨xs1, rfl⟩ := hprev v1 h1
  rcases h2 : context.lookup "episode_content" with _ | v2
  · exact ⟨"episode_content", by simp, h2, by simp [ApplicationExtractNodes.classify_nodes, Ctx.getItem, h1, h2, Bind.bind, Except.bind, pyIterList]⟩
  rcases h3 : context.lookup "extracted_entities" with _ | v3
  · exact ⟨"extracted_entities", by simp, h3, by simp [ApplicationExtractNodes.classify_nodes, Ctx.getItem, h1, h2, h3, Bind.bind, Except.bind, pyIterList]⟩
  rcases h4 : context.lookup "entity_types" with _ | v4
  · exact ⟨"entity_types", by simp, h4, by simp [ApplicationExtractNodes.classify_nodes, Ctx.getItem, h1, h2, h3, h4, Bind.bind, Except.bind, pyIterList]⟩
  rcases hmiss with ⟨k, hk, hnone⟩
  simp at hk
  rcases hk with rfl | rfl | rfl | rfl <;> simp_all

/-- Any context lacking one of the keys `ApplicationExtractNodes.extract_attributes` reads makes it raise
KeyError at the first missing key in its read order (a present
previous_episodes value is assumed list-valued, matching its iteration
by the templates). -/
theorem keySpec_ApplicationExtractNodes_extract_attributes (context : Ctx)
    (_hprev : ∀ v, context.lookup "previous_episodes" = some v → ∃ xs, v = Val.list xs)
    (hmiss : ∃ k, k ∈ ["previous_episodes", "episode_content", "node"] ∧ context.lookup k = Option.none) :
    ∃ k2, k2 ∈ ["previous_episodes", "episode_content", "node"] ∧ context.lookup k2 = Option.none ∧
      ApplicationExtractNodes.extract_attributes context = Except.error (PyErr.keyError k2) := by
  rcases h1 : context.lookup "previous_episodes" with _ | v1
  · exact ⟨"previous_episodes", by simp, h1, by simp [ApplicationExtractNodes.extract_attributes, Ctx.getItem, h1, Bind.bind, Except.bind, pyIterList]⟩
  rcases h2 : context.lookup "episode_content" with _ | v2
  · exact ⟨"episode_content", by simp, h2, by simp [ApplicationExtractNodes.extract_attributes, Ctx.getItem, h1, h2, Bind.bind, Except.bind, pyIterList]⟩
  rcases h3 : context.lookup "node" with _ | v3
  · exact ⟨"node", by simp, h3, by simp [ApplicationExtractNodes.extract_attributes, Ctx.getItem, h1, h2, h3, Bind.bind, Except.bind, pyIterList]⟩
  rcases hmiss with ⟨k, hk, hnone⟩
  simp at hk
  rcases hk with rfl | rfl | rfl <;> simp_all

/-- Bundles the per-operation missing-key lemmas over the full operation
vocabulary of `ApplicationExtractNodes.versions`. -/
theorem keySpecAll_ApplicationExtractNodes (context : Ctx)
    (hprev : ∀ v, context.lookup "previous_episodes" = some v → ∃ xs, v = Val.list xs) :
    ∀ op ∈ nodeOperationNames, ∀ k ∈ nodeOpReadKeys op, context.lookup k = Option.none →
      ∃ f k2, ApplicationExtractNodes.versions.lookup op = some f ∧ k2 ∈ nodeOpReadKeys op ∧
        context.lookup k2 = Option.none ∧
        f context = Except.error (PyErr.keyError k2) := by
  intro op hop k hk hknone
  fin_cases hop
  · obtain ⟨k2, hk2, hn2, herr⟩ := keySpec_ApplicationExtractNodes_extract_message context hprev
      ⟨k, by simpa [nodeOpReadKeys] using hk, hknone⟩
    exact ⟨ApplicationExtractNodes.extract_message, k2, rfl, by simpa [nodeOpReadKeys] using hk2, hn2, herr⟩
  · obtain ⟨k2, hk2, hn2, herr⟩ := keySpec_ApplicationExtractNodes_extract_json context hprev
      ⟨k, by simpa [nodeOpReadKeys] using hk, hknone⟩
    exact ⟨ApplicationExtractNodes.extract_json, k2, rfl, by simpa [nodeOpReadKeys] using hk2, hn2, herr⟩
  · obtain ⟨k2, hk2, hn2, herr⟩ := keySpec_ApplicationExtractNodes_extract_text context hprev
      ⟨k, by simpa [nodeOpReadKeys] using hk, hknone⟩
    exact ⟨ApplicationExtractNodes.extract_text, k2, rfl, by simpa [nodeOpReadKeys] using hk2, hn2, herr⟩
  · obtain ⟨k2, hk2, hn2, herr⟩ := keySpec_ApplicationExtractNodes_reflexion context hprev
      ⟨k, by simpa [nodeOpReadKeys] using hk, hknone⟩
    exact ⟨ApplicationExtractNodes.reflexion, k2, rfl, by simpa [nodeOpReadKeys] using hk2, hn2, herr⟩
  · obtain ⟨k2, hk2, hn2, herr⟩ := keySpec_ApplicationExtractNodes_classify_nodes context hprev
      ⟨k, by simpa [nodeOpReadKeys] using hk, hknone⟩
    exact ⟨ApplicationExtractNodes.classify_nodes, k2, rfl, by simpa [nodeOpReadKeys] using hk2, hn2, herr⟩
  · obtain ⟨k2, hk2, hn2, herr⟩ := keySpec_ApplicationExtractNodes_extract_attributes context hprev
      ⟨k, by simpa [nodeOpReadKeys] using hk, hknone⟩
    exact ⟨ApplicationExtractNodes.extract_attributes, k2, rfl, by simpa [nodeOpReadKeys] using hk2, hn2, herr⟩

/-- Any context lacking one of the keys `ApplicationExtractEdges.edge` reads makes it raise
KeyError at the first missing key in its read order (a present
previous_episodes value is assumed list-valued, matching its iteration
by the templates). -/
theorem keySpec_ApplicationExtractEdges_edge (context : Ctx)
    (hprev : ∀ v, context.lookup "previous_episodes" = some v → ∃ xs, v = Val.list xs)
    (hmiss : ∃ k, k ∈ ["previous_episodes", "episode_content", "nodes", "reference_time", "edge_types", "custom_prompt"] ∧ context.lookup k = Option.none) :
    ∃ k2, k2 ∈ ["previous_episodes", "episode_content", "nodes", "reference_time", "edge_types", "custom_prompt"] ∧ context.lookup k2 = Option.none ∧
      ApplicationExtractEdges.edge context = Except.error (PyErr.keyError k2) := by
  rcases h1 : context.lookup "previous_episodes" with _ | v1
  · exact ⟨"previous_episodes", by simp, h1, by simp [ApplicationExtractEdges.edge, Ctx.getItem, h1, Bind.bind, Except.bind, pyIterList]⟩
  obtain ⟨xs1, rfl⟩ := hprev v1 h1
  rcases h2 : context.lookup "episode_content" with _ | v2
  · exact ⟨"episode_content", by simp, h2, by simp [ApplicationExtractEdges.edge, Ctx.getItem, h1, h2, Bind.bind, Except.bind, pyIterList]⟩
  rcases h3 : context.lookup "nodes" with _ | v3
  · exact ⟨"nodes", by simp, h3, by simp [ApplicationExtractEdges.edge, Ctx.getItem, h1, h2, h3, Bind.bind, Except.bind, pyIterList]⟩
  rcases h4 : context.lookup "reference_time" with _ | v4
  · exact ⟨"reference_time", by simp, h4, by simp [ApplicationExtractEdges.edge, Ctx.getItem, h1, h2, h3, h4, Bind.bind, Except.bind, pyIterList]⟩
  rcases h5 : context.lookup "edge_types" with _ | v5
  · exact ⟨"edge_types", by simp, h5, by simp [ApplicationExtractEdges.edge, Ctx.getItem, h1, h2, h3, h4, h5, Bind.bind, Except.bind, pyIterList]⟩
  rcases h6 : context.lookup "custom_prompt" with _ | v6
  · exact ⟨"custom_prompt", by simp, h6, by simp [ApplicationExtractEdges.edge, Ctx.getItem, h1, h2, h3, h4, h5, h6, Bind.bind, Except.bind, pyIterList]⟩
  rcases hmiss with ⟨k, hk, hnone⟩
  simp at hk
  rcases hk with rfl | rfl | rfl | rfl | rfl | rfl <;> simp_all

/-- Any context lacking one of the keys `ApplicationExtractEdges.reflexion` reads makes it raise
KeyError at the first missing key in its read order (a present
previous_episodes value is assumed list-valued, matching its iteration
by the templates). -/
theorem keySpec_ApplicationExtractEdges_reflexion (context : Ctx)
    (hprev : ∀ v, context.lookup "previous_episodes" = some v → ∃ xs, v = Val.list xs)
    (hmiss : ∃ k, k ∈ ["previous_episodes", "episode_content", "nodes", "extracted_facts"] ∧ context.lookup k = Option.none) :
    ∃ k2, k2 ∈ ["previous_episodes", "episode_content", "nodes", "extracted_facts"] ∧ context.lookup k2 = Option.none ∧
      ApplicationExtractEdges.reflexion context = Except.error (PyErr.keyError k2) := by
  rcases h1 : context.lookup "previous_episodes" with _ | v1
  · exact ⟨"previous_episodes", by simp, h1, by simp [ApplicationExtractEdges.reflexion, Ctx.getItem, h1, Bind.bind, Except.bind, pyIterList]⟩
  obtain ⟨xs1, rfl⟩ := hprev v1 h1
  rcases h2 : context.lookup "episode_content" with _ | v2
  · exact ⟨"episode_content", by simp, h2, by simp [ApplicationExtractEdges.reflexion, Ctx.getItem, h1, h2, Bind.bind, Except.bind, pyIterList]⟩
  rcases h3 : context.lookup "nodes" with _ | v3
  · exact ⟨"nodes", by simp, h3, by simp [ApplicationExtractEdges.reflexion, Ctx.getItem, h1, h2, h3, Bind.bind, Except.bind, pyIterList]⟩
  rcases h4 : context.lookup "extracted_facts" with _ | v4
  · exact ⟨"extracted_facts", by simp, h4, by simp [ApplicationExtractEdges.reflexion, Ctx.getItem, h1, h2, h3, h4, Bind.bind, Except.bind, pyIterList]⟩
  rcases hmiss with ⟨k, hk, hnone⟩
  simp at hk
  rcases hk with rfl | rfl | rfl | rfl <;> simp_all

/-- Any context lacking one of the keys `ApplicationExtractEdges.extract_attributes` reads makes it raise
KeyError at the first missing key in its read order (a present
previous_episodes value is assumed list-valued, matching its iteration
by the templates). -/
theorem keySpec_ApplicationExtractEdges_extract_attributes (context : Ctx)
    (_hprev : ∀ v, context.lookup "previous_episodes" = some v → ∃ xs, v = Val.list xs)
    (hmiss : ∃ k, k ∈ ["episode_content", "reference_time", "fact"] ∧ context.lookup k = Option.none) :
    ∃ k2, k2 ∈ ["episode_content", "reference_time", "fact"] ∧ context.lookup k2 = Option.none ∧
      ApplicationExtractEdges.extract_attributes context = Except.error (PyErr.keyError k2) := by
  rcases h1 : context.lookup "episode_content" with _ | v1
  · exact ⟨"episode_content", by simp, h1, by simp [ApplicationExtractEdges.extract_attributes, Ctx.getItem, h1, Bind.bind, Except.bind, pyIterList]⟩
  rcases h2 : context.lookup "reference_time" with _ | v2
  · exact ⟨"reference_time", by simp, h2, by simp [ApplicationExtractEdges.extract_attributes, Ctx.getItem, h1, h2, Bind.bind, Except.bind, pyIterList]⟩
  rcases h3 : context.lookup "fact" with _ | v3
  · exact ⟨"fact", by simp, h3, by simp [ApplicationExtractEdges.extract_attributes, Ctx.getItem, h1, h2, h3, Bind.bind, Except.bind, pyIterList]⟩
  rcases hmiss with ⟨k, hk, hnone⟩
  simp at hk
  rcases hk with rfl | rfl | rfl <;> simp_all

/-- Bundles the per-operation missing-key lemmas over the full operation
vocabulary of `ApplicationExtractEdges.versions`. -/
theorem keySpecAll_ApplicationExtractEdges (context : Ctx)
    (hprev : ∀ v, context.lookup "previous_episodes" = some v → ∃ xs, v = Val.list xs) :
    ∀ op ∈ edgeOperationNames, ∀ k ∈ edgeOpReadKeys op, context.lookup k = Option.none →
      ∃ f k2, ApplicationExtractEdges.versions.lookup op = some f ∧ k2 ∈ edgeOpReadKeys op ∧
        context.lookup k2 = Option.none ∧
        f context = Except.error (PyErr.keyError k2) := by
  intro op hop k hk hknone
  fin_cases hop
  · obtain ⟨k2, hk2, hn2, herr⟩ := keySpec_ApplicationExtractEdges_edge context hprev
      ⟨k, by simpa [edgeOpReadKeys] using hk, hknone⟩
    exact ⟨ApplicationExtractEdges.edge, k2, rfl, by simpa [edgeOpReadKeys] using hk2, hn2, herr⟩
  · obtain ⟨k2, hk2, hn2, herr⟩ := keySpec_ApplicationExtractEdges_reflexion context hprev
      ⟨k, by simpa [edgeOpReadKeys] using hk, hknone⟩
    exact ⟨ApplicationExtractEdges.reflexion, k2, rfl, by simpa [edgeOpReadKeys] using hk2, hn2, herr⟩
  · obtain ⟨k2, hk2, hn2, herr⟩ := keySpec_ApplicationExtractEdges_extract_attributes context hprev
      ⟨k, by simpa [edgeOpReadKeys] using hk, hknone⟩
    exact ⟨ApplicationExtractEdges.extract_attributes, k2, rfl, by simpa [edgeOpReadKeys] using hk2, hn2, herr⟩

end Graphiti
namespace Graphiti

/-- Any context lacking one of the keys `ExtractEdges.edge` reads makes it
raise KeyError at the first missing key in its read order (a present
previous_episodes value is assumed list-valued, matching its iteration by
the templates). -/
theorem keySpec_ExtractEdges_edge (context : Ctx)
    (hprev : ∀ v, context.lookup "previous_episodes" = some v → ∃ xs, v = Val.list xs)
    (hmiss : ∃ k, k ∈ ["previous_episodes", "episode_content", "nodes", "reference_time", "edge_types", "custom_prompt"] ∧ context.lookup k = Option.none) :
    ∃ k2, k2 ∈ ["previous_episodes", "episode_content", "nodes", "reference_time", "edge_types", "custom_prompt"] ∧ context.lookup k2 = Option.none ∧
      ExtractEdges.edge context = Except.error (PyErr.keyError k2) := by
  rcases h1 : context.lookup "previous_episodes" with _ | v1
  · exact ⟨"previous_episodes", by simp, h1, by simp [ExtractEdges.edge, Ctx.getItem, h1, Bind.bind, Except.bind, pyIterList]⟩
  obtain ⟨xs1, rfl⟩ := hprev v1 h1
  rcases h2 : context.lookup "episode_content" with _ | v2
  · exact ⟨"episode_content", by simp, h2, by simp [ExtractEdges.edge, Ctx.getItem, h1, h2, Bind.bind, Except.bind, pyIterList]⟩
  rcases h3 : context.lookup "nodes" with _ | v3
  · exact ⟨"nodes", by simp, h3, by simp [ExtractEdges.edge, Ctx.getItem, h1, h2, h3, Bind.bind, Except.bind, pyIterList]⟩
  rcases h4 : context.lookup "reference_time" with _ | v4
  · exact ⟨"reference_time", by simp, h4, by simp [ExtractEdges.edge, Ctx.getItem, h1, h2, h3, h4, Bind.bind, Except.bind, pyIterList]⟩
  rcases h5 : context.lookup "edge_types" with _ | v5
  · exact ⟨"edge_types", by simp, h5, by simp [ExtractEdges.edge, Ctx.getItem, h1, h2, h3, h4, h5, Bind.bind, Except.bind, pyIterList]⟩
  rcases h6 : context.lookup "custom_prompt" with _ | v6
  · exact ⟨"custom_prompt", by simp, h6, by simp [ExtractEdges.edge, Ctx.getItem, h1, h2, h3, h4, h5, h6, Bind.bind, Except.bind, pyIterList]⟩
  rcases hmiss with ⟨k, hk, hnone⟩
  simp at hk
  rcases hk with rfl | rfl | rfl | rfl | rfl | rfl <;> simp_all

/-- Any context lacking one of the keys `ExtractEdges.reflexion` reads
makes it raise KeyError at the first missing key in its read order. -/
theorem keySpec_ExtractEdges_reflexion (context : Ctx)
    (hprev : ∀ v, context.lookup "previous_episodes" = some v → ∃ xs, v = Val.list xs)
    (hmiss : ∃ k, k ∈ ["previous_episodes", "episode_content", "nodes", "extracted_facts"] ∧ context.lookup k = Option.none) :
    ∃ k2, k2 ∈ ["previous_episodes", "episode_content", "nodes", "extracted_facts"] ∧ context.lookup k2 = Option.none ∧
      ExtractEdges.reflexion context = Except.error (PyErr.keyError k2) := by
  rcases h1 : context.lookup "previous_episodes" with _ | v1
  · exact ⟨"previous_episodes", by simp, h1, by simp [ExtractEdges.reflexion, Ctx.getItem, h1, Bind.bind, Except.bind, pyIterList]⟩
  obtain ⟨xs1, rfl⟩ := hprev v1 h1
  rcases h2 : context.lookup "episode_content" with _ | v2
  · exact ⟨"episode_content", by simp, h2, by simp [ExtractEdges.reflexion, Ctx.getItem, h1, h2, Bind.bind, Except.bind, pyIterList]⟩
  rcases h3 : context.lookup "nodes" with _ | v3
  · exact ⟨"nodes", by simp, h3, by simp [ExtractEdges.reflexion, Ctx.getItem, h1, h2, h3, Bind.bind, Except.bind, pyIterList]⟩
  rcases h4 : context.lookup "extracted_facts" with _ | v4
  · exact ⟨"extracted_facts", by simp, h4, by simp [ExtractEdges.reflexion, Ctx.getItem, h1, h2, h3, h4, Bind.bind, Except.bind, pyIterList]⟩
  rcases hmiss with ⟨k, hk, hnone⟩
  simp at hk
  rcases hk with rfl | rfl | rfl | rfl <;> simp_all

/-- Any context lacking one of the keys `ExtractEdges.extract_attributes`
reads makes it raise KeyError at the first missing key in its read order. -/
theorem keySpec_ExtractEdges_extract_attributes (context : Ctx)
    (_hprev : ∀ v, context.lookup "previous_episodes" = some v → ∃ xs, v = Val.list xs)
    (hmiss : ∃ k, k ∈ ["episode_content", "reference_time", "fact"] ∧ context.lookup k = Option.none) :
    ∃ k2, k2 ∈ ["episode_content", "reference_time", "fact"] ∧ context.lookup k2 = Option.none ∧
      ExtractEdges.extract_attributes context = Except.error (PyErr.keyError k2) := by
  rcases h1 : context.lookup "episode_content" with _ | v1
  · exact ⟨"episode_content", by simp, h1, by simp [ExtractEdges.extract_attributes, Ctx.getItem, h1, Bind.bind, Except.bind, pyIterList]⟩
  rcases h2 : context.lookup "reference_time" with _ | v2
  · exact ⟨"reference_time", by simp, h2, by simp [ExtractEdges.extract_attributes, Ctx.getItem, h1, h2, Bind.bind, Except.bind, pyIterList]⟩
  rcases h3 : context.lookup "fact" with _ | v3
  · exact ⟨"fact", by simp, h3, by simp [ExtractEdges.extract_attributes, Ctx.getItem, h1, h2, h3, Bind.bind, Except.bind, pyIterList]⟩
  rcases hmiss with ⟨k, hk, hnone⟩
  simp at hk
  rcases hk with rfl | rfl | rfl <;> simp_all

/-- Bundles the per-operation missing-key lemmas over the full operation
vocabulary of `ExtractEdges.versions`. -/
theorem keySpecAll_ExtractEdges (context : Ctx)
    (hprev : ∀ v, context.lookup "previous_episodes" = some v → ∃ xs, v = Val.list xs) :
    ∀ op ∈ edgeOperationNames, ∀ k ∈ edgeOpReadKeys op, context.lookup k = Option.none →
      ∃ f k2, ExtractEdges.versions.lookup op = some f ∧ k2 ∈ edgeOpReadKeys op ∧
        context.lookup k2 = Option.none ∧
        f context = Except.error (PyErr.keyError k2) := by
  intro op hop k hk hknone
  fin_cases hop
  · obtain ⟨k2, hk2, hn2, herr⟩ := keySpec_ExtractEdges_edge context hprev
      ⟨k, by simpa [edgeOpReadKeys] using hk, hknone⟩
    exact ⟨ExtractEdges.edge, k2, rfl, by simpa [edgeOpReadKeys] using hk2, hn2, herr⟩
  · obtain ⟨k2, hk2, hn2, herr⟩ := keySpec_ExtractEdges_reflexion context hprev
      ⟨k, by simpa [edgeOpReadKeys] using hk, hknone⟩
    exact ⟨ExtractEdges.reflexion, k2, rfl, by simpa [edgeOpReadKeys] using hk2, hn2, herr⟩
  · obtain ⟨k2, hk2, hn2, herr⟩ := keySpec_ExtractEdges_extract_attributes context hprev
      ⟨k, by simpa [edgeOpReadKeys] using hk, hknone⟩
    exact ⟨ExtractEdges.extract_attributes, k2, rfl, by simpa [edgeOpReadKeys] using hk2, hn2, herr⟩

end Graphiti
set_option maxRecDepth 20000

namespace Graphiti

/- Shared helper lemmas and concrete inputs used by the witnesses. -/

/-- Dict assignment followed by lookup of the assigned key finds the new
value, whether the key was present before or not. -/
theorem lookup_dictInsert (k : String) (v : α) (d : List (String × α)) :
    (dictInsert k v d).lookup k = some v := by
  induction d with
  | nil => simp [dictInsert]
  | cons hd tl ih =>
    rcases hd with ⟨k2, v2⟩
    by_cases h : k2 = k
    · simp [dictInsert, h]
    · have hne : (k == k2) = false := beq_eq_false_iff_ne.mpr (Ne.symm h)
      simp [dictInsert, h, List.lookup, ih, hne]

/-- A concrete extraction context supplying every key the embedded template
functions read, with the episode content of the spec's AWS scenario. -/
def fullCtx : Ctx :=
  [("previous_episodes", Val.list [Val.str "prior episode"]),
   ("episode_content", Val.str "ec2 instance i-0a1b2c3d in vpc-12345678"),
   ("entity_types", Val.str "1: Application, 2: Infrastructure"),
   ("custom_prompt", Val.str ""),
   ("source_description", Val.str "aws_resources"),
   ("extracted_entities", Val.str "[]"),
   ("nodes", Val.str "[]"),
   ("reference_time", Val.str "2024-01-01T00:00:00Z"),
   ("edge_types", Val.str "DEPENDS_ON"),
   ("extracted_facts", Val.str "[]"),
   ("fact", Val.str "pipeline deploys to production"),
   ("node", Val.str "ec2 instance i-0a1b2c3d")]

/- C1 -/

/-- C1: for every selector state and every source_description value (a
registered key, an unregistered key, the empty string, or None),
get_node_prompts and get_edge_prompts return a TemplateSet (they are total
Lean functions, the formal counterpart of never raising): a key present in
the corresponding registry returns the registered set, and None, the empty
string, and any unregistered key all return the selector's one default
set, the same value on every call. -/
theorem c1_resolution_total (sel : PromptSelector) (sd : Option String) :
    (sd = Option.none →
      sel.get_node_prompts sd = sel.default_nodes ∧ sel.get_edge_prompts sd = sel.default_edges)
    ∧ (sd = some "" →
      sel.get_node_prompts sd = sel.default_nodes ∧ sel.get_edge_prompts sd = sel.default_edges)
    ∧ (∀ k v, sd = some k → k ≠ "" → sel.node_registry.lookup k = some v →
      sel.get_node_prompts sd = v)
    ∧ (∀ k v, sd = some k → k ≠ "" → sel.edge_registry.lookup k = some v →
      sel.get_edge_prompts sd = v)
    ∧ (∀ k, sd = some k → sel.node_registry.lookup k = Option.none →
      sel.get_node_prompts sd = sel.default_nodes)
    ∧ (∀ k, sd = some k → sel.edge_registry.lookup k = Option.none →
      sel.get_edge_prompts sd = sel.default_edges) := by
  refine ⟨?_, ?_, ?_, ?_, ?_, ?_⟩
  · rintro rfl; exact ⟨rfl, rfl⟩
  · rintro rfl; exact ⟨rfl, rfl⟩
  · rintro k v rfl hk hv
    simp [PromptSelector.get_node_prompts, hk, hv]
  · rintro k v rfl hk hv
    simp [PromptSelector.get_edge_prompts, hk, hv]
  · rintro k rfl hv
    by_cases hk : k = ""
    · simp [PromptSelector.get_node_prompts, hk]
    · simp [PromptSelector.get_node_prompts, hk, hv]
  · rintro k rfl hv
    by_cases hk : k = ""
    · simp [PromptSelector.get_edge_prompts, hk]
    · simp [PromptSelector.get_edge_prompts, hk, hv]

/-- Witness for C1 on the initialized selector: the registered key
aws_resources resolves to the AWS node set, and the unregistered key
unknown_vertical_xyz resolves to the default node set. -/
theorem c1_witness :
    PromptSelector.init.get_node_prompts (some "aws_resources") = AwsExtractNodes.versions
    ∧ PromptSelector.init.get_node_prompts (some "unknown_vertical_xyz")
        = PromptSelector.init.default_nodes :=
  ⟨(c1_resolution_total PromptSelector.init (some "aws_resources")).2.2.1
      "aws_resources" AwsExtractNodes.versions rfl (by decide) rfl,
   (c1_resolution_total PromptSelector.init (some "unknown_vertical_xyz")).2.2.2.2.1
      "unknown_vertical_xyz" rfl rfl⟩

/- C2 -/

/-- The recognized source_description domain keys enumerated in the spec's
interface section. -/
def specRecognizedDomainKeys : List String :=
  ["aws_resources", "azure_resources", "gcp_resources", "cloud_resources",
   "github_repo", "github_resources", "cicd_resources", "pipeline_resources",
   "logs_resources", "metrics_resources", "traces_resources",
   "observability_resources", "monitoring_resources", "application_resources"]

/-- The spec's recognized keys that the initialized edge registry actually
contains: all of them except logs_resources. -/
def recognizedEdgeKeys : List String :=
  ["aws_resources", "azure_resources", "gcp_resources", "cloud_resources",
   "github_repo", "github_resources", "cicd_resources", "pipeline_resources",
   "metrics_resources", "traces_resources",
   "observability_resources", "monitoring_resources", "application_resources"]

/-- C2 counterexample: logs_resources is one of the spec's recognized
domain keys, yet the edge registry of the initialized selector has no
entry for it, so the edge-prompt path routes logs_resources to the
universal default edge TemplateSet instead of a domain-specific one. -/
theorem c2_counterexample :
    "logs_resources" ∈ specRecognizedDomainKeys
    ∧ PromptSelector.init.edge_registry.lookup "logs_resources" = Option.none
    ∧ PromptSelector.init.get_edge_prompts (some "logs_resources")
        = PromptSelector.init.default_edges :=
  ⟨by decide, rfl, rfl⟩

/-- C2 amended: every recognized domain key except logs_resources is
present in the edge registry and the edge-prompt path routes it to the
registered domain-specific TemplateSet; logs_resources is registered on
the node path only, and the edge-prompt path routes it to the universal
default edge TemplateSet. -/
theorem c2_amended :
    recognizedEdgeKeys = specRecognizedDomainKeys.erase "logs_resources"
    ∧ (∀ k ∈ recognizedEdgeKeys,
        (PromptSelector.init.edge_registry.lookup k).isSome = true
        ∧ PromptSelector.init.get_edge_prompts (some k)
            = (PromptSelector.init.edge_registry.lookup k).getD PromptSelector.init.default_edges)
    ∧ (PromptSelector.init.node_registry.lookup "logs_resources").isSome = true
    ∧ PromptSelector.init.get_edge_prompts (some "logs_resources")
        = PromptSelector.init.default_edges := by
  refine ⟨by decide, ?_, rfl, rfl⟩
  intro k hk
  fin_cases hk <;> exact ⟨rfl, rfl⟩

/-- Witness for C2 amended at the concrete key metrics_resources. -/
theorem c2_amended_witness :
    (PromptSelector.init.edge_registry.lookup "metrics_resources").isSome = true
    ∧ PromptSelector.init.get_edge_prompts (some "metrics_resources")
        = (PromptSelector.init.edge_registry.lookup "metrics_resources").getD
            PromptSelector.init.default_edges :=
  c2_amended.2.1 "metrics_resources" (by decide)

/- C3 -/

/-- C3: on the initialized selector, cloud_resources resolves through the
node path to the very TemplateSet registered under aws_resources (the AWS
set, not the default), and the extract_message operation of that set, run
on the spec's concrete AWS scenario context, produces a leading system
message whose content contains the literal substring
"AWS infrastructure entities". -/
theorem c3_cloud_alias_and_aws_content :
    PromptSelector.init.get_node_prompts (some "cloud_resources") = AwsExtractNodes.versions
    ∧ PromptSelector.init.node_registry.lookup "aws_resources" = some AwsExtractNodes.versions
    ∧ PromptSelector.init.get_node_prompts (some "aws_resources") = AwsExtractNodes.versions
    ∧ AwsExtractNodes.versions.lookup "extract_message" = some AwsExtractNodes.extract_message
    ∧ ∃ rest pre post, AwsExtractNodes.extract_message fullCtx =
        Except.ok (Message.mk "system" (pre ++ "AWS infrastructure entities" ++ post) :: rest) :=
  ⟨rfl, rfl, rfl, rfl,
   ⟨_, "You are an AI assistant specialized in extracting ",
    ".\n    Your primary focus is identifying AWS resources, their configurations, and relationships from AWS configurations and IaC files.",
    rfl⟩⟩

/- C4 -/

/-- C4: for every wrapped call — the static VersionWrapper and the dynamic
wrapper — and every context on which the underlying template function
succeeds, the wrapped output is exactly the underlying output with the
fixed suffix DO_NOT_ESCAPE_UNICODE appended to the content of every
system-role message, every other message byte-identical. -/
theorem c4_system_suffix (func : PromptFunction) (context : Ctx) (messages : List Message)
    (h : func context = Except.ok messages) :
    VersionWrapper.call func context = Except.ok (applyUnicodeSuffix messages)
    ∧ (∀ selector w version,
        resolvePromptFunction selector w version context = Except.ok func →
        dynamic_wrapper selector w version context = Except.ok (applyUnicodeSuffix messages))
    ∧ (∀ i : Nat, ∀ m, messages[i]? = some m →
        (applyUnicodeSuffix messages)[i]? =
          some (if m.role = "system"
                then { m with content := m.content ++ DO_NOT_ESCAPE_UNICODE }
                else m))
    ∧ (∀ i : Nat, messages[i]? = Option.none →
        (applyUnicodeSuffix messages)[i]? = Option.none) := by
  refine ⟨?_, ?_, ?_, ?_⟩
  · simp [VersionWrapper.call, h, Except.map]
  · intro selector w version hres
    simp [dynamic_wrapper, hres, h, Bind.bind, Except.bind, pure, Except.pure]
  · intro i m hm
    simp [applyUnicodeSuffix, List.getElem?_map, hm]
  · intro i hm
    simp [applyUnicodeSuffix, List.getElem?_map, hm]

/-- Witness for C4 on the generic reflexion template at the concrete full
context. -/
theorem c4_witness :
    VersionWrapper.call ExtractNodes.reflexion fullCtx =
      Except.ok (applyUnicodeSuffix ((ExtractNodes.reflexion fullCtx).toOption.getD []))
    ∧ (∀ selector w version,
        resolvePromptFunction selector w version fullCtx = Except.ok ExtractNodes.reflexion →
        dynamic_wrapper selector w version fullCtx =
          Except.ok (applyUnicodeSuffix ((ExtractNodes.reflexion fullCtx).toOption.getD [])))
    ∧ (∀ i : Nat, ∀ m, ((ExtractNodes.reflexion fullCtx).toOption.getD [])[i]? = some m →
        (applyUnicodeSuffix ((ExtractNodes.reflexion fullCtx).toOption.getD []))[i]? =
          some (if m.role = "system"
                then { m with content := m.content ++ DO_NOT_ESCAPE_UNICODE }
                else m))
    ∧ (∀ i : Nat, ((ExtractNodes.reflexion fullCtx).toOption.getD [])[i]? = Option.none →
        (applyUnicodeSuffix ((ExtractNodes.reflexion fullCtx).toOption.getD []))[i]?
          = Option.none) :=
  c4_system_suffix ExtractNodes.reflexion fullCtx
    ((ExtractNodes.reflexion fullCtx).toOption.getD []) rfl

/- C5 -/

/-- C5: for the two domain-dynamic families, with source_description
present in the context, the dispatch resolves the requested operation from
the domain-resolved TemplateSet when that set defines it, otherwise falls
back to the same-named operation of the default TemplateSet, and when the
name exists in neither the invocation raises AttributeError — there is no
third fallback. -/
theorem c5_double_fallback (selector : PromptSelector) (w : DynamicPromptTypeWrapper)
    (version : String) (context : Ctx)
    (hsd : Ctx.contains context "source_description" = true)
    (hpt : w.prompt_type = "extract_nodes" ∨ w.prompt_type = "extract_edges") :
    ∀ resolved : TemplateSet,
      resolved = (if w.prompt_type = "extract_nodes"
                  then get_extract_node_prompts selector context
                  else get_extract_edge_prompts selector context) →
      (∀ func, resolved.lookup version = some func →
          resolvePromptFunction selector w version context = Except.ok func)
      ∧ (resolved.lookup version = Option.none →
          ∀ func, w.default_versions.lookup version = some func →
          resolvePromptFunction selector w version context = Except.ok func)
      ∧ (resolved.lookup version = Option.none →
          w.default_versions.lookup version = Option.none →
          dynamic_wrapper selector w version context =
            Except.error (PyErr.attributeError ("Version \x27" ++ version ++ "\x27 not found"))) := by
  intro resolved hres
  rcases hpt with h | h
  · subst hres
    rw [if_pos h]
    refine ⟨?_, ?_, ?_⟩
    · intro func hf
      simp [resolvePromptFunction, h, hsd, hf]
    · intro hn func hf
      simp [resolvePromptFunction, h, hsd, hn, hf]
    · intro hn hd
      simp [dynamic_wrapper, resolvePromptFunction, h, hsd, hn, hd, Bind.bind, Except.bind]
  · subst hres
    rw [if_neg (by simp [h])]
    refine ⟨?_, ?_, ?_⟩
    · intro func hf
      simp [resolvePromptFunction, h, hsd, hf]
    · intro hn func hf
      simp [resolvePromptFunction, h, hsd, hn, hf]
    · intro hn hd
      simp [dynamic_wrapper, resolvePromptFunction, h, hsd, hn, hd, Bind.bind, Except.bind]

/-- Witness for C5: with source_description aws_resources in the context,
the extract_nodes family resolves extract_message from the AWS set, and a
version name absent everywhere raises AttributeError at invocation. -/
theorem c5_witness :
    resolvePromptFunction PromptSelector.init ⟨"extract_nodes", ExtractNodes.versions⟩
        "extract_message" fullCtx = Except.ok AwsExtractNodes.extract_message
    ∧ dynamic_wrapper PromptSelector.init ⟨"extract_nodes", ExtractNodes.versions⟩
        "no_such_operation" fullCtx =
      Except.error (PyErr.attributeError ("Version \x27no_such_operation\x27 not found")) :=
  ⟨((c5_double_fallback PromptSelector.init ⟨"extract_nodes", ExtractNodes.versions⟩
      "extract_message" fullCtx rfl (Or.inl rfl)) _ rfl).1
      AwsExtractNodes.extract_message rfl,
   ((c5_double_fallback PromptSelector.init ⟨"extract_nodes", ExtractNodes.versions⟩
      "no_such_operation" fullCtx rfl (Or.inl rfl)) _ rfl).2.2 rfl rfl⟩

/- C6 -/

/-- Observation separating the generic node set from the AWS node set: the
first 60 characters of the system message produced by their respective
extract_message operations on the full context. -/
def observeExtractMessage (ts : TemplateSet) : String :=
  match ts.lookup "extract_message" with
  | some f =>
    match f fullCtx with
    | Except.ok (m :: _) => m.content.take 60
    | _ => ""
  | Option.none => ""

/-- C6 counterexample: registering a TemplateSet under the empty-string key
and immediately resolving that key does not return the registered set —
the getter treats the empty string as an absent source_description and
returns the default generic set instead. -/
theorem c6_counterexample :
    (PromptSelector.init.register_node_prompts "" AwsExtractNodes.versions).get_node_prompts
        (some "") ≠ AwsExtractNodes.versions := by
  intro h
  have h2 : ExtractNodes.versions = AwsExtractNodes.versions := h
  have h3 : observeExtractMessage ExtractNodes.versions
      = observeExtractMessage AwsExtractNodes.versions := congrArg observeExtractMessage h2
  exact absurd h3 (by decide)

/-- C6 amended: for every non-empty domain key k and every TemplateSet v,
registering v under k and immediately resolving k returns exactly v, on
any prior selector state (insert-or-replace, last write wins); for the
empty-string key the getter falls back to the default set. -/
theorem c6_register_then_get (sel : PromptSelector) (k : String) (v : TemplateSet)
    (hk : k ≠ "") :
    (sel.register_node_prompts k v).get_node_prompts (some k) = v
    ∧ (sel.register_edge_prompts k v).get_edge_prompts (some k) = v := by
  constructor
  · simp [PromptSelector.register_node_prompts, PromptSelector.get_node_prompts, hk,
      lookup_dictInsert]
  · simp [PromptSelector.register_edge_prompts, PromptSelector.get_edge_prompts, hk,
      lookup_dictInsert]

/-- Witness for C6 amended: registering the AWS node set under a fresh key
and under an already-registered key, then resolving, returns it. -/
theorem c6_witness :
    ((PromptSelector.init.register_node_prompts "custom_domain" AwsExtractNodes.versions).get_node_prompts
        (some "custom_domain") = AwsExtractNodes.versions
      ∧ (PromptSelector.init.register_edge_prompts "custom_domain" AwsExtractNodes.versions).get_edge_prompts
        (some "custom_domain") = AwsExtractNodes.versions)
    ∧ ((PromptSelector.init.register_node_prompts "github_repo" AwsExtractNodes.versions).get_node_prompts
        (some "github_repo") = AwsExtractNodes.versions
      ∧ (PromptSelector.init.register_edge_prompts "github_repo" AwsExtractNodes.versions).get_edge_prompts
        (some "github_repo") = AwsExtractNodes.versions) :=
  ⟨c6_register_then_get PromptSelector.init "custom_domain" AwsExtractNodes.versions (by decide),
   c6_register_then_get PromptSelector.init "github_repo" AwsExtractNodes.versions (by decide)⟩

/- C7 -/

/-- Whether a TemplateSet defines every operation in the given vocabulary. -/
def definesAll (ts : TemplateSet) (ops : List String) : Bool :=
  ops.all (fun op => (ts.lookup op).isSome)

/-- C7: every TemplateSet stored in the initialized node registry, and the
default node set, defines all six node operations, and every TemplateSet
in the edge registry, and the default edge set, defines all three edge
operations. -/
theorem c7_vocabulary_complete :
    PromptSelector.init.node_registry.all (fun kv => definesAll kv.2 nodeOperationNames) = true
    ∧ definesAll PromptSelector.init.default_nodes nodeOperationNames = true
    ∧ PromptSelector.init.edge_registry.all (fun kv => definesAll kv.2 edgeOperationNames) = true
    ∧ definesAll PromptSelector.init.default_edges edgeOperationNames = true :=
  ⟨rfl, rfl, rfl, rfl⟩

/- C8 -/

/-- C8: over every context (with a present previous_episodes value
list-valued, matching its iteration by the templates), every template
operation of every TemplateSet of the program — the sets referenced by the
node and edge registries and the two defaults, as the first four conjuncts
certify — raises a key-lookup error when the context lacks a key the
operation reads: the call returns KeyError for a missing read key and no
messages (no blank placeholder).  The last two conjuncts show the wrappers
never catch or default any template error: both VersionWrapper and the
dynamic dispatch wrapper propagate every raised error unchanged, for every
selector state, wrapper, version and function. -/
theorem c8_missing_key_propagates (context : Ctx)
    (hprev : ∀ v, context.lookup "previous_episodes" = some v → ∃ xs, v = Val.list xs) :
    (∀ kv ∈ PromptSelector.init.node_registry, kv.2 ∈ allNodeTemplateSets)
    ∧ (∀ kv ∈ PromptSelector.init.edge_registry, kv.2 ∈ allEdgeTemplateSets)
    ∧ PromptSelector.init.default_nodes ∈ allNodeTemplateSets
    ∧ PromptSelector.init.default_edges ∈ allEdgeTemplateSets
    ∧ (∀ ts ∈ allNodeTemplateSets, ∀ op ∈ nodeOperationNames,
        ∀ k ∈ nodeOpReadKeys op, context.lookup k = Option.none →
        ∃ f k2, ts.lookup op = some f ∧ k2 ∈ nodeOpReadKeys op ∧
          context.lookup k2 = Option.none ∧
          f context = Except.error (PyErr.keyError k2))
    ∧ (∀ ts ∈ allEdgeTemplateSets, ∀ op ∈ edgeOperationNames,
        ∀ k ∈ edgeOpReadKeys op, context.lookup k = Option.none →
        ∃ f k2, ts.lookup op = some f ∧ k2 ∈ edgeOpReadKeys op ∧
          context.lookup k2 = Option.none ∧
          f context = Except.error (PyErr.keyError k2))
    ∧ (∀ (func : PromptFunction) (e : PyErr), func context = Except.error e →
        VersionWrapper.call func context = Except.error e)
    ∧ (∀ selector w version (func : PromptFunction) (e : PyErr),
        resolvePromptFunction selector w version context = Except.ok func →
        func context = Except.error e →
        dynamic_wrapper selector w version context = Except.error e) := by
  refine ⟨?_, ?_, ?_, ?_, ?_, ?_, ?_, ?_⟩
  · intro kv hkv
    fin_cases hkv <;> simp [allNodeTemplateSets]
  · intro kv hkv
    fin_cases hkv <;> simp [allEdgeTemplateSets]
  · show ExtractNodes.versions ∈ allNodeTemplateSets
    simp [allNodeTemplateSets]
  · show ExtractEdges.versions ∈ allEdgeTemplateSets
    simp [allEdgeTemplateSets]
  · intro ts hts
    fin_cases hts
    exacts [keySpecAll_ExtractNodes context hprev,
      keySpecAll_AwsExtractNodes context hprev,
      keySpecAll_AzureExtractNodes context hprev,
      keySpecAll_GcpExtractNodes context hprev,
      keySpecAll_GithubExtractNodes context hprev,
      keySpecAll_CicdExtractNodes context hprev,
      keySpecAll_LogsExtractNodes context hprev,
      keySpecAll_MetricsExtractNodes context hprev,
      keySpecAll_TracesExtractNodes context hprev,
      keySpecAll_ApplicationExtractNodes context hprev]
  · intro ts hts
    fin_cases hts
    exacts [keySpecAll_ExtractEdges context hprev,
      keySpecAll_AwsExtractEdges context hprev,
      keySpecAll_AzureExtractEdges context hprev,
      keySpecAll_GcpExtractEdges context hprev,
      keySpecAll_GithubExtractEdges context hprev,
      keySpecAll_CicdExtractEdges context hprev,
      keySpecAll_MetricsExtractEdges context hprev,
      keySpecAll_TracesExtractEdges context hprev,
      keySpecAll_ApplicationExtractEdges context hprev]
  · intro func e hf
    simp [VersionWrapper.call, hf, Except.map]
  · intro selector w version func e hres hf
    simp [dynamic_wrapper, hres, hf, Bind.bind, Except.bind]

/-- Witness for C8 at a concrete context lacking previous_episodes: the
generic reflexion raises KeyError for a missing read key, and the dynamic
wrapper propagates a concrete KeyError unchanged. -/
theorem c8_witness :
    (∃ f k2, ExtractNodes.versions.lookup "reflexion" = some f
      ∧ k2 ∈ nodeOpReadKeys "reflexion"
      ∧ List.lookup k2 [("episode_content", Val.str "x"), ("extracted_entities", Val.str "y")]
          = Option.none
      ∧ f [("episode_content", Val.str "x"), ("extracted_entities", Val.str "y")]
          = Except.error (PyErr.keyError k2))
    ∧ dynamic_wrapper PromptSelector.init ⟨"extract_nodes", ExtractNodes.versions⟩
        "reflexion" [("episode_content", Val.str "x"), ("extracted_entities", Val.str "y")]
        = Except.error (PyErr.keyError "previous_episodes") :=
  ⟨(c8_missing_key_propagates
      [("episode_content", Val.str "x"), ("extracted_entities", Val.str "y")]
      (by intro v hv; simp [List.lookup] at hv)).2.2.2.2.1
    ExtractNodes.versions (by simp [allNodeTemplateSets])
    "reflexion" (by simp [nodeOperationNames])
    "previous_episodes" (by simp [nodeOpReadKeys]) rfl,
   (c8_missing_key_propagates
      [("episode_content", Val.str "x"), ("extracted_entities", Val.str "y")]
      (by intro v hv; simp [List.lookup] at hv)).2.2.2.2.2.2.2
    PromptSelector.init ⟨"extract_nodes", ExtractNodes.versions⟩ "reflexion"
    ExtractNodes.reflexion (PyErr.keyError "previous_episodes") rfl rfl⟩

/- C9 -/

/-- C9: rendering through the wrappers is deterministic and idempotent: two
invocations of the same wrapped operation on equal contexts and the same
selector state yield equal message lists.  The embedding is a faithful
image of the source here: the template functions are pure string
construction with no randomness, counters or internally generated
timestamps (every time-dependent value is read from the context), and the
logging the source performs does not flow into the returned value. -/
theorem c9_render_deterministic (selector : PromptSelector) (w : DynamicPromptTypeWrapper)
    (func : PromptFunction) (version : String) (context1 context2 : Ctx)
    (h : context1 = context2) :
    dynamic_wrapper selector w version context1 = dynamic_wrapper selector w version context2
    ∧ VersionWrapper.call func context1 = VersionWrapper.call func context2 := by
  subst h; exact ⟨rfl, rfl⟩

/-- Witness for C9 at a concrete wrapped operation and context. -/
theorem c9_witness :
    dynamic_wrapper PromptSelector.init ⟨"extract_nodes", ExtractNodes.versions⟩
        "extract_message" fullCtx
      = dynamic_wrapper PromptSelector.init ⟨"extract_nodes", ExtractNodes.versions⟩
        "extract_message" fullCtx
    ∧ VersionWrapper.call ExtractNodes.reflexion fullCtx
      = VersionWrapper.call ExtractNodes.reflexion fullCtx :=
  c9_render_deterministic PromptSelector.init ⟨"extract_nodes", ExtractNodes.versions⟩
    ExtractNodes.reflexion "extract_message" fullCtx fullCtx rfl

/- C10 -/

/-- C10: attribute access on the dynamic wrapper is total — for every
version name it returns the dynamic_wrapper callable, raising nothing at
access time — and the AttributeError for an operation that exists in
neither the domain-resolved set nor the default set is produced only when
that callable is invoked on a context. -/
theorem c10_access_total (selector : PromptSelector) (w : DynamicPromptTypeWrapper) :
    (∀ version, DynamicPromptTypeWrapper.getattr selector w version
        = dynamic_wrapper selector w version)
    ∧ (∀ version context,
        w.prompt_type = "extract_nodes" →
        Ctx.contains context "source_description" = true →
        (get_extract_node_prompts selector context).lookup version = Option.none →
        w.default_versions.lookup version = Option.none →
        dynamic_wrapper selector w version context =
          Except.error (PyErr.attributeError ("Version \x27" ++ version ++ "\x27 not found"))) := by
  constructor
  · intro version; rfl
  · intro version context hpt hsd hn hd
    simp [dynamic_wrapper, resolvePromptFunction, hpt, hsd, hn, hd, Bind.bind, Except.bind]

/-- Witness for C10: accessing a nonexistent operation name succeeds and
returns the callable; invoking that callable on a context raises the
AttributeError. -/
theorem c10_witness :
    DynamicPromptTypeWrapper.getattr PromptSelector.init
        ⟨"extract_nodes", ExtractNodes.versions⟩ "no_such_operation"
      = dynamic_wrapper PromptSelector.init
        ⟨"extract_nodes", ExtractNodes.versions⟩ "no_such_operation"
    ∧ dynamic_wrapper PromptSelector.init ⟨"extract_nodes", ExtractNodes.versions⟩
        "no_such_operation" fullCtx =
      Except.error (PyErr.attributeError ("Version \x27no_such_operation\x27 not found")) :=
  ⟨(c10_access_total PromptSelector.init ⟨"extract_nodes", ExtractNodes.versions⟩).1
      "no_such_operation",
   (c10_access_total PromptSelector.init ⟨"extract_nodes", ExtractNodes.versions⟩).2
      "no_such_operation" fullCtx rfl rfl rfl rfl⟩

end Graphiti
